import Mathlib

/-!
# SDMA driver: request assembly, channel programming and completion

A shallow embedding of `usr/sdma/sdma.c` (the driver) and of the request
entry points of `lib/sdma/sdma_rpc.c` (the client stub).

* `size_t`, `uintptr_t` and `uint32_t` are 32 bits wide on the ARMv7 target;
  they are natural numbers reduced modulo `SIZE_MOD`.
* The fields of a frame identity are 64 bits wide; they are natural numbers
  and `gen_sub` reduces modulo `GEN_MOD`.
* Pointers to `client_state` objects are addresses into `sdma_driver.heap`.
* The device is a register view per channel together with the list of
  register writes the driver has performed, oldest first.
* Two lists record what leaves the driver: `calls` (every entry into
  `sdma_start_transfer` / `sdma_start_rotate` with its arguments) and `sends`
  (every completion reply handed to `lmp_chan_register_send` by the interrupt
  path).  No driver function reads them.
-/

namespace Sdma

/-! ## Machine arithmetic -/

/-- Modelled from the spec: the width of `size_t`, `uintptr_t` and `uint32_t`,
declared in absent system headers; the OMAP44xx target is a 32-bit ARM SoC. -/
def SIZE_MOD : Nat := 4294967296

/-- Modelled from the spec: the width of `gensize_t` / `genpaddr_t`, the types
of the two fields of a frame identity, declared in absent kernel headers. -/
def GEN_MOD : Nat := 18446744073709551616

/-- Conversion `(size_t) x` and `(uint32_t) x`. -/
def to_size_t (n : Nat) : Nat := n % SIZE_MOD

/-- Addition `a + b` on `size_t`. -/
def size_add (a b : Nat) : Nat := (a + b) % SIZE_MOD

/-- Subtraction `a - b` on `size_t`. -/
def size_sub (a b : Nat) : Nat := (a % SIZE_MOD + SIZE_MOD - b % SIZE_MOD) % SIZE_MOD

/-- Multiplication `a * b` on `size_t`. -/
def size_mul (a b : Nat) : Nat := (a * b) % SIZE_MOD

/-- Subtraction `a - b` on `gensize_t`. -/
def gen_sub (a b : Nat) : Nat := (a % GEN_MOD + GEN_MOD - b % GEN_MOD) % GEN_MOD

/-! ## Error values -/

/-- The `errval_t` codes the driver and the stub name; `other` stands for
every code minted elsewhere (capability invocation, LMP transport).  The numeric
values live in an absent generated header and are not used. -/
inductive errval_t where
  | SYS_ERR_OK
  | SDMA_ERR_REQUEST_IN_PROGRESS
  | SDMA_ERR_NO_AVAIL_CHANNEL
  | SDMA_ERR_MEMCPY
  | SDMA_ERR_MEMSET
  | SDMA_ERR_ROTATE
  | SDMA_ERR_MISALIGNED
  | SDMA_ERR_SUPERVISOR
  | SDMA_ERR_TRANSFER
  | other (code : Nat)
deriving DecidableEq, Repr

open errval_t

/-- The test `err_is_ok(err)`. -/
def err_is_ok (e : errval_t) : Bool := decide (e = SYS_ERR_OK)

/-- The test `err_is_fail(err)`. -/
def err_is_fail (e : errval_t) : Bool := !err_is_ok e

/-! ## Constants of `sdma.h` and `sdma_rpc.h` -/

/-- Modelled from the spec: `CAP_MASK_SRC` of the absent `sdma.h`, the `SRC`
bit of the `have_caps` bitmask. -/
def CAP_MASK_SRC : Nat := 1

/-- Modelled from the spec: `CAP_MASK_DST` of the absent `sdma.h`, the `DST`
bit of the `have_caps` bitmask. -/
def CAP_MASK_DST : Nat := 2

/-- Modelled from the spec: `CAP_MASK_READY` of the absent `sdma.h`, the mask
`{SRC, DST}`. -/
def CAP_MASK_READY : Nat := 3

/-- Modelled from the spec: opcode `HANDSHAKE` of the absent `sdma_rpc.h`;
only the distinctness of the six opcodes is used. -/
def SDMA_RPC_HANDSHAKE : Nat := 2

/-- Modelled from the spec: opcode `MEMCPY_SRC`. -/
def SDMA_RPC_MEMCPY_SRC : Nat := 3

/-- Modelled from the spec: opcode `MEMCPY_DST`. -/
def SDMA_RPC_MEMCPY_DST : Nat := 4

/-- Modelled from the spec: opcode `MEMSET`. -/
def SDMA_RPC_MEMSET : Nat := 5

/-- Modelled from the spec: opcode `ROTATE_SRC`. -/
def SDMA_RPC_ROTATE_SRC : Nat := 6

/-- Modelled from the spec: opcode `ROTATE_DST`. -/
def SDMA_RPC_ROTATE_DST : Nat := 7

/-! ## Data model -/

/-- A frame identity `{base, bytes}` as returned by `frame_identify`. -/
structure frame_identity where
  base : Nat
  bytes : Nat
deriving DecidableEq, Repr

/-- The endpoint identity of a capability. -/
structure endpoint where
  listener : Nat
  epoffset : Nat
deriving DecidableEq, Repr

/-- Modelled from the spec: the operation kind of a session; the enumeration
lives in the absent `sdma.h`, the driver names `OpType_Memcpy`,
`OpType_Memset` and `OpType_Rotate`. -/
inductive OpType where
  | OpType_None
  | OpType_Memcpy
  | OpType_Memset
  | OpType_Rotate
deriving DecidableEq, Repr

open OpType

/-- The per-client session `struct client_state`. -/
structure client_state where
  next : Option Nat
  prev : Option Nat
  remote_ep : endpoint
  have_caps : Nat
  src_id : frame_identity
  dst_id : frame_identity
  src_offset : Nat
  dst_offset : Nat
  len : Nat
  width : Nat
  height : Nat
  memset_frame_id : frame_identity
  memset_buf : Nat → Nat
  op_type : OpType
  acked : Bool

/-- One entry of `sd->chan_state[]`.  `client` is dereferenced by the driver
without a null test, so it is a plain address. -/
structure channel_state where
  transfer_in_progress : Bool
  client : Nat
  err : errval_t

/-- An inbound LMP message: its payload words. -/
structure lmp_recv_msg where
  words : List Nat

/-- The word `msg->words[i]` converted to `size_t`. -/
def lmp_recv_msg.word (msg : lmp_recv_msg) (i : Nat) : Nat := to_size_t (msg.words.getD i 0)

/-- What `frame_identify(cap, &id)` delivers: its return value and the
contents of `id` after the call. -/
structure identify_result where
  err : errval_t
  id : frame_identity

/-! ## Device registers -/

/-- The fields of `DMA4_CSDP` the driver inserts; `rest` holds every other bit. -/
structure csdp_t where
  data_type : Nat
  src_burst_en : Nat
  dst_burst_en : Nat
  src_endian : Nat
  dst_endian : Nat
  write_mode : Nat
  src_packed : Nat
  dst_packed : Nat
  rest : Nat
deriving DecidableEq, Repr

/-- The fields of `DMA4_CCR` the driver inserts; `rest` holds every other bit. -/
structure ccr_t where
  src_amode : Nat
  dst_amode : Nat
  read_priority : Nat
  write_priority : Nat
  synchro_control : Nat
  synchro_control_upper : Nat
  enable : Nat
  rest : Nat
deriving DecidableEq, Repr

/-- The status bits of `DMA4_CSR` the interrupt path reads.  They are set by
the engine. -/
structure csr_t where
  misaligned_adrs_err : Nat
  supervisor_err : Nat
  trans_err : Nat
  block : Nat
deriving DecidableEq, Repr

/-- The registers of one channel as the driver reads them. -/
structure chan_regs where
  csdp : csdp_t
  cen : Nat
  cfn : Nat
  cssa : Nat
  cdsa : Nat
  ccr : ccr_t
  csei : Nat
  csfi : Nat
  cdei : Nat
  cdfi : Nat
  csr : csr_t
deriving DecidableEq, Repr

/-- One full-word register write performed by the driver. -/
inductive reg_write where
  | csdp (chan : Nat) (v : csdp_t)
  | cen (chan : Nat) (v : Nat)
  | cfn (chan : Nat) (v : Nat)
  | cssa (chan : Nat) (v : Nat)
  | cdsa (chan : Nat) (v : Nat)
  | ccr (chan : Nat) (v : ccr_t)
  | csei (chan : Nat) (v : Nat)
  | csfi (chan : Nat) (v : Nat)
  | cdei (chan : Nat) (v : Nat)
  | cdfi (chan : Nat) (v : Nat)
  | csr (chan : Nat) (v : Nat)
  | irqstatus_line (line : Nat) (v : Nat)
deriving DecidableEq, Repr

/-- The device handle `omap44xx_sdma_t`: the register view and the writes
performed so far, oldest first. -/
structure omap44xx_sdma_t where
  chans : Nat → chan_regs
  writes : List reg_write

/-- Modelled from the spec: `omap44xx_sdma_DATA_TYPE_32BIT` of the absent
device header (32-bit elements); only the name enters the theorems. -/
def omap44xx_sdma_DATA_TYPE_32BIT : Nat := 2

/-- Modelled from the spec: `omap44xx_sdma_BURST_EN_64BYTE` of the absent
device header (64-byte bursts). -/
def omap44xx_sdma_BURST_EN_64BYTE : Nat := 3

/-- Modelled from the spec: `omap44xx_sdma_ENDIAN_LITTLE` of the absent device
header. -/
def omap44xx_sdma_ENDIAN_LITTLE : Nat := 0

/-- Modelled from the spec: `omap44xx_sdma_WRITE_MODE_LAST_NON_POSTED` of the
absent device header. -/
def omap44xx_sdma_WRITE_MODE_LAST_NON_POSTED : Nat := 2

/-- Modelled from the spec: `omap44xx_sdma_SRC_PACKED_ENABLE` of the absent
device header (packing enabled). -/
def omap44xx_sdma_SRC_PACKED_ENABLE : Nat := 1

/-- Modelled from the spec: `omap44xx_sdma_ADDR_MODE_POST_INCR` of the absent
device header (post-increment addressing). -/
def omap44xx_sdma_ADDR_MODE_POST_INCR : Nat := 1

/-- Modelled from the spec: `omap44xx_sdma_ADDR_MODE_DOUBLE_IDX` of the absent
device header (double-index addressing). -/
def omap44xx_sdma_ADDR_MODE_DOUBLE_IDX : Nat := 3

/-- Modelled from the spec: `omap44xx_sdma_PORT_PRIORITY_LOW` of the absent
device header. -/
def omap44xx_sdma_PORT_PRIORITY_LOW : Nat := 0

/-- Store a full-word write: update the view of channel `chan` and log it. -/
def dev_store (dev : omap44xx_sdma_t) (chan : Nat) (f : chan_regs → chan_regs)
    (w : reg_write) : omap44xx_sdma_t :=
  { chans := Function.update dev.chans chan (f (dev.chans chan)),
    writes := dev.writes ++ [w] }

/-- Register read `omap44xx_sdma_dma4_csdp_rd`. -/
def omap44xx_sdma_dma4_csdp_rd (dev : omap44xx_sdma_t) (chan : Nat) : csdp_t :=
  (dev.chans chan).csdp

/-- Register write `omap44xx_sdma_dma4_csdp_wr`. -/
def omap44xx_sdma_dma4_csdp_wr (dev : omap44xx_sdma_t) (chan : Nat) (v : csdp_t) :
    omap44xx_sdma_t :=
  dev_store dev chan (fun r => { r with csdp := v }) (reg_write.csdp chan v)

/-- Register read `omap44xx_sdma_dma4_cen_rd`. -/
def omap44xx_sdma_dma4_cen_rd (dev : omap44xx_sdma_t) (chan : Nat) : Nat :=
  (dev.chans chan).cen

/-- Modelled from the spec: a field-level insert of the absent device header
for a field in the low `bits` bits of a 32-bit register word (spec 4.1): the
new word has the field replaced by the low `bits` bits of `v` and keeps the
reserved bits above it. -/
def field_insert (bits : Nat) (word v : Nat) : Nat :=
  to_size_t word / 2 ^ bits * 2 ^ bits + v % 2 ^ bits

/-- Modelled from the spec: the value of a field in the low `bits` bits of a
register word. -/
def field_value (bits : Nat) (word : Nat) : Nat := word % 2 ^ bits

/-- Modelled from the spec: width of the field `channel_elmnt_nbr`, bits 23:0
of `DMA4_CEN` (SoC manual). -/
def CEN_FIELD_BITS : Nat := 24

/-- Modelled from the spec: width of the field `channel_frame_nbr`, bits 15:0
of `DMA4_CFN` (SoC manual). -/
def CFN_FIELD_BITS : Nat := 16

/-- Modelled from the spec: width of the element index fields, bits 15:0 of
`DMA4_CSEI` and of `DMA4_CDEI` (SoC manual). -/
def CEI_FIELD_BITS : Nat := 16

/-- Modelled from the spec: field insert of the absent device header into
`DMA4_CEN`: the element count field is replaced, the reserved bits of the word
read are kept. -/
def omap44xx_sdma_dma4_cen_channel_elmnt_nbr_insert (cen : Nat) (v : Nat) : Nat :=
  field_insert CEN_FIELD_BITS cen v

/-- Register write `omap44xx_sdma_dma4_cen_wr`. -/
def omap44xx_sdma_dma4_cen_wr (dev : omap44xx_sdma_t) (chan : Nat) (v : Nat) :
    omap44xx_sdma_t :=
  dev_store dev chan (fun r => { r with cen := v }) (reg_write.cen chan v)

/-- Register read `omap44xx_sdma_dma4_cfn_rd`. -/
def omap44xx_sdma_dma4_cfn_rd (dev : omap44xx_sdma_t) (chan : Nat) : Nat :=
  (dev.chans chan).cfn

/-- Modelled from the spec: field insert of the absent device header into
`DMA4_CFN`: the frame count field is replaced, the reserved bits of the word
read are kept. -/
def omap44xx_sdma_dma4_cfn_channel_frame_nbr_insert (cfn : Nat) (v : Nat) : Nat :=
  field_insert CFN_FIELD_BITS cfn v

/-- Register write `omap44xx_sdma_dma4_cfn_wr`. -/
def omap44xx_sdma_dma4_cfn_wr (dev : omap44xx_sdma_t) (chan : Nat) (v : Nat) :
    omap44xx_sdma_t :=
  dev_store dev chan (fun r => { r with cfn := v }) (reg_write.cfn chan v)

/-- Register write `omap44xx_sdma_dma4_cssa_wr`. -/
def omap44xx_sdma_dma4_cssa_wr (dev : omap44xx_sdma_t) (chan : Nat) (v : Nat) :
    omap44xx_sdma_t :=
  dev_store dev chan (fun r => { r with cssa := v }) (reg_write.cssa chan v)

/-- Register write `omap44xx_sdma_dma4_cdsa_wr`. -/
def omap44xx_sdma_dma4_cdsa_wr (dev : omap44xx_sdma_t) (chan : Nat) (v : Nat) :
    omap44xx_sdma_t :=
  dev_store dev chan (fun r => { r with cdsa := v }) (reg_write.cdsa chan v)

/-- Register read `omap44xx_sdma_dma4_ccr_rd`. -/
def omap44xx_sdma_dma4_ccr_rd (dev : omap44xx_sdma_t) (chan : Nat) : ccr_t :=
  (dev.chans chan).ccr

/-- Register write `omap44xx_sdma_dma4_ccr_wr`. -/
def omap44xx_sdma_dma4_ccr_wr (dev : omap44xx_sdma_t) (chan : Nat) (v : ccr_t) :
    omap44xx_sdma_t :=
  dev_store dev chan (fun r => { r with ccr := v }) (reg_write.ccr chan v)

/-- Register read `omap44xx_sdma_dma4_csei_rd`. -/
def omap44xx_sdma_dma4_csei_rd (dev : omap44xx_sdma_t) (chan : Nat) : Nat :=
  (dev.chans chan).csei

/-- Modelled from the spec: field insert of the absent device header into
`DMA4_CSEI`: the element index field is replaced, the reserved bits of the
word read are kept. -/
def omap44xx_sdma_dma4_csei_channel_src_elmnt_index_insert (csei : Nat) (v : Nat) : Nat :=
  field_insert CEI_FIELD_BITS csei v

/-- Register write `omap44xx_sdma_dma4_csei_wr`. -/
def omap44xx_sdma_dma4_csei_wr (dev : omap44xx_sdma_t) (chan : Nat) (v : Nat) :
    omap44xx_sdma_t :=
  dev_store dev chan (fun r => { r with csei := v }) (reg_write.csei chan v)

/-- Register write `omap44xx_sdma_dma4_csfi_wr`. -/
def omap44xx_sdma_dma4_csfi_wr (dev : omap44xx_sdma_t) (chan : Nat) (v : Nat) :
    omap44xx_sdma_t :=
  dev_store dev chan (fun r => { r with csfi := v }) (reg_write.csfi chan v)

/-- Register read `omap44xx_sdma_dma4_cdei_rd`. -/
def omap44xx_sdma_dma4_cdei_rd (dev : omap44xx_sdma_t) (chan : Nat) : Nat :=
  (dev.chans chan).cdei

/-- Modelled from the spec: field insert of the absent device header into
`DMA4_CDEI`: the element index field is replaced, the reserved bits of the
word read are kept. -/
def omap44xx_sdma_dma4_cdei_channel_dst_elmnt_index_insert (cdei : Nat) (v : Nat) : Nat :=
  field_insert CEI_FIELD_BITS cdei v

/-- Register write `omap44xx_sdma_dma4_cdei_wr`. -/
def omap44xx_sdma_dma4_cdei_wr (dev : omap44xx_sdma_t) (chan : Nat) (v : Nat) :
    omap44xx_sdma_t :=
  dev_store dev chan (fun r => { r with cdei := v }) (reg_write.cdei chan v)

/-- Register write `omap44xx_sdma_dma4_cdfi_wr`. -/
def omap44xx_sdma_dma4_cdfi_wr (dev : omap44xx_sdma_t) (chan : Nat) (v : Nat) :
    omap44xx_sdma_t :=
  dev_store dev chan (fun r => { r with cdfi := v }) (reg_write.cdfi chan v)

/-- Register write `omap44xx_sdma_dma4_csr_wr`.  The status bits belong to the
engine: the write is logged and the view is left as it is. -/
def omap44xx_sdma_dma4_csr_wr (dev : omap44xx_sdma_t) (chan : Nat) (v : Nat) :
    omap44xx_sdma_t :=
  dev_store dev chan (fun r => r) (reg_write.csr chan v)

/-- Register write `omap44xx_sdma_dma4_irqstatus_line_wr`. -/
def omap44xx_sdma_dma4_irqstatus_line_wr (dev : omap44xx_sdma_t) (line : Nat) (v : Nat) :
    omap44xx_sdma_t :=
  { dev with writes := dev.writes ++ [reg_write.irqstatus_line line v] }

/-! ## Driver state -/

/-- An entry into one of the two start operations, with its arguments. -/
inductive sdma_call where
  | start_transfer (client : Nat) (src_addr dst_addr len : Nat)
  | start_rotate (client : Nat) (src_addr dst_addr width height : Nat)
deriving DecidableEq, Repr

/-- The driver singleton `struct sdma_driver`, the `client_state` objects it
has allocated, and the two lists recording start calls and completion replies. -/
structure sdma_driver where
  sdma_dev : omap44xx_sdma_t
  chan_state : Nat → channel_state
  clients : Option Nat
  heap : Nat → client_state
  calls : List sdma_call
  sends : List (Nat × errval_t)

/-- Assignment through a `struct client_state*`. -/
def set_client (sd : sdma_driver) (client : Nat) (f : client_state → client_state) :
    sdma_driver :=
  { sd with heap := Function.update sd.heap client (f (sd.heap client)) }

/-- Assignment to `sd->chan_state[chan]`. -/
def set_chan (sd : sdma_driver) (chan : Nat) (f : channel_state → channel_state) :
    sdma_driver :=
  { sd with chan_state := Function.update sd.chan_state chan (f (sd.chan_state chan)) }

/-! ## Channel programmer -/

/-- The linear scan `sdma_avail_channel` (sdma.c:565): the first channel below
`SDMA_CHANNELS` whose slot is not in progress, `SDMA_CHANNELS` if there is none. -/
def sdma_avail_channel (SDMA_CHANNELS : Nat) (sd : sdma_driver) : Nat :=
  ((List.range SDMA_CHANNELS).find?
    (fun chan => !(sd.chan_state chan).transfer_in_progress)).getD SDMA_CHANNELS

/-- Modelled from the spec: `sdma_valid_channel` of the absent `sdma.h`; the
start operations fail exactly when the scan found no free channel. -/
def sdma_valid_channel (SDMA_CHANNELS : Nat) (chan : Nat) : Bool :=
  decide (chan < SDMA_CHANNELS)

/-- Steps 1 to 9 of `sdma_start_transfer` (sdma.c:589-697): the register
programming of channel `chan` for a linear transfer. -/
def sdma_start_transfer_program (dev : omap44xx_sdma_t) (chan : Nat)
    (src_addr dst_addr len : Nat) : omap44xx_sdma_t :=
  -- 1. CSDP.
  let csdp := omap44xx_sdma_dma4_csdp_rd dev chan
  let es := 4
  let csdp := { csdp with data_type := omap44xx_sdma_DATA_TYPE_32BIT }
  let csdp := { csdp with src_burst_en := omap44xx_sdma_BURST_EN_64BYTE }
  let csdp := { csdp with dst_burst_en := omap44xx_sdma_BURST_EN_64BYTE }
  let csdp := { csdp with src_endian := omap44xx_sdma_ENDIAN_LITTLE }
  let csdp := { csdp with dst_endian := omap44xx_sdma_ENDIAN_LITTLE }
  let csdp := { csdp with write_mode := omap44xx_sdma_WRITE_MODE_LAST_NON_POSTED }
  let csdp := { csdp with src_packed := omap44xx_sdma_SRC_PACKED_ENABLE }
  let csdp := { csdp with dst_packed := omap44xx_sdma_SRC_PACKED_ENABLE }
  let dev := omap44xx_sdma_dma4_csdp_wr dev chan csdp
  -- 2. CEN: elements per frame.
  let cen := omap44xx_sdma_dma4_cen_rd dev chan
  let en := 128
  let cen := omap44xx_sdma_dma4_cen_channel_elmnt_nbr_insert cen en
  let dev := omap44xx_sdma_dma4_cen_wr dev chan cen
  -- 3. CFN: frames per block.
  let cfn := omap44xx_sdma_dma4_cfn_rd dev chan
  let fs := size_mul es en
  let fn := len / fs
  let fn := if len % fs ≠ 0 then size_add fn 1 else fn
  let cfn := omap44xx_sdma_dma4_cfn_channel_frame_nbr_insert cfn fn
  let dev := omap44xx_sdma_dma4_cfn_wr dev chan cfn
  -- 4. CSSA, CDSA.
  let dev := omap44xx_sdma_dma4_cssa_wr dev chan (to_size_t src_addr)
  let dev := omap44xx_sdma_dma4_cdsa_wr dev chan (to_size_t dst_addr)
  -- 5. CCR.
  let ccr := omap44xx_sdma_dma4_ccr_rd dev chan
  let ccr := { ccr with src_amode := omap44xx_sdma_ADDR_MODE_POST_INCR }
  let ccr := { ccr with dst_amode := omap44xx_sdma_ADDR_MODE_POST_INCR }
  let ccr := { ccr with read_priority := omap44xx_sdma_PORT_PRIORITY_LOW }
  let ccr := { ccr with write_priority := omap44xx_sdma_PORT_PRIORITY_LOW }
  let ccr := { ccr with synchro_control := 0 }
  let ccr := { ccr with synchro_control_upper := 0 }
  let dev := omap44xx_sdma_dma4_ccr_wr dev chan ccr
  -- 6. CSE, CSF, CDE, CDF.
  let cse := omap44xx_sdma_dma4_csei_rd dev chan
  let cse := omap44xx_sdma_dma4_csei_channel_src_elmnt_index_insert cse 1
  let dev := omap44xx_sdma_dma4_csei_wr dev chan cse
  let dev := omap44xx_sdma_dma4_csfi_wr dev chan 1
  -- 6.3. CDE: `cde` is read and updated, the word written is the literal 1.
  let dev := omap44xx_sdma_dma4_cdei_wr dev chan 1
  let dev := omap44xx_sdma_dma4_cdfi_wr dev chan 1
  -- 8. Clear CSR register.
  let dev := omap44xx_sdma_dma4_csr_wr dev chan 0
  -- 9. Start transfer.
  let ccr := omap44xx_sdma_dma4_ccr_rd dev chan
  let ccr := { ccr with enable := 1 }
  omap44xx_sdma_dma4_ccr_wr dev chan ccr

/-- The operation `sdma_start_transfer` (sdma.c:575-702).  The entry is
recorded in `calls`. -/
def sdma_start_transfer (SDMA_CHANNELS : Nat) (sd : sdma_driver) (client : Nat)
    (src_addr dst_addr len : Nat) : sdma_driver × errval_t :=
  let sd := { sd with calls := sd.calls ++ [sdma_call.start_transfer client src_addr dst_addr len] }
  let sd := set_client sd client (fun c => { c with acked := false })
  let chan := sdma_avail_channel SDMA_CHANNELS sd
  if !sdma_valid_channel SDMA_CHANNELS chan then
    (sd, SDMA_ERR_NO_AVAIL_CHANNEL)
  else
    let sd := set_chan sd chan (fun s => { s with client := client })
    let sd := { sd with sdma_dev := sdma_start_transfer_program sd.sdma_dev chan src_addr dst_addr len }
    let sd := set_chan sd chan (fun s => { s with transfer_in_progress := true })
    (sd, SYS_ERR_OK)

/-- Steps 1 to 9 of `sdma_start_rotate` (sdma.c:719-820): the register
programming of channel `chan` for a rotation. -/
def sdma_start_rotate_program (dev : omap44xx_sdma_t) (chan : Nat)
    (src_addr dst_addr width height : Nat) : omap44xx_sdma_t :=
  -- 1. CSDP.
  let csdp := omap44xx_sdma_dma4_csdp_rd dev chan
  let es := 4
  let csdp := { csdp with data_type := omap44xx_sdma_DATA_TYPE_32BIT }
  let csdp := { csdp with src_burst_en := omap44xx_sdma_BURST_EN_64BYTE }
  let csdp := { csdp with dst_burst_en := omap44xx_sdma_BURST_EN_64BYTE }
  let csdp := { csdp with src_endian := omap44xx_sdma_ENDIAN_LITTLE }
  let csdp := { csdp with dst_endian := omap44xx_sdma_ENDIAN_LITTLE }
  let csdp := { csdp with write_mode := omap44xx_sdma_WRITE_MODE_LAST_NON_POSTED }
  let csdp := { csdp with src_packed := omap44xx_sdma_SRC_PACKED_ENABLE }
  let csdp := { csdp with dst_packed := omap44xx_sdma_SRC_PACKED_ENABLE }
  let dev := omap44xx_sdma_dma4_csdp_wr dev chan csdp
  -- 2. CEN: elements per frame.
  let cen := omap44xx_sdma_dma4_cen_rd dev chan
  let cen := omap44xx_sdma_dma4_cen_channel_elmnt_nbr_insert cen width
  let dev := omap44xx_sdma_dma4_cen_wr dev chan cen
  -- 3. CFN: frames per block.
  let cfn := omap44xx_sdma_dma4_cfn_rd dev chan
  let cfn := omap44xx_sdma_dma4_cfn_channel_frame_nbr_insert cfn height
  let dev := omap44xx_sdma_dma4_cfn_wr dev chan cfn
  -- 4. CSSA, CDSA.
  let dev := omap44xx_sdma_dma4_cssa_wr dev chan (to_size_t src_addr)
  let dev := omap44xx_sdma_dma4_cdsa_wr dev chan
    (size_add (to_size_t dst_addr) (size_mul (size_sub height 1) es))
  -- 5. CCR.
  let ccr := omap44xx_sdma_dma4_ccr_rd dev chan
  let ccr := { ccr with src_amode := omap44xx_sdma_ADDR_MODE_DOUBLE_IDX }
  let ccr := { ccr with dst_amode := omap44xx_sdma_ADDR_MODE_DOUBLE_IDX }
  let ccr := { ccr with read_priority := omap44xx_sdma_PORT_PRIORITY_LOW }
  let ccr := { ccr with write_priority := omap44xx_sdma_PORT_PRIORITY_LOW }
  let ccr := { ccr with synchro_control := 0 }
  let ccr := { ccr with synchro_control_upper := 0 }
  let dev := omap44xx_sdma_dma4_ccr_wr dev chan ccr
  -- 6. CSE, CSF, CDE, CDF.
  let cse := omap44xx_sdma_dma4_csei_rd dev chan
  let cse := omap44xx_sdma_dma4_csei_channel_src_elmnt_index_insert cse 1
  let dev := omap44xx_sdma_dma4_csei_wr dev chan cse
  let dev := omap44xx_sdma_dma4_csfi_wr dev chan 1
  let cde := omap44xx_sdma_dma4_cdei_rd dev chan
  let cde := omap44xx_sdma_dma4_cdei_channel_dst_elmnt_index_insert cde
    (size_add (size_mul (size_sub height 1) es) 1)
  let dev := omap44xx_sdma_dma4_cdei_wr dev chan cde
  let dev := omap44xx_sdma_dma4_cdfi_wr dev chan
    (size_sub 1 (size_mul es (size_add (size_mul (size_sub width 1) height) 2)))
  -- 8. Clear CSR register.
  let dev := omap44xx_sdma_dma4_csr_wr dev chan 0
  -- 9. Start transfer.
  let ccr := omap44xx_sdma_dma4_ccr_rd dev chan
  let ccr := { ccr with enable := 1 }
  omap44xx_sdma_dma4_ccr_wr dev chan ccr

/-- The operation `sdma_start_rotate` (sdma.c:704-825).  The entry is
recorded in `calls`. -/
def sdma_start_rotate (SDMA_CHANNELS : Nat) (sd : sdma_driver) (client : Nat)
    (src_addr dst_addr width height : Nat) : sdma_driver × errval_t :=
  let sd := { sd with calls := sd.calls ++ [sdma_call.start_rotate client src_addr dst_addr width height] }
  let sd := set_client sd client (fun c => { c with acked := false })
  let chan := sdma_avail_channel SDMA_CHANNELS sd
  if !sdma_valid_channel SDMA_CHANNELS chan then
    (sd, SDMA_ERR_NO_AVAIL_CHANNEL)
  else
    let sd := set_chan sd chan (fun s => { s with client := client })
    let sd := { sd with sdma_dev := sdma_start_rotate_program sd.sdma_dev chan src_addr dst_addr width height }
    let sd := set_chan sd chan (fun s => { s with transfer_in_progress := true })
    (sd, SYS_ERR_OK)

/-! ## Session and request assembler -/

/-- The first part of `sdma_process_memcpy` (sdma.c:339-356): record the half
that arrived in the session. -/
def sdma_process_memcpy_record (sd : sdma_driver) (client : Nat) (msg : lmp_recv_msg)
    (idr : identify_result) : sdma_driver :=
  if msg.word 0 = SDMA_RPC_MEMCPY_SRC then
    -- Got src cap + len.
    set_client sd client (fun c =>
      { c with src_id := idr.id, have_caps := c.have_caps ||| CAP_MASK_SRC,
               src_offset := msg.word 1, len := msg.word 2 })
  else
    -- Got dst cap.
    set_client sd client (fun c =>
      { c with dst_id := idr.id, dst_offset := msg.word 1,
               have_caps := c.have_caps ||| CAP_MASK_DST })

/-- The request handler `sdma_process_memcpy` (sdma.c:335-405).  The result is
the driver state and the error code placed in the reply. -/
def sdma_process_memcpy (SDMA_CHANNELS : Nat) (sd : sdma_driver) (client : Nat)
    (msg : lmp_recv_msg) (idr : identify_result) : sdma_driver × errval_t :=
  let err := idr.err
  let sd := sdma_process_memcpy_record sd client msg idr
  let c := sd.heap client
  if err_is_ok err && decide (CAP_MASK_READY = c.have_caps) then
    let cond1 := decide (c.src_offset < c.src_id.bytes)
      && decide (c.dst_offset < c.dst_id.bytes)
    let src_bytes := size_sub (to_size_t c.src_id.bytes) c.src_offset
    let dst_bytes := size_sub (to_size_t c.dst_id.bytes) c.dst_offset
    let src_addr := size_add (to_size_t c.src_id.base) c.src_offset
    let dst_addr := size_add (to_size_t c.dst_id.base) c.dst_offset
    let cond2 := decide (src_addr < dst_addr) && decide (size_add src_addr c.len ≤ dst_addr)
    let cond3 := decide (dst_addr < src_addr) && decide (size_add dst_addr c.len ≤ src_addr)
    let cond4 := decide (c.len ≤ src_bytes) && decide (c.len ≤ dst_bytes)
    let r :=
      if cond1 && (cond2 || cond3) && cond4 then
        let r := sdma_start_transfer SDMA_CHANNELS sd client src_addr dst_addr c.len
        (set_client r.1 client (fun c => { c with op_type := OpType_Memcpy }), r.2)
      else
        (sd, SDMA_ERR_MEMCPY)
    -- Clear cap bits and length field.
    (set_client r.1 client (fun c =>
      { c with have_caps := 0, src_offset := 0, dst_offset := 0, len := 0 }), r.2)
  else
    (sd, err)

/-- The request handler `sdma_process_memset` (sdma.c:407-460). -/
def sdma_process_memset (SDMA_CHANNELS SDMA_MEMSET_SIZE : Nat) (sd : sdma_driver)
    (client : Nat) (msg : lmp_recv_msg) (idr : identify_result) : sdma_driver × errval_t :=
  let offset := msg.word 1
  let len := msg.word 2
  let val := msg.word 3 % 256
  let cap_id := idr.id
  let err := idr.err
  if err_is_ok err then
    let cond1 := decide (offset < cap_id.bytes)
    let cond2 := decide (len ≤ gen_sub cap_id.bytes offset)
    if cond1 && cond2 then
      let min_len := if len < SDMA_MEMSET_SIZE then len else SDMA_MEMSET_SIZE
      let sd := set_client sd client (fun c =>
        { c with memset_buf := fun i => if i < min_len then val else c.memset_buf i })
      let sd := set_client sd client (fun c =>
        { c with op_type := OpType_Memset, len := len, src_id := cap_id, src_offset := 0,
                 dst_id := cap_id, dst_offset := min_len })
      sdma_start_transfer SDMA_CHANNELS sd client
        (to_size_t (sd.heap client).memset_frame_id.base) (to_size_t cap_id.base) min_len
    else
      (sd, SDMA_ERR_MEMSET)
  else
    (sd, err)

/-- The first part of `sdma_process_rotate` (sdma.c:466-485): record the half
that arrived in the session. -/
def sdma_process_rotate_record (sd : sdma_driver) (client : Nat) (msg : lmp_recv_msg)
    (idr : identify_result) : sdma_driver :=
  if msg.word 0 = SDMA_RPC_ROTATE_SRC then
    -- Got src cap + len.
    set_client sd client (fun c =>
      { c with src_id := idr.id, have_caps := c.have_caps ||| CAP_MASK_SRC,
               src_offset := msg.word 1, width := msg.word 2, height := msg.word 3,
               len := size_mul (msg.word 2) (msg.word 3) })
  else
    -- Got dst cap.
    set_client sd client (fun c =>
      { c with dst_id := idr.id, dst_offset := msg.word 1,
               have_caps := c.have_caps ||| CAP_MASK_DST })

/-- The request handler `sdma_process_rotate` (sdma.c:462-536). -/
def sdma_process_rotate (SDMA_CHANNELS : Nat) (sd : sdma_driver) (client : Nat)
    (msg : lmp_recv_msg) (idr : identify_result) : sdma_driver × errval_t :=
  let err := idr.err
  let sd := sdma_process_rotate_record sd client msg idr
  let c := sd.heap client
  if err_is_ok err && decide (CAP_MASK_READY = c.have_caps) then
    let cond1 := decide (c.src_offset < c.src_id.bytes)
      && decide (c.dst_offset < c.dst_id.bytes)
    let src_bytes := size_sub (to_size_t c.src_id.bytes) c.src_offset
    let dst_bytes := size_sub (to_size_t c.dst_id.bytes) c.dst_offset
    let src_addr := size_add (to_size_t c.src_id.base) c.src_offset
    let dst_addr := size_add (to_size_t c.dst_id.base) c.dst_offset
    let cond2 := decide (src_addr < dst_addr) && decide (size_add src_addr c.len ≤ dst_addr)
    let cond3 := decide (dst_addr < src_addr) && decide (size_add dst_addr c.len ≤ src_addr)
    let cond4 := decide (c.len ≤ src_bytes) && decide (c.len ≤ dst_bytes)
    let r :=
      if cond1 && (cond2 || cond3) && cond4 then
        let r := sdma_start_rotate SDMA_CHANNELS sd client src_addr dst_addr c.width c.height
        (set_client r.1 client (fun c => { c with op_type := OpType_Rotate }), r.2)
      else
        (sd, SDMA_ERR_ROTATE)
    -- Clear cap bits and length field.
    (set_client r.1 client (fun c =>
      { c with have_caps := 0, src_offset := 0, dst_offset := 0, width := 0, height := 0,
               len := 0 }), r.2)
  else
    (sd, err)

/-! ## Completion path -/

/-- The first part of the loop body of `sdma_update_channel_status` for one
flagged channel (sdma.c:849-887): decode the status register into the slot and
clear it. -/
def sdma_update_channel_csr (SDMA_REGISTER_CLEAN : Nat) (sd : sdma_driver)
    (chan : Nat) : sdma_driver :=
  let sd := set_chan sd chan (fun s => { s with err := SYS_ERR_OK })
  -- 1. Misalignment error?
  let err := (sd.sdma_dev.chans chan).csr.misaligned_adrs_err
  let sd := if err ≠ 0 then set_chan sd chan (fun s => { s with err := SDMA_ERR_MISALIGNED }) else sd
  -- 2. Supervisor error?
  let err := (sd.sdma_dev.chans chan).csr.supervisor_err
  let sd := if err ≠ 0 then set_chan sd chan (fun s => { s with err := SDMA_ERR_SUPERVISOR }) else sd
  -- 3. Transfer error?
  let err := (sd.sdma_dev.chans chan).csr.trans_err
  let sd := if err ≠ 0 then set_chan sd chan (fun s => { s with err := SDMA_ERR_TRANSFER }) else sd
  -- 4. Block complete?
  let block_status := (sd.sdma_dev.chans chan).csr.block
  let sd :=
    if block_status ≠ 0 then set_chan sd chan (fun s => { s with transfer_in_progress := false })
    else sd
  -- 5.1. Clear CSR.
  { sd with sdma_dev := omap44xx_sdma_dma4_csr_wr sd.sdma_dev chan SDMA_REGISTER_CLEAN }

/-- The loop body of `sdma_update_channel_status` for one flagged channel
(sdma.c:849-946). -/
def sdma_update_channel (SDMA_CHANNELS SDMA_REGISTER_CLEAN : Nat) (sd : sdma_driver)
    (chan : Nat) : sdma_driver :=
  let sd := sdma_update_channel_csr SDMA_REGISTER_CLEAN sd chan
  let client := (sd.chan_state chan).client
  let c := sd.heap client
  let is_ongoing_memset := err_is_ok (sd.chan_state chan).err
    && decide (c.op_type = OpType_Memset) && decide (c.dst_offset < c.len)
  let should_send_response := !c.acked && !(sd.chan_state chan).transfer_in_progress
  let r : sdma_driver × Bool :=
    if is_ongoing_memset then
      -- 6. This is an ongoing memset, need to post another SDMA copy.
      let cpy_len := c.dst_offset
      let cpy_len :=
        if cpy_len > size_sub c.len c.dst_offset then size_sub c.len c.dst_offset else cpy_len
      let r := sdma_start_transfer SDMA_CHANNELS sd client (to_size_t c.src_id.base)
        (size_add (to_size_t c.dst_id.base) c.dst_offset) cpy_len
      let sd := set_chan r.1 chan (fun s => { s with err := r.2 })
      let should_send_response := if err_is_fail (sd.chan_state chan).err then true else false
      let sd := set_client sd client (fun c => { c with dst_offset := size_add c.dst_offset cpy_len })
      (sd, should_send_response)
    else
      (sd, should_send_response)
  let sd := r.1
  if r.2 then
    -- 6./7. Register the completion reply.
    let sd := { sd with sends := sd.sends ++ [(client, (sd.chan_state chan).err)] }
    set_client sd client (fun c => { c with acked := true })
  else
    sd

/-- The interrupt path `sdma_update_channel_status` (sdma.c:827-949): snapshot
the flagged channels, clear the line status, then treat every flagged channel
in ascending order.  The hardware has at most 32 channels, so the 32-bit shift
`1u << chan` does not wrap. -/
def sdma_update_channel_status (SDMA_CHANNELS SDMA_REGISTER_CLEAN : Nat) (sd : sdma_driver)
    (irq_line : Nat) (irq_status : Nat) : sdma_driver :=
  let irq_chan_status : Nat → Bool := fun chan => decide (irq_status &&& (1 <<< chan) ≠ 0)
  let sd := { sd with sdma_dev :=
    omap44xx_sdma_dma4_irqstatus_line_wr sd.sdma_dev irq_line SDMA_REGISTER_CLEAN }
  (List.range SDMA_CHANNELS).foldl
    (fun sd chan =>
      if irq_chan_status chan then sdma_update_channel SDMA_CHANNELS SDMA_REGISTER_CLEAN sd chan
      else sd)
    sd

/-! ## Client stub (lib/sdma/sdma_rpc.c) -/

/-- A message handed to `lmp_chan_send`: its words and the capability sent
along. -/
structure lmp_send_msg where
  words : List Nat
  cap : Nat
deriving DecidableEq, Repr

/-- The client binding `struct sdma_rpc`: the pending flag, and the messages
its send handlers have been given, oldest first. -/
structure sdma_rpc where
  request_pending : Bool
  sent : List lmp_send_msg
deriving DecidableEq, Repr

/-- The return values of the four calls of one round of
`sdma_rpc_send_and_receive`: the two registrations and the two
`event_dispatch` calls. -/
structure round_outcome where
  register_send : errval_t
  register_recv : errval_t
  dispatch_send : errval_t
  dispatch_recv : errval_t
deriving DecidableEq, Repr

/-- One round `sdma_rpc_send_and_receive` (sdma_rpc.c:20-43).  Each `CHECK`
returns the error of a call that failed; the send handler is given the message
by the first `event_dispatch`, so nothing is sent when a registration or that
dispatch fails. -/
def sdma_rpc_send_and_receive (rpc : sdma_rpc) (m : lmp_send_msg) (o : round_outcome) :
    sdma_rpc × errval_t :=
  -- 1. Set send handler.
  if err_is_fail o.register_send then (rpc, o.register_send) else
  -- 3. Set receive handler.
  if err_is_fail o.register_recv then (rpc, o.register_recv) else
  -- 4. Block until channel is ready to send.
  if err_is_fail o.dispatch_send then (rpc, o.dispatch_send) else
  let rpc := { rpc with sent := rpc.sent ++ [m] }
  -- 5. Block until channel is ready to receive.
  if err_is_fail o.dispatch_recv then (rpc, o.dispatch_recv) else
  (rpc, SYS_ERR_OK)

/-- The stub entry `sdma_rpc_memcpy` (sdma_rpc.c:129-170).  `o1`, `o2` are the
outcomes of the two rounds, `o3` of the final `lmp_chan_register_recv`. -/
def sdma_rpc_memcpy (rpc : sdma_rpc) (dst dst_offset src src_offset len : Nat)
    (o1 o2 : round_outcome) (o3 : errval_t) : sdma_rpc × errval_t :=
  if rpc.request_pending then
    (rpc, SDMA_ERR_REQUEST_IN_PROGRESS)
  else
    let r := sdma_rpc_send_and_receive rpc
      { words := [SDMA_RPC_MEMCPY_SRC, src_offset, len], cap := src } o1
    if err_is_fail r.2 then r else
    let r := sdma_rpc_send_and_receive r.1
      { words := [SDMA_RPC_MEMCPY_DST, dst_offset, len], cap := dst } o2
    if err_is_fail r.2 then r else
    let rpc := { r.1 with request_pending := true }
    if err_is_fail o3 then (rpc, o3) else
    (rpc, SYS_ERR_OK)

/-- The stub entry `sdma_rpc_memset` (sdma_rpc.c:172-204). -/
def sdma_rpc_memset (rpc : sdma_rpc) (dst dst_offset len val : Nat)
    (o1 : round_outcome) (o3 : errval_t) : sdma_rpc × errval_t :=
  if rpc.request_pending then
    (rpc, SDMA_ERR_REQUEST_IN_PROGRESS)
  else
    let r := sdma_rpc_send_and_receive rpc
      { words := [SDMA_RPC_MEMSET, dst_offset, len, val % 256], cap := dst } o1
    if err_is_fail r.2 then r else
    let rpc := { r.1 with request_pending := true }
    if err_is_fail o3 then (rpc, o3) else
    (rpc, SYS_ERR_OK)

/-- The stub entry `sdma_rpc_rotate` (sdma_rpc.c:206-249). -/
def sdma_rpc_rotate (rpc : sdma_rpc) (dst dst_offset src src_offset width height : Nat)
    (o1 o2 : round_outcome) (o3 : errval_t) : sdma_rpc × errval_t :=
  if rpc.request_pending then
    (rpc, SDMA_ERR_REQUEST_IN_PROGRESS)
  else
    let r := sdma_rpc_send_and_receive rpc
      { words := [SDMA_RPC_ROTATE_SRC, src_offset, width, height], cap := src } o1
    if err_is_fail r.2 then r else
    let r := sdma_rpc_send_and_receive r.1
      { words := [SDMA_RPC_ROTATE_DST, dst_offset, width, height], cap := dst } o2
    if err_is_fail r.2 then r else
    let rpc := { r.1 with request_pending := true }
    if err_is_fail o3 then (rpc, o3) else
    (rpc, SYS_ERR_OK)

/-! ## Sample states and inputs -/

/-- A session as the handshake leaves it: nothing pending, nothing in flight,
a 4 KiB scratch frame at `0x90000000`. -/
def sample_client : client_state :=
  { next := none, prev := none, remote_ep := { listener := 1, epoffset := 8 },
    have_caps := 0, src_id := { base := 0, bytes := 0 }, dst_id := { base := 0, bytes := 0 },
    src_offset := 0, dst_offset := 0, len := 0, width := 0, height := 0,
    memset_frame_id := { base := 2415919104, bytes := 4096 },
    memset_buf := fun _ => 0, op_type := OpType_None, acked := false }

/-- A channel register view with every field zero. -/
def sample_regs : chan_regs :=
  { csdp := { data_type := 0, src_burst_en := 0, dst_burst_en := 0, src_endian := 0,
              dst_endian := 0, write_mode := 0, src_packed := 0, dst_packed := 0, rest := 0 },
    cen := 0, cfn := 0, cssa := 0, cdsa := 0,
    ccr := { src_amode := 0, dst_amode := 0, read_priority := 0, write_priority := 0,
             synchro_control := 0, synchro_control_upper := 0, enable := 0, rest := 0 },
    csei := 0, csfi := 0, cdei := 0, cdfi := 0,
    csr := { misaligned_adrs_err := 0, supervisor_err := 0, trans_err := 0, block := 0 } }

/-- A driver with one session at address 0, every channel free and no
register written yet. -/
def sample_driver : sdma_driver :=
  { sdma_dev := { chans := fun _ => sample_regs, writes := [] },
    chan_state := fun _ => { transfer_in_progress := false, client := 0, err := SYS_ERR_OK },
    clients := some 0, heap := fun _ => sample_client, calls := [], sends := [] }

/-- A successful `frame_identify` of a frame `{base, bytes}`. -/
def identified (base bytes : Nat) : identify_result :=
  { err := SYS_ERR_OK, id := { base := base, bytes := bytes } }

/-! ## Conditions as the specification words them -/

/-- `V1` of the specification: both offsets lie inside their frames. -/
@[reducible] def V1 (c : client_state) : Prop :=
  c.src_offset < c.src_id.bytes ∧ c.dst_offset < c.dst_id.bytes

/-- `V2` of the specification: `len` fits in what is left of both frames. -/
@[reducible] def V2 (c : client_state) : Prop :=
  c.len ≤ c.src_id.bytes - c.src_offset ∧ c.len ≤ c.dst_id.bytes - c.dst_offset

/-- `V3` of the specification: the byte intervals `[src_addr, src_addr+len)`
and `[dst_addr, dst_addr+len)` are disjoint. -/
@[reducible] def V3 (c : client_state) : Prop :=
  c.src_id.base + c.src_offset + c.len ≤ c.dst_id.base + c.dst_offset
  ∨ c.dst_id.base + c.dst_offset + c.len ≤ c.src_id.base + c.src_offset

/-- The error kind a status register stands for: transfer error before
supervisor error before misaligned address, `SYS_ERR_OK` if no error bit is set. -/
def csr_error (csr : csr_t) : errval_t :=
  if csr.trans_err ≠ 0 then SDMA_ERR_TRANSFER
  else if csr.supervisor_err ≠ 0 then SDMA_ERR_SUPERVISOR
  else if csr.misaligned_adrs_err ≠ 0 then SDMA_ERR_MISALIGNED
  else SYS_ERR_OK

/-- A frame lies inside the 32-bit physical address space of the SoC. -/
@[reducible] def frame_in_range (f : frame_identity) : Prop :=
  f.base + f.bytes ≤ SIZE_MOD ∧ f.bytes < SIZE_MOD

/-- The `size_t` fields of the pending request hold `size_t` values. -/
@[reducible] def request_in_range (c : client_state) : Prop :=
  c.src_offset < SIZE_MOD ∧ c.dst_offset < SIZE_MOD ∧ c.len < SIZE_MOD

/-! ## Sample requests and reachable sample states -/

/-- Physical base `0x80000000` of sample frame `A`. -/
def FRAME_A : Nat := 2147483648

/-- Physical base `0x80004000` of sample frame `B`. -/
def FRAME_B : Nat := 2147500032

/-- The message `{MEMCPY_SRC, src_offset, len}`. -/
def memcpy_src_msg (src_offset len : Nat) : lmp_recv_msg :=
  { words := [SDMA_RPC_MEMCPY_SRC, src_offset, len] }

/-- The message `{MEMCPY_DST, dst_offset}`. -/
def memcpy_dst_msg (dst_offset : Nat) : lmp_recv_msg :=
  { words := [SDMA_RPC_MEMCPY_DST, dst_offset] }

/-- The message `{MEMSET, offset, len, value}`. -/
def memset_msg (offset len value : Nat) : lmp_recv_msg :=
  { words := [SDMA_RPC_MEMSET, offset, len, value] }

/-- The message `{ROTATE_SRC, src_offset, width, height}`. -/
def rotate_src_msg (src_offset width height : Nat) : lmp_recv_msg :=
  { words := [SDMA_RPC_ROTATE_SRC, src_offset, width, height] }

/-- The message `{ROTATE_DST, dst_offset}`. -/
def rotate_dst_msg (dst_offset : Nat) : lmp_recv_msg :=
  { words := [SDMA_RPC_ROTATE_DST, dst_offset] }

/-- The sample driver after the `SRC` half of a memcpy arrived on session 0. -/
def after_memcpy_src (base bytes src_offset len : Nat) : sdma_driver :=
  (sdma_process_memcpy 32 sample_driver 0 (memcpy_src_msg src_offset len)
    (identified base bytes)).1

/-- The sample driver after the `SRC` half of a rotate arrived on session 0. -/
def after_rotate_src (base bytes src_offset width height : Nat) : sdma_driver :=
  (sdma_process_rotate 32 sample_driver 0 (rotate_src_msg src_offset width height)
    (identified base bytes)).1

/-- The sample driver with a memcpy of 4096 bytes from frame `A` to frame `B`
in flight on channel 0 for session 0. -/
def sample_busy : sdma_driver :=
  (sdma_process_memcpy 32 (after_memcpy_src FRAME_A 4096 0 4096) 0 (memcpy_dst_msg 0)
    (identified FRAME_B 4096)).1

/-- The sample driver after `memset(A, offset = 0, len = 8192)` was accepted
with `SDMA_MEMSET_SIZE = 4096`: the first sub-transfer runs on channel 0. -/
def sample_memset_started : sdma_driver :=
  (sdma_process_memset 32 4096 sample_driver 0 (memset_msg 0 8192 171)
    (identified FRAME_A 8192)).1

/-- A client binding with a request pending. -/
def sample_rpc_pending : sdma_rpc := { request_pending := true, sent := [] }

/-- A round of `sdma_rpc_send_and_receive` in which every call succeeds. -/
def round_ok : round_outcome :=
  { register_send := SYS_ERR_OK, register_recv := SYS_ERR_OK, dispatch_send := SYS_ERR_OK,
    dispatch_recv := SYS_ERR_OK }

/-- The engine reports the end of the block on channel `chan`: the block bit
of its status register is set, the error bits are clear. -/
def engine_block_complete (sd : sdma_driver) (chan : Nat) : sdma_driver :=
  { sd with sdma_dev := { sd.sdma_dev with
      chans := Function.update sd.sdma_dev.chans chan
        { sd.sdma_dev.chans chan with
          csr := { misaligned_adrs_err := 0, supervisor_err := 0, trans_err := 0, block := 1 } } } }

/-! ## Runs of the interrupt path -/

/-- One interrupt as the driver meets it: the register view the engine has
left, the interrupt line and its status word. -/
structure irq_event where
  chans : Nat → chan_regs
  irq_line : Nat
  irq_status : Nat

/-- The driver treats a sequence of interrupts with `sdma_update_channel_status`
(through `sdma_interrupt_handler`, sdma.c:72-80); before each one the engine
has set the register view. -/
def sdma_run_interrupts (SDMA_CHANNELS SDMA_REGISTER_CLEAN : Nat) :
    sdma_driver → List irq_event → sdma_driver
  | sd, [] => sd
  | sd, e :: es =>
    sdma_run_interrupts SDMA_CHANNELS SDMA_REGISTER_CLEAN
      (sdma_update_channel_status SDMA_CHANNELS SDMA_REGISTER_CLEAN
        { sd with sdma_dev := { sd.sdma_dev with chans := e.chans } } e.irq_line e.irq_status)
      es

/-- The session a start call was made for. -/
def sdma_call.client_of : sdma_call → Nat
  | sdma_call.start_transfer client _ _ _ => client
  | sdma_call.start_rotate client _ _ _ _ => client

/-- Number of start calls made so far for session `client`. -/
def starts_for (sd : sdma_driver) (client : Nat) : Nat :=
  sd.calls.countP (fun k => decide (k.client_of = client))

/-- Number of completion replies registered so far for session `client`. -/
def replies_to (sd : sdma_driver) (client : Nat) : Nat :=
  sd.sends.countP (fun p => decide (p.1 = client))

/-- One if session `client` still awaits its completion reply (`acked` is
false), zero otherwise. -/
def reply_pending (sd : sdma_driver) (client : Nat) : Nat :=
  if (sd.heap client).acked then 0 else 1

/-! ## A memset driven to completion -/

/-- The channel the driver enabled last: the channel of the last register
write when that write is a `CCR` write (step 9 of a start operation). -/
def last_enabled_channel (sd : sdma_driver) : Nat :=
  match sd.sdma_dev.writes.getLast? with
  | some (reg_write.ccr chan _) => chan
  | _ => 0

/-- The engine finishes the block on the channel enabled last without error
and the driver takes the interrupt of line 0 with that channel's bit set
(`sdma_interrupt_handler`, sdma.c:72-80). -/
def block_complete_interrupt (SDMA_CHANNELS SDMA_REGISTER_CLEAN : Nat) (sd : sdma_driver) :
    sdma_driver :=
  sdma_update_channel_status SDMA_CHANNELS SDMA_REGISTER_CLEAN
    (engine_block_complete sd (last_enabled_channel sd)) 0 (1 <<< last_enabled_channel sd)

/-- The driver state after `j` such block-complete interrupts. -/
def memset_interrupts (SDMA_CHANNELS SDMA_REGISTER_CLEAN : Nat) : Nat → sdma_driver → sdma_driver
  | 0, sd => sd
  | j + 1, sd =>
    block_complete_interrupt SDMA_CHANNELS SDMA_REGISTER_CLEAN
      (memset_interrupts SDMA_CHANNELS SDMA_REGISTER_CLEAN j sd)

/-- A sub-transfer of a memset of `len` bytes for session `client` is running
on the channel enabled last, with `done` bytes covered once it completes. -/
def memset_running (SDMA_CHANNELS : Nat) (sd : sdma_driver) (client len done : Nat) : Prop :=
  last_enabled_channel sd < SDMA_CHANNELS
  ∧ (sd.chan_state (last_enabled_channel sd)).client = client
  ∧ (sd.heap client).op_type = OpType_Memset
  ∧ (sd.heap client).len = len
  ∧ (sd.heap client).dst_offset = done
  ∧ (sd.heap client).acked = false

/-! ## Register writes by channel -/

/-- The channel a register write addresses; the line status register belongs
to no channel. -/
def reg_write.channel : reg_write → Option Nat
  | reg_write.csdp chan _ => some chan
  | reg_write.cen chan _ => some chan
  | reg_write.cfn chan _ => some chan
  | reg_write.cssa chan _ => some chan
  | reg_write.cdsa chan _ => some chan
  | reg_write.ccr chan _ => some chan
  | reg_write.csei chan _ => some chan
  | reg_write.csfi chan _ => some chan
  | reg_write.cdei chan _ => some chan
  | reg_write.cdfi chan _ => some chan
  | reg_write.csr chan _ => some chan
  | reg_write.irqstatus_line _ _ => none

/-- The `CSDP` word both start operations write: 32-bit elements, 64-byte
bursts, little endian, last write non-posted, packing enabled, every other bit
as read. -/
def start_csdp (old : csdp_t) : csdp_t :=
  { old with
    data_type := omap44xx_sdma_DATA_TYPE_32BIT,
    src_burst_en := omap44xx_sdma_BURST_EN_64BYTE,
    dst_burst_en := omap44xx_sdma_BURST_EN_64BYTE,
    src_endian := omap44xx_sdma_ENDIAN_LITTLE,
    dst_endian := omap44xx_sdma_ENDIAN_LITTLE,
    write_mode := omap44xx_sdma_WRITE_MODE_LAST_NON_POSTED,
    src_packed := omap44xx_sdma_SRC_PACKED_ENABLE,
    dst_packed := omap44xx_sdma_SRC_PACKED_ENABLE }

/-- The `CCR` word of step 5 for addressing mode `amode` on both ports: low
priority, synchronisation control 0, every other bit as read. -/
def start_ccr (old : ccr_t) (amode : Nat) : ccr_t :=
  { old with
    src_amode := amode, dst_amode := amode,
    read_priority := omap44xx_sdma_PORT_PRIORITY_LOW,
    write_priority := omap44xx_sdma_PORT_PRIORITY_LOW,
    synchro_control := 0, synchro_control_upper := 0 }

/-! ## Engine status -/

/-- The engine leaves the status `csr` in the status register of channel
`chan`. -/
def engine_status (sd : sdma_driver) (chan : Nat) (csr : csr_t) : sdma_driver :=
  { sd with sdma_dev := { sd.sdma_dev with
      chans := Function.update sd.sdma_dev.chans chan
        { sd.sdma_dev.chans chan with csr := csr } } }

/-! ## The double-index addressing of the engine -/

/-- Modelled from the spec: the double-index address rule of the engine (SoC
manual §16.5.2).  The address of element `k` of a block, counted from 0:
element 0 lies at the start address; the next element lies `ES + EI - 1` after
an element inside a frame and `ES + FI - 1` after the last element of a frame
of `en` elements.  Addresses and indexes are 32-bit words, the indexes in
two's complement, so the sums are taken modulo `2^32`. -/
def double_index_addr (start es en ei fi : Nat) : Nat → Nat
  | 0 => start % SIZE_MOD
  | k + 1 =>
    (double_index_addr start es en ei fi k + es
      + (if (k + 1) % en = 0 then fi else ei) + (SIZE_MOD - 1)) % SIZE_MOD

/-- Modelled from the spec: the number of elements per frame the engine uses:
the element count field of `DMA4_CEN` (SoC manual, bits 23:0). -/
def engine_en (regs : chan_regs) : Nat := field_value CEN_FIELD_BITS regs.cen

/-- Modelled from the spec: the number of frames per block the engine uses:
the frame count field of `DMA4_CFN` (SoC manual, bits 15:0). -/
def engine_fn (regs : chan_regs) : Nat := field_value CFN_FIELD_BITS regs.cfn

/-- Modelled from the spec: the element index the engine uses: the 16-bit
signed element index field of a `DMA4_CSEI` or `DMA4_CDEI` word (SoC manual,
bits 15:0), sign-extended to a 32-bit two's complement word. -/
def engine_ei (word : Nat) : Nat :=
  if field_value CEI_FIELD_BITS word < 2 ^ 15 then field_value CEI_FIELD_BITS word
  else field_value CEI_FIELD_BITS word + (SIZE_MOD - 2 ^ 16)

/-- Modelled from the spec: the number of bytes of the block a channel is
programmed for with 32-bit elements: `ES * EN * FN` with element size 4. -/
def block_bytes (regs : chan_regs) : Nat := 4 * engine_en regs * engine_fn regs

/-- Modelled from the spec: the engine runs one block of a channel programmed
for double-index addressing on both ports with 32-bit elements: for
`k = 0 .. EN*FN - 1` the word at the source address of element `k` is written
to the destination address of element `k`.  The element and frame counts and
the element indexes are the fields of the registers (`engine_en`, `engine_fn`,
`engine_ei`); the frame indexes are the 32-bit words of `DMA4_CSFI` and
`DMA4_CDFI`.  Memory maps the byte address of a word to the word. -/
def engine_run_block (regs : chan_regs) (mem : Nat → Nat) : Nat → Nat :=
  (List.range (engine_en regs * engine_fn regs)).foldl
    (fun m k =>
      Function.update m
        (double_index_addr regs.cdsa 4 (engine_en regs) (engine_ei regs.cdei) regs.cdfi k)
        (m (double_index_addr regs.cssa 4 (engine_en regs) (engine_ei regs.csei) regs.csfi k)))
    mem

/-- A 4x4 image with the words 0..15 in row-major order in frame `A`. -/
def sample_image (addr : Nat) : Nat :=
  if FRAME_A ≤ addr ∧ addr < FRAME_A + 64 then (addr - FRAME_A) / 4 else 0

/-! ## RPC dispatch and handshake -/

/-- How a driver entry point ends: it returns, it aborts in `USER_PANIC_ERR`,
or the bounded walk over the client list ran out of steps. -/
inductive run (α : Type) where
  | ok (a : α)
  | user_panic
  | out_of_fuel

/-- The returned value of a run that returned. -/
def run.value {α : Type} : run α → Option α
  | run.ok a => some a
  | run.user_panic => none
  | run.out_of_fuel => none

/-- What the kernel reports about a received capability: `debug_cap_identify`
(its return value and the endpoint fields of `ret` after the call) and
`frame_identify`. -/
structure cap_view where
  ep_err : errval_t
  ep : endpoint
  frame : identify_result

/-- The loop of `sdma_identify_client_cap` (sdma.c:37-44): follow `next` from
`client` until a session with the endpoint identity `ep` or `NULL` is met.
The outer `none` is a walk that did not end within `fuel` steps. -/
def sdma_identify_client_loop (heap : Nat → client_state) (ep : endpoint) :
    Nat → Option Nat → Option (Option Nat)
  | _, none => some none
  | 0, some _ => none
  | fuel + 1, some client =>
    if (heap client).remote_ep.listener = ep.listener
        ∧ (heap client).remote_ep.epoffset = ep.epoffset then
      some (some client)
    else
      sdma_identify_client_loop heap ep fuel (heap client).next

/-- The lookup `sdma_identify_client_cap` (sdma.c:27-47): `NULL` when the
capability cannot be identified, else the first session of the list with its
endpoint identity, `NULL` if there is none. -/
def sdma_identify_client_cap (fuel : Nat) (sd : sdma_driver) (cap : cap_view) :
    Option (Option Nat) :=
  if err_is_fail cap.ep_err then some none
  else sdma_identify_client_loop sd.heap cap.ep fuel sd.clients

/-- What the environment hands to one `sdma_process_handshake`: the block
`malloc` returns (its address and the indeterminate contents it has), and the
results of `frame_alloc`, `paging_map_frame`, `frame_identify`,
`lmp_chan_alloc_recv_slot` and `lmp_chan_register_recv`. -/
structure handshake_env where
  client : Nat
  block : client_state
  frame_alloc_err : errval_t
  paging_map_frame_err : errval_t
  memset_buf : Nat → Nat
  memset_frame : identify_result
  alloc_recv_slot_err : errval_t
  register_recv_err : errval_t

/-- The handler `sdma_process_handshake` (sdma.c:236-315).  The result is the
driver state and the response argument: `NULL` for a duplicate handshake, the
new session otherwise. -/
def sdma_process_handshake (fuel : Nat) (sd : sdma_driver) (cap : cap_view)
    (env : handshake_env) : run (sdma_driver × Option Nat) :=
  match sdma_identify_client_cap fuel sd cap with
  | none => run.out_of_fuel
  | some (some _) =>
    -- Client already exists?
    run.ok (sd, none)
  | some none =>
    let client := env.client
    let sd := { sd with heap := Function.update sd.heap client env.block }
    let sd :=
      match sd.clients with
      | none => set_client sd client (fun c => { c with next := none })
      | some head =>
        let sd := set_client sd head (fun c => { c with prev := some client })
        set_client sd client (fun c => { c with next := some head })
    let sd := set_client sd client (fun c => { c with prev := none })
    let sd := set_client sd client (fun c => { c with have_caps := 0 })
    let sd := set_client sd client (fun c => { c with src_offset := 0 })
    let sd := set_client sd client (fun c => { c with dst_offset := 0 })
    let sd := set_client sd client (fun c => { c with len := 0 })
    -- Allocate a frame for the memset buffer & map it.
    if err_is_fail env.frame_alloc_err then run.user_panic
    else if err_is_fail env.paging_map_frame_err then run.user_panic
    else
      let sd := set_client sd client (fun c => { c with memset_buf := env.memset_buf })
      if err_is_fail env.memset_frame.err then run.user_panic
      else
        let sd := set_client sd client (fun c =>
          { c with memset_frame_id := env.memset_frame.id })
        let sd := { sd with clients := some client }
        -- Endpoint for further reference.
        let sd := set_client sd client (fun c => { c with remote_ep := cap.ep })
        -- New channel.
        if err_is_fail env.alloc_recv_slot_err then run.user_panic
        else if err_is_fail env.register_recv_err then run.user_panic
        else run.ok (sd, some client)

/-- What `lmp_chan_recv` delivers to `sdma_serve_rpc`: its return value,
whether `lmp_err_is_transient` holds of it, the message and the capability. -/
structure recv_result where
  err : errval_t
  transient : Bool
  msg : lmp_recv_msg
  cap : cap_view

/-- The send `sdma_serve_rpc` registers: `sdma_send_handshake` on the channel
of a new session, or `sdma_send_err` with an error code on the channel of a
session. -/
inductive rpc_reply where
  | handshake (client : Nat)
  | err (client : Nat) (e : errval_t)
deriving DecidableEq, Repr

/-- The dispatcher `sdma_serve_rpc` (sdma.c:177-234) for a message received on
a channel whose closure holds the session pointer `client`.  The result is the
driver state and the reply registered, if any. -/
def sdma_serve_rpc (fuel SDMA_CHANNELS SDMA_MEMSET_SIZE : Nat) (sd : sdma_driver)
    (client : Nat) (rcv : recv_result) (env : handshake_env) :
    run (sdma_driver × Option rpc_reply) :=
  if err_is_fail rcv.err && !rcv.transient then run.user_panic
  else
    let op := rcv.msg.word 0
    if op = SDMA_RPC_HANDSHAKE then
      match sdma_process_handshake fuel sd rcv.cap env with
      | run.ok (sd, some c) => run.ok (sd, some (rpc_reply.handshake c))
      | run.ok (sd, none) => run.ok (sd, none)
      | run.user_panic => run.user_panic
      | run.out_of_fuel => run.out_of_fuel
    else if op = SDMA_RPC_MEMCPY_SRC ∨ op = SDMA_RPC_MEMCPY_DST then
      let r := sdma_process_memcpy SDMA_CHANNELS sd client rcv.msg rcv.cap.frame
      run.ok (r.1, some (rpc_reply.err client r.2))
    else if op = SDMA_RPC_MEMSET then
      let r := sdma_process_memset SDMA_CHANNELS SDMA_MEMSET_SIZE sd client rcv.msg
        rcv.cap.frame
      run.ok (r.1, some (rpc_reply.err client r.2))
    else if op = SDMA_RPC_ROTATE_SRC ∨ op = SDMA_RPC_ROTATE_DST then
      let r := sdma_process_rotate SDMA_CHANNELS sd client rcv.msg rcv.cap.frame
      run.ok (r.1, some (rpc_reply.err client r.2))
    else
      -- WARNING: invalid SDMA RPC code
      run.ok (sd, none)

/-- An environment in which every call of a handshake succeeds; the new block
lies at `client` and holds `sample_client`. -/
def sample_env (client : Nat) : handshake_env :=
  { client := client, block := sample_client, frame_alloc_err := SYS_ERR_OK,
    paging_map_frame_err := SYS_ERR_OK, memset_buf := fun _ => 0,
    memset_frame := identified 2415919104 4096, alloc_recv_slot_err := SYS_ERR_OK,
    register_recv_err := SYS_ERR_OK }

/-- A received capability that identifies as the endpoint `(listener, epoffset)`
and as the frame `{base, bytes}`. -/
def sample_cap (listener epoffset base bytes : Nat) : cap_view :=
  { ep_err := SYS_ERR_OK, ep := { listener := listener, epoffset := epoffset },
    frame := identified base bytes }

/-- A message received without error. -/
def received (words : List Nat) (cap : cap_view) : recv_result :=
  { err := SYS_ERR_OK, transient := false, msg := { words := words }, cap := cap }

/-! ## Reachable states -/

/-- The driver after bring-up (usr/sdma/main.c): `sd` is a global, so every
slot starts free with owner `NULL` and error 0, and `sdma_initialize_driver`
(sdma.c:57-70) sets `clients = NULL`.  `dev` is the device as
`sdma_setup_config` left it, `heap` the memory `malloc` has not handed out. -/
def sdma_initial (dev : omap44xx_sdma_t) (heap : Nat → client_state) : sdma_driver :=
  { sdma_dev := dev,
    chan_state := fun _ => { transfer_in_progress := false, client := 0, err := SYS_ERR_OK },
    clients := none, heap := heap, calls := [], sends := [] }

/-- The sessions met by following `next` from `p`, at most `fuel` of them. -/
def client_list (heap : Nat → client_state) : Nat → Option Nat → List Nat
  | _, none => []
  | 0, some _ => []
  | fuel + 1, some c => c :: client_list heap fuel (heap c).next

/-- The pointer `p` heads a `NULL`-terminated list whose sessions are, in
order, the addresses `l`. -/
def linked (heap : Nat → client_state) : Option Nat → List Nat → Prop
  | p, [] => p = none
  | p, c :: l => p = some c ∧ linked heap (heap c).next l

/-- Number of channel slots with `transfer_in_progress` set. -/
def channels_in_use (SDMA_CHANNELS : Nat) (sd : sdma_driver) : Nat :=
  (List.range SDMA_CHANNELS).countP (fun ch => (sd.chan_state ch).transfer_in_progress)

/-- Number of sessions of the client list (walked for at most `fuel` steps)
whose operation kind is not `OpType_None`. -/
def sessions_with_operation (fuel : Nat) (sd : sdma_driver) : Nat :=
  (client_list sd.heap fuel sd.clients).countP
    (fun c => decide ((sd.heap c).op_type ≠ OpType_None))

/-- The states the driver reaches from bring-up through handshakes, requests
and interrupts, each with the addresses of the sessions allocated so far,
newest first.  `caps` says which capabilities a handshake message may carry.
`malloc` returns a block that is not a live session; requests arrive on the
channel of a session; before an interrupt the engine has set the register
view, and it flags only channels whose slot is in use. -/
inductive Reachable (SDMA_CHANNELS SDMA_MEMSET_SIZE SDMA_REGISTER_CLEAN : Nat)
    (caps : cap_view → Prop) : sdma_driver → List Nat → Prop where
  | init (dev : omap44xx_sdma_t) (heap : Nat → client_state) :
      Reachable SDMA_CHANNELS SDMA_MEMSET_SIZE SDMA_REGISTER_CLEAN caps
        (sdma_initial dev heap) []
  | handshake_new (sd : sdma_driver) (l : List Nat) (fuel : Nat) (cap : cap_view)
      (env : handshake_env) (sd2 : sdma_driver) (c : Nat) :
      Reachable SDMA_CHANNELS SDMA_MEMSET_SIZE SDMA_REGISTER_CLEAN caps sd l →
      caps cap → env.client ∉ l →
      sdma_process_handshake fuel sd cap env = run.ok (sd2, some c) →
      Reachable SDMA_CHANNELS SDMA_MEMSET_SIZE SDMA_REGISTER_CLEAN caps sd2 (c :: l)
  | handshake_dup (sd : sdma_driver) (l : List Nat) (fuel : Nat) (cap : cap_view)
      (env : handshake_env) (sd2 : sdma_driver) :
      Reachable SDMA_CHANNELS SDMA_MEMSET_SIZE SDMA_REGISTER_CLEAN caps sd l →
      caps cap → env.client ∉ l →
      sdma_process_handshake fuel sd cap env = run.ok (sd2, none) →
      Reachable SDMA_CHANNELS SDMA_MEMSET_SIZE SDMA_REGISTER_CLEAN caps sd2 l
  | memcpy (sd : sdma_driver) (l : List Nat) (client : Nat) (msg : lmp_recv_msg)
      (idr : identify_result) :
      Reachable SDMA_CHANNELS SDMA_MEMSET_SIZE SDMA_REGISTER_CLEAN caps sd l →
      client ∈ l →
      Reachable SDMA_CHANNELS SDMA_MEMSET_SIZE SDMA_REGISTER_CLEAN caps
        (sdma_process_memcpy SDMA_CHANNELS sd client msg idr).1 l
  | memset (sd : sdma_driver) (l : List Nat) (client : Nat) (msg : lmp_recv_msg)
      (idr : identify_result) :
      Reachable SDMA_CHANNELS SDMA_MEMSET_SIZE SDMA_REGISTER_CLEAN caps sd l →
      client ∈ l →
      Reachable SDMA_CHANNELS SDMA_MEMSET_SIZE SDMA_REGISTER_CLEAN caps
        (sdma_process_memset SDMA_CHANNELS SDMA_MEMSET_SIZE sd client msg idr).1 l
  | rotate (sd : sdma_driver) (l : List Nat) (client : Nat) (msg : lmp_recv_msg)
      (idr : identify_result) :
      Reachable SDMA_CHANNELS SDMA_MEMSET_SIZE SDMA_REGISTER_CLEAN caps sd l →
      client ∈ l →
      Reachable SDMA_CHANNELS SDMA_MEMSET_SIZE SDMA_REGISTER_CLEAN caps
        (sdma_process_rotate SDMA_CHANNELS sd client msg idr).1 l
  | interrupt (sd : sdma_driver) (l : List Nat) (chans : Nat → chan_regs)
      (irq_line irq_status : Nat) :
      Reachable SDMA_CHANNELS SDMA_MEMSET_SIZE SDMA_REGISTER_CLEAN caps sd l →
      (∀ chan, chan < SDMA_CHANNELS → irq_status &&& (1 <<< chan) ≠ 0 →
        (sd.chan_state chan).transfer_in_progress = true) →
      Reachable SDMA_CHANNELS SDMA_MEMSET_SIZE SDMA_REGISTER_CLEAN caps
        (sdma_update_channel_status SDMA_CHANNELS SDMA_REGISTER_CLEAN
          { sd with sdma_dev := { sd.sdma_dev with chans := chans } } irq_line irq_status) l

/-- What one driver step may do to the sessions and the slots: the client list
pointer, the `next` links and the endpoint identities stay; an operation kind
changes only to a kind other than `OpType_None`; a slot in use afterwards was
in use before with the same owner, or is owned by a session of `A` whose
operation kind is not `OpType_None`; a slot in use before stays in use with
its owner unless it is one of `R`. -/
def evolves (A R : Nat → Prop) (sd sd2 : sdma_driver) : Prop :=
  sd2.clients = sd.clients
  ∧ (∀ x, (sd2.heap x).next = (sd.heap x).next
        ∧ (sd2.heap x).remote_ep = (sd.heap x).remote_ep)
  ∧ (∀ x, (sd2.heap x).op_type = (sd.heap x).op_type
        ∨ (sd2.heap x).op_type ≠ OpType_None)
  ∧ (∀ ch, (sd2.chan_state ch).transfer_in_progress = true →
        ((sd.chan_state ch).transfer_in_progress = true
          ∧ (sd2.chan_state ch).client = (sd.chan_state ch).client)
        ∨ (A (sd2.chan_state ch).client
          ∧ (sd2.heap (sd2.chan_state ch).client).op_type ≠ OpType_None))
  ∧ (∀ ch, (sd.chan_state ch).transfer_in_progress = true →
        ((sd2.chan_state ch).transfer_in_progress = true
          ∧ (sd2.chan_state ch).client = (sd.chan_state ch).client)
        ∨ R ch)

/-- The driver state `sdma_process_handshake` returns for a new client: the
block at `env.client` is linked in front of the list with the fields the
handler assigns (the others keep the contents of the block), the former head
gets its `prev` pointer, and `clients` points to the new session. -/
def session_added (sd : sdma_driver) (cap : cap_view) (env : handshake_env) : sdma_driver :=
  { sd with
    clients := some env.client,
    heap := Function.update
      (match sd.clients with
        | none => sd.heap
        | some head =>
          Function.update sd.heap head { sd.heap head with prev := some env.client })
      env.client
      { env.block with
        next := sd.clients, prev := none, have_caps := 0, src_offset := 0, dst_offset := 0,
        len := 0, memset_buf := env.memset_buf, memset_frame_id := env.memset_frame.id,
        remote_ep := cap.ep } }

/-- Every slot in use is owned by a session of `l` whose operation kind is not
`OpType_None`. -/
def slots_owned (sd : sdma_driver) (l : List Nat) : Prop :=
  ∀ ch, (sd.chan_state ch).transfer_in_progress = true →
    (sd.chan_state ch).client ∈ l
    ∧ (sd.heap (sd.chan_state ch).client).op_type ≠ OpType_None

/-- The sample session list after one handshake from bring-up: a session at
address 1 for the endpoint `(1, 8)`. -/
def sample_first_session : sdma_driver :=
  match sdma_process_handshake 0 (sdma_initial { chans := fun _ => sample_regs, writes := [] }
      (fun _ => sample_client)) (sample_cap 1 8 0 0) (sample_env 1) with
  | run.ok (sd, _) => sd
  | run.user_panic => sdma_initial { chans := fun _ => sample_regs, writes := [] }
      (fun _ => sample_client)
  | run.out_of_fuel => sdma_initial { chans := fun _ => sample_regs, writes := [] }
      (fun _ => sample_client)

/-- The sample session 1 after a complete memcpy request of 4096 bytes from
frame `A` to frame `B`: the transfer runs on channel 0. -/
def sample_memcpy_running : sdma_driver :=
  (sdma_process_memcpy 32
    (sdma_process_memcpy 32 sample_first_session 1 (memcpy_src_msg 0 4096)
      (identified FRAME_A 4096)).1
    1 (memcpy_dst_msg 0) (identified FRAME_B 4096)).1

/-- The sample session 1 after a second complete memcpy request, sent while the
first one still runs: its transfer runs on channel 1. -/
def sample_memcpy_twice : sdma_driver :=
  (sdma_process_memcpy 32
    (sdma_process_memcpy 32 sample_memcpy_running 1 (memcpy_src_msg 0 4096)
      (identified FRAME_A 4096)).1
    1 (memcpy_dst_msg 0) (identified FRAME_B 4096)).1

/-- The state after the engine completed that memcpy and the driver treated
the interrupt of channel 0. -/
def sample_memcpy_done : sdma_driver :=
  sdma_update_channel_status 32 0 (engine_block_complete sample_memcpy_running 0) 0 1

/-! ## The request validation as one test -/

/-- The test `cond1 && (cond2 || cond3) && cond4` that `sdma_process_memcpy`
(sdma.c:359-375) and `sdma_process_rotate` (sdma.c:488-504) apply to the
session once both halves are recorded. -/
def validation_passes (c : client_state) : Bool :=
  (decide (c.src_offset < c.src_id.bytes) && decide (c.dst_offset < c.dst_id.bytes))
  && ((decide (size_add (to_size_t c.src_id.base) c.src_offset
          < size_add (to_size_t c.dst_id.base) c.dst_offset)
        && decide (size_add (size_add (to_size_t c.src_id.base) c.src_offset) c.len
          ≤ size_add (to_size_t c.dst_id.base) c.dst_offset))
      || (decide (size_add (to_size_t c.dst_id.base) c.dst_offset
          < size_add (to_size_t c.src_id.base) c.src_offset)
        && decide (size_add (size_add (to_size_t c.dst_id.base) c.dst_offset) c.len
          ≤ size_add (to_size_t c.src_id.base) c.src_offset)))
  && (decide (c.len ≤ size_sub (to_size_t c.src_id.bytes) c.src_offset)
      && decide (c.len ≤ size_sub (to_size_t c.dst_id.bytes) c.dst_offset))

/-- A `frame_identify` that fails with a code minted by the kernel and leaves
`id` as `{0, 0}`. -/
def unidentified : identify_result :=
  { err := errval_t.other 1, id := { base := 0, bytes := 0 } }

/-- The sample driver with every channel slot in use for transfers of session
0 (operation kind `OpType_Memcpy`); the session at address 1 is idle and has
operation kind `OpType_None`. -/
def sample_all_busy : sdma_driver :=
  { sample_driver with
    chan_state := fun _ => { transfer_in_progress := true, client := 0, err := SYS_ERR_OK },
    heap := Function.update (fun _ => sample_client) 0
      { sample_client with op_type := OpType_Memcpy } }

/-- The sample session 1 after `memset(A, len = 8192)` was accepted with
`SDMA_MEMSET_SIZE = 4096` (the first sub-transfer runs on channel 0) and the
client then sent the half `{MEMCPY_DST, dst_offset = 0}` with frame `B` while
that sub-transfer was still running. -/
def sample_memset_interleaved : sdma_driver :=
  (sdma_process_memcpy 32
    (sdma_process_memset 32 4096 sample_first_session 1 (memset_msg 0 8192 171)
      (identified FRAME_A 8192)).1
    1 (memcpy_dst_msg 0) (identified FRAME_B 4096)).1

/-! ## The region list of `lib/aos/paging.c` -/

/-- Modelled from the spec: `enum nodetype` of the absent `paging.h`, with the
three kinds `paging.c` names. -/
inductive nodetype where
  | NodeType_Free
  | NodeType_Allocated
  | NodeType_Claimed
deriving DecidableEq, Repr

open nodetype

/-- Modelled from the spec: `struct paging_node` of the absent `paging.h`, with
the fields `paging.c` reads and assigns.  `base` is an `lvaddr_t` and `size` a
`size_t`, both 32 bits wide; `next` and `prev` are node addresses. -/
structure paging_node where
  base : Nat
  size : Nat
  type : nodetype
  next : Option Nat
  prev : Option Nat
deriving DecidableEq, Repr

/-- Modelled from the spec: the part of `struct paging_state` (absent
`paging.h`) that `paging_alloc` uses, the list head, together with the memory
that holds the nodes. -/
structure paging_state where
  head : Option Nat
  nodes : Nat → paging_node

/-- Assignment through a `struct paging_node*`. -/
def set_node (st : paging_state) (node : Nat) (f : paging_node → paging_node) :
    paging_state :=
  { st with nodes := Function.update st.nodes node (f (st.nodes node)) }

/-- Modelled from the spec: `LIB_ERR_VREGION_NOT_FOUND` of the absent generated
error header; only that it is a failure code enters the theorems. -/
def LIB_ERR_VREGION_NOT_FOUND : errval_t := errval_t.other 2

/-- The body of the `if` in `paging_alloc` (paging.c:313-333): claim `node`
and, when it is larger than `bytes`, split the rest off into the block
`new_node` that `slab_alloc` returned. -/
def paging_alloc_claim (st : paging_state) (node bytes new_node : Nat) : paging_state :=
  -- Claim the node.
  let st := set_node st node (fun n => { n with type := NodeType_Claimed })
  if (st.nodes node).size > bytes then
    -- Split it.
    let st := set_node st new_node (fun n => { n with type := NodeType_Free })
    let st := set_node st new_node (fun n =>
      { n with base := size_add (st.nodes node).base bytes })
    let st := set_node st new_node (fun n =>
      { n with size := size_sub (st.nodes node).size bytes })
    let st := set_node st new_node (fun n => { n with next := (st.nodes node).next })
    let st := set_node st new_node (fun n => { n with prev := some node })
    let st :=
      match (st.nodes node).next with
      | some nx => set_node st nx (fun n => { n with prev := some new_node })
      | none => st
    let st := set_node st node (fun n => { n with next := some new_node })
    set_node st node (fun n => { n with size := bytes })
  else
    st

/-- The loop of `paging_alloc` (paging.c:310-337) from the node pointer `node`,
bounded by `fuel` steps.  The result is the state, `*buf` (`NULL` is 0) and the
return value.  `bytes` is a `size_t` value; `slab_alloc` (absent `slab.c`) is
taken to return the block `new_node`. -/
def paging_alloc_loop (bytes new_node : Nat) (st : paging_state) :
    Nat → Option Nat → run (paging_state × Nat × errval_t)
  | _, none => run.ok (st, 0, LIB_ERR_VREGION_NOT_FOUND)
  | 0, some _ => run.out_of_fuel
  | fuel + 1, some node =>
    if (st.nodes node).type = NodeType_Free ∧ (st.nodes node).size ≥ bytes then
      run.ok (paging_alloc_claim st node bytes new_node, (st.nodes node).base, SYS_ERR_OK)
    else
      paging_alloc_loop bytes new_node st fuel (st.nodes node).next

/-- The function `paging_alloc` (paging.c:306-338). -/
def paging_alloc (fuel : Nat) (st : paging_state) (bytes new_node : Nat) :
    run (paging_state × Nat × errval_t) :=
  paging_alloc_loop bytes new_node st fuel st.head

/-- The pointer `p` heads a `NULL`-terminated list whose nodes are, in order,
the addresses `l`. -/
def node_chain (nodes : Nat → paging_node) : Option Nat → List Nat → Prop
  | p, [] => p = none
  | p, a :: l => p = some a ∧ node_chain nodes (nodes a).next l

/-- The regions of the nodes `l` tile `[lo, hi)` in list order: each begins
where its predecessor ends. -/
def tiles (nodes : Nat → paging_node) : List Nat → Nat → Nat → Prop
  | [], lo, hi => lo = hi
  | a :: l, lo, hi => (nodes a).base = lo ∧ tiles nodes l (lo + (nodes a).size) hi

/-- Node `x` can hold the request: it is free and at least `bytes` large. -/
@[reducible] def fits (st : paging_state) (bytes : Nat) (x : Nat) : Prop :=
  (st.nodes x).type = NodeType_Free ∧ bytes ≤ (st.nodes x).size

/-- The region list after `paging_init_state` with `start_vaddr = 0x1000` and
two allocations: a claimed region of 4096 bytes at node 1, an allocated
region of 8192 bytes at node 2, and the free rest at node 3. -/
def sample_paging : paging_state :=
  { head := some 1,
    nodes := fun x =>
      if x = 1 then
        { base := 4096, size := 4096, type := NodeType_Claimed, next := some 2, prev := none }
      else if x = 2 then
        { base := 8192, size := 8192, type := NodeType_Allocated, next := some 3,
          prev := some 1 }
      else
        { base := 16384, size := 4294950911, type := NodeType_Free, next := none,
          prev := some 2 } }

/-! # Theorems -/

/-! ## Facts about the start operations -/

theorem err_is_fail_eq (e : errval_t) : err_is_fail e = true ↔ e ≠ SYS_ERR_OK := by
  simp [err_is_fail, err_is_ok]

theorem sdma_start_transfer_calls (N : Nat) (sd : sdma_driver) (client s d l : Nat) :
    (sdma_start_transfer N sd client s d l).1.calls
      = sd.calls ++ [sdma_call.start_transfer client s d l] := by
  unfold sdma_start_transfer
  simp only []
  split <;> rfl

theorem sdma_start_transfer_sends (N : Nat) (sd : sdma_driver) (client s d l : Nat) :
    (sdma_start_transfer N sd client s d l).1.sends = sd.sends := by
  unfold sdma_start_transfer
  simp only []
  split <;> rfl

theorem sdma_start_transfer_heap (N : Nat) (sd : sdma_driver) (client s d l : Nat) :
    (sdma_start_transfer N sd client s d l).1.heap
      = Function.update sd.heap client { sd.heap client with acked := false } := by
  unfold sdma_start_transfer
  simp only []
  split <;> rfl

theorem sdma_avail_channel_frame (N : Nat) (sd sd2 : sdma_driver)
    (h : sd2.chan_state = sd.chan_state) :
    sdma_avail_channel N sd2 = sdma_avail_channel N sd := by
  unfold sdma_avail_channel
  rw [h]

theorem sdma_start_transfer_err (N : Nat) (sd : sdma_driver) (client s d l : Nat) :
    (sdma_start_transfer N sd client s d l).2
      = if sdma_avail_channel N sd < N then SYS_ERR_OK else SDMA_ERR_NO_AVAIL_CHANNEL := by
  unfold sdma_start_transfer
  simp only [sdma_valid_channel]
  have : sdma_avail_channel N (set_client { sd with calls := sd.calls ++ [sdma_call.start_transfer client s d l] } client (fun c => { c with acked := false })) = sdma_avail_channel N sd := sdma_avail_channel_frame _ _ _ rfl
  rw [this]
  by_cases h : sdma_avail_channel N sd < N <;> simp [h]

theorem sdma_start_transfer_eq (N : Nat) (sd : sdma_driver) (client s d l : Nat) :
    sdma_start_transfer N sd client s d l =
      if sdma_avail_channel N sd < N then
        ({ sdma_dev := sdma_start_transfer_program sd.sdma_dev (sdma_avail_channel N sd) s d l,
           chan_state := Function.update sd.chan_state (sdma_avail_channel N sd)
             { transfer_in_progress := true, client := client,
               err := (sd.chan_state (sdma_avail_channel N sd)).err },
           clients := sd.clients,
           heap := Function.update sd.heap client { sd.heap client with acked := false },
           calls := sd.calls ++ [sdma_call.start_transfer client s d l],
           sends := sd.sends }, SYS_ERR_OK)
      else
        ({ sd with heap := Function.update sd.heap client { sd.heap client with acked := false },
                   calls := sd.calls ++ [sdma_call.start_transfer client s d l] },
          SDMA_ERR_NO_AVAIL_CHANNEL) := by
  unfold sdma_start_transfer
  simp only [sdma_valid_channel]
  have h1 : sdma_avail_channel N (set_client { sd with calls := sd.calls ++ [sdma_call.start_transfer client s d l] } client (fun c => { c with acked := false })) = sdma_avail_channel N sd := sdma_avail_channel_frame _ _ _ rfl
  rw [h1]
  by_cases h : sdma_avail_channel N sd < N
  · simp [h, set_chan, set_client]
  · simp [h, set_chan, set_client]

theorem sdma_start_rotate_eq (N : Nat) (sd : sdma_driver) (client s d w h : Nat) :
    sdma_start_rotate N sd client s d w h =
      if sdma_avail_channel N sd < N then
        ({ sdma_dev := sdma_start_rotate_program sd.sdma_dev (sdma_avail_channel N sd) s d w h,
           chan_state := Function.update sd.chan_state (sdma_avail_channel N sd)
             { transfer_in_progress := true, client := client,
               err := (sd.chan_state (sdma_avail_channel N sd)).err },
           clients := sd.clients,
           heap := Function.update sd.heap client { sd.heap client with acked := false },
           calls := sd.calls ++ [sdma_call.start_rotate client s d w h],
           sends := sd.sends }, SYS_ERR_OK)
      else
        ({ sd with heap := Function.update sd.heap client { sd.heap client with acked := false },
                   calls := sd.calls ++ [sdma_call.start_rotate client s d w h] },
          SDMA_ERR_NO_AVAIL_CHANNEL) := by
  unfold sdma_start_rotate
  simp only [sdma_valid_channel]
  have h1 : sdma_avail_channel N (set_client { sd with calls := sd.calls ++ [sdma_call.start_rotate client s d w h] } client (fun c => { c with acked := false })) = sdma_avail_channel N sd := sdma_avail_channel_frame _ _ _ rfl
  rw [h1]
  by_cases h : sdma_avail_channel N sd < N
  · simp [h, set_chan, set_client]
  · simp [h, set_chan, set_client]

theorem sdma_start_rotate_err (N : Nat) (sd : sdma_driver) (client s d w h : Nat) :
    (sdma_start_rotate N sd client s d w h).2
      = if sdma_avail_channel N sd < N then SYS_ERR_OK else SDMA_ERR_NO_AVAIL_CHANNEL := by
  rw [sdma_start_rotate_eq]
  split <;> rfl

/-! ## Replies of the request handlers -/

theorem sdma_process_memcpy_reply (N : Nat) (sd : sdma_driver) (client : Nat)
    (msg : lmp_recv_msg) (idr : identify_result) :
    (sdma_process_memcpy N sd client msg idr).2 = idr.err
    ∨ (sdma_process_memcpy N sd client msg idr).2 = SDMA_ERR_MEMCPY
    ∨ (sdma_process_memcpy N sd client msg idr).2 = SYS_ERR_OK
    ∨ (sdma_process_memcpy N sd client msg idr).2 = SDMA_ERR_NO_AVAIL_CHANNEL := by
  unfold sdma_process_memcpy
  simp only []
  split
  · split
    · simp only [sdma_start_transfer_err]
      split <;> simp
    · simp
  · simp

theorem sdma_process_rotate_reply (N : Nat) (sd : sdma_driver) (client : Nat)
    (msg : lmp_recv_msg) (idr : identify_result) :
    (sdma_process_rotate N sd client msg idr).2 = idr.err
    ∨ (sdma_process_rotate N sd client msg idr).2 = SDMA_ERR_ROTATE
    ∨ (sdma_process_rotate N sd client msg idr).2 = SYS_ERR_OK
    ∨ (sdma_process_rotate N sd client msg idr).2 = SDMA_ERR_NO_AVAIL_CHANNEL := by
  unfold sdma_process_rotate
  simp only []
  split
  · split
    · simp only [sdma_start_rotate_err]
      split <;> simp
    · simp
  · simp

theorem sdma_process_memset_reply (N M : Nat) (sd : sdma_driver) (client : Nat)
    (msg : lmp_recv_msg) (idr : identify_result) :
    (sdma_process_memset N M sd client msg idr).2 = idr.err
    ∨ (sdma_process_memset N M sd client msg idr).2 = SDMA_ERR_MEMSET
    ∨ (sdma_process_memset N M sd client msg idr).2 = SYS_ERR_OK
    ∨ (sdma_process_memset N M sd client msg idr).2 = SDMA_ERR_NO_AVAIL_CHANNEL := by
  unfold sdma_process_memset
  simp only []
  split
  · split
    · simp only [sdma_start_transfer_err]
      split_ifs <;> simp
    · simp
  · simp

/-! ## C1: one request in flight per session -/

/-- C1, as stated, fails: session 0 of `sample_busy` has a memcpy in flight
(`op_type = OpType_Memcpy`), yet `sdma_process_memset` answers `SYS_ERR_OK`,
performs twelve register writes and reserves channel slot 1. -/
theorem request_in_flight_not_rejected :
    (sample_busy.heap 0).op_type = OpType_Memcpy
    ∧ (sdma_process_memset 32 4096 sample_busy 0 (memset_msg 0 4096 171)
        (identified FRAME_A 4096)).2 = SYS_ERR_OK
    ∧ (sdma_process_memset 32 4096 sample_busy 0 (memset_msg 0 4096 171)
        (identified FRAME_A 4096)).1.sdma_dev.writes.length
        = sample_busy.sdma_dev.writes.length + 12
    ∧ (sample_busy.chan_state 1).transfer_in_progress = false
    ∧ ((sdma_process_memset 32 4096 sample_busy 0 (memset_msg 0 4096 171)
        (identified FRAME_A 4096)).1.chan_state 1).transfer_in_progress = true := by
  decide

/-- C1 (amended): the one-in-flight rule lives in the client stub.  With
`request_pending` set, `sdma_rpc_memcpy`, `sdma_rpc_memset` and
`sdma_rpc_rotate` return `SDMA_ERR_REQUEST_IN_PROGRESS` and leave the binding
as it is, so no message reaches the driver; the driver's own handlers never
answer `SDMA_ERR_REQUEST_IN_PROGRESS` (unless `frame_identify` returns it). -/
theorem one_in_flight_enforced_by_stub (rpc : sdma_rpc) (hp : rpc.request_pending = true)
    (dst dst_offset src src_offset len val width height : Nat) (o1 o2 : round_outcome)
    (o3 : errval_t)
    (N M : Nat) (sd : sdma_driver) (client : Nat) (msg : lmp_recv_msg) (idr : identify_result)
    (hid : idr.err ≠ SDMA_ERR_REQUEST_IN_PROGRESS) :
    sdma_rpc_memcpy rpc dst dst_offset src src_offset len o1 o2 o3
        = (rpc, SDMA_ERR_REQUEST_IN_PROGRESS)
    ∧ sdma_rpc_memset rpc dst dst_offset len val o1 o3 = (rpc, SDMA_ERR_REQUEST_IN_PROGRESS)
    ∧ sdma_rpc_rotate rpc dst dst_offset src src_offset width height o1 o2 o3
        = (rpc, SDMA_ERR_REQUEST_IN_PROGRESS)
    ∧ (sdma_process_memcpy N sd client msg idr).2 ≠ SDMA_ERR_REQUEST_IN_PROGRESS
    ∧ (sdma_process_memset N M sd client msg idr).2 ≠ SDMA_ERR_REQUEST_IN_PROGRESS
    ∧ (sdma_process_rotate N sd client msg idr).2 ≠ SDMA_ERR_REQUEST_IN_PROGRESS := by
  refine ⟨?_, ?_, ?_, ?_, ?_, ?_⟩
  · simp [sdma_rpc_memcpy, hp]
  · simp [sdma_rpc_memset, hp]
  · simp [sdma_rpc_rotate, hp]
  · rcases sdma_process_memcpy_reply N sd client msg idr with h | h | h | h <;> rw [h]
    · exact hid
    all_goals simp
  · rcases sdma_process_memset_reply N M sd client msg idr with h | h | h | h <;> rw [h]
    · exact hid
    all_goals simp
  · rcases sdma_process_rotate_reply N sd client msg idr with h | h | h | h <;> rw [h]
    · exact hid
    all_goals simp

/-- Witness of `one_in_flight_enforced_by_stub`: a pending binding and the
busy sample driver. -/
theorem one_in_flight_enforced_by_stub_witness :
    sample_rpc_pending.request_pending = true
    ∧ (identified FRAME_A 4096).err ≠ SDMA_ERR_REQUEST_IN_PROGRESS
    ∧ sdma_rpc_memcpy sample_rpc_pending 1 0 2 0 4096 round_ok round_ok SYS_ERR_OK
        = (sample_rpc_pending, SDMA_ERR_REQUEST_IN_PROGRESS)
    ∧ (sdma_process_memset 32 4096 sample_busy 0 (memset_msg 0 4096 171)
        (identified FRAME_A 4096)).2 ≠ SDMA_ERR_REQUEST_IN_PROGRESS :=
  ⟨by decide, by decide,
    (one_in_flight_enforced_by_stub sample_rpc_pending (by decide) 1 0 2 0 4096 171 4 4
      round_ok round_ok SYS_ERR_OK 32 4096 sample_busy 0 (memset_msg 0 4096 171)
      (identified FRAME_A 4096) (by decide)).1,
    (one_in_flight_enforced_by_stub sample_rpc_pending (by decide) 1 0 2 0 4096 171 4 4
      round_ok round_ok SYS_ERR_OK 32 4096 sample_busy 0 (memset_msg 0 4096 171)
      (identified FRAME_A 4096) (by decide)).2.2.2.2.1⟩

theorem memcpy_conds_iff (c : client_state) (hr : request_in_range c)
    (hs : frame_in_range c.src_id) (hd : frame_in_range c.dst_id) :
    ((c.src_offset < c.src_id.bytes ∧ c.dst_offset < c.dst_id.bytes)
      ∧ ((size_add (to_size_t c.src_id.base) c.src_offset
            < size_add (to_size_t c.dst_id.base) c.dst_offset
          ∧ size_add (size_add (to_size_t c.src_id.base) c.src_offset) c.len
            ≤ size_add (to_size_t c.dst_id.base) c.dst_offset)
        ∨ (size_add (to_size_t c.dst_id.base) c.dst_offset
            < size_add (to_size_t c.src_id.base) c.src_offset
          ∧ size_add (size_add (to_size_t c.dst_id.base) c.dst_offset) c.len
            ≤ size_add (to_size_t c.src_id.base) c.src_offset)))
      ∧ (c.len ≤ size_sub (to_size_t c.src_id.bytes) c.src_offset
          ∧ c.len ≤ size_sub (to_size_t c.dst_id.bytes) c.dst_offset)
    ↔ (V1 c ∧ V2 c ∧ V3 c
        ∧ c.src_id.base + c.src_offset ≠ c.dst_id.base + c.dst_offset) := by
  obtain ⟨h1, h2, h3⟩ := hr
  obtain ⟨hs1, hs2⟩ := hs
  obtain ⟨hd1, hd2⟩ := hd
  simp only [SIZE_MOD] at h1 h2 h3 hs1 hs2 hd1 hd2
  simp only [V1, V2, V3, size_add, size_sub, to_size_t, SIZE_MOD]
  by_cases hv1 : c.src_offset < c.src_id.bytes ∧ c.dst_offset < c.dst_id.bytes
  · obtain ⟨hv1a, hv1b⟩ := hv1
    have e1 : c.src_id.base % 4294967296 = c.src_id.base := Nat.mod_eq_of_lt (by omega)
    have e2 : c.dst_id.base % 4294967296 = c.dst_id.base := Nat.mod_eq_of_lt (by omega)
    have e3 : c.src_id.bytes % 4294967296 = c.src_id.bytes := Nat.mod_eq_of_lt hs2
    have e4 : c.dst_id.bytes % 4294967296 = c.dst_id.bytes := Nat.mod_eq_of_lt hd2
    have e5 : c.src_offset % 4294967296 = c.src_offset := Nat.mod_eq_of_lt h1
    have e6 : c.dst_offset % 4294967296 = c.dst_offset := Nat.mod_eq_of_lt h2
    have e7 : (c.src_id.base + c.src_offset) % 4294967296 = c.src_id.base + c.src_offset :=
      Nat.mod_eq_of_lt (by omega)
    have e8 : (c.dst_id.base + c.dst_offset) % 4294967296 = c.dst_id.base + c.dst_offset :=
      Nat.mod_eq_of_lt (by omega)
    have e9 : (c.src_id.bytes + 4294967296 - c.src_offset) % 4294967296
        = c.src_id.bytes - c.src_offset := by omega
    have e10 : (c.dst_id.bytes + 4294967296 - c.dst_offset) % 4294967296
        = c.dst_id.bytes - c.dst_offset := by omega
    simp only [e1, e2, e3, e4, e5, e6, e7, e8, e9, e10]
    omega
  · constructor
    · intro h
      exact absurd h.1.1 hv1
    · intro h
      exact absurd h.1 hv1

theorem sdma_process_memcpy_record_frame (sd : sdma_driver) (client : Nat) (msg : lmp_recv_msg)
    (idr : identify_result) :
    (sdma_process_memcpy_record sd client msg idr).calls = sd.calls
    ∧ (sdma_process_memcpy_record sd client msg idr).sdma_dev = sd.sdma_dev
    ∧ (sdma_process_memcpy_record sd client msg idr).chan_state = sd.chan_state
    ∧ (sdma_process_memcpy_record sd client msg idr).sends = sd.sends := by
  unfold sdma_process_memcpy_record
  split <;> simp [set_client]

theorem list_ne_append_singleton {α : Type} (l : List α) (a : α) : l ≠ l ++ [a] := by
  intro h
  have := congrArg List.length h
  simp at this

/-! ## C2: validation of a memcpy -/

/-- C2 (amended): when the second half of a memcpy arrives (`have_caps` becomes
`CAP_MASK_READY`), its capability identifies, and both frames lie inside the
32-bit physical address space, `sdma_process_memcpy` calls
`sdma_start_transfer` (with `src_addr`, `dst_addr`, `len`) if and only if `V1`,
`V2` and `V3` hold and `src_addr ≠ dst_addr`; otherwise it makes no start call,
replies `SDMA_ERR_MEMCPY` and leaves the device as it is. -/
theorem sdma_process_memcpy_decision (N : Nat) (sd : sdma_driver) (client : Nat)
    (msg : lmp_recv_msg) (idr : identify_result)
    (hid : idr.err = SYS_ERR_OK)
    (hready : ((sdma_process_memcpy_record sd client msg idr).heap client).have_caps
      = CAP_MASK_READY)
    (hr : request_in_range ((sdma_process_memcpy_record sd client msg idr).heap client))
    (hs : frame_in_range ((sdma_process_memcpy_record sd client msg idr).heap client).src_id)
    (hd : frame_in_range ((sdma_process_memcpy_record sd client msg idr).heap client).dst_id) :
    let c := (sdma_process_memcpy_record sd client msg idr).heap client
    let r := sdma_process_memcpy N sd client msg idr
    let valid := V1 c ∧ V2 c ∧ V3 c
      ∧ c.src_id.base + c.src_offset ≠ c.dst_id.base + c.dst_offset
    (r.1.calls = sd.calls ++ [sdma_call.start_transfer client
        (c.src_id.base + c.src_offset) (c.dst_id.base + c.dst_offset) c.len] ↔ valid)
    ∧ (¬ valid → r.1.calls = sd.calls ∧ r.2 = SDMA_ERR_MEMCPY ∧ r.1.sdma_dev = sd.sdma_dev) := by
  dsimp only
  obtain ⟨fc, fd, -, -⟩ := sdma_process_memcpy_record_frame sd client msg idr
  unfold sdma_process_memcpy
  simp only [hid, err_is_ok, decide_True, Bool.true_and, hready, Bool.and_eq_true,
    Bool.or_eq_true, decide_eq_true_eq, if_true]
  generalize hc : (sdma_process_memcpy_record sd client msg idr).heap client = c at hready hr hs hd ⊢
  have hiff := memcpy_conds_iff c hr hs hd
  have hs' := hs
  have hd' := hd
  have hrr := hr
  simp only [frame_in_range, request_in_range, SIZE_MOD] at hs' hd' hrr
  by_cases hv : V1 c ∧ V2 c ∧ V3 c ∧ c.src_id.base + c.src_offset ≠ c.dst_id.base + c.dst_offset
  · rw [if_pos (hiff.mpr hv)]
    have hv1a := hv.1.1
    have hv1b := hv.1.2
    have e1 : size_add (to_size_t c.src_id.base) c.src_offset
        = c.src_id.base + c.src_offset := by
      simp only [size_add, to_size_t, SIZE_MOD]; omega
    have e2 : size_add (to_size_t c.dst_id.base) c.dst_offset
        = c.dst_id.base + c.dst_offset := by
      simp only [size_add, to_size_t, SIZE_MOD]; omega
    simp only [set_client, sdma_start_transfer_calls, fc, e1, e2, true_iff]
    exact ⟨hv, fun h => absurd hv h⟩
  · rw [if_neg (fun h => hv (hiff.mp h))]
    simp only [set_client, fc, fd]
    refine ⟨⟨fun h => absurd h (list_ne_append_singleton _ _), fun h => absurd h hv⟩,
      fun _ => ⟨trivial, trivial, trivial⟩⟩

/-- Witness of `sdma_process_memcpy_decision`: one 8 KiB frame, `src_off = 0`,
`dst_off = 1024`, `len = 4096` is rejected without a register write. -/
theorem sdma_process_memcpy_decision_witness :
    (identified FRAME_A 8192).err = SYS_ERR_OK
    ∧ ((sdma_process_memcpy_record (after_memcpy_src FRAME_A 8192 0 4096) 0
          (memcpy_dst_msg 1024) (identified FRAME_A 8192)).heap 0).have_caps = CAP_MASK_READY
    ∧ (sdma_process_memcpy 32 (after_memcpy_src FRAME_A 8192 0 4096) 0
          (memcpy_dst_msg 1024) (identified FRAME_A 8192)).2 = SDMA_ERR_MEMCPY
    ∧ (sdma_process_memcpy 32 (after_memcpy_src FRAME_A 8192 0 4096) 0
          (memcpy_dst_msg 1024) (identified FRAME_A 8192)).1.sdma_dev
        = (after_memcpy_src FRAME_A 8192 0 4096).sdma_dev :=
  ⟨by decide, by decide,
    ((sdma_process_memcpy_decision 32 (after_memcpy_src FRAME_A 8192 0 4096) 0
      (memcpy_dst_msg 1024) (identified FRAME_A 8192) (by decide) (by decide) (by decide)
      (by decide) (by decide)).2 (by decide)).2.1,
    ((sdma_process_memcpy_decision 32 (after_memcpy_src FRAME_A 8192 0 4096) 0
      (memcpy_dst_msg 1024) (identified FRAME_A 8192) (by decide) (by decide) (by decide)
      (by decide) (by decide)).2 (by decide)).2.2⟩

/-- C2, as stated, fails: a zero-length copy of a frame onto itself satisfies
`V1`, `V2` and `V3`, yet `sdma_process_memcpy` makes no start call and replies
`SDMA_ERR_MEMCPY`. -/
theorem memcpy_zero_length_onto_itself_rejected :
    ((sdma_process_memcpy_record (after_memcpy_src FRAME_A 4096 0 0) 0
        (memcpy_dst_msg 0) (identified FRAME_A 4096)).heap 0).have_caps = CAP_MASK_READY
    ∧ V1 ((sdma_process_memcpy_record (after_memcpy_src FRAME_A 4096 0 0) 0
        (memcpy_dst_msg 0) (identified FRAME_A 4096)).heap 0)
    ∧ V2 ((sdma_process_memcpy_record (after_memcpy_src FRAME_A 4096 0 0) 0
        (memcpy_dst_msg 0) (identified FRAME_A 4096)).heap 0)
    ∧ V3 ((sdma_process_memcpy_record (after_memcpy_src FRAME_A 4096 0 0) 0
        (memcpy_dst_msg 0) (identified FRAME_A 4096)).heap 0)
    ∧ (sdma_process_memcpy 32 (after_memcpy_src FRAME_A 4096 0 0) 0
        (memcpy_dst_msg 0) (identified FRAME_A 4096)).1.calls = []
    ∧ (sdma_process_memcpy 32 (after_memcpy_src FRAME_A 4096 0 0) 0
        (memcpy_dst_msg 0) (identified FRAME_A 4096)).2 = SDMA_ERR_MEMCPY := by
  decide

/-! ## C3: a rotate is validated in elements, programmed in bytes -/

/-- C3 fails on the code: a 4 x 4 rotate inside one 4 KiB frame with
`src_offset = 0` and `dst_offset = 16` is accepted, `sdma_start_rotate` is
called and the channel is enabled, although the 64-byte source interval
`[A, A+64)` and the destination interval `[A+16, A+80)` overlap. -/
theorem rotate_overlap_is_programmed :
    (sdma_process_rotate 32 (after_rotate_src FRAME_A 4096 0 4 4) 0 (rotate_dst_msg 16)
        (identified FRAME_A 4096)).2 = SYS_ERR_OK
    ∧ (sdma_process_rotate 32 (after_rotate_src FRAME_A 4096 0 4 4) 0 (rotate_dst_msg 16)
        (identified FRAME_A 4096)).1.calls
        = [sdma_call.start_rotate 0 FRAME_A (FRAME_A + 16) 4 4]
    ∧ ((sdma_process_rotate 32 (after_rotate_src FRAME_A 4096 0 4 4) 0 (rotate_dst_msg 16)
        (identified FRAME_A 4096)).1.sdma_dev.chans 0).ccr.enable = 1
    ∧ ¬ (FRAME_A + 4 * 4 * 4 ≤ FRAME_A + 16 ∨ FRAME_A + 16 + 4 * 4 * 4 ≤ FRAME_A) := by
  decide

/-! ## C4: the block programmed for a memcpy is rounded up to whole frames -/

/-- C4 fails on the code: a memcpy of `len = 96` from offset 4000 of the 4 KiB
frame `A` to offset 0 of frame `B` is accepted and programmed with `EN = 128`
and `FN = 1`, so the engine moves 512 bytes starting at offset 4000 and
`src_offset + 512 * FN = 4512` exceeds `src_id.bytes = 4096`. -/
theorem memcpy_block_exceeds_frame :
    (sdma_process_memcpy 32 (after_memcpy_src FRAME_A 4096 4000 96) 0 (memcpy_dst_msg 0)
        (identified FRAME_B 4096)).2 = SYS_ERR_OK
    ∧ (sdma_process_memcpy 32 (after_memcpy_src FRAME_A 4096 4000 96) 0 (memcpy_dst_msg 0)
        (identified FRAME_B 4096)).1.calls
        = [sdma_call.start_transfer 0 (FRAME_A + 4000) FRAME_B 96]
    ∧ ((sdma_process_memcpy 32 (after_memcpy_src FRAME_A 4096 4000 96) 0 (memcpy_dst_msg 0)
        (identified FRAME_B 4096)).1.sdma_dev.chans 0).cen = 128
    ∧ ((sdma_process_memcpy 32 (after_memcpy_src FRAME_A 4096 4000 96) 0 (memcpy_dst_msg 0)
        (identified FRAME_B 4096)).1.sdma_dev.chans 0).cfn = 1
    ∧ ((sdma_process_memcpy 32 (after_memcpy_src FRAME_A 4096 4000 96) 0 (memcpy_dst_msg 0)
        (identified FRAME_B 4096)).1.sdma_dev.chans 0).cssa = FRAME_A + 4000
    ∧ ¬ (((sdma_process_memcpy_record (after_memcpy_src FRAME_A 4096 4000 96) 0
          (memcpy_dst_msg 0) (identified FRAME_B 4096)).heap 0).src_offset
        + 512 * ((sdma_process_memcpy 32 (after_memcpy_src FRAME_A 4096 4000 96) 0
          (memcpy_dst_msg 0) (identified FRAME_B 4096)).1.sdma_dev.chans 0).cfn
        ≤ ((sdma_process_memcpy_record (after_memcpy_src FRAME_A 4096 4000 96) 0
          (memcpy_dst_msg 0) (identified FRAME_B 4096)).heap 0).src_id.bytes) := by
  decide

/-! ## C5: validation of a memset -/

theorem memset_conds_iff (offset len bytes : Nat) (ho : offset < SIZE_MOD)
    (hb : bytes < GEN_MOD) :
    (offset < bytes ∧ len ≤ gen_sub bytes offset) ↔ (offset < bytes ∧ len ≤ bytes - offset) := by
  simp only [SIZE_MOD, GEN_MOD] at ho hb
  simp only [gen_sub, GEN_MOD]
  constructor
  · rintro ⟨h1, h2⟩
    refine ⟨h1, ?_⟩
    have e : (bytes % 18446744073709551616 + 18446744073709551616
        - offset % 18446744073709551616) % 18446744073709551616 = bytes - offset := by omega
    rw [e] at h2
    exact h2
  · rintro ⟨h1, h2⟩
    refine ⟨h1, ?_⟩
    have e : (bytes % 18446744073709551616 + 18446744073709551616
        - offset % 18446744073709551616) % 18446744073709551616 = bytes - offset := by omega
    rw [e]
    exact h2

theorem word_lt (msg : lmp_recv_msg) (i : Nat) : msg.word i < SIZE_MOD := by
  unfold lmp_recv_msg.word to_size_t
  exact Nat.mod_lt _ (by decide)

/-! ## C6: the first transfer of a memset -/

/-- C6 fails on the code: `memset(cap, offset = 4096, len = 4096)` on the 8 KiB
frame `A` is accepted and its first transfer is programmed from the scratch
frame with length 4096, but to destination `A` (register `CDSA`), not to
`A + 4096`: the offset is validated and then left out of the address. -/
theorem memset_offset_not_applied :
    (sdma_process_memset 32 4096 sample_driver 0 (memset_msg 4096 4096 171)
        (identified FRAME_A 8192)).2 = SYS_ERR_OK
    ∧ (sdma_process_memset 32 4096 sample_driver 0 (memset_msg 4096 4096 171)
        (identified FRAME_A 8192)).1.calls
        = [sdma_call.start_transfer 0 (sample_driver.heap 0).memset_frame_id.base FRAME_A 4096]
    ∧ ((sdma_process_memset 32 4096 sample_driver 0 (memset_msg 4096 4096 171)
        (identified FRAME_A 8192)).1.sdma_dev.chans 0).cdsa = FRAME_A
    ∧ FRAME_A ≠ FRAME_A + 4096 := by
  decide

/-! ## The interrupt path, one flagged channel at a time -/

theorem sdma_update_channel_csr_eq (CLEAN : Nat) (sd : sdma_driver) (chan : Nat) :
    sdma_update_channel_csr CLEAN sd chan =
      { sd with
        sdma_dev := omap44xx_sdma_dma4_csr_wr sd.sdma_dev chan CLEAN,
        chan_state := Function.update sd.chan_state chan
          { transfer_in_progress :=
              if (sd.sdma_dev.chans chan).csr.block ≠ 0 then false
              else (sd.chan_state chan).transfer_in_progress,
            client := (sd.chan_state chan).client,
            err := csr_error (sd.sdma_dev.chans chan).csr } } := by
  unfold sdma_update_channel_csr csr_error
  simp only [set_chan]
  split_ifs <;> simp [Function.update_idem]

theorem two_pow_and_two_pow (a b : Nat) : (1 <<< a) &&& (1 <<< b) ≠ 0 ↔ b = a := by
  rw [Nat.one_shiftLeft, Nat.one_shiftLeft]
  constructor
  · intro h
    by_contra hne
    apply h
    apply Nat.eq_of_testBit_eq
    intro i
    simp only [Nat.testBit_and, Nat.testBit_two_pow, Nat.zero_testBit, Bool.and_eq_false_imp,
      decide_eq_true_eq, decide_eq_false_iff_not]
    intro h1 h2
    exact hne (h2.trans h1.symm)
  · intro h
    subst h
    rw [Nat.and_self]
    exact Nat.pos_iff_ne_zero.mp (Nat.two_pow_pos b)

theorem foldl_range_single {α : Type} (body : α → Nat → α) (flag : Nat → Bool) (chan : Nat)
    (hflag : ∀ i, flag i = true ↔ i = chan) (N : Nat) (a : α) :
    (List.range N).foldl (fun s i => if flag i then body s i else s) a
      = if chan < N then body a chan else a := by
  induction N with
  | zero => simp
  | succ n ih =>
    rw [List.range_succ, List.foldl_append, ih]
    simp only [List.foldl_cons, List.foldl_nil]
    by_cases h1 : chan < n
    · have hne : ¬ (flag n = true) := by
        rw [hflag]; omega
      have h2 : chan < n + 1 := by omega
      simp [h1, hne, h2]
    · by_cases h3 : chan = n
      · subst h3
        have hf : flag chan = true := (hflag chan).mpr rfl
        simp [hf]
      · have hne : ¬ (flag n = true) := by
          rw [hflag]; omega
        have h2 : ¬ chan < n + 1 := by omega
        simp [h1, hne, h2]

theorem sdma_update_channel_status_single (N CLEAN : Nat) (sd : sdma_driver)
    (irq_line chan : Nat) (hchan : chan < N) :
    sdma_update_channel_status N CLEAN sd irq_line (1 <<< chan)
      = sdma_update_channel N CLEAN
          { sd with sdma_dev := omap44xx_sdma_dma4_irqstatus_line_wr sd.sdma_dev irq_line CLEAN }
          chan := by
  unfold sdma_update_channel_status
  simp only []
  rw [foldl_range_single (sdma_update_channel N CLEAN)
    (fun ch => decide ((1 <<< chan) &&& (1 <<< ch) ≠ 0)) chan]
  · simp [hchan]
  · intro i
    simp only [decide_eq_true_eq]
    exact two_pow_and_two_pow chan i

theorem cpy_len_eq (d l : Nat) (hlt : d < l) (hl : l < SIZE_MOD) :
    (if d > size_sub l d then size_sub l d else d) = min d (l - d) := by
  simp only [SIZE_MOD] at hl
  have e : size_sub l d = l - d := by
    simp only [size_sub, SIZE_MOD]; omega
  rw [e]
  split <;> omega

theorem sdma_update_channel_ongoing_raw (N CLEAN : Nat) (sd : sdma_driver) (chan : Nat)
    (herr : csr_error (sd.sdma_dev.chans chan).csr = SYS_ERR_OK)
    (hop : (sd.heap (sd.chan_state chan).client).op_type = OpType_Memset)
    (hlt : (sd.heap (sd.chan_state chan).client).dst_offset < (sd.heap (sd.chan_state chan).client).len) :
    sdma_update_channel N CLEAN sd chan =
      (if sdma_avail_channel N (sdma_update_channel_csr CLEAN sd chan) < N then
        { sdma_dev := sdma_start_transfer_program (omap44xx_sdma_dma4_csr_wr sd.sdma_dev chan CLEAN)
            (sdma_avail_channel N (sdma_update_channel_csr CLEAN sd chan))
            (to_size_t (sd.heap (sd.chan_state chan).client).src_id.base)
            (size_add (to_size_t (sd.heap (sd.chan_state chan).client).dst_id.base) (sd.heap (sd.chan_state chan).client).dst_offset)
            (if (sd.heap (sd.chan_state chan).client).dst_offset > size_sub (sd.heap (sd.chan_state chan).client).len (sd.heap (sd.chan_state chan).client).dst_offset
              then size_sub (sd.heap (sd.chan_state chan).client).len (sd.heap (sd.chan_state chan).client).dst_offset
              else (sd.heap (sd.chan_state chan).client).dst_offset),
          chan_state := Function.update
            (Function.update (sdma_update_channel_csr CLEAN sd chan).chan_state
              (sdma_avail_channel N (sdma_update_channel_csr CLEAN sd chan))
              { transfer_in_progress := true, client := (sd.chan_state chan).client,
                err := ((sdma_update_channel_csr CLEAN sd chan).chan_state
                  (sdma_avail_channel N (sdma_update_channel_csr CLEAN sd chan))).err })
            chan
            { (Function.update (sdma_update_channel_csr CLEAN sd chan).chan_state
              (sdma_avail_channel N (sdma_update_channel_csr CLEAN sd chan))
              { transfer_in_progress := true, client := (sd.chan_state chan).client,
                err := ((sdma_update_channel_csr CLEAN sd chan).chan_state
                  (sdma_avail_channel N (sdma_update_channel_csr CLEAN sd chan))).err }) chan
              with err := SYS_ERR_OK },
          clients := sd.clients,
          heap := Function.update sd.heap (sd.chan_state chan).client
            { (sd.heap (sd.chan_state chan).client) with
              acked := false,
              dst_offset := size_add (sd.heap (sd.chan_state chan).client).dst_offset
                (if (sd.heap (sd.chan_state chan).client).dst_offset > size_sub (sd.heap (sd.chan_state chan).client).len (sd.heap (sd.chan_state chan).client).dst_offset
                  then size_sub (sd.heap (sd.chan_state chan).client).len (sd.heap (sd.chan_state chan).client).dst_offset
                  else (sd.heap (sd.chan_state chan).client).dst_offset) },
          calls := sd.calls ++ [sdma_call.start_transfer (sd.chan_state chan).client
            (to_size_t (sd.heap (sd.chan_state chan).client).src_id.base)
            (size_add (to_size_t (sd.heap (sd.chan_state chan).client).dst_id.base) (sd.heap (sd.chan_state chan).client).dst_offset)
            (if (sd.heap (sd.chan_state chan).client).dst_offset > size_sub (sd.heap (sd.chan_state chan).client).len (sd.heap (sd.chan_state chan).client).dst_offset
              then size_sub (sd.heap (sd.chan_state chan).client).len (sd.heap (sd.chan_state chan).client).dst_offset
              else (sd.heap (sd.chan_state chan).client).dst_offset)],
          sends := sd.sends }
      else
        { sdma_dev := omap44xx_sdma_dma4_csr_wr sd.sdma_dev chan CLEAN,
          chan_state := Function.update (sdma_update_channel_csr CLEAN sd chan).chan_state chan
            { (sdma_update_channel_csr CLEAN sd chan).chan_state chan
              with err := SDMA_ERR_NO_AVAIL_CHANNEL },
          clients := sd.clients,
          heap := Function.update sd.heap (sd.chan_state chan).client
            { (sd.heap (sd.chan_state chan).client) with
              acked := true,
              dst_offset := size_add (sd.heap (sd.chan_state chan).client).dst_offset
                (if (sd.heap (sd.chan_state chan).client).dst_offset > size_sub (sd.heap (sd.chan_state chan).client).len (sd.heap (sd.chan_state chan).client).dst_offset
                  then size_sub (sd.heap (sd.chan_state chan).client).len (sd.heap (sd.chan_state chan).client).dst_offset
                  else (sd.heap (sd.chan_state chan).client).dst_offset) },
          calls := sd.calls ++ [sdma_call.start_transfer (sd.chan_state chan).client
            (to_size_t (sd.heap (sd.chan_state chan).client).src_id.base)
            (size_add (to_size_t (sd.heap (sd.chan_state chan).client).dst_id.base) (sd.heap (sd.chan_state chan).client).dst_offset)
            (if (sd.heap (sd.chan_state chan).client).dst_offset > size_sub (sd.heap (sd.chan_state chan).client).len (sd.heap (sd.chan_state chan).client).dst_offset
              then size_sub (sd.heap (sd.chan_state chan).client).len (sd.heap (sd.chan_state chan).client).dst_offset
              else (sd.heap (sd.chan_state chan).client).dst_offset)],
          sends := sd.sends ++ [((sd.chan_state chan).client, SDMA_ERR_NO_AVAIL_CHANNEL)] }) := by
  have hc1 : ((sdma_update_channel_csr CLEAN sd chan).chan_state chan).client
      = (sd.chan_state chan).client := by
    rw [sdma_update_channel_csr_eq]; simp
  have he1 : ((sdma_update_channel_csr CLEAN sd chan).chan_state chan).err = SYS_ERR_OK := by
    rw [sdma_update_channel_csr_eq]; simp [herr]
  have hh1 : (sdma_update_channel_csr CLEAN sd chan).heap = sd.heap := by
    rw [sdma_update_channel_csr_eq]
  have hd1 : (sdma_update_channel_csr CLEAN sd chan).sdma_dev
      = omap44xx_sdma_dma4_csr_wr sd.sdma_dev chan CLEAN := by
    rw [sdma_update_channel_csr_eq]
  have hk1 : (sdma_update_channel_csr CLEAN sd chan).calls = sd.calls := by
    rw [sdma_update_channel_csr_eq]
  have hs1 : (sdma_update_channel_csr CLEAN sd chan).sends = sd.sends := by
    rw [sdma_update_channel_csr_eq]
  have hl1 : (sdma_update_channel_csr CLEAN sd chan).clients = sd.clients := by
    rw [sdma_update_channel_csr_eq]
  unfold sdma_update_channel
  simp only [hc1, he1, hh1, hop, hlt, err_is_ok, decide_True, Bool.and_self, if_true,
    sdma_start_transfer_eq, hd1, hk1, hs1, hl1]
  by_cases ha : sdma_avail_channel N (sdma_update_channel_csr CLEAN sd chan) < N
  · simp [ha, set_chan, set_client, err_is_fail, err_is_ok]
  · simp [ha, set_chan, set_client, err_is_fail, err_is_ok, hc1]

theorem sdma_update_channel_ongoing (N CLEAN : Nat) (sd : sdma_driver) (chan : Nat)
    (herr : csr_error (sd.sdma_dev.chans chan).csr = SYS_ERR_OK)
    (hop : (sd.heap (sd.chan_state chan).client).op_type = OpType_Memset)
    (hlt : (sd.heap (sd.chan_state chan).client).dst_offset < (sd.heap (sd.chan_state chan).client).len)
    (hlen : (sd.heap (sd.chan_state chan).client).len < SIZE_MOD) :
    sdma_update_channel N CLEAN sd chan =
      (if sdma_avail_channel N (sdma_update_channel_csr CLEAN sd chan) < N then
        { sdma_dev := sdma_start_transfer_program (omap44xx_sdma_dma4_csr_wr sd.sdma_dev chan CLEAN)
            (sdma_avail_channel N (sdma_update_channel_csr CLEAN sd chan))
            (to_size_t (sd.heap (sd.chan_state chan).client).src_id.base)
            (size_add (to_size_t (sd.heap (sd.chan_state chan).client).dst_id.base) (sd.heap (sd.chan_state chan).client).dst_offset)
            (min (sd.heap (sd.chan_state chan).client).dst_offset ((sd.heap (sd.chan_state chan).client).len - (sd.heap (sd.chan_state chan).client).dst_offset)),
          chan_state := Function.update
            (Function.update (sdma_update_channel_csr CLEAN sd chan).chan_state
              (sdma_avail_channel N (sdma_update_channel_csr CLEAN sd chan))
              { transfer_in_progress := true, client := (sd.chan_state chan).client,
                err := ((sdma_update_channel_csr CLEAN sd chan).chan_state
                  (sdma_avail_channel N (sdma_update_channel_csr CLEAN sd chan))).err })
            chan
            { (Function.update (sdma_update_channel_csr CLEAN sd chan).chan_state
              (sdma_avail_channel N (sdma_update_channel_csr CLEAN sd chan))
              { transfer_in_progress := true, client := (sd.chan_state chan).client,
                err := ((sdma_update_channel_csr CLEAN sd chan).chan_state
                  (sdma_avail_channel N (sdma_update_channel_csr CLEAN sd chan))).err }) chan
              with err := SYS_ERR_OK },
          clients := sd.clients,
          heap := Function.update sd.heap (sd.chan_state chan).client
            { (sd.heap (sd.chan_state chan).client) with
              acked := false,
              dst_offset := (sd.heap (sd.chan_state chan).client).dst_offset + min (sd.heap (sd.chan_state chan).client).dst_offset ((sd.heap (sd.chan_state chan).client).len - (sd.heap (sd.chan_state chan).client).dst_offset) },
          calls := sd.calls ++ [sdma_call.start_transfer (sd.chan_state chan).client
            (to_size_t (sd.heap (sd.chan_state chan).client).src_id.base)
            (size_add (to_size_t (sd.heap (sd.chan_state chan).client).dst_id.base) (sd.heap (sd.chan_state chan).client).dst_offset)
            (min (sd.heap (sd.chan_state chan).client).dst_offset ((sd.heap (sd.chan_state chan).client).len - (sd.heap (sd.chan_state chan).client).dst_offset))],
          sends := sd.sends }
      else
        { sdma_dev := omap44xx_sdma_dma4_csr_wr sd.sdma_dev chan CLEAN,
          chan_state := Function.update (sdma_update_channel_csr CLEAN sd chan).chan_state chan
            { (sdma_update_channel_csr CLEAN sd chan).chan_state chan
              with err := SDMA_ERR_NO_AVAIL_CHANNEL },
          clients := sd.clients,
          heap := Function.update sd.heap (sd.chan_state chan).client
            { (sd.heap (sd.chan_state chan).client) with
              acked := true,
              dst_offset := (sd.heap (sd.chan_state chan).client).dst_offset + min (sd.heap (sd.chan_state chan).client).dst_offset ((sd.heap (sd.chan_state chan).client).len - (sd.heap (sd.chan_state chan).client).dst_offset) },
          calls := sd.calls ++ [sdma_call.start_transfer (sd.chan_state chan).client
            (to_size_t (sd.heap (sd.chan_state chan).client).src_id.base)
            (size_add (to_size_t (sd.heap (sd.chan_state chan).client).dst_id.base) (sd.heap (sd.chan_state chan).client).dst_offset)
            (min (sd.heap (sd.chan_state chan).client).dst_offset ((sd.heap (sd.chan_state chan).client).len - (sd.heap (sd.chan_state chan).client).dst_offset))],
          sends := sd.sends ++ [((sd.chan_state chan).client, SDMA_ERR_NO_AVAIL_CHANNEL)] }) := by
  have hadd : size_add (sd.heap (sd.chan_state chan).client).dst_offset
      (min (sd.heap (sd.chan_state chan).client).dst_offset ((sd.heap (sd.chan_state chan).client).len - (sd.heap (sd.chan_state chan).client).dst_offset))
      = (sd.heap (sd.chan_state chan).client).dst_offset + min (sd.heap (sd.chan_state chan).client).dst_offset ((sd.heap (sd.chan_state chan).client).len - (sd.heap (sd.chan_state chan).client).dst_offset) := by
    simp only [SIZE_MOD] at hlen
    simp only [size_add, SIZE_MOD]
    omega
  rw [sdma_update_channel_ongoing_raw N CLEAN sd chan herr hop hlt]
  simp only [cpy_len_eq _ _ hlt hlen, hadd]

theorem sdma_update_channel_plain (N CLEAN : Nat) (sd : sdma_driver) (chan : Nat)
    (hnot : ¬ (csr_error (sd.sdma_dev.chans chan).csr = SYS_ERR_OK
      ∧ (sd.heap (sd.chan_state chan).client).op_type = OpType_Memset
      ∧ (sd.heap (sd.chan_state chan).client).dst_offset
          < (sd.heap (sd.chan_state chan).client).len)) :
    sdma_update_channel N CLEAN sd chan =
      (if (sd.heap (sd.chan_state chan).client).acked = false
          ∧ ((sd.sdma_dev.chans chan).csr.block ≠ 0
              ∨ (sd.chan_state chan).transfer_in_progress = false) then
        { sdma_update_channel_csr CLEAN sd chan with
          heap := Function.update sd.heap (sd.chan_state chan).client
            { sd.heap (sd.chan_state chan).client with acked := true },
          sends := sd.sends
            ++ [((sd.chan_state chan).client, csr_error (sd.sdma_dev.chans chan).csr)] }
      else sdma_update_channel_csr CLEAN sd chan) := by
  have hc1 : ((sdma_update_channel_csr CLEAN sd chan).chan_state chan).client
      = (sd.chan_state chan).client := by
    rw [sdma_update_channel_csr_eq]; simp
  have he1 : ((sdma_update_channel_csr CLEAN sd chan).chan_state chan).err
      = csr_error (sd.sdma_dev.chans chan).csr := by
    rw [sdma_update_channel_csr_eq]; simp
  have hp1 : ((sdma_update_channel_csr CLEAN sd chan).chan_state chan).transfer_in_progress
      = (if (sd.sdma_dev.chans chan).csr.block ≠ 0 then false
          else (sd.chan_state chan).transfer_in_progress) := by
    rw [sdma_update_channel_csr_eq]; simp
  have hh1 : (sdma_update_channel_csr CLEAN sd chan).heap = sd.heap := by
    rw [sdma_update_channel_csr_eq]
  have hs1 : (sdma_update_channel_csr CLEAN sd chan).sends = sd.sends := by
    rw [sdma_update_channel_csr_eq]
  have hog : (err_is_ok (csr_error (sd.sdma_dev.chans chan).csr)
      && decide ((sd.heap (sd.chan_state chan).client).op_type = OpType_Memset)
      && decide ((sd.heap (sd.chan_state chan).client).dst_offset
          < (sd.heap (sd.chan_state chan).client).len)) = false := by
    rw [Bool.eq_false_iff]
    intro h
    simp only [err_is_ok, Bool.and_eq_true, decide_eq_true_eq] at h
    exact hnot ⟨h.1.1, h.1.2, h.2⟩
  unfold sdma_update_channel
  simp only [hc1, he1, hh1, hs1, hp1, hog, Bool.false_eq_true, if_false]
  by_cases hb : (sd.sdma_dev.chans chan).csr.block ≠ 0
  · cases ha : (sd.heap (sd.chan_state chan).client).acked <;> simp [hb, ha, set_client, hh1]
  · cases ha : (sd.heap (sd.chan_state chan).client).acked <;>
      cases hp : (sd.chan_state chan).transfer_in_progress <;>
      simp [hb, ha, hp, set_client, hh1]

theorem csr_error_ok_iff (csr : csr_t) :
    csr_error csr = SYS_ERR_OK
      ↔ (csr.misaligned_adrs_err = 0 ∧ csr.supervisor_err = 0 ∧ csr.trans_err = 0) := by
  unfold csr_error
  split_ifs <;> simp_all

theorem size_add_to_size_t (a b : Nat) : size_add (to_size_t a) b = (a + b) % SIZE_MOD := by
  simp only [size_add, to_size_t, SIZE_MOD]
  omega

theorem irq_wr_chans (dev : omap44xx_sdma_t) (l v : Nat) :
    (omap44xx_sdma_dma4_irqstatus_line_wr dev l v).chans = dev.chans := rfl

theorem sdma_process_memset_accepted (N M : Nat) (sd : sdma_driver) (client : Nat)
    (msg : lmp_recv_msg) (idr : identify_result)
    (hid : idr.err = SYS_ERR_OK) (hb : idr.id.bytes < GEN_MOD)
    (hv : msg.word 1 < idr.id.bytes ∧ msg.word 2 ≤ idr.id.bytes - msg.word 1) :
    sdma_process_memset N M sd client msg idr =
      sdma_start_transfer N
        (set_client (set_client sd client (fun c =>
            { c with memset_buf := fun i =>
                if i < min (msg.word 2) M then msg.word 3 % 256 else c.memset_buf i }))
          client (fun c =>
            { c with op_type := OpType_Memset, len := msg.word 2, src_id := idr.id,
                     src_offset := 0, dst_id := idr.id, dst_offset := min (msg.word 2) M }))
        client (to_size_t (sd.heap client).memset_frame_id.base) (to_size_t idr.id.base)
        (min (msg.word 2) M) := by
  have hiff := memset_conds_iff (msg.word 1) (msg.word 2) idr.id.bytes (word_lt msg 1) hb
  have hmin : (if msg.word 2 < M then msg.word 2 else M) = min (msg.word 2) M := by
    split <;> omega
  unfold sdma_process_memset
  simp only [hid, err_is_ok, decide_True, if_true, Bool.and_eq_true, decide_eq_true_eq]
  rw [if_pos (hiff.mpr hv)]
  simp only [hmin]
  simp [set_client]

/-! ## C7: sources of the sub-transfers of a memset -/

/-- C7, as stated, fails: after `memset(A, 0, 8192)` the continuation issued by
`sdma_update_channel_status` at the first block-complete interrupt reads from
`A` (the target frame, `src_id.base`), not from the scratch frame. -/
theorem memset_continuation_source_is_target :
    (sdma_update_channel_status 32 0 (engine_block_complete sample_memset_started 0) 0
        (1 <<< 0)).calls
      = [sdma_call.start_transfer 0 (sample_driver.heap 0).memset_frame_id.base FRAME_A 4096,
         sdma_call.start_transfer 0 FRAME_A (FRAME_A + 4096) 4096]
    ∧ ((sdma_update_channel_status 32 0 (engine_block_complete sample_memset_started 0) 0
        (1 <<< 0)).heap 0).memset_frame_id.base ≠ FRAME_A := by
  decide

/-- C7 (amended): the first sub-transfer of an accepted memset, issued by
`sdma_process_memset`, has the scratch frame base `memset_frame_id.base` as its
source, and `sdma_process_memset` records the target frame in `src_id`; each
continuation issued by `sdma_update_channel_status` has `src_id.base`, the
base of that target frame, as its source. -/
theorem memset_sub_transfer_sources (N M CLEAN : Nat) (sd : sdma_driver) (client : Nat)
    (msg : lmp_recv_msg) (idr : identify_result)
    (hid : idr.err = SYS_ERR_OK) (hb : idr.id.bytes < GEN_MOD)
    (hv : msg.word 1 < idr.id.bytes ∧ msg.word 2 ≤ idr.id.bytes - msg.word 1)
    (sd2 : sdma_driver) (irq_line chan : Nat) (hchan : chan < N)
    (herr : (sd2.sdma_dev.chans chan).csr.misaligned_adrs_err = 0
      ∧ (sd2.sdma_dev.chans chan).csr.supervisor_err = 0
      ∧ (sd2.sdma_dev.chans chan).csr.trans_err = 0)
    (hop : (sd2.heap (sd2.chan_state chan).client).op_type = OpType_Memset)
    (hlt : (sd2.heap (sd2.chan_state chan).client).dst_offset
      < (sd2.heap (sd2.chan_state chan).client).len)
    (hlen : (sd2.heap (sd2.chan_state chan).client).len < SIZE_MOD) :
    (sdma_process_memset N M sd client msg idr).1.calls
        = sd.calls ++ [sdma_call.start_transfer client
            ((sd.heap client).memset_frame_id.base % SIZE_MOD) (idr.id.base % SIZE_MOD)
            (min (msg.word 2) M)]
    ∧ ((sdma_process_memset N M sd client msg idr).1.heap client).src_id = idr.id
    ∧ (sdma_update_channel_status N CLEAN sd2 irq_line (1 <<< chan)).calls
        = sd2.calls ++ [sdma_call.start_transfer (sd2.chan_state chan).client
            ((sd2.heap (sd2.chan_state chan).client).src_id.base % SIZE_MOD)
            (((sd2.heap (sd2.chan_state chan).client).dst_id.base
              + (sd2.heap (sd2.chan_state chan).client).dst_offset) % SIZE_MOD)
            (min (sd2.heap (sd2.chan_state chan).client).dst_offset
              ((sd2.heap (sd2.chan_state chan).client).len
                - (sd2.heap (sd2.chan_state chan).client).dst_offset))] := by
  refine ⟨?_, ?_, ?_⟩
  · rw [sdma_process_memset_accepted N M sd client msg idr hid hb hv, sdma_start_transfer_calls]
    simp only [to_size_t, set_client]
  · rw [sdma_process_memset_accepted N M sd client msg idr hid hb hv, sdma_start_transfer_heap]
    simp [set_client]
  · rw [sdma_update_channel_status_single N CLEAN sd2 irq_line chan hchan,
      sdma_update_channel_ongoing N CLEAN
        { sd2 with sdma_dev := omap44xx_sdma_dma4_irqstatus_line_wr sd2.sdma_dev irq_line CLEAN }
        chan ((csr_error_ok_iff _).mpr herr) hop hlt hlen]
    split
    · simp only [size_add_to_size_t]
      simp only [to_size_t]
    · simp only [size_add_to_size_t]
      simp only [to_size_t]

/-- Witness of `memset_sub_transfer_sources`: `memset(A, 0, 8192)` on the
sample driver and its first block-complete interrupt. -/
theorem memset_sub_transfer_sources_witness :
    (identified FRAME_A 8192).err = SYS_ERR_OK
    ∧ ((engine_block_complete sample_memset_started 0).heap
        ((engine_block_complete sample_memset_started 0).chan_state 0).client).op_type
        = OpType_Memset
    ∧ (sdma_process_memset 32 4096 sample_driver 0 (memset_msg 0 8192 171)
        (identified FRAME_A 8192)).1.calls
      = sample_driver.calls ++ [sdma_call.start_transfer 0
          ((sample_driver.heap 0).memset_frame_id.base % SIZE_MOD)
          ((identified FRAME_A 8192).id.base % SIZE_MOD)
          (min ((memset_msg 0 8192 171).word 2) 4096)]
    ∧ ((sdma_process_memset 32 4096 sample_driver 0 (memset_msg 0 8192 171)
        (identified FRAME_A 8192)).1.heap 0).src_id = (identified FRAME_A 8192).id :=
  ⟨by decide, by decide,
   (memset_sub_transfer_sources 32 4096 0 sample_driver 0 (memset_msg 0 8192 171)
      (identified FRAME_A 8192) (by decide) (by decide) (by decide)
      (engine_block_complete sample_memset_started 0) 0 0 (by decide) (by decide) (by decide)
      (by decide) (by decide)).1,
   (memset_sub_transfer_sources 32 4096 0 sample_driver 0 (memset_msg 0 8192 171)
      (identified FRAME_A 8192) (by decide) (by decide) (by decide)
      (engine_block_complete sample_memset_started 0) 0 0 (by decide) (by decide) (by decide)
      (by decide) (by decide)).2.1⟩

/-! ## C8: one continuation step of a memset -/

/-- C8: on an interrupt for channel `chan` with no error bit set, whose owning
session has `op_type = OpType_Memset` and `dst_offset < len`,
`sdma_update_channel_status` makes exactly one start call, a linear transfer of
length `cpy_len = min(dst_offset, len - dst_offset)` to destination
`dst_id.base + dst_offset` (in `size_t` arithmetic), sets `dst_offset` to
`dst_offset + cpy_len`, and registers no completion reply when the start
succeeds; the start fails only with `SDMA_ERR_NO_AVAIL_CHANNEL`. -/
theorem memset_continuation_step (N CLEAN : Nat) (sd : sdma_driver) (irq_line chan : Nat)
    (hchan : chan < N)
    (herr : (sd.sdma_dev.chans chan).csr.misaligned_adrs_err = 0
      ∧ (sd.sdma_dev.chans chan).csr.supervisor_err = 0
      ∧ (sd.sdma_dev.chans chan).csr.trans_err = 0)
    (hop : (sd.heap (sd.chan_state chan).client).op_type = OpType_Memset)
    (hlt : (sd.heap (sd.chan_state chan).client).dst_offset
      < (sd.heap (sd.chan_state chan).client).len)
    (hlen : (sd.heap (sd.chan_state chan).client).len < SIZE_MOD) :
    (sdma_update_channel_status N CLEAN sd irq_line (1 <<< chan)).calls
      = sd.calls ++ [sdma_call.start_transfer (sd.chan_state chan).client
          ((sd.heap (sd.chan_state chan).client).src_id.base % SIZE_MOD)
          (((sd.heap (sd.chan_state chan).client).dst_id.base
            + (sd.heap (sd.chan_state chan).client).dst_offset) % SIZE_MOD)
          (min (sd.heap (sd.chan_state chan).client).dst_offset
            ((sd.heap (sd.chan_state chan).client).len
              - (sd.heap (sd.chan_state chan).client).dst_offset))]
    ∧ ((sdma_update_channel_status N CLEAN sd irq_line (1 <<< chan)).heap
          (sd.chan_state chan).client).dst_offset
      = (sd.heap (sd.chan_state chan).client).dst_offset
        + min (sd.heap (sd.chan_state chan).client).dst_offset
            ((sd.heap (sd.chan_state chan).client).len
              - (sd.heap (sd.chan_state chan).client).dst_offset)
    ∧ (((sdma_update_channel_status N CLEAN sd irq_line (1 <<< chan)).chan_state chan).err
          = SYS_ERR_OK
        ∧ (sdma_update_channel_status N CLEAN sd irq_line (1 <<< chan)).sends = sd.sends
      ∨ ((sdma_update_channel_status N CLEAN sd irq_line (1 <<< chan)).chan_state chan).err
          = SDMA_ERR_NO_AVAIL_CHANNEL
        ∧ (sdma_update_channel_status N CLEAN sd irq_line (1 <<< chan)).sends
          = sd.sends ++ [((sd.chan_state chan).client, SDMA_ERR_NO_AVAIL_CHANNEL)]) := by
  rw [sdma_update_channel_status_single N CLEAN sd irq_line chan hchan,
    sdma_update_channel_ongoing N CLEAN
      { sd with sdma_dev := omap44xx_sdma_dma4_irqstatus_line_wr sd.sdma_dev irq_line CLEAN }
      chan ((csr_error_ok_iff _).mpr herr) hop hlt hlen]
  split
  · refine ⟨?_, ?_, ?_⟩
    · simp only [size_add_to_size_t]
      simp only [to_size_t]
    · simp
    · left
      simp
  · refine ⟨?_, ?_, ?_⟩
    · simp only [size_add_to_size_t]
      simp only [to_size_t]
    · simp
    · right
      simp

/-- Witness of `memset_continuation_step`: the first block-complete interrupt
of `memset(A, 0, 8192)` with a 4 KiB scratch buffer copies `[A, A+4096)` to
`A + 4096` and sends nothing. -/
theorem memset_continuation_step_witness :
    (sdma_update_channel_status 32 0 (engine_block_complete sample_memset_started 0) 0
        (1 <<< 0)).calls
      = (engine_block_complete sample_memset_started 0).calls
        ++ [sdma_call.start_transfer 0 (FRAME_A % SIZE_MOD) ((FRAME_A + 4096) % SIZE_MOD)
              (min 4096 (8192 - 4096))]
    ∧ ((sdma_update_channel_status 32 0 (engine_block_complete sample_memset_started 0) 0
        (1 <<< 0)).heap 0).dst_offset = 4096 + min 4096 (8192 - 4096) :=
  ⟨(memset_continuation_step 32 0 (engine_block_complete sample_memset_started 0) 0 0
      (by decide) (by decide) (by decide) (by decide) (by decide)).1,
   (memset_continuation_step 32 0 (engine_block_complete sample_memset_started 0) 0 0
      (by decide) (by decide) (by decide) (by decide) (by decide)).2.1⟩

/-! ## Replies and starts along the interrupt path -/

theorem sdma_update_channel_balance (N CLEAN : Nat) (sd : sdma_driver) (chan c : Nat) :
    replies_to (sdma_update_channel N CLEAN sd chan) c
        + reply_pending (sdma_update_channel N CLEAN sd chan) c + starts_for sd c
      ≤ replies_to sd c + reply_pending sd c
        + starts_for (sdma_update_channel N CLEAN sd chan) c := by
  by_cases hog : csr_error (sd.sdma_dev.chans chan).csr = SYS_ERR_OK
      ∧ (sd.heap (sd.chan_state chan).client).op_type = OpType_Memset
      ∧ (sd.heap (sd.chan_state chan).client).dst_offset
          < (sd.heap (sd.chan_state chan).client).len
  · rw [sdma_update_channel_ongoing_raw N CLEAN sd chan hog.1 hog.2.1 hog.2.2]
    by_cases hc : (sd.chan_state chan).client = c
    · subst hc
      split <;>
        cases ha : (sd.heap (sd.chan_state chan).client).acked <;>
        simp [replies_to, reply_pending, starts_for, List.countP_append, sdma_call.client_of,
          ha] <;>
        omega
    · have hc' : ¬ c = (sd.chan_state chan).client := fun h => hc h.symm
      split <;>
        simp [replies_to, reply_pending, starts_for, List.countP_append, sdma_call.client_of,
          hc, hc', Function.update_noteq]
  · rw [sdma_update_channel_plain N CLEAN sd chan hog, sdma_update_channel_csr_eq]
    by_cases hc : (sd.chan_state chan).client = c
    · subst hc
      split <;>
        cases ha : (sd.heap (sd.chan_state chan).client).acked <;>
        simp_all [replies_to, reply_pending, starts_for, List.countP_append]
    · have hc' : ¬ c = (sd.chan_state chan).client := fun h => hc h.symm
      split <;>
        simp [replies_to, reply_pending, starts_for, List.countP_append,
          hc, hc', Function.update_noteq]

theorem sdma_update_channel_fold_balance (N CLEAN : Nat) (flag : Nat → Bool) (c : Nat)
    (L : List Nat) (sd : sdma_driver) :
    replies_to (L.foldl (fun s ch => if flag ch then sdma_update_channel N CLEAN s ch else s) sd) c
        + reply_pending
            (L.foldl (fun s ch => if flag ch then sdma_update_channel N CLEAN s ch else s) sd) c
        + starts_for sd c
      ≤ replies_to sd c + reply_pending sd c
        + starts_for
            (L.foldl (fun s ch => if flag ch then sdma_update_channel N CLEAN s ch else s) sd) c := by
  induction L generalizing sd with
  | nil => simp
  | cons ch rest ih =>
    simp only [List.foldl_cons]
    by_cases hf : flag ch = true
    · simp only [hf, if_true]
      have h1 := sdma_update_channel_balance N CLEAN sd ch c
      have h2 := ih (sdma_update_channel N CLEAN sd ch)
      omega
    · simp only [hf, Bool.false_eq_true, if_false]
      exact ih sd

theorem sdma_update_channel_status_balance (N CLEAN : Nat) (sd : sdma_driver)
    (irq_line irq_status c : Nat) :
    replies_to (sdma_update_channel_status N CLEAN sd irq_line irq_status) c
        + reply_pending (sdma_update_channel_status N CLEAN sd irq_line irq_status) c
        + starts_for sd c
      ≤ replies_to sd c + reply_pending sd c
        + starts_for (sdma_update_channel_status N CLEAN sd irq_line irq_status) c := by
  unfold sdma_update_channel_status
  exact sdma_update_channel_fold_balance N CLEAN _ c (List.range N)
    { sd with sdma_dev := omap44xx_sdma_dma4_irqstatus_line_wr sd.sdma_dev irq_line CLEAN }

theorem sdma_run_interrupts_balance (N CLEAN : Nat) (c : Nat) (evs : List irq_event)
    (sd : sdma_driver) :
    replies_to (sdma_run_interrupts N CLEAN sd evs) c
        + reply_pending (sdma_run_interrupts N CLEAN sd evs) c + starts_for sd c
      ≤ replies_to sd c + reply_pending sd c
        + starts_for (sdma_run_interrupts N CLEAN sd evs) c := by
  induction evs generalizing sd with
  | nil => simp [sdma_run_interrupts]
  | cons e rest ih =>
    obtain ⟨X, hX⟩ : ∃ X, X = sdma_update_channel_status N CLEAN
        { sd with sdma_dev := { sd.sdma_dev with chans := e.chans } } e.irq_line e.irq_status :=
      ⟨_, rfl⟩
    have hrun : sdma_run_interrupts N CLEAN sd (e :: rest) = sdma_run_interrupts N CLEAN X rest := by
      rw [hX]; rfl
    have h1 : replies_to X c + reply_pending X c + starts_for sd c
        ≤ replies_to sd c + reply_pending sd c + starts_for X c := by
      rw [hX]
      exact sdma_update_channel_status_balance N CLEAN
        { sd with sdma_dev := { sd.sdma_dev with chans := e.chans } } e.irq_line e.irq_status c
    have h2 := ih X
    rw [hrun]
    omega

theorem reply_pending_le_one (sd : sdma_driver) (c : Nat) : reply_pending sd c ≤ 1 := by
  unfold reply_pending
  split <;> omega

/-! ## C10: at most one completion reply per started transfer -/

/-- C10: on an interrupt for channel `chan` that is not an ongoing memset (an
error bit is set, or the owning session has `op_type ≠ OpType_Memset` or
`dst_offset ≥ len`), `sdma_update_channel_status` registers a completion reply
(carrying the decoded error) if and only if the owning session's `acked` is
false and the slot is no longer in use after the status decode, and then sets
`acked`; it makes no start call.  Hence along any sequence of interrupts the
replies registered for a session are bounded by its start calls: with no start
call in between, at most one reply is added, and none once `acked` is set. -/
theorem completion_reply_once (N CLEAN : Nat) (sd : sdma_driver) (irq_line chan : Nat)
    (hchan : chan < N)
    (hnot : ¬ (((sd.sdma_dev.chans chan).csr.misaligned_adrs_err = 0
        ∧ (sd.sdma_dev.chans chan).csr.supervisor_err = 0
        ∧ (sd.sdma_dev.chans chan).csr.trans_err = 0)
      ∧ (sd.heap (sd.chan_state chan).client).op_type = OpType_Memset
      ∧ (sd.heap (sd.chan_state chan).client).dst_offset
          < (sd.heap (sd.chan_state chan).client).len)) :
    ((sdma_update_channel_status N CLEAN sd irq_line (1 <<< chan)).sends
        = sd.sends ++ [((sd.chan_state chan).client, csr_error (sd.sdma_dev.chans chan).csr)]
      ↔ ((sd.heap (sd.chan_state chan).client).acked = false
          ∧ ((sdma_update_channel_status N CLEAN sd irq_line (1 <<< chan)).chan_state
              chan).transfer_in_progress = false))
    ∧ (¬ ((sd.heap (sd.chan_state chan).client).acked = false
          ∧ ((sdma_update_channel_status N CLEAN sd irq_line (1 <<< chan)).chan_state
              chan).transfer_in_progress = false)
        → (sdma_update_channel_status N CLEAN sd irq_line (1 <<< chan)).sends = sd.sends)
    ∧ (((sd.heap (sd.chan_state chan).client).acked = false
          ∧ ((sdma_update_channel_status N CLEAN sd irq_line (1 <<< chan)).chan_state
              chan).transfer_in_progress = false)
        → ((sdma_update_channel_status N CLEAN sd irq_line (1 <<< chan)).heap
            (sd.chan_state chan).client).acked = true)
    ∧ (sdma_update_channel_status N CLEAN sd irq_line (1 <<< chan)).calls = sd.calls
    ∧ (∀ (sd2 : sdma_driver) (c : Nat) (evs : List irq_event),
        replies_to (sdma_run_interrupts N CLEAN sd2 evs) c
            + reply_pending (sdma_run_interrupts N CLEAN sd2 evs) c + starts_for sd2 c
          ≤ replies_to sd2 c + reply_pending sd2 c
            + starts_for (sdma_run_interrupts N CLEAN sd2 evs) c)
    ∧ (∀ (sd2 : sdma_driver) (c : Nat) (evs : List irq_event),
        (sdma_run_interrupts N CLEAN sd2 evs).calls = sd2.calls →
          replies_to (sdma_run_interrupts N CLEAN sd2 evs) c ≤ replies_to sd2 c + 1
          ∧ ((sd2.heap c).acked = true →
              replies_to (sdma_run_interrupts N CLEAN sd2 evs) c ≤ replies_to sd2 c)) := by
  have hnot' : ¬ (csr_error (sd.sdma_dev.chans chan).csr = SYS_ERR_OK
      ∧ (sd.heap (sd.chan_state chan).client).op_type = OpType_Memset
      ∧ (sd.heap (sd.chan_state chan).client).dst_offset
          < (sd.heap (sd.chan_state chan).client).len) := by
    rw [csr_error_ok_iff]
    exact hnot
  have hrun : ∀ (sd2 : sdma_driver) (c : Nat) (evs : List irq_event),
      (sdma_run_interrupts N CLEAN sd2 evs).calls = sd2.calls →
        replies_to (sdma_run_interrupts N CLEAN sd2 evs) c ≤ replies_to sd2 c + 1
        ∧ ((sd2.heap c).acked = true →
            replies_to (sdma_run_interrupts N CLEAN sd2 evs) c ≤ replies_to sd2 c) := by
    intro sd2 c evs hcalls
    have hb := sdma_run_interrupts_balance N CLEAN c evs sd2
    have hs : starts_for (sdma_run_interrupts N CLEAN sd2 evs) c = starts_for sd2 c := by
      unfold starts_for
      rw [hcalls]
    have hp := reply_pending_le_one sd2 c
    refine ⟨by omega, fun hacked => ?_⟩
    have hp0 : reply_pending sd2 c = 0 := by
      unfold reply_pending
      simp [hacked]
    omega
  rw [sdma_update_channel_status_single N CLEAN sd irq_line chan hchan,
    sdma_update_channel_plain N CLEAN
      { sd with sdma_dev := omap44xx_sdma_dma4_irqstatus_line_wr sd.sdma_dev irq_line CLEAN }
      chan hnot', sdma_update_channel_csr_eq]
  refine ⟨?_, ?_, ?_, ?_, fun sd2 c evs => sdma_run_interrupts_balance N CLEAN c evs sd2, hrun⟩
  · by_cases hb : (sd.sdma_dev.chans chan).csr.block ≠ 0 <;>
      cases ha : (sd.heap (sd.chan_state chan).client).acked <;>
      cases hp : (sd.chan_state chan).transfer_in_progress <;>
      simp [hb, ha, hp, irq_wr_chans]
  · by_cases hb : (sd.sdma_dev.chans chan).csr.block ≠ 0 <;>
      cases ha : (sd.heap (sd.chan_state chan).client).acked <;>
      cases hp : (sd.chan_state chan).transfer_in_progress <;>
      simp [hb, ha, hp, irq_wr_chans]
  · by_cases hb : (sd.sdma_dev.chans chan).csr.block ≠ 0 <;>
      cases ha : (sd.heap (sd.chan_state chan).client).acked <;>
      cases hp : (sd.chan_state chan).transfer_in_progress <;>
      simp [hb, ha, hp, irq_wr_chans]
  · split <;> rfl

/-- Witness of `completion_reply_once`: the block-complete interrupt of the
memcpy in flight in `sample_busy` registers one reply `SYS_ERR_OK` for session
0 and sets `acked`. -/
theorem completion_reply_once_witness :
    (sdma_update_channel_status 32 0 (engine_block_complete sample_busy 0) 0 (1 <<< 0)).sends
      = (engine_block_complete sample_busy 0).sends
        ++ [(((engine_block_complete sample_busy 0).chan_state 0).client,
              csr_error ((engine_block_complete sample_busy 0).sdma_dev.chans 0).csr)]
    ∧ ((sdma_update_channel_status 32 0 (engine_block_complete sample_busy 0) 0 (1 <<< 0)).heap
        ((engine_block_complete sample_busy 0).chan_state 0).client).acked = true :=
  ⟨(completion_reply_once 32 0 (engine_block_complete sample_busy 0) 0 0 (by decide)
      (by decide)).1.mpr (by decide),
   (completion_reply_once 32 0 (engine_block_complete sample_busy 0) 0 0 (by decide)
      (by decide)).2.2.1 (by decide)⟩

/-! ## C9: a memset runs to completion in logarithmically many sub-transfers -/

theorem sdma_avail_channel_lt (N : Nat) (sd : sdma_driver) (ch : Nat) (hch : ch < N)
    (hfree : (sd.chan_state ch).transfer_in_progress = false) :
    sdma_avail_channel N sd < N := by
  unfold sdma_avail_channel
  cases hf : (List.range N).find? (fun chan => !(sd.chan_state chan).transfer_in_progress) with
  | none =>
    rw [List.find?_eq_none] at hf
    have := hf ch (List.mem_range.mpr hch)
    simp [hfree] at this
  | some a =>
    have hmem := List.mem_of_find?_eq_some hf
    simpa using List.mem_range.mp hmem

theorem sdma_start_transfer_program_last (dev : omap44xx_sdma_t) (chan s d l : Nat) :
    ∃ v, (sdma_start_transfer_program dev chan s d l).writes.getLast? = some (reg_write.ccr chan v) := by
  unfold sdma_start_transfer_program
  simp only [omap44xx_sdma_dma4_ccr_wr, dev_store]
  exact ⟨_, List.getLast?_concat _⟩

theorem last_enabled_channel_of_last (sd : sdma_driver) (chan : Nat) (v : ccr_t)
    (h : sd.sdma_dev.writes.getLast? = some (reg_write.ccr chan v)) :
    last_enabled_channel sd = chan := by
  unfold last_enabled_channel
  rw [h]

theorem last_enabled_channel_program (dev : omap44xx_sdma_t) (chan s d l : Nat)
    (cs : Nat → channel_state) (cl : Option Nat) (hp : Nat → client_state)
    (calls : List sdma_call) (sends : List (Nat × errval_t)) :
    last_enabled_channel
      { sdma_dev := sdma_start_transfer_program dev chan s d l, chan_state := cs, clients := cl,
        heap := hp, calls := calls, sends := sends } = chan := by
  obtain ⟨v, hv⟩ := sdma_start_transfer_program_last dev chan s d l
  unfold last_enabled_channel
  simp only [hv]

theorem engine_block_complete_frame (sd : sdma_driver) (chan : Nat) :
    (engine_block_complete sd chan).chan_state = sd.chan_state
    ∧ (engine_block_complete sd chan).heap = sd.heap
    ∧ (engine_block_complete sd chan).calls = sd.calls
    ∧ (engine_block_complete sd chan).sends = sd.sends
    ∧ (engine_block_complete sd chan).clients = sd.clients :=
  ⟨rfl, rfl, rfl, rfl, rfl⟩

theorem block_complete_interrupt_continues (N CLEAN : Nat) (sd : sdma_driver)
    (client len d : Nat) (hrun : memset_running N sd client len d) (hlt : d < len)
    (hlen : len < SIZE_MOD) :
    memset_running N (block_complete_interrupt N CLEAN sd) client len (d + min d (len - d))
    ∧ (block_complete_interrupt N CLEAN sd).sends = sd.sends
    ∧ (block_complete_interrupt N CLEAN sd).calls.length = sd.calls.length + 1 := by
  obtain ⟨hch, hcl, hop, hl, hd, hack⟩ := hrun
  have herr : csr_error (({ engine_block_complete sd (last_enabled_channel sd) with
        sdma_dev := omap44xx_sdma_dma4_irqstatus_line_wr
          (engine_block_complete sd (last_enabled_channel sd)).sdma_dev 0 CLEAN }
      : sdma_driver).sdma_dev.chans (last_enabled_channel sd)).csr = SYS_ERR_OK := by
    simp [engine_block_complete, omap44xx_sdma_dma4_irqstatus_line_wr, csr_error]
  have hop' : (sd.heap (sd.chan_state (last_enabled_channel sd)).client).op_type
      = OpType_Memset := by rw [hcl]; exact hop
  have hlt' : (sd.heap (sd.chan_state (last_enabled_channel sd)).client).dst_offset
      < (sd.heap (sd.chan_state (last_enabled_channel sd)).client).len := by
    rw [hcl, hl, hd]; exact hlt
  have hlen' : (sd.heap (sd.chan_state (last_enabled_channel sd)).client).len < SIZE_MOD := by
    rw [hcl, hl]; exact hlen
  have hav : sdma_avail_channel N (sdma_update_channel_csr CLEAN
      { engine_block_complete sd (last_enabled_channel sd) with
        sdma_dev := omap44xx_sdma_dma4_irqstatus_line_wr
          (engine_block_complete sd (last_enabled_channel sd)).sdma_dev 0 CLEAN }
      (last_enabled_channel sd)) < N := by
    apply sdma_avail_channel_lt N _ (last_enabled_channel sd) hch
    rw [sdma_update_channel_csr_eq]
    simp [engine_block_complete, omap44xx_sdma_dma4_irqstatus_line_wr]
  unfold block_complete_interrupt
  rw [sdma_update_channel_status_single N CLEAN _ 0 (last_enabled_channel sd) hch,
    sdma_update_channel_ongoing N CLEAN
      { engine_block_complete sd (last_enabled_channel sd) with
        sdma_dev := omap44xx_sdma_dma4_irqstatus_line_wr
          (engine_block_complete sd (last_enabled_channel sd)).sdma_dev 0 CLEAN }
      (last_enabled_channel sd) herr hop' hlt' hlen',
    if_pos hav]
  generalize sdma_avail_channel N (sdma_update_channel_csr CLEAN
      { engine_block_complete sd (last_enabled_channel sd) with
        sdma_dev := omap44xx_sdma_dma4_irqstatus_line_wr
          (engine_block_complete sd (last_enabled_channel sd)).sdma_dev 0 CLEAN }
      (last_enabled_channel sd)) = a at hav ⊢
  generalize (sdma_update_channel_csr CLEAN
      { engine_block_complete sd (last_enabled_channel sd) with
        sdma_dev := omap44xx_sdma_dma4_irqstatus_line_wr
          (engine_block_complete sd (last_enabled_channel sd)).sdma_dev 0 CLEAN }
      (last_enabled_channel sd)).chan_state = cs1
  have hfr := engine_block_complete_frame sd (last_enabled_channel sd)
  refine ⟨?_, ?_, ?_⟩
  · unfold memset_running
    rw [last_enabled_channel_program]
    simp only [hfr.1, hfr.2.1, hcl]
    rw [show ((engine_block_complete sd (last_enabled_channel sd)).chan_state
      (last_enabled_channel sd)).client = client from hcl]
    refine ⟨hav, ?_, ?_, ?_, ?_, ?_⟩
    · by_cases hac : a = last_enabled_channel sd
      · subst hac
        simp
      · simp [Function.update_noteq hac]
    · simp [hcl, hop]
    · simp [hcl, hl]
    · simp [hcl, hl, hd]
    · simp [hcl]
  · simp only [hfr.2.2.2.1]
  · simp only [hfr.2.2.1]
    simp

theorem block_complete_interrupt_finishes (N CLEAN : Nat) (sd : sdma_driver)
    (client len : Nat) (hrun : memset_running N sd client len len) :
    (block_complete_interrupt N CLEAN sd).sends = sd.sends ++ [(client, SYS_ERR_OK)]
    ∧ (block_complete_interrupt N CLEAN sd).calls = sd.calls
    ∧ ((block_complete_interrupt N CLEAN sd).heap client).dst_offset = len
    ∧ ((block_complete_interrupt N CLEAN sd).heap client).acked = true := by
  obtain ⟨hch, hcl, hop, hl, hd, hack⟩ := hrun
  obtain ⟨X, hX⟩ : ∃ X : sdma_driver, X = { engine_block_complete sd (last_enabled_channel sd) with
      sdma_dev := omap44xx_sdma_dma4_irqstatus_line_wr
        (engine_block_complete sd (last_enabled_channel sd)).sdma_dev 0 CLEAN } := ⟨_, rfl⟩
  have hXc : X.chan_state = sd.chan_state := by rw [hX]; rfl
  have hXh : X.heap = sd.heap := by rw [hX]; rfl
  have hXs : X.sends = sd.sends := by rw [hX]; rfl
  have hXk : X.calls = sd.calls := by rw [hX]; rfl
  have hXr : (X.sdma_dev.chans (last_enabled_channel sd)).csr
      = { misaligned_adrs_err := 0, supervisor_err := 0, trans_err := 0, block := 1 } := by
    rw [hX]
    simp [engine_block_complete, omap44xx_sdma_dma4_irqstatus_line_wr]
  have hXcl : (X.chan_state (last_enabled_channel sd)).client = client := by
    rw [hXc]; exact hcl
  have hnot : ¬ (csr_error (X.sdma_dev.chans (last_enabled_channel sd)).csr = SYS_ERR_OK
      ∧ (X.heap (X.chan_state (last_enabled_channel sd)).client).op_type = OpType_Memset
      ∧ (X.heap (X.chan_state (last_enabled_channel sd)).client).dst_offset
          < (X.heap (X.chan_state (last_enabled_channel sd)).client).len) := by
    rw [hXcl, hXh, hl, hd]
    intro h
    exact absurd h.2.2 (Nat.lt_irrefl _)
  have hcond : (X.heap (X.chan_state (last_enabled_channel sd)).client).acked = false
      ∧ ((X.sdma_dev.chans (last_enabled_channel sd)).csr.block ≠ 0
        ∨ (X.chan_state (last_enabled_channel sd)).transfer_in_progress = false) := by
    refine ⟨by rw [hXcl, hXh]; exact hack, Or.inl ?_⟩
    rw [hXr]
    decide
  have herr : csr_error (X.sdma_dev.chans (last_enabled_channel sd)).csr = SYS_ERR_OK := by
    rw [hXr]
    decide
  unfold block_complete_interrupt
  rw [sdma_update_channel_status_single N CLEAN _ 0 (last_enabled_channel sd) hch, ← hX,
    sdma_update_channel_plain N CLEAN X (last_enabled_channel sd) hnot, if_pos hcond, herr,
    hXcl, hXh, hXs]
  refine ⟨rfl, ?_, ?_, ?_⟩
  · rw [sdma_update_channel_csr_eq]
    exact hXk
  · simp only [Function.update_same]
    exact hd
  · simp only [Function.update_same]

theorem sdma_process_memset_starts (N M : Nat) (sd : sdma_driver) (client : Nat)
    (msg : lmp_recv_msg) (idr : identify_result)
    (hid : idr.err = SYS_ERR_OK) (hb : idr.id.bytes < GEN_MOD)
    (hv : msg.word 1 < idr.id.bytes ∧ msg.word 2 ≤ idr.id.bytes - msg.word 1)
    (hfree : sdma_avail_channel N sd < N) :
    memset_running N (sdma_process_memset N M sd client msg idr).1 client (msg.word 2)
      (min (msg.word 2) M)
    ∧ (sdma_process_memset N M sd client msg idr).1.sends = sd.sends
    ∧ (sdma_process_memset N M sd client msg idr).1.calls.length = sd.calls.length + 1
    ∧ (sdma_process_memset N M sd client msg idr).2 = SYS_ERR_OK := by
  rw [sdma_process_memset_accepted N M sd client msg idr hid hb hv, sdma_start_transfer_eq]
  have hav : sdma_avail_channel N
      (set_client (set_client sd client (fun c =>
          { c with memset_buf := fun i =>
              if i < min (msg.word 2) M then msg.word 3 % 256 else c.memset_buf i }))
        client (fun c =>
          { c with op_type := OpType_Memset, len := msg.word 2, src_id := idr.id,
                   src_offset := 0, dst_id := idr.id, dst_offset := min (msg.word 2) M }))
      = sdma_avail_channel N sd := sdma_avail_channel_frame _ _ _ rfl
  rw [hav, if_pos hfree]
  refine ⟨?_, ?_, ?_, rfl⟩
  · unfold memset_running
    rw [last_enabled_channel_program]
    refine ⟨hfree, ?_, ?_, ?_, ?_, ?_⟩ <;> simp [set_client]
  · simp [set_client]
  · simp [set_client]

theorem clog_steps_lt (L M j : Nat) (hM : 1 ≤ M)
    (hj : j < Nat.clog 2 ((L + M - 1) / M)) : 2 ^ j * M < L := by
  have h1 : 2 ^ j < (L + M - 1) / M := (Nat.pow_lt_iff_lt_clog (by decide)).mpr hj
  have h2 : (2 ^ j + 1) * M ≤ L + M - 1 := (Nat.le_div_iff_mul_le hM).mp h1
  have h3 : (2 ^ j + 1) * M = 2 ^ j * M + M := by ring
  omega

theorem clog_steps_le (L M : Nat) (hM : 1 ≤ M) :
    L ≤ 2 ^ Nat.clog 2 ((L + M - 1) / M) * M := by
  have h1 : (L + M - 1) / M ≤ 2 ^ Nat.clog 2 ((L + M - 1) / M) := Nat.le_pow_clog (by decide) _
  have h2 : (L + M - 1) / M < 2 ^ Nat.clog 2 ((L + M - 1) / M) + 1 := by omega
  have h3 : L + M - 1 < (2 ^ Nat.clog 2 ((L + M - 1) / M) + 1) * M :=
    (Nat.div_lt_iff_lt_mul hM).mp h2
  have h4 : (2 ^ Nat.clog 2 ((L + M - 1) / M) + 1) * M
      = 2 ^ Nat.clog 2 ((L + M - 1) / M) * M + M := by ring
  omega

theorem doubling_step (x L : Nat) (hx : x < L) : x + min x (L - x) = min (2 * x) L := by
  omega

theorem memset_interrupts_progress (N M CLEAN : Nat) (sd0 : sdma_driver) (client L : Nat)
    (hM : 1 ≤ M) (hL : L < SIZE_MOD) (h0 : memset_running N sd0 client L (min L M)) :
    ∀ j, j ≤ Nat.clog 2 ((L + M - 1) / M) →
      memset_running N (memset_interrupts N CLEAN j sd0) client L (min (2 ^ j * M) L)
      ∧ (memset_interrupts N CLEAN j sd0).sends = sd0.sends
      ∧ (memset_interrupts N CLEAN j sd0).calls.length = sd0.calls.length + j := by
  intro j
  induction j with
  | zero =>
    intro _
    refine ⟨?_, rfl, rfl⟩
    have e : min (2 ^ 0 * M) L = min L M := by
      rw [Nat.pow_zero, Nat.one_mul, Nat.min_comm]
    rw [e]
    exact h0
  | succ j ih =>
    intro hj
    obtain ⟨hrun, hs, hc⟩ := ih (by omega)
    have hlt : 2 ^ j * M < L := clog_steps_lt L M j hM (by omega)
    have e1 : min (2 ^ j * M) L = 2 ^ j * M := by omega
    rw [e1] at hrun
    obtain ⟨hrun2, hs2, hc2⟩ :=
      block_complete_interrupt_continues N CLEAN (memset_interrupts N CLEAN j sd0) client L
        (2 ^ j * M) hrun hlt hL
    have e2 : 2 ^ j * M + min (2 ^ j * M) (L - 2 ^ j * M) = min (2 ^ (j + 1) * M) L := by
      rw [doubling_step _ _ hlt, Nat.pow_succ, Nat.mul_comm (2 ^ j) 2, Nat.mul_assoc]
    rw [e2] at hrun2
    refine ⟨hrun2, ?_, ?_⟩
    · show (block_complete_interrupt N CLEAN (memset_interrupts N CLEAN j sd0)).sends = sd0.sends
      rw [hs2, hs]
    · show (block_complete_interrupt N CLEAN (memset_interrupts N CLEAN j sd0)).calls.length
        = sd0.calls.length + (j + 1)
      rw [hc2, hc]
      omega

/-- C9: for every accepted memset of `len` bytes (a free channel exists,
`SDMA_MEMSET_SIZE ≥ 1`), when each sub-transfer ends with block-complete and
no error: with `k = ⌈log₂ ⌈len / SDMA_MEMSET_SIZE⌉⌉` (`Nat.clog`, zero when
`len ≤ SDMA_MEMSET_SIZE`), after `j ≤ k` interrupts `dst_offset` is
`min (2^j * SDMA_MEMSET_SIZE) len ≤ len`, `1 + j` sub-transfers have been
started and no reply is registered; `dst_offset < len` as long as `j < k`, and
`dst_offset = len` after `k` interrupts; interrupt `k + 1` starts nothing and
registers the completion reply `SYS_ERR_OK`.  In total `k + 1` sub-transfers,
exactly one when `len ≤ SDMA_MEMSET_SIZE`. -/
theorem memset_runs_to_completion (N M CLEAN : Nat) (sd : sdma_driver) (client : Nat)
    (msg : lmp_recv_msg) (idr : identify_result)
    (hid : idr.err = SYS_ERR_OK) (hb : idr.id.bytes < GEN_MOD)
    (hv : msg.word 1 < idr.id.bytes ∧ msg.word 2 ≤ idr.id.bytes - msg.word 1)
    (hfree : sdma_avail_channel N sd < N) (hM : 1 ≤ M) :
    (∀ j, j ≤ Nat.clog 2 ((msg.word 2 + M - 1) / M) →
      ((memset_interrupts N CLEAN j (sdma_process_memset N M sd client msg idr).1).heap
          client).dst_offset = min (2 ^ j * M) (msg.word 2)
      ∧ ((memset_interrupts N CLEAN j (sdma_process_memset N M sd client msg idr).1).heap
          client).dst_offset ≤ msg.word 2
      ∧ (j < Nat.clog 2 ((msg.word 2 + M - 1) / M) →
          ((memset_interrupts N CLEAN j (sdma_process_memset N M sd client msg idr).1).heap
            client).dst_offset < msg.word 2)
      ∧ (memset_interrupts N CLEAN j (sdma_process_memset N M sd client msg idr).1).sends
          = sd.sends
      ∧ (memset_interrupts N CLEAN j (sdma_process_memset N M sd client msg idr).1).calls.length
          = sd.calls.length + (1 + j))
    ∧ ((memset_interrupts N CLEAN (Nat.clog 2 ((msg.word 2 + M - 1) / M))
          (sdma_process_memset N M sd client msg idr).1).heap client).dst_offset = msg.word 2
    ∧ (memset_interrupts N CLEAN (Nat.clog 2 ((msg.word 2 + M - 1) / M) + 1)
          (sdma_process_memset N M sd client msg idr).1).sends
        = sd.sends ++ [(client, SYS_ERR_OK)]
    ∧ (memset_interrupts N CLEAN (Nat.clog 2 ((msg.word 2 + M - 1) / M) + 1)
          (sdma_process_memset N M sd client msg idr).1).calls.length
        = sd.calls.length + (Nat.clog 2 ((msg.word 2 + M - 1) / M) + 1)
    ∧ ((memset_interrupts N CLEAN (Nat.clog 2 ((msg.word 2 + M - 1) / M) + 1)
          (sdma_process_memset N M sd client msg idr).1).heap client).dst_offset = msg.word 2
    ∧ (msg.word 2 ≤ M → Nat.clog 2 ((msg.word 2 + M - 1) / M) = 0) := by
  obtain ⟨h0, hs0, hc0, -⟩ := sdma_process_memset_starts N M sd client msg idr hid hb hv hfree
  have hprog := memset_interrupts_progress N M CLEAN (sdma_process_memset N M sd client msg idr).1
    client (msg.word 2) hM (word_lt msg 2) h0
  have hk := hprog (Nat.clog 2 ((msg.word 2 + M - 1) / M)) (Nat.le_refl _)
  have hfull : min (2 ^ Nat.clog 2 ((msg.word 2 + M - 1) / M) * M) (msg.word 2) = msg.word 2 :=
    Nat.min_eq_right (clog_steps_le (msg.word 2) M hM)
  obtain ⟨hrunk, hsk, hck⟩ := hk
  rw [hfull] at hrunk
  obtain ⟨hf1, hf2, hf3, -⟩ := block_complete_interrupt_finishes N CLEAN _ client (msg.word 2) hrunk
  refine ⟨?_, hrunk.2.2.2.2.1, ?_, ?_, ?_, ?_⟩
  · intro j hj
    obtain ⟨hrun, hs, hc⟩ := hprog j hj
    have hd := hrun.2.2.2.2.1
    refine ⟨hd, ?_, ?_, ?_, ?_⟩
    · rw [hd]; exact Nat.min_le_right _ _
    · intro hlt
      rw [hd]
      have := clog_steps_lt (msg.word 2) M j hM hlt
      omega
    · rw [hs, hs0]
    · rw [hc, hc0]; omega
  · show (block_complete_interrupt N CLEAN (memset_interrupts N CLEAN
        (Nat.clog 2 ((msg.word 2 + M - 1) / M)) (sdma_process_memset N M sd client msg idr).1)).sends
      = sd.sends ++ [(client, SYS_ERR_OK)]
    rw [hf1, hsk, hs0]
  · show (block_complete_interrupt N CLEAN (memset_interrupts N CLEAN
        (Nat.clog 2 ((msg.word 2 + M - 1) / M))
        (sdma_process_memset N M sd client msg idr).1)).calls.length
      = sd.calls.length + (Nat.clog 2 ((msg.word 2 + M - 1) / M) + 1)
    rw [hf2, hck, hc0]; omega
  · exact hf3
  · intro hle
    apply Nat.clog_of_right_le_one
    have : (msg.word 2 + M - 1) / M < 2 := (Nat.div_lt_iff_lt_mul hM).mpr (by omega)
    omega

/-- Witness of `memset_runs_to_completion`: `len = 1048576` with
`SDMA_MEMSET_SIZE = 4096` takes nine sub-transfers, and the reply is registered
at the ninth interrupt. -/
theorem memset_runs_to_completion_witness :
    (identified FRAME_A 1048576).err = SYS_ERR_OK
    ∧ sdma_avail_channel 32 sample_driver < 32
    ∧ Nat.clog 2 (((memset_msg 0 1048576 171).word 2 + 4096 - 1) / 4096) + 1 = 9
    ∧ (memset_interrupts 32 0
          (Nat.clog 2 (((memset_msg 0 1048576 171).word 2 + 4096 - 1) / 4096) + 1)
          (sdma_process_memset 32 4096 sample_driver 0 (memset_msg 0 1048576 171)
            (identified FRAME_A 1048576)).1).calls.length
        = sample_driver.calls.length
          + (Nat.clog 2 (((memset_msg 0 1048576 171).word 2 + 4096 - 1) / 4096) + 1)
    ∧ (memset_interrupts 32 0
          (Nat.clog 2 (((memset_msg 0 1048576 171).word 2 + 4096 - 1) / 4096) + 1)
          (sdma_process_memset 32 4096 sample_driver 0 (memset_msg 0 1048576 171)
            (identified FRAME_A 1048576)).1).sends
        = sample_driver.sends ++ [(0, SYS_ERR_OK)] := by
  have hw : (memset_msg 0 1048576 171).word 2 = 1048576 := by decide
  have hk : Nat.clog 2 (((memset_msg 0 1048576 171).word 2 + 4096 - 1) / 4096) + 1 = 9 := by
    rw [hw]
    have e : (1048576 + 4096 - 1) / 4096 = 2 ^ 8 := by norm_num
    rw [e, Nat.clog_pow 2 8 (by decide)]
  have h := memset_runs_to_completion 32 4096 0 sample_driver 0 (memset_msg 0 1048576 171)
    (identified FRAME_A 1048576) (by decide) (by decide) (by decide) (by decide) (by decide)
  exact ⟨by decide, by decide, hk, h.2.2.2.1, h.2.2.1⟩

/-! ## The register programme of the start operations -/

theorem sdma_start_transfer_program_writes (dev : omap44xx_sdma_t) (chan s d l : Nat) :
    (sdma_start_transfer_program dev chan s d l).writes
      = dev.writes ++
        [reg_write.csdp chan (start_csdp (dev.chans chan).csdp),
         reg_write.cen chan
           (omap44xx_sdma_dma4_cen_channel_elmnt_nbr_insert (dev.chans chan).cen 128),
         reg_write.cfn chan
           (omap44xx_sdma_dma4_cfn_channel_frame_nbr_insert (dev.chans chan).cfn
             (if l % 512 ≠ 0 then size_add (l / 512) 1 else l / 512)),
         reg_write.cssa chan (to_size_t s),
         reg_write.cdsa chan (to_size_t d),
         reg_write.ccr chan (start_ccr (dev.chans chan).ccr omap44xx_sdma_ADDR_MODE_POST_INCR),
         reg_write.csei chan
           (omap44xx_sdma_dma4_csei_channel_src_elmnt_index_insert (dev.chans chan).csei 1),
         reg_write.csfi chan 1,
         reg_write.cdei chan 1,
         reg_write.cdfi chan 1,
         reg_write.csr chan 0,
         reg_write.ccr chan
           { start_ccr (dev.chans chan).ccr omap44xx_sdma_ADDR_MODE_POST_INCR with enable := 1 }] := by
  simp [sdma_start_transfer_program, omap44xx_sdma_dma4_csdp_rd, omap44xx_sdma_dma4_csdp_wr,
    omap44xx_sdma_dma4_cen_rd, omap44xx_sdma_dma4_cen_wr, omap44xx_sdma_dma4_cfn_rd,
    omap44xx_sdma_dma4_cfn_wr, omap44xx_sdma_dma4_cssa_wr, omap44xx_sdma_dma4_cdsa_wr,
    omap44xx_sdma_dma4_ccr_rd, omap44xx_sdma_dma4_ccr_wr, omap44xx_sdma_dma4_csei_rd,
    omap44xx_sdma_dma4_csei_wr, omap44xx_sdma_dma4_csfi_wr, omap44xx_sdma_dma4_cdei_wr,
    omap44xx_sdma_dma4_cdfi_wr, omap44xx_sdma_dma4_csr_wr,
    dev_store, start_csdp, start_ccr,
    size_mul, to_size_t, SIZE_MOD]

theorem sdma_start_rotate_program_writes (dev : omap44xx_sdma_t) (chan s d w h : Nat) :
    (sdma_start_rotate_program dev chan s d w h).writes
      = dev.writes ++
        [reg_write.csdp chan (start_csdp (dev.chans chan).csdp),
         reg_write.cen chan
           (omap44xx_sdma_dma4_cen_channel_elmnt_nbr_insert (dev.chans chan).cen w),
         reg_write.cfn chan
           (omap44xx_sdma_dma4_cfn_channel_frame_nbr_insert (dev.chans chan).cfn h),
         reg_write.cssa chan (to_size_t s),
         reg_write.cdsa chan (size_add (to_size_t d) (size_mul (size_sub h 1) 4)),
         reg_write.ccr chan (start_ccr (dev.chans chan).ccr omap44xx_sdma_ADDR_MODE_DOUBLE_IDX),
         reg_write.csei chan
           (omap44xx_sdma_dma4_csei_channel_src_elmnt_index_insert (dev.chans chan).csei 1),
         reg_write.csfi chan 1,
         reg_write.cdei chan
           (omap44xx_sdma_dma4_cdei_channel_dst_elmnt_index_insert (dev.chans chan).cdei
             (size_add (size_mul (size_sub h 1) 4) 1)),
         reg_write.cdfi chan (size_sub 1 (size_mul 4 (size_add (size_mul (size_sub w 1) h) 2))),
         reg_write.csr chan 0,
         reg_write.ccr chan
           { start_ccr (dev.chans chan).ccr omap44xx_sdma_ADDR_MODE_DOUBLE_IDX with enable := 1 }] := by
  simp [sdma_start_rotate_program, omap44xx_sdma_dma4_csdp_rd, omap44xx_sdma_dma4_csdp_wr,
    omap44xx_sdma_dma4_cen_rd, omap44xx_sdma_dma4_cen_wr, omap44xx_sdma_dma4_cfn_rd,
    omap44xx_sdma_dma4_cfn_wr, omap44xx_sdma_dma4_cssa_wr, omap44xx_sdma_dma4_cdsa_wr,
    omap44xx_sdma_dma4_ccr_rd, omap44xx_sdma_dma4_ccr_wr, omap44xx_sdma_dma4_csei_rd,
    omap44xx_sdma_dma4_csei_wr, omap44xx_sdma_dma4_csfi_wr, omap44xx_sdma_dma4_cdei_rd,
    omap44xx_sdma_dma4_cdei_wr,
    omap44xx_sdma_dma4_cdfi_wr, omap44xx_sdma_dma4_csr_wr,
    dev_store, start_csdp, start_ccr]

theorem sdma_start_rotate_program_view (dev : omap44xx_sdma_t) (chan s d w h : Nat) :
    (sdma_start_rotate_program dev chan s d w h).chans chan
      = { csdp := start_csdp (dev.chans chan).csdp,
          cen := omap44xx_sdma_dma4_cen_channel_elmnt_nbr_insert (dev.chans chan).cen w,
          cfn := omap44xx_sdma_dma4_cfn_channel_frame_nbr_insert (dev.chans chan).cfn h,
          cssa := to_size_t s,
          cdsa := size_add (to_size_t d) (size_mul (size_sub h 1) 4),
          ccr := { start_ccr (dev.chans chan).ccr omap44xx_sdma_ADDR_MODE_DOUBLE_IDX
                   with enable := 1 },
          csei := omap44xx_sdma_dma4_csei_channel_src_elmnt_index_insert (dev.chans chan).csei 1,
          csfi := 1,
          cdei := omap44xx_sdma_dma4_cdei_channel_dst_elmnt_index_insert (dev.chans chan).cdei
            (size_add (size_mul (size_sub h 1) 4) 1),
          cdfi := size_sub 1 (size_mul 4 (size_add (size_mul (size_sub w 1) h) 2)),
          csr := (dev.chans chan).csr } := by
  simp [sdma_start_rotate_program, omap44xx_sdma_dma4_csdp_rd, omap44xx_sdma_dma4_csdp_wr,
    omap44xx_sdma_dma4_cen_rd, omap44xx_sdma_dma4_cen_wr, omap44xx_sdma_dma4_cfn_rd,
    omap44xx_sdma_dma4_cfn_wr, omap44xx_sdma_dma4_cssa_wr, omap44xx_sdma_dma4_cdsa_wr,
    omap44xx_sdma_dma4_ccr_rd, omap44xx_sdma_dma4_ccr_wr, omap44xx_sdma_dma4_csei_rd,
    omap44xx_sdma_dma4_csei_wr, omap44xx_sdma_dma4_csfi_wr, omap44xx_sdma_dma4_cdei_rd,
    omap44xx_sdma_dma4_cdei_wr,
    omap44xx_sdma_dma4_cdfi_wr, omap44xx_sdma_dma4_csr_wr,
    dev_store, start_csdp, start_ccr]

theorem sdma_avail_channel_spec (N : Nat) (sd : sdma_driver) :
    sdma_avail_channel N sd ≤ N
    ∧ (sdma_avail_channel N sd < N →
        (sd.chan_state (sdma_avail_channel N sd)).transfer_in_progress = false)
    ∧ (∀ i, i < sdma_avail_channel N sd → (sd.chan_state i).transfer_in_progress = true) := by
  unfold sdma_avail_channel
  induction N with
  | zero => simp
  | succ n ih =>
    rw [List.range_succ, List.find?_append]
    cases hf : (List.range n).find? (fun chan => !(sd.chan_state chan).transfer_in_progress) with
    | some a =>
      rw [hf] at ih
      simp only [Option.getD_some] at ih
      have hor : ((some a).or (List.find?
          (fun chan => !(sd.chan_state chan).transfer_in_progress) [n])).getD (n + 1) = a := rfl
      rw [hor]
      obtain ⟨h1, h2, h3⟩ := ih
      have ha : a < n := List.mem_range.mp (List.mem_of_find?_eq_some hf)
      exact ⟨by omega, fun _ => h2 ha, h3⟩
    | none =>
      rw [hf] at ih
      simp only [Option.getD_none] at ih
      obtain ⟨-, -, h3⟩ := ih
      have hor : ∀ o : Option Nat, (none : Option Nat).or o = o := fun o => by cases o <;> rfl
      rw [hor]
      cases hp : (sd.chan_state n).transfer_in_progress with
      | true =>
        simp only [List.find?_cons, hp, Bool.not_true, List.find?_nil, Option.getD_none]
        refine ⟨Nat.le_refl _, fun h => absurd h (Nat.lt_irrefl _), fun i hi => ?_⟩
        by_cases hin : i < n
        · exact h3 i hin
        · have : i = n := by omega
          rw [this]; exact hp
      | false =>
        simp only [List.find?_cons, hp, Bool.not_false, Option.getD_some]
        exact ⟨by omega, fun _ => trivial, h3⟩

theorem sdma_start_transfer_program_view (dev : omap44xx_sdma_t) (chan s d l : Nat) :
    (sdma_start_transfer_program dev chan s d l).chans chan
      = { csdp := start_csdp (dev.chans chan).csdp,
          cen := omap44xx_sdma_dma4_cen_channel_elmnt_nbr_insert (dev.chans chan).cen 128,
          cfn := omap44xx_sdma_dma4_cfn_channel_frame_nbr_insert (dev.chans chan).cfn
            (if l % 512 ≠ 0 then size_add (l / 512) 1 else l / 512),
          cssa := to_size_t s,
          cdsa := to_size_t d,
          ccr := { start_ccr (dev.chans chan).ccr omap44xx_sdma_ADDR_MODE_POST_INCR
                   with enable := 1 },
          csei := omap44xx_sdma_dma4_csei_channel_src_elmnt_index_insert (dev.chans chan).csei 1,
          csfi := 1,
          cdei := 1,
          cdfi := 1,
          csr := (dev.chans chan).csr } := by
  simp [sdma_start_transfer_program, omap44xx_sdma_dma4_csdp_rd, omap44xx_sdma_dma4_csdp_wr,
    omap44xx_sdma_dma4_cen_rd, omap44xx_sdma_dma4_cen_wr, omap44xx_sdma_dma4_cfn_rd,
    omap44xx_sdma_dma4_cfn_wr, omap44xx_sdma_dma4_cssa_wr, omap44xx_sdma_dma4_cdsa_wr,
    omap44xx_sdma_dma4_ccr_rd, omap44xx_sdma_dma4_ccr_wr, omap44xx_sdma_dma4_csei_rd,
    omap44xx_sdma_dma4_csei_wr, omap44xx_sdma_dma4_csfi_wr, omap44xx_sdma_dma4_cdei_wr,
    omap44xx_sdma_dma4_cdfi_wr, omap44xx_sdma_dma4_csr_wr,
    dev_store, start_csdp, start_ccr,
    size_mul, to_size_t, SIZE_MOD]

theorem sdma_start_transfer_program_other (dev : omap44xx_sdma_t) (chan s d l ch : Nat)
    (hne : ch ≠ chan) :
    (sdma_start_transfer_program dev chan s d l).chans ch = dev.chans ch := by
  simp [sdma_start_transfer_program, omap44xx_sdma_dma4_csdp_rd, omap44xx_sdma_dma4_csdp_wr,
    omap44xx_sdma_dma4_cen_rd, omap44xx_sdma_dma4_cen_wr, omap44xx_sdma_dma4_cfn_rd,
    omap44xx_sdma_dma4_cfn_wr, omap44xx_sdma_dma4_cssa_wr, omap44xx_sdma_dma4_cdsa_wr,
    omap44xx_sdma_dma4_ccr_rd, omap44xx_sdma_dma4_ccr_wr, omap44xx_sdma_dma4_csei_rd,
    omap44xx_sdma_dma4_csei_wr, omap44xx_sdma_dma4_csfi_wr, omap44xx_sdma_dma4_cdei_wr,
    omap44xx_sdma_dma4_cdfi_wr, omap44xx_sdma_dma4_csr_wr,
    dev_store, hne]

theorem frame_count_eq (l : Nat) (hl : l < SIZE_MOD) :
    to_size_t (if l % 512 ≠ 0 then size_add (l / 512) 1 else l / 512) = (l + 511) / 512 := by
  simp only [SIZE_MOD] at hl
  simp only [to_size_t, size_add, SIZE_MOD]
  split <;> omega

theorem cast_to_size_t (a : Nat) : ((to_size_t a : Nat) : ZMod SIZE_MOD) = (a : ZMod SIZE_MOD) := by
  unfold to_size_t
  exact ZMod.natCast_mod a SIZE_MOD

theorem cast_size_add (a b : Nat) :
    ((size_add a b : Nat) : ZMod SIZE_MOD) = (a : ZMod SIZE_MOD) + (b : ZMod SIZE_MOD) := by
  unfold size_add
  rw [ZMod.natCast_mod, Nat.cast_add]

theorem cast_size_mul (a b : Nat) :
    ((size_mul a b : Nat) : ZMod SIZE_MOD) = (a : ZMod SIZE_MOD) * (b : ZMod SIZE_MOD) := by
  unfold size_mul
  rw [ZMod.natCast_mod, Nat.cast_mul]

theorem cast_size_sub (a b : Nat) :
    ((size_sub a b : Nat) : ZMod SIZE_MOD) = (a : ZMod SIZE_MOD) - (b : ZMod SIZE_MOD) := by
  unfold size_sub
  have hb : b % SIZE_MOD ≤ a % SIZE_MOD + SIZE_MOD :=
    Nat.le_trans (Nat.le_of_lt (Nat.mod_lt _ (by decide))) (Nat.le_add_left _ _)
  rw [ZMod.natCast_mod, Nat.cast_sub hb, Nat.cast_add, ZMod.natCast_mod, ZMod.natCast_mod,
    ZMod.natCast_self, add_zero]

theorem size_lt_of_mod (a : Nat) : a % SIZE_MOD < SIZE_MOD := Nat.mod_lt _ (by decide)

theorem eq_emod_of_cast (x : Nat) (e : Int) (hx : x < SIZE_MOD)
    (h : ((x : Nat) : ZMod SIZE_MOD) = ((e : Int) : ZMod SIZE_MOD)) :
    (x : Int) = e % (SIZE_MOD : Int) := by
  have h1 : (((x : Int) : Int) : ZMod SIZE_MOD) = ((e : Int) : ZMod SIZE_MOD) := by
    rw [← h]; simp
  have h2 := (ZMod.intCast_eq_intCast_iff (x : Int) e SIZE_MOD).mp h1
  have h3 : (x : Int) % (SIZE_MOD : Int) = e % (SIZE_MOD : Int) := h2
  rw [← h3]
  exact (Int.emod_eq_of_lt (Int.natCast_nonneg x) (by exact_mod_cast hx)).symm

/-! ## Field inserts -/

theorem field_insert_value (bits word v : Nat) :
    field_value bits (field_insert bits word v) = v % 2 ^ bits := by
  unfold field_value field_insert
  rw [Nat.mul_comm, Nat.mul_add_mod, Nat.mod_mod]

theorem field_insert_reserved (bits word v : Nat) :
    field_insert bits word v / 2 ^ bits = to_size_t word / 2 ^ bits := by
  unfold field_insert
  rw [Nat.mul_comm, Nat.mul_add_div (Nat.pow_pos (by decide)),
    Nat.div_eq_of_lt (Nat.mod_lt _ (Nat.pow_pos (by decide))), Nat.add_zero]

theorem field_insert_small (bits word v : Nat) (h : to_size_t word < 2 ^ bits) :
    field_insert bits word v = v % 2 ^ bits := by
  unfold field_insert
  rw [Nat.div_eq_of_lt h, Nat.zero_mul, Nat.zero_add]

theorem sdma_avail_channel_eq_iff (N : Nat) (sd : sdma_driver) :
    sdma_avail_channel N sd = N
      ↔ ∀ ch, ch < N → (sd.chan_state ch).transfer_in_progress = true := by
  obtain ⟨hle, hfree, hbelow⟩ := sdma_avail_channel_spec N sd
  constructor
  · intro h ch hch
    exact hbelow ch (by omega)
  · intro hall
    by_contra hne
    have hlt : sdma_avail_channel N sd < N := by omega
    have h1 := hfree hlt
    have h2 := hall _ hlt
    rw [h1] at h2
    exact Bool.noConfusion h2

theorem transfer_writes_on_channel (dev : omap44xx_sdma_t) (chan s d l : Nat) :
    ∃ L, (sdma_start_transfer_program dev chan s d l).writes = dev.writes ++ L
      ∧ L.length = 12 ∧ ∀ x, x ∈ L → reg_write.channel x = some chan := by
  refine ⟨_, sdma_start_transfer_program_writes dev chan s d l, rfl, ?_⟩
  intro x hx
  simp only [List.mem_cons, List.mem_singleton, List.not_mem_nil, or_false] at hx
  rcases hx with h | h | h | h | h | h | h | h | h | h | h | h <;> subst h <;> rfl

theorem rotate_writes_on_channel (dev : omap44xx_sdma_t) (chan s d w h : Nat) :
    ∃ L, (sdma_start_rotate_program dev chan s d w h).writes = dev.writes ++ L
      ∧ L.length = 12 ∧ ∀ x, x ∈ L → reg_write.channel x = some chan := by
  refine ⟨_, sdma_start_rotate_program_writes dev chan s d w h, rfl, ?_⟩
  intro x hx
  simp only [List.mem_cons, List.mem_singleton, List.not_mem_nil, or_false] at hx
  rcases hx with h | h | h | h | h | h | h | h | h | h | h | h <;> subst h <;> rfl

/-- C12: `sdma_avail_channel` returns the lowest-indexed slot that is not in
use and returns `SDMA_CHANNELS` exactly when every slot is in use;
`sdma_start_transfer` and `sdma_start_rotate` fail if and only if every slot is
in use, the only error is `SDMA_ERR_NO_AVAIL_CHANNEL` (then no register is
written and no slot changes), and otherwise they return `SYS_ERR_OK`, program
the channel returned by `sdma_avail_channel` (all twelve register writes
address it) and reserve its slot for the client. -/
theorem start_fails_iff_no_free_channel (N : Nat) (sd : sdma_driver)
    (client s d l w h : Nat) :
    (sdma_avail_channel N sd ≤ N
      ∧ (sdma_avail_channel N sd = N
          ↔ ∀ ch, ch < N → (sd.chan_state ch).transfer_in_progress = true)
      ∧ (sdma_avail_channel N sd < N →
          (sd.chan_state (sdma_avail_channel N sd)).transfer_in_progress = false
          ∧ ∀ ch, ch < sdma_avail_channel N sd →
              (sd.chan_state ch).transfer_in_progress = true))
    ∧ ((err_is_fail (sdma_start_transfer N sd client s d l).2 = true
          ↔ ∀ ch, ch < N → (sd.chan_state ch).transfer_in_progress = true)
      ∧ (err_is_fail (sdma_start_transfer N sd client s d l).2 = true →
          (sdma_start_transfer N sd client s d l).2 = SDMA_ERR_NO_AVAIL_CHANNEL
          ∧ (sdma_start_transfer N sd client s d l).1.sdma_dev = sd.sdma_dev
          ∧ (sdma_start_transfer N sd client s d l).1.chan_state = sd.chan_state)
      ∧ (err_is_fail (sdma_start_transfer N sd client s d l).2 = false →
          (sdma_start_transfer N sd client s d l).2 = SYS_ERR_OK
          ∧ (sdma_start_transfer N sd client s d l).1.sdma_dev
              = sdma_start_transfer_program sd.sdma_dev (sdma_avail_channel N sd) s d l
          ∧ (∃ L, (sdma_start_transfer N sd client s d l).1.sdma_dev.writes
                    = sd.sdma_dev.writes ++ L
                ∧ L.length = 12
                ∧ ∀ x, x ∈ L → reg_write.channel x = some (sdma_avail_channel N sd))
          ∧ (sdma_start_transfer N sd client s d l).1.chan_state
              = Function.update sd.chan_state (sdma_avail_channel N sd)
                  { transfer_in_progress := true, client := client,
                    err := (sd.chan_state (sdma_avail_channel N sd)).err }))
    ∧ ((err_is_fail (sdma_start_rotate N sd client s d w h).2 = true
          ↔ ∀ ch, ch < N → (sd.chan_state ch).transfer_in_progress = true)
      ∧ (err_is_fail (sdma_start_rotate N sd client s d w h).2 = true →
          (sdma_start_rotate N sd client s d w h).2 = SDMA_ERR_NO_AVAIL_CHANNEL
          ∧ (sdma_start_rotate N sd client s d w h).1.sdma_dev = sd.sdma_dev
          ∧ (sdma_start_rotate N sd client s d w h).1.chan_state = sd.chan_state)
      ∧ (err_is_fail (sdma_start_rotate N sd client s d w h).2 = false →
          (sdma_start_rotate N sd client s d w h).2 = SYS_ERR_OK
          ∧ (sdma_start_rotate N sd client s d w h).1.sdma_dev
              = sdma_start_rotate_program sd.sdma_dev (sdma_avail_channel N sd) s d w h
          ∧ (∃ L, (sdma_start_rotate N sd client s d w h).1.sdma_dev.writes
                    = sd.sdma_dev.writes ++ L
                ∧ L.length = 12
                ∧ ∀ x, x ∈ L → reg_write.channel x = some (sdma_avail_channel N sd))
          ∧ (sdma_start_rotate N sd client s d w h).1.chan_state
              = Function.update sd.chan_state (sdma_avail_channel N sd)
                  { transfer_in_progress := true, client := client,
                    err := (sd.chan_state (sdma_avail_channel N sd)).err })) := by
  obtain ⟨hle, hfree, hbelow⟩ := sdma_avail_channel_spec N sd
  have hiff := sdma_avail_channel_eq_iff N sd
  refine ⟨⟨hle, hiff, fun hlt => ⟨hfree hlt, hbelow⟩⟩, ?_, ?_⟩
  · rw [sdma_start_transfer_eq]
    by_cases hlt : sdma_avail_channel N sd < N
    · have hne : ¬ (∀ ch, ch < N → (sd.chan_state ch).transfer_in_progress = true) :=
        fun hall => by have := hiff.mpr hall; omega
      simp only [if_pos hlt]
      refine ⟨?_, ?_, ?_⟩
      · simp [err_is_fail, err_is_ok, hne]
      · intro hf; simp [err_is_fail, err_is_ok] at hf
      · intro _
        exact ⟨trivial, trivial, transfer_writes_on_channel _ _ _ _ _, trivial⟩
    · have hall : ∀ ch, ch < N → (sd.chan_state ch).transfer_in_progress = true :=
        hiff.mp (by omega)
      simp only [if_neg hlt]
      refine ⟨?_, ?_, ?_⟩
      · simp [err_is_fail, err_is_ok]; exact hall
      · intro _; exact ⟨trivial, trivial, trivial⟩
      · intro hf; simp [err_is_fail, err_is_ok] at hf
  · rw [sdma_start_rotate_eq]
    by_cases hlt : sdma_avail_channel N sd < N
    · have hne : ¬ (∀ ch, ch < N → (sd.chan_state ch).transfer_in_progress = true) :=
        fun hall => by have := hiff.mpr hall; omega
      simp only [if_pos hlt]
      refine ⟨?_, ?_, ?_⟩
      · simp [err_is_fail, err_is_ok, hne]
      · intro hf; simp [err_is_fail, err_is_ok] at hf
      · intro _
        exact ⟨trivial, trivial, rotate_writes_on_channel _ _ _ _ _ _, trivial⟩
    · have hall : ∀ ch, ch < N → (sd.chan_state ch).transfer_in_progress = true :=
        hiff.mp (by omega)
      simp only [if_neg hlt]
      refine ⟨?_, ?_, ?_⟩
      · simp [err_is_fail, err_is_ok]; exact hall
      · intro _; exact ⟨trivial, trivial, trivial⟩
      · intro hf; simp [err_is_fail, err_is_ok] at hf

theorem size_add_lt (a b : Nat) : size_add a b < SIZE_MOD := Nat.mod_lt _ (by decide)

theorem size_sub_lt (a b : Nat) : size_sub a b < SIZE_MOD := Nat.mod_lt _ (by decide)

theorem to_size_t_lt (a : Nat) : to_size_t a < SIZE_MOD := Nat.mod_lt _ (by decide)

theorem rotate_cdsa_int (d h : Nat) :
    ((size_add (to_size_t d) (size_mul (size_sub h 1) 4) : Nat) : Int)
      = ((d : Int) + ((h : Int) - 1) * 4) % ((SIZE_MOD : Nat) : Int) := by
  apply eq_emod_of_cast _ _ (size_add_lt _ _)
  rw [cast_size_add, cast_to_size_t, cast_size_mul, cast_size_sub]
  push_cast
  ring

theorem rotate_cdei_int (h : Nat) :
    ((to_size_t (size_add (size_mul (size_sub h 1) 4) 1) : Nat) : Int)
      = (((h : Int) - 1) * 4 + 1) % ((SIZE_MOD : Nat) : Int) := by
  apply eq_emod_of_cast _ _ (to_size_t_lt _)
  rw [cast_to_size_t, cast_size_add, cast_size_mul, cast_size_sub]
  push_cast
  ring

theorem rotate_cdfi_int (w h : Nat) :
    ((size_sub 1 (size_mul 4 (size_add (size_mul (size_sub w 1) h) 2)) : Nat) : Int)
      = (1 - 4 * (((w : Int) - 1) * (h : Int) + 2)) % ((SIZE_MOD : Nat) : Int) := by
  apply eq_emod_of_cast _ _ (size_sub_lt _ _)
  rw [cast_size_sub, cast_size_mul, cast_size_add, cast_size_mul, cast_size_sub]
  push_cast
  ring

theorem rotate_cdei_field_int (h : Nat) :
    (((size_add (size_mul (size_sub h 1) 4) 1) % 2 ^ CEI_FIELD_BITS : Nat) : Int)
      = (((h : Int) - 1) * 4 + 1) % 65536 := by
  have h1 := rotate_cdei_int h
  have h2 : to_size_t (size_add (size_mul (size_sub h 1) 4) 1)
      = size_add (size_mul (size_sub h 1) 4) 1 := Nat.mod_eq_of_lt (size_add_lt _ _)
  rw [h2] at h1
  have h3 : ((2 ^ CEI_FIELD_BITS : Nat) : Int) = 65536 := by decide
  rw [Int.natCast_mod, h1, h3]
  exact Int.emod_emod_of_dvd _ (by decide)

/-- C14, counterexample: for a rotate of height 20000 the destination element
index `(height-1)*4 + 1 = 79997` does not fit the 16-bit element index field
of `DMA4_CDEI`: the field holds `79997 mod 2^16 = 14461`.  For a height of
65536 the frame count field of `DMA4_CFN` holds 0. -/
theorem rotate_element_index_truncated :
    (sdma_start_rotate 32 sample_driver 0 FRAME_A FRAME_B 4 20000).2 = SYS_ERR_OK
    ∧ (20000 - 1) * 4 + 1 = 79997
    ∧ field_value CEI_FIELD_BITS
        ((sdma_start_rotate 32 sample_driver 0 FRAME_A FRAME_B 4 20000).1.sdma_dev.chans
          0).cdei = 14461
    ∧ ((sdma_start_rotate 32 sample_driver 0 FRAME_A FRAME_B 4 20000).1.sdma_dev.chans
          0).cdei = 14461
    ∧ field_value CFN_FIELD_BITS
        ((sdma_start_rotate 32 sample_driver 0 FRAME_A FRAME_B 4 65536).1.sdma_dev.chans
          0).cfn = 0 := by
  decide

/-- C14, amended: when a channel is free, `sdma_start_rotate` returns
`SYS_ERR_OK` and leaves the chosen channel with the element count field of
`CEN` = width mod 2^24, the frame count field of `CFN` = height mod 2^16,
double-index addressing on both ports, source start address = src_phys,
destination start address = dst_phys + (height-1)*4 modulo 2^32, the element
index field of `CDEI` = ((height-1)*4 + 1) mod 2^16, destination frame index
= 1 - 4*((width-1)*height + 2) modulo 2^32, the element index field of `CSEI`
= 1 and source frame index 1; the reserved bits of `CEN`, `CFN`, `CSEI` and
`CDEI` are as read.  So the fields hold width, height and (height-1)*4 + 1
themselves when width < 2^24, height < 2^16 and (height-1)*4 + 1 < 2^16.  These
are the values of the register writes it logs. -/
theorem start_rotate_registers (N : Nat) (sd : sdma_driver) (client s d w h : Nat)
    (hfree : sdma_avail_channel N sd < N) :
    (sdma_start_rotate N sd client s d w h).2 = SYS_ERR_OK
    ∧ field_value CEN_FIELD_BITS
        ((sdma_start_rotate N sd client s d w h).1.sdma_dev.chans
          (sdma_avail_channel N sd)).cen = w % 2 ^ 24
    ∧ field_value CFN_FIELD_BITS
        ((sdma_start_rotate N sd client s d w h).1.sdma_dev.chans
          (sdma_avail_channel N sd)).cfn = h % 2 ^ 16
    ∧ ((sdma_start_rotate N sd client s d w h).1.sdma_dev.chans
          (sdma_avail_channel N sd)).ccr.src_amode = omap44xx_sdma_ADDR_MODE_DOUBLE_IDX
    ∧ ((sdma_start_rotate N sd client s d w h).1.sdma_dev.chans
          (sdma_avail_channel N sd)).ccr.dst_amode = omap44xx_sdma_ADDR_MODE_DOUBLE_IDX
    ∧ ((sdma_start_rotate N sd client s d w h).1.sdma_dev.chans
          (sdma_avail_channel N sd)).cssa = s % SIZE_MOD
    ∧ ((((sdma_start_rotate N sd client s d w h).1.sdma_dev.chans
          (sdma_avail_channel N sd)).cdsa : Nat) : Int)
        = ((d : Int) + ((h : Int) - 1) * 4) % ((SIZE_MOD : Nat) : Int)
    ∧ ((field_value CEI_FIELD_BITS
          ((sdma_start_rotate N sd client s d w h).1.sdma_dev.chans
            (sdma_avail_channel N sd)).cdei : Nat) : Int)
        = (((h : Int) - 1) * 4 + 1) % 65536
    ∧ ((((sdma_start_rotate N sd client s d w h).1.sdma_dev.chans
          (sdma_avail_channel N sd)).cdfi : Nat) : Int)
        = (1 - 4 * (((w : Int) - 1) * (h : Int) + 2)) % ((SIZE_MOD : Nat) : Int)
    ∧ field_value CEI_FIELD_BITS
        ((sdma_start_rotate N sd client s d w h).1.sdma_dev.chans
          (sdma_avail_channel N sd)).csei = 1
    ∧ ((sdma_start_rotate N sd client s d w h).1.sdma_dev.chans
          (sdma_avail_channel N sd)).csfi = 1
    ∧ (((sdma_start_rotate N sd client s d w h).1.sdma_dev.chans
          (sdma_avail_channel N sd)).cen / 2 ^ 24
        = to_size_t (sd.sdma_dev.chans (sdma_avail_channel N sd)).cen / 2 ^ 24
      ∧ ((sdma_start_rotate N sd client s d w h).1.sdma_dev.chans
          (sdma_avail_channel N sd)).cfn / 2 ^ 16
        = to_size_t (sd.sdma_dev.chans (sdma_avail_channel N sd)).cfn / 2 ^ 16
      ∧ ((sdma_start_rotate N sd client s d w h).1.sdma_dev.chans
          (sdma_avail_channel N sd)).csei / 2 ^ 16
        = to_size_t (sd.sdma_dev.chans (sdma_avail_channel N sd)).csei / 2 ^ 16
      ∧ ((sdma_start_rotate N sd client s d w h).1.sdma_dev.chans
          (sdma_avail_channel N sd)).cdei / 2 ^ 16
        = to_size_t (sd.sdma_dev.chans (sdma_avail_channel N sd)).cdei / 2 ^ 16)
    ∧ (w < 2 ^ 24 →
        field_value CEN_FIELD_BITS
          ((sdma_start_rotate N sd client s d w h).1.sdma_dev.chans
            (sdma_avail_channel N sd)).cen = w)
    ∧ (h < 2 ^ 16 →
        field_value CFN_FIELD_BITS
          ((sdma_start_rotate N sd client s d w h).1.sdma_dev.chans
            (sdma_avail_channel N sd)).cfn = h)
    ∧ (1 ≤ h → (h - 1) * 4 + 1 < 2 ^ 16 →
        field_value CEI_FIELD_BITS
          ((sdma_start_rotate N sd client s d w h).1.sdma_dev.chans
            (sdma_avail_channel N sd)).cdei = (h - 1) * 4 + 1)
    ∧ (sdma_start_rotate N sd client s d w h).1.sdma_dev.writes
        = sd.sdma_dev.writes ++
          [reg_write.csdp (sdma_avail_channel N sd)
             (start_csdp (sd.sdma_dev.chans (sdma_avail_channel N sd)).csdp),
           reg_write.cen (sdma_avail_channel N sd)
             ((sdma_start_rotate N sd client s d w h).1.sdma_dev.chans
               (sdma_avail_channel N sd)).cen,
           reg_write.cfn (sdma_avail_channel N sd)
             ((sdma_start_rotate N sd client s d w h).1.sdma_dev.chans
               (sdma_avail_channel N sd)).cfn,
           reg_write.cssa (sdma_avail_channel N sd)
             ((sdma_start_rotate N sd client s d w h).1.sdma_dev.chans
               (sdma_avail_channel N sd)).cssa,
           reg_write.cdsa (sdma_avail_channel N sd)
             ((sdma_start_rotate N sd client s d w h).1.sdma_dev.chans
               (sdma_avail_channel N sd)).cdsa,
           reg_write.ccr (sdma_avail_channel N sd)
             (start_ccr (sd.sdma_dev.chans (sdma_avail_channel N sd)).ccr
               omap44xx_sdma_ADDR_MODE_DOUBLE_IDX),
           reg_write.csei (sdma_avail_channel N sd)
             ((sdma_start_rotate N sd client s d w h).1.sdma_dev.chans
               (sdma_avail_channel N sd)).csei,
           reg_write.csfi (sdma_avail_channel N sd) 1,
           reg_write.cdei (sdma_avail_channel N sd)
             ((sdma_start_rotate N sd client s d w h).1.sdma_dev.chans
               (sdma_avail_channel N sd)).cdei,
           reg_write.cdfi (sdma_avail_channel N sd)
             ((sdma_start_rotate N sd client s d w h).1.sdma_dev.chans
               (sdma_avail_channel N sd)).cdfi,
           reg_write.csr (sdma_avail_channel N sd) 0,
           reg_write.ccr (sdma_avail_channel N sd)
             ((sdma_start_rotate N sd client s d w h).1.sdma_dev.chans
               (sdma_avail_channel N sd)).ccr] := by
  rw [sdma_start_rotate_eq, if_pos hfree]
  simp only [sdma_start_rotate_program_view, sdma_start_rotate_program_writes,
    omap44xx_sdma_dma4_cen_channel_elmnt_nbr_insert,
    omap44xx_sdma_dma4_cfn_channel_frame_nbr_insert,
    omap44xx_sdma_dma4_csei_channel_src_elmnt_index_insert,
    omap44xx_sdma_dma4_cdei_channel_dst_elmnt_index_insert, field_insert_value]
  have hcen : CEN_FIELD_BITS = 24 := rfl
  have hcfn : CFN_FIELD_BITS = 16 := rfl
  have hcei : CEI_FIELD_BITS = 16 := rfl
  refine ⟨trivial, by rw [hcen], by rw [hcfn], rfl, rfl, rfl, rotate_cdsa_int d h,
    rotate_cdei_field_int h, rotate_cdfi_int w h, by rw [hcei]; rfl, trivial,
    ⟨?_, ?_, ?_, ?_⟩, ?_, ?_, ?_, trivial⟩
  · exact field_insert_reserved 24 _ _
  · exact field_insert_reserved 16 _ _
  · exact field_insert_reserved 16 _ _
  · exact field_insert_reserved 16 _ _
  · intro hw
    rw [hcen]
    exact Nat.mod_eq_of_lt hw
  · intro hh
    rw [hcfn]
    exact Nat.mod_eq_of_lt hh
  · intro h1 hfit
    have e : size_add (size_mul (size_sub h 1) 4) 1 = (h - 1) * 4 + 1 := by
      have hpow : (2 : Nat) ^ 16 = 65536 := by decide
      rw [hpow] at hfit
      unfold size_add size_mul size_sub
      unfold SIZE_MOD
      omega
    rw [e, hcei]
    exact Nat.mod_eq_of_lt hfit

theorem start_rotate_registers_witness :
    sdma_avail_channel 32 sample_driver < 32
    ∧ ((sdma_start_rotate 32 sample_driver 0 FRAME_A FRAME_B 4 4).1.sdma_dev.chans 0).cdsa
        = FRAME_B + 12
    ∧ ((sdma_start_rotate 32 sample_driver 0 FRAME_A FRAME_B 4 4).1.sdma_dev.chans 0).cdei
        = 13
    ∧ ((sdma_start_rotate 32 sample_driver 0 FRAME_A FRAME_B 4 4).1.sdma_dev.chans 0).cdfi
        = 4294967241
    ∧ ((((sdma_start_rotate 32 sample_driver 0 FRAME_A FRAME_B 4 4).1.sdma_dev.chans
          (sdma_avail_channel 32 sample_driver)).cdfi : Nat) : Int)
        = (1 - 4 * ((((4 : Nat) : Int) - 1) * ((4 : Nat) : Int) + 2)) % ((SIZE_MOD : Nat) : Int) :=
  ⟨by decide, by decide, by decide, by decide,
   (start_rotate_registers 32 sample_driver 0 FRAME_A FRAME_B 4 4 (by decide)).2.2.2.2.2.2.2.2.1⟩

theorem frame_count_raw (l : Nat) (hl : l < SIZE_MOD) :
    (if l % 512 ≠ 0 then size_add (l / 512) 1 else l / 512) = (l + 511) / 512 := by
  simp only [SIZE_MOD] at hl
  simp only [size_add, SIZE_MOD]
  split <;> omega

/-- C15, counterexample: for `len = 32 MiB` the frame count
`ceil(len / 512) = 65536` does not fit the 16-bit frame count field of
`DMA4_CFN`: `sdma_start_transfer` succeeds and leaves the field at 0. -/
theorem frame_count_truncated :
    (sdma_start_transfer 32 sample_driver 0 FRAME_A FRAME_B 33554432).2 = SYS_ERR_OK
    ∧ (33554432 + 511) / 512 = 65536
    ∧ field_value CFN_FIELD_BITS
        ((sdma_start_transfer 32 sample_driver 0 FRAME_A FRAME_B 33554432).1.sdma_dev.chans
          0).cfn = 0
    ∧ ((sdma_start_transfer 32 sample_driver 0 FRAME_A FRAME_B 33554432).1.sdma_dev.chans
          0).cfn = 0
    ∧ ((sdma_start_transfer 32 sample_driver 0 FRAME_A FRAME_B 33554432).1.sdma_dev.chans
          0).ccr.enable = 1 := by
  decide

/-- C15, amended: when a channel is free and `len` is a `size_t` value,
`sdma_start_transfer` programs the element count field of `CEN` with 128 and
the frame count field of `CFN` with `ceil(len / 512) mod 2^16`, keeping the
reserved bits of both words.  For every `len ≤ 512 * 65535` the field holds
FN = ceil(len / 512): the least n with 512*n >= len, FN = 0 for len = 0, and
512*(FN-1) < len <= 512*FN for len >= 1. -/
theorem start_transfer_frame_count (N : Nat) (sd : sdma_driver) (client s d len : Nat)
    (hfree : sdma_avail_channel N sd < N) (hlen : len < SIZE_MOD) :
    field_value CEN_FIELD_BITS
        ((sdma_start_transfer N sd client s d len).1.sdma_dev.chans
          (sdma_avail_channel N sd)).cen = 128
    ∧ ((sdma_start_transfer N sd client s d len).1.sdma_dev.chans
          (sdma_avail_channel N sd)).cen / 2 ^ 24
        = to_size_t (sd.sdma_dev.chans (sdma_avail_channel N sd)).cen / 2 ^ 24
    ∧ reg_write.cen (sdma_avail_channel N sd)
          ((sdma_start_transfer N sd client s d len).1.sdma_dev.chans
            (sdma_avail_channel N sd)).cen
        ∈ (sdma_start_transfer N sd client s d len).1.sdma_dev.writes
    ∧ reg_write.cfn (sdma_avail_channel N sd)
          ((sdma_start_transfer N sd client s d len).1.sdma_dev.chans
            (sdma_avail_channel N sd)).cfn
        ∈ (sdma_start_transfer N sd client s d len).1.sdma_dev.writes
    ∧ field_value CFN_FIELD_BITS
        ((sdma_start_transfer N sd client s d len).1.sdma_dev.chans
          (sdma_avail_channel N sd)).cfn = (len + 511) / 512 % 2 ^ 16
    ∧ ((sdma_start_transfer N sd client s d len).1.sdma_dev.chans
          (sdma_avail_channel N sd)).cfn / 2 ^ 16
        = to_size_t (sd.sdma_dev.chans (sdma_avail_channel N sd)).cfn / 2 ^ 16
    ∧ (len ≤ 512 * 65535 →
        field_value CFN_FIELD_BITS
          ((sdma_start_transfer N sd client s d len).1.sdma_dev.chans
            (sdma_avail_channel N sd)).cfn = (len + 511) / 512
        ∧ len ≤ 512 * field_value CFN_FIELD_BITS
            ((sdma_start_transfer N sd client s d len).1.sdma_dev.chans
              (sdma_avail_channel N sd)).cfn
        ∧ (∀ n, len ≤ 512 * n →
            field_value CFN_FIELD_BITS
              ((sdma_start_transfer N sd client s d len).1.sdma_dev.chans
                (sdma_avail_channel N sd)).cfn ≤ n)
        ∧ (len = 0 →
            field_value CFN_FIELD_BITS
              ((sdma_start_transfer N sd client s d len).1.sdma_dev.chans
                (sdma_avail_channel N sd)).cfn = 0)
        ∧ (1 ≤ len →
            512 * (field_value CFN_FIELD_BITS
              ((sdma_start_transfer N sd client s d len).1.sdma_dev.chans
                (sdma_avail_channel N sd)).cfn - 1) < len)) := by
  rw [sdma_start_transfer_eq, if_pos hfree]
  simp only [sdma_start_transfer_program_view, sdma_start_transfer_program_writes,
    omap44xx_sdma_dma4_cen_channel_elmnt_nbr_insert,
    omap44xx_sdma_dma4_cfn_channel_frame_nbr_insert, field_insert_value,
    frame_count_raw len hlen]
  have hcen : CEN_FIELD_BITS = 24 := rfl
  have hcfn : CFN_FIELD_BITS = 16 := rfl
  refine ⟨by decide, field_insert_reserved 24 _ _, by simp, by simp, by rw [hcfn],
    field_insert_reserved 16 _ _, ?_⟩
  intro hsmall
  have hpow : (2 : Nat) ^ 16 = 65536 := by decide
  have hfit : (len + 511) / 512 % 2 ^ CFN_FIELD_BITS = (len + 511) / 512 := by
    rw [hcfn, hpow]
    omega
  rw [hfit]
  refine ⟨rfl, ?_, ?_, ?_, ?_⟩
  · omega
  · intro n hn; omega
  · intro h0; omega
  · intro h1; omega

theorem start_transfer_frame_count_witness :
    sdma_avail_channel 32 sample_driver < 32
    ∧ 1000 < SIZE_MOD
    ∧ 1000 ≤ 512 * 65535
    ∧ field_value CFN_FIELD_BITS
        ((sdma_start_transfer 32 sample_driver 0 FRAME_A FRAME_B 1000).1.sdma_dev.chans
          (sdma_avail_channel 32 sample_driver)).cfn = 2
    ∧ field_value CFN_FIELD_BITS
        ((sdma_start_transfer 32 sample_driver 0 FRAME_A FRAME_B 1000).1.sdma_dev.chans
          (sdma_avail_channel 32 sample_driver)).cfn = (1000 + 511) / 512 :=
  ⟨by decide, by decide, by decide, by decide,
   ((start_transfer_frame_count 32 sample_driver 0 FRAME_A FRAME_B 1000
      (by decide) (by decide)).2.2.2.2.2.2 (by decide)).1⟩

/-- C16: when a channel is free, `sdma_start_transfer` returns `SYS_ERR_OK`
and appends exactly twelve register writes, all on the chosen channel, in this
order: CSDP (32-bit data type, 64-byte bursts, little endian, last-non-posted
write mode, packing enabled on both ports), CEN (the word read with the element
count field set to 128), CFN, CSSA = src_addr, CDSA = dst_addr, CCR
(post-increment on both ports, low priority, synchro control 0, enable bit as
read), CSEI (the word read with the element index field set to 1), CSFI = 1,
CDEI = 1, CDFI = 1, CSR = 0, and last CCR with the enable bit set.  When the
reserved bits of the words read are clear, the words written to CEN and CSEI
are 128 and 1. -/
theorem start_transfer_write_order (N : Nat) (sd : sdma_driver) (client s d len : Nat)
    (hfree : sdma_avail_channel N sd < N) :
    (sdma_start_transfer N sd client s d len).2 = SYS_ERR_OK
    ∧ (∃ csdp ccr cen cfn csei,
        (sdma_start_transfer N sd client s d len).1.sdma_dev.writes
          = sd.sdma_dev.writes ++
            [reg_write.csdp (sdma_avail_channel N sd) csdp,
             reg_write.cen (sdma_avail_channel N sd) cen,
             reg_write.cfn (sdma_avail_channel N sd) cfn,
             reg_write.cssa (sdma_avail_channel N sd) (s % SIZE_MOD),
             reg_write.cdsa (sdma_avail_channel N sd) (d % SIZE_MOD),
             reg_write.ccr (sdma_avail_channel N sd) ccr,
             reg_write.csei (sdma_avail_channel N sd) csei,
             reg_write.csfi (sdma_avail_channel N sd) 1,
             reg_write.cdei (sdma_avail_channel N sd) 1,
             reg_write.cdfi (sdma_avail_channel N sd) 1,
             reg_write.csr (sdma_avail_channel N sd) 0,
             reg_write.ccr (sdma_avail_channel N sd) { ccr with enable := 1 }]
        ∧ csdp = { (sd.sdma_dev.chans (sdma_avail_channel N sd)).csdp with
                   data_type := omap44xx_sdma_DATA_TYPE_32BIT,
                   src_burst_en := omap44xx_sdma_BURST_EN_64BYTE,
                   dst_burst_en := omap44xx_sdma_BURST_EN_64BYTE,
                   src_endian := omap44xx_sdma_ENDIAN_LITTLE,
                   dst_endian := omap44xx_sdma_ENDIAN_LITTLE,
                   write_mode := omap44xx_sdma_WRITE_MODE_LAST_NON_POSTED,
                   src_packed := omap44xx_sdma_SRC_PACKED_ENABLE,
                   dst_packed := omap44xx_sdma_SRC_PACKED_ENABLE }
        ∧ ccr = { (sd.sdma_dev.chans (sdma_avail_channel N sd)).ccr with
                  src_amode := omap44xx_sdma_ADDR_MODE_POST_INCR,
                  dst_amode := omap44xx_sdma_ADDR_MODE_POST_INCR,
                  read_priority := omap44xx_sdma_PORT_PRIORITY_LOW,
                  write_priority := omap44xx_sdma_PORT_PRIORITY_LOW,
                  synchro_control := 0,
                  synchro_control_upper := 0 }
        ∧ cen = omap44xx_sdma_dma4_cen_channel_elmnt_nbr_insert
                  (sd.sdma_dev.chans (sdma_avail_channel N sd)).cen 128
        ∧ field_value CEN_FIELD_BITS cen = 128
        ∧ cen / 2 ^ 24 = to_size_t (sd.sdma_dev.chans (sdma_avail_channel N sd)).cen / 2 ^ 24
        ∧ (to_size_t (sd.sdma_dev.chans (sdma_avail_channel N sd)).cen < 2 ^ 24 → cen = 128)
        ∧ cfn = ((sdma_start_transfer N sd client s d len).1.sdma_dev.chans
                  (sdma_avail_channel N sd)).cfn
        ∧ csei = omap44xx_sdma_dma4_csei_channel_src_elmnt_index_insert
                  (sd.sdma_dev.chans (sdma_avail_channel N sd)).csei 1
        ∧ field_value CEI_FIELD_BITS csei = 1
        ∧ csei / 2 ^ 16
            = to_size_t (sd.sdma_dev.chans (sdma_avail_channel N sd)).csei / 2 ^ 16
        ∧ (to_size_t (sd.sdma_dev.chans (sdma_avail_channel N sd)).csei < 2 ^ 16 → csei = 1))
    ∧ (∀ x, x ∈ ((sdma_start_transfer N sd client s d len).1.sdma_dev.writes.drop
                  sd.sdma_dev.writes.length) →
          reg_write.channel x = some (sdma_avail_channel N sd))
    ∧ (∀ ch, ch ≠ sdma_avail_channel N sd →
          (sdma_start_transfer N sd client s d len).1.sdma_dev.chans ch
            = sd.sdma_dev.chans ch) := by
  obtain ⟨L, hL, -, hch⟩ :=
    transfer_writes_on_channel sd.sdma_dev (sdma_avail_channel N sd) s d len
  rw [sdma_start_transfer_eq, if_pos hfree]
  refine ⟨rfl, ⟨_, _, _, _, _, ?_, rfl, rfl, rfl, ?_, ?_, ?_, rfl, rfl, ?_, ?_, ?_⟩, ?_, ?_⟩
  · simp only [sdma_start_transfer_program_view]
    exact sdma_start_transfer_program_writes _ _ _ _ _
  · exact field_insert_value 24 _ 128
  · exact field_insert_reserved 24 _ _
  · intro hz
    exact field_insert_small 24 _ 128 hz
  · exact field_insert_value 16 _ 1
  · exact field_insert_reserved 16 _ _
  · intro hz
    exact field_insert_small 16 _ 1 hz
  · intro x hx
    simp only [hL, List.drop_left] at hx
    exact hch x hx
  · intro ch hne
    exact sdma_start_transfer_program_other _ _ _ _ _ _ hne

theorem start_transfer_write_order_witness :
    sdma_avail_channel 32 sample_driver < 32
    ∧ (sdma_start_transfer 32 sample_driver 0 FRAME_A FRAME_B 1000).2 = SYS_ERR_OK
    ∧ ((sdma_start_transfer 32 sample_driver 0 FRAME_A FRAME_B 1000).1.sdma_dev.writes.map
        reg_write.channel) = List.replicate 12 (some 0) :=
  ⟨by decide,
   (start_transfer_write_order 32 sample_driver 0 FRAME_A FRAME_B 1000 (by decide)).1,
   by decide⟩

/-- C11: a memcpy of session 0 runs on channel 0 (slot in use, no reply yet);
the engine raises the interrupt of channel 0 with one error bit set in `CSR`
and the block bit clear.  After `sdma_update_channel_status` the slot holds the
error code, but it is still in use, no completion reply has been registered and
the session is still not acked. -/
theorem hardware_error_keeps_slot_reserved :
    (sample_busy.chan_state 0).transfer_in_progress = true
    ∧ (sample_busy.chan_state 0).client = 0
    ∧ (sample_busy.heap 0).acked = false
    ∧ sample_busy.sends = []
    ∧ ((sdma_update_channel_status 32 0
          (engine_status sample_busy 0
            { misaligned_adrs_err := 0, supervisor_err := 0, trans_err := 1, block := 0 })
          0 1).chan_state 0).err = SDMA_ERR_TRANSFER
    ∧ ((sdma_update_channel_status 32 0
          (engine_status sample_busy 0
            { misaligned_adrs_err := 0, supervisor_err := 0, trans_err := 1, block := 0 })
          0 1).chan_state 0).transfer_in_progress = true
    ∧ (sdma_update_channel_status 32 0
          (engine_status sample_busy 0
            { misaligned_adrs_err := 0, supervisor_err := 0, trans_err := 1, block := 0 })
          0 1).sends = []
    ∧ ((sdma_update_channel_status 32 0
          (engine_status sample_busy 0
            { misaligned_adrs_err := 0, supervisor_err := 0, trans_err := 1, block := 0 })
          0 1).heap 0).acked = false
    ∧ ((sdma_update_channel_status 32 0
          (engine_status sample_busy 0
            { misaligned_adrs_err := 0, supervisor_err := 1, trans_err := 0, block := 0 })
          0 1).chan_state 0).transfer_in_progress = true
    ∧ (sdma_update_channel_status 32 0
          (engine_status sample_busy 0
            { misaligned_adrs_err := 0, supervisor_err := 1, trans_err := 0, block := 0 })
          0 1).sends = []
    ∧ ((sdma_update_channel_status 32 0
          (engine_status sample_busy 0
            { misaligned_adrs_err := 1, supervisor_err := 0, trans_err := 0, block := 0 })
          0 1).chan_state 0).transfer_in_progress = true
    ∧ (sdma_update_channel_status 32 0
          (engine_status sample_busy 0
            { misaligned_adrs_err := 1, supervisor_err := 0, trans_err := 0, block := 0 })
          0 1).sends = [] := by
  decide

/-- C17: for a flagged channel the handler first decodes the status register
(`sdma_update_channel_csr`, sdma.c:847-887): the slot's error becomes OK when
no error bit is set, otherwise TRANSFER, SUPERVISOR or MISALIGNED with transfer
error before supervisor before misaligned; in_use is cleared when the
block-complete bit is set and left as it was otherwise; the clearing value
`SDMA_REGISTER_CLEAN` is written to the channel's `CSR`; no other slot, no
session and no other register changes.  When exactly channel `chan` is flagged
and its session is not in a memset that has bytes left, this is the slot
`sdma_update_channel_status` returns, after the writes to the line status and
to `CSR`. -/
theorem interrupt_decodes_status (N CLEAN : Nat) (sd : sdma_driver) (irq_line chan : Nat)
    (hchan : chan < N) :
    (((sdma_update_channel_csr CLEAN sd chan).chan_state chan).err
        = (if (sd.sdma_dev.chans chan).csr.trans_err ≠ 0 then SDMA_ERR_TRANSFER
           else if (sd.sdma_dev.chans chan).csr.supervisor_err ≠ 0 then SDMA_ERR_SUPERVISOR
           else if (sd.sdma_dev.chans chan).csr.misaligned_adrs_err ≠ 0 then SDMA_ERR_MISALIGNED
           else SYS_ERR_OK)
      ∧ ((sdma_update_channel_csr CLEAN sd chan).chan_state chan).transfer_in_progress
        = (if (sd.sdma_dev.chans chan).csr.block ≠ 0 then false
           else (sd.chan_state chan).transfer_in_progress)
      ∧ ((sdma_update_channel_csr CLEAN sd chan).chan_state chan).client
        = (sd.chan_state chan).client
      ∧ (∀ ch, ch ≠ chan →
          (sdma_update_channel_csr CLEAN sd chan).chan_state ch = sd.chan_state ch)
      ∧ (sdma_update_channel_csr CLEAN sd chan).sdma_dev.writes
        = sd.sdma_dev.writes ++ [reg_write.csr chan CLEAN]
      ∧ (sdma_update_channel_csr CLEAN sd chan).sdma_dev.chans = sd.sdma_dev.chans
      ∧ (sdma_update_channel_csr CLEAN sd chan).heap = sd.heap
      ∧ (sdma_update_channel_csr CLEAN sd chan).clients = sd.clients
      ∧ (sdma_update_channel_csr CLEAN sd chan).sends = sd.sends
      ∧ (sdma_update_channel_csr CLEAN sd chan).calls = sd.calls)
    ∧ (¬ (((sd.sdma_dev.chans chan).csr.misaligned_adrs_err = 0
            ∧ (sd.sdma_dev.chans chan).csr.supervisor_err = 0
            ∧ (sd.sdma_dev.chans chan).csr.trans_err = 0)
          ∧ (sd.heap (sd.chan_state chan).client).op_type = OpType_Memset
          ∧ (sd.heap (sd.chan_state chan).client).dst_offset
              < (sd.heap (sd.chan_state chan).client).len) →
        (sdma_update_channel_status N CLEAN sd irq_line (1 <<< chan)).chan_state
          = (sdma_update_channel_csr CLEAN sd chan).chan_state
        ∧ (sdma_update_channel_status N CLEAN sd irq_line (1 <<< chan)).sdma_dev.writes
          = sd.sdma_dev.writes
              ++ [reg_write.irqstatus_line irq_line CLEAN, reg_write.csr chan CLEAN]
        ∧ (sdma_update_channel_status N CLEAN sd irq_line (1 <<< chan)).sdma_dev.chans
          = sd.sdma_dev.chans) := by
  refine ⟨?_, ?_⟩
  · rw [sdma_update_channel_csr_eq]
    refine ⟨?_, ?_, ?_, ?_, ?_, ?_, rfl, rfl, rfl, rfl⟩
    · simp [csr_error]
    · simp
    · simp
    · intro ch hne
      simp [Function.update_noteq hne]
    · simp [omap44xx_sdma_dma4_csr_wr, dev_store]
    · simp [omap44xx_sdma_dma4_csr_wr, dev_store]
  · intro hnot
    rw [sdma_update_channel_status_single N CLEAN sd irq_line chan hchan]
    have hnot2 : ¬ (csr_error (({ sd with sdma_dev :=
          omap44xx_sdma_dma4_irqstatus_line_wr sd.sdma_dev irq_line CLEAN } : sdma_driver).sdma_dev.chans
            chan).csr = SYS_ERR_OK
        ∧ (({ sd with sdma_dev :=
          omap44xx_sdma_dma4_irqstatus_line_wr sd.sdma_dev irq_line CLEAN } : sdma_driver).heap
            (({ sd with sdma_dev :=
          omap44xx_sdma_dma4_irqstatus_line_wr sd.sdma_dev irq_line CLEAN } : sdma_driver).chan_state
              chan).client).op_type = OpType_Memset
        ∧ (({ sd with sdma_dev :=
          omap44xx_sdma_dma4_irqstatus_line_wr sd.sdma_dev irq_line CLEAN } : sdma_driver).heap
            (({ sd with sdma_dev :=
          omap44xx_sdma_dma4_irqstatus_line_wr sd.sdma_dev irq_line CLEAN } : sdma_driver).chan_state
              chan).client).dst_offset
          < (({ sd with sdma_dev :=
          omap44xx_sdma_dma4_irqstatus_line_wr sd.sdma_dev irq_line CLEAN } : sdma_driver).heap
            (({ sd with sdma_dev :=
          omap44xx_sdma_dma4_irqstatus_line_wr sd.sdma_dev irq_line CLEAN } : sdma_driver).chan_state
              chan).client).len) := by
      intro h
      apply hnot
      exact ⟨(csr_error_ok_iff _).mp h.1, h.2.1, h.2.2⟩
    rw [sdma_update_channel_plain N CLEAN _ chan hnot2]
    split
    · simp only [sdma_update_channel_csr_eq]
      refine ⟨rfl, ?_, ?_⟩
      · simp [omap44xx_sdma_dma4_csr_wr, dev_store, omap44xx_sdma_dma4_irqstatus_line_wr]
      · simp [omap44xx_sdma_dma4_csr_wr, dev_store, omap44xx_sdma_dma4_irqstatus_line_wr]
    · simp only [sdma_update_channel_csr_eq]
      refine ⟨rfl, ?_, ?_⟩
      · simp [omap44xx_sdma_dma4_csr_wr, dev_store, omap44xx_sdma_dma4_irqstatus_line_wr]
      · simp [omap44xx_sdma_dma4_csr_wr, dev_store, omap44xx_sdma_dma4_irqstatus_line_wr]

theorem interrupt_decodes_status_witness :
    (0 : Nat) < 32
    ∧ ((sdma_update_channel_csr 0
          (engine_status sample_busy 0
            { misaligned_adrs_err := 1, supervisor_err := 1, trans_err := 0, block := 1 })
          0).chan_state 0).err = SDMA_ERR_SUPERVISOR
    ∧ ((sdma_update_channel_csr 0
          (engine_status sample_busy 0
            { misaligned_adrs_err := 1, supervisor_err := 1, trans_err := 0, block := 1 })
          0).chan_state 0).transfer_in_progress = false
    ∧ (sdma_update_channel_csr 0
          (engine_status sample_busy 0
            { misaligned_adrs_err := 1, supervisor_err := 1, trans_err := 0, block := 1 })
          0).sdma_dev.writes
        = (engine_status sample_busy 0
            { misaligned_adrs_err := 1, supervisor_err := 1, trans_err := 0, block := 1 }).sdma_dev.writes
            ++ [reg_write.csr 0 0] :=
  ⟨by decide, by decide, by decide,
   (interrupt_decodes_status 32 0
      (engine_status sample_busy 0
        { misaligned_adrs_err := 1, supervisor_err := 1, trans_err := 0, block := 1 })
      0 0 (by decide)).1.2.2.2.2.1⟩

theorem cast_size_mod_pred : (((SIZE_MOD - 1 : Nat) : Nat) : ZMod SIZE_MOD) = -1 := by
  have h : ((SIZE_MOD - 1 : Nat) : ZMod SIZE_MOD) + 1 = 0 := by
    have : (((SIZE_MOD - 1 + 1 : Nat) : Nat) : ZMod SIZE_MOD) = 0 := by
      rw [show SIZE_MOD - 1 + 1 = SIZE_MOD from by decide]
      exact ZMod.natCast_self SIZE_MOD
    rw [← this]; push_cast; ring
  exact eq_neg_of_add_eq_zero_left h

theorem double_index_addr_succ (start es en ei fi k : Nat) :
    double_index_addr start es en ei fi (k + 1)
      = (double_index_addr start es en ei fi k + es
          + (if (k + 1) % en = 0 then fi else ei) + (SIZE_MOD - 1)) % SIZE_MOD := rfl

theorem double_index_addr_lt (start es en ei fi k : Nat) :
    double_index_addr start es en ei fi k < SIZE_MOD := by
  cases k <;> exact Nat.mod_lt _ (by decide)

theorem double_index_addr_cast (start es en ei fi : Nat) (hen : 0 < en) :
    ∀ k r c, c < en → k = r * en + c →
      ((double_index_addr start es en ei fi k : Nat) : ZMod SIZE_MOD)
        = (start : ZMod SIZE_MOD)
          + (c : ZMod SIZE_MOD) * ((es : ZMod SIZE_MOD) + (ei : ZMod SIZE_MOD) - 1)
          + (r : ZMod SIZE_MOD)
            * (((en : ZMod SIZE_MOD) - 1) * ((es : ZMod SIZE_MOD) + (ei : ZMod SIZE_MOD) - 1)
                + ((es : ZMod SIZE_MOD) + (fi : ZMod SIZE_MOD) - 1)) := by
  intro k
  induction k with
  | zero =>
    intro r c hc hk
    have hc0 : c = 0 := by omega
    have hr0 : r = 0 := by
      rcases Nat.eq_zero_or_pos r with h | h
      · exact h
      · have : 0 < r * en := Nat.mul_pos h hen
        omega
    subst hc0; subst hr0
    simp [double_index_addr]
  | succ k ih =>
    intro r c hc hk
    rw [double_index_addr_succ, ZMod.natCast_mod]
    cases c with
    | zero =>
      cases r with
      | zero => simp at hk
      | succ r =>
        have hk2 : k = r * en + (en - 1) := by
          have : (r + 1) * en = r * en + en := by ring
          omega
        have hmod : (k + 1) % en = 0 := by
          rw [hk]; simp
        have ih2 := ih r (en - 1) (by omega) hk2
        rw [if_pos hmod]
        push_cast
        rw [ih2, cast_size_mod_pred, Nat.cast_sub hen]
        push_cast
        ring
    | succ c =>
      have hk2 : k = r * en + c := by omega
      have hmod : ¬ (k + 1) % en = 0 := by
        rw [hk, Nat.mul_add_mod_of_lt hc]
        omega
      have ih2 := ih r c (by omega) hk2
      rw [if_neg hmod]
      push_cast
      rw [ih2, cast_size_mod_pred]
      ring

theorem eq_mod_of_cast_eq (a b : Nat) (ha : a < SIZE_MOD)
    (h : ((a : Nat) : ZMod SIZE_MOD) = ((b : Nat) : ZMod SIZE_MOD)) : a = b % SIZE_MOD := by
  have h2 := (ZMod.natCast_eq_natCast_iff' a b SIZE_MOD).mp h
  rw [Nat.mod_eq_of_lt ha] at h2
  exact h2

theorem rotate_src_addr (s w r c : Nat) (hw : w < SIZE_MOD) (hc : c < w) :
    double_index_addr (to_size_t s) 4 (to_size_t w) 1 1 (r * w + c)
      = (s + 4 * (r * w + c)) % SIZE_MOD := by
  have hwe : to_size_t w = w := Nat.mod_eq_of_lt hw
  rw [hwe]
  apply eq_mod_of_cast_eq _ _ (double_index_addr_lt _ _ _ _ _ _)
  rw [double_index_addr_cast (to_size_t s) 4 w 1 1 (by omega) (r * w + c) r c hc rfl,
    cast_to_size_t]
  push_cast
  ring

theorem rotate_dst_addr (d w h r c : Nat) (hw : w < SIZE_MOD) (hr : r < h) (hc : c < w) :
    double_index_addr (size_add (to_size_t d) (size_mul (size_sub h 1) 4)) 4 (to_size_t w)
        (to_size_t (size_add (size_mul (size_sub h 1) 4) 1))
        (size_sub 1 (size_mul 4 (size_add (size_mul (size_sub w 1) h) 2))) (r * w + c)
      = (d + 4 * (c * h + (h - 1 - r))) % SIZE_MOD := by
  have hwe : to_size_t w = w := Nat.mod_eq_of_lt hw
  rw [hwe]
  apply eq_mod_of_cast_eq _ _ (double_index_addr_lt _ _ _ _ _ _)
  rw [double_index_addr_cast _ 4 w _ _ (by omega) (r * w + c) r c hc rfl]
  rw [cast_size_add, cast_to_size_t, cast_size_mul, cast_size_sub, cast_to_size_t,
    cast_size_add, cast_size_mul, cast_size_sub, cast_size_sub, cast_size_mul, cast_size_add,
    cast_size_mul, cast_size_sub]
  have hsub : h - 1 - r = h - (1 + r) := by omega
  rw [hsub]
  push_cast [Nat.cast_sub (show 1 + r ≤ h by omega)]
  ring

theorem foldl_copy (src dst : Nat → Nat) (mem : Nat → Nat) (n : Nat)
    (hinj : ∀ i j, i < n → j < n → dst i = dst j → i = j)
    (hdis : ∀ i j, i < n → j < n → src i ≠ dst j) :
    ∀ m, m ≤ n →
      (∀ k, k < m →
        ((List.range m).foldl (fun M k => Function.update M (dst k) (M (src k))) mem) (dst k)
          = mem (src k))
      ∧ (∀ a, (∀ k, k < m → a ≠ dst k) →
        ((List.range m).foldl (fun M k => Function.update M (dst k) (M (src k))) mem) a
          = mem a) := by
  intro m
  induction m with
  | zero =>
    intro _
    exact ⟨fun k hk => absurd hk (Nat.not_lt_zero k), fun a _ => rfl⟩
  | succ m ih =>
    intro hm
    have hmn : m < n := hm
    obtain ⟨ih1, ih2⟩ := ih (Nat.le_of_lt hmn)
    rw [List.range_succ, List.foldl_append]
    simp only [List.foldl_cons, List.foldl_nil]
    have hsrc : ((List.range m).foldl (fun M k => Function.update M (dst k) (M (src k))) mem)
        (src m) = mem (src m) := by
      apply ih2
      intro k hk
      exact hdis m k hmn (Nat.lt_trans hk hmn)
    constructor
    · intro k hk
      by_cases hkm : k = m
      · subst hkm
        rw [Function.update_same, hsrc]
      · have hkm2 : k < m := Nat.lt_of_le_of_ne (Nat.lt_succ_iff.mp hk) hkm
        have hne : dst k ≠ dst m := by
          intro e
          exact hkm (hinj k m (Nat.lt_trans hkm2 hmn) hmn e)
        rw [Function.update_noteq hne]
        exact ih1 k hkm2
    · intro a ha
      have hne : a ≠ dst m := ha m (Nat.lt_succ_self m)
      rw [Function.update_noteq hne]
      apply ih2
      intro k hk
      exact ha k (Nat.lt_succ_of_lt hk)

theorem rotate_index_inj (w ht i j : Nat) (hi : i < w * ht) (hj : j < w * ht)
    (e : (i % w) * ht + (ht - 1 - i / w) = (j % w) * ht + (ht - 1 - j / w)) : i = j := by
  have hw : 0 < w := by
    rcases Nat.eq_zero_or_pos w with h0 | h0
    · rw [h0, Nat.zero_mul] at hi
      exact absurd hi (Nat.not_lt_zero i)
    · exact h0
  have hiw : i / w < ht := (Nat.div_lt_iff_lt_mul hw).mpr (by rw [Nat.mul_comm]; exact hi)
  have hjw : j / w < ht := (Nat.div_lt_iff_lt_mul hw).mpr (by rw [Nat.mul_comm]; exact hj)
  have hc : i % w = j % w := by
    rcases Nat.lt_trichotomy (i % w) (j % w) with hlt | heq | hgt
    · exfalso
      have h1 : (i % w + 1) * ht ≤ (j % w) * ht := Nat.mul_le_mul_right ht hlt
      rw [Nat.add_mul, Nat.one_mul] at h1
      have ha : ht - 1 - i / w < ht := Nat.lt_of_le_of_lt (Nat.sub_le _ _) (Nat.sub_lt (Nat.lt_of_le_of_lt (Nat.zero_le _) hiw) Nat.one_pos)
      generalize (i % w) * ht = P at e h1
      generalize (j % w) * ht = Q at e h1
      generalize ht - 1 - i / w = a at e ha
      generalize ht - 1 - j / w = b at e
      omega
    · exact heq
    · exfalso
      have h1 : (j % w + 1) * ht ≤ (i % w) * ht := Nat.mul_le_mul_right ht hgt
      rw [Nat.add_mul, Nat.one_mul] at h1
      have hb : ht - 1 - j / w < ht := Nat.lt_of_le_of_lt (Nat.sub_le _ _) (Nat.sub_lt (Nat.lt_of_le_of_lt (Nat.zero_le _) hiw) Nat.one_pos)
      generalize (i % w) * ht = P at e h1
      generalize (j % w) * ht = Q at e h1
      generalize ht - 1 - i / w = a at e
      generalize ht - 1 - j / w = b at e hb
      omega
  rw [hc] at e
  have hd : i / w = j / w := by
    generalize i / w = x at e hiw
    generalize j / w = y at e hjw
    omega
  rw [← Nat.div_add_mod i w, ← Nat.div_add_mod j w, hc, hd]

theorem rotate_index_lt (w ht k : Nat) (hk : k < w * ht) :
    (k % w) * ht + (ht - 1 - k / w) < w * ht := by
  have hw : 0 < w := by
    rcases Nat.eq_zero_or_pos w with h0 | h0
    · rw [h0, Nat.zero_mul] at hk
      exact absurd hk (Nat.not_lt_zero k)
    · exact h0
  have hkw : k / w < ht := (Nat.div_lt_iff_lt_mul hw).mpr (by rw [Nat.mul_comm]; exact hk)
  have hpos : 0 < ht := Nat.lt_of_le_of_lt (Nat.zero_le _) hkw
  have ha : ht - 1 - k / w < ht := Nat.lt_of_le_of_lt (Nat.sub_le _ _) (Nat.sub_lt hpos Nat.one_pos)
  have hc : k % w + 1 ≤ w := Nat.mod_lt k hw
  have h1 : (k % w + 1) * ht ≤ w * ht := Nat.mul_le_mul_right ht hc
  rw [Nat.add_mul, Nat.one_mul] at h1
  generalize (k % w) * ht = P at h1 ⊢
  generalize ht - 1 - k / w = a at ha ⊢
  generalize w * ht = Q at h1 ⊢
  omega

theorem rotate_src_addr_flat (s w ht k : Nat) (hw : w < SIZE_MOD) (hk : k < w * ht)
    (hs : s + 4 * (w * ht) ≤ SIZE_MOD) :
    double_index_addr (to_size_t s) 4 (to_size_t w) 1 1 k = s + 4 * k := by
  have hw0 : 0 < w := by
    rcases Nat.eq_zero_or_pos w with h0 | h0
    · rw [h0, Nat.zero_mul] at hk
      exact absurd hk (Nat.not_lt_zero k)
    · exact h0
  have hkd : k / w * w + k % w = k := by
    rw [Nat.mul_comm]; exact Nat.div_add_mod k w
  have h := rotate_src_addr s w (k / w) (k % w) hw (Nat.mod_lt k hw0)
  rw [hkd] at h
  rw [h]
  apply Nat.mod_eq_of_lt
  generalize w * ht = Q at hk hs
  omega

theorem rotate_dst_addr_flat (d w ht k : Nat) (hw : w < SIZE_MOD) (hk : k < w * ht)
    (hd : d + 4 * (w * ht) ≤ SIZE_MOD) :
    double_index_addr (size_add (to_size_t d) (size_mul (size_sub ht 1) 4)) 4 (to_size_t w)
        (to_size_t (size_add (size_mul (size_sub ht 1) 4) 1))
        (size_sub 1 (size_mul 4 (size_add (size_mul (size_sub w 1) ht) 2))) k
      = d + 4 * ((k % w) * ht + (ht - 1 - k / w)) := by
  have hw0 : 0 < w := by
    rcases Nat.eq_zero_or_pos w with h0 | h0
    · rw [h0, Nat.zero_mul] at hk
      exact absurd hk (Nat.not_lt_zero k)
    · exact h0
  have hkw : k / w < ht := (Nat.div_lt_iff_lt_mul hw0).mpr (by rw [Nat.mul_comm]; exact hk)
  have hkd : k / w * w + k % w = k := by
    rw [Nat.mul_comm]; exact Nat.div_add_mod k w
  have h := rotate_dst_addr d w ht (k / w) (k % w) hw hkw (Nat.mod_lt k hw0)
  rw [hkd] at h
  rw [h]
  apply Nat.mod_eq_of_lt
  have hlt := rotate_index_lt w ht k hk
  generalize (k % w) * ht + (ht - 1 - k / w) = x at hlt
  generalize w * ht = Q at hlt hd
  omega

theorem rotate_block_data (s d w ht : Nat) (mem : Nat → Nat) (regs : chan_regs)
    (hw : w < SIZE_MOD) (hh : ht < SIZE_MOD)
    (hs : s + 4 * (w * ht) ≤ SIZE_MOD) (hd : d + 4 * (w * ht) ≤ SIZE_MOD)
    (hdis : s + 4 * (w * ht) ≤ d ∨ d + 4 * (w * ht) ≤ s)
    (h1 : regs.cssa = to_size_t s) (h2 : engine_en regs = to_size_t w)
    (h3 : engine_fn regs = to_size_t ht)
    (h4 : engine_ei regs.csei = 1) (h5 : regs.csfi = 1)
    (h6 : regs.cdsa = size_add (to_size_t d) (size_mul (size_sub ht 1) 4))
    (h7 : engine_ei regs.cdei = to_size_t (size_add (size_mul (size_sub ht 1) 4) 1))
    (h8 : regs.cdfi = size_sub 1 (size_mul 4 (size_add (size_mul (size_sub w 1) ht) 2)))
    (r c : Nat) (hr : r < ht) (hc : c < w) :
    engine_run_block regs mem (d + 4 * (c * ht + (ht - 1 - r))) = mem (s + 4 * (r * w + c)) := by
  have hwe : to_size_t w = w := Nat.mod_eq_of_lt hw
  have hhe : to_size_t ht = ht := Nat.mod_eq_of_lt hh
  have hk : r * w + c < w * ht := by
    calc r * w + c < r * w + w := by omega
      _ = w * (r + 1) := by ring
      _ ≤ w * ht := Nat.mul_le_mul_left w hr
  have hmod : (r * w + c) % w = c := by
    rw [Nat.add_comm, Nat.add_mul_mod_self_right, Nat.mod_eq_of_lt hc]
  have hdiv : (r * w + c) / w = r := by
    rw [Nat.add_comm, Nat.add_mul_div_right _ _ (by omega : 0 < w), Nat.div_eq_of_lt hc,
      Nat.zero_add]
  unfold engine_run_block
  rw [h1, h2, h3, h4, h5, h6, h7, h8, hhe]
  have hcopy := (foldl_copy
    (fun k => double_index_addr (to_size_t s) 4 (to_size_t w) 1 1 k)
    (fun k => double_index_addr (size_add (to_size_t d) (size_mul (size_sub ht 1) 4)) 4
      (to_size_t w) (to_size_t (size_add (size_mul (size_sub ht 1) 4) 1))
      (size_sub 1 (size_mul 4 (size_add (size_mul (size_sub w 1) ht) 2))) k)
    mem (w * ht)
    (by
      intro i j hi hj e
      simp only [rotate_dst_addr_flat d w ht _ hw hi hd,
        rotate_dst_addr_flat d w ht _ hw hj hd] at e
      exact rotate_index_inj w ht i j hi hj (by omega))
    (by
      intro i j hi hj e
      simp only [rotate_dst_addr_flat d w ht _ hw hj hd,
        rotate_src_addr_flat s w ht _ hw hi hs] at e
      have hlt := rotate_index_lt w ht j hj
      generalize (j % w) * ht + (ht - 1 - j / w) = x at hlt e
      generalize w * ht = Q at hlt hi hs hd hdis
      omega)
    (w * ht) (Nat.le_refl _)).1 (r * w + c) hk
  simp only [rotate_dst_addr_flat d w ht _ hw hk hd, rotate_src_addr_flat s w ht _ hw hk hs,
    hmod, hdiv] at hcopy
  rw [hwe]
  simp only [hwe] at hcopy
  exact hcopy

theorem rotate_engine_fields (dev : omap44xx_sdma_t) (chan s d w h : Nat)
    (hw : w < 2 ^ 24) (h1 : 1 ≤ h) (hh : h ≤ 8192) :
    engine_en ((sdma_start_rotate_program dev chan s d w h).chans chan) = to_size_t w
    ∧ engine_fn ((sdma_start_rotate_program dev chan s d w h).chans chan) = to_size_t h
    ∧ engine_ei ((sdma_start_rotate_program dev chan s d w h).chans chan).csei = 1
    ∧ engine_ei ((sdma_start_rotate_program dev chan s d w h).chans chan).cdei
        = to_size_t (size_add (size_mul (size_sub h 1) 4) 1) := by
  simp only [sdma_start_rotate_program_view, engine_en, engine_fn, engine_ei,
    omap44xx_sdma_dma4_cen_channel_elmnt_nbr_insert,
    omap44xx_sdma_dma4_cfn_channel_frame_nbr_insert,
    omap44xx_sdma_dma4_csei_channel_src_elmnt_index_insert,
    omap44xx_sdma_dma4_cdei_channel_dst_elmnt_index_insert, field_insert_value]
  have e : size_add (size_mul (size_sub h 1) 4) 1 = (h - 1) * 4 + 1 := by
    unfold size_add size_mul size_sub
    unfold SIZE_MOD
    omega
  have hcen : (2 : Nat) ^ CEN_FIELD_BITS = 16777216 := by decide
  have hcfn : (2 : Nat) ^ CFN_FIELD_BITS = 65536 := by decide
  have hcei : (2 : Nat) ^ CEI_FIELD_BITS = 65536 := by decide
  have h15 : (2 : Nat) ^ 15 = 32768 := by decide
  have h24 : (2 : Nat) ^ 24 = 16777216 := by decide
  rw [e, hcen, hcfn, hcei, h15]
  rw [h24] at hw
  unfold to_size_t SIZE_MOD
  refine ⟨by omega, by omega, ?_, ?_⟩
  · rw [if_pos (by omega)]
  · rw [if_pos (by omega)]
    omega

/-- C13, counterexample: for an image of width 2 and height 20000 the element
of row 0, column 1 (index 1) would go to `dst + 4 * (1 * 20000 + 19999)
= dst + 159996`; with the registers `sdma_start_rotate` leaves, the engine
writes it at `dst + 94460`, since the element index field of `DMA4_CDEI` holds
`79997 mod 2^16 = 14461`. -/
theorem rotate_tall_image_misplaced :
    (sdma_start_rotate 32 sample_driver 0 FRAME_A FRAME_B 2 20000).2 = SYS_ERR_OK
    ∧ engine_ei
        ((sdma_start_rotate 32 sample_driver 0 FRAME_A FRAME_B 2 20000).1.sdma_dev.chans
          0).cdei = 14461
    ∧ double_index_addr
          ((sdma_start_rotate 32 sample_driver 0 FRAME_A FRAME_B 2 20000).1.sdma_dev.chans
              0).cdsa
          4
          (engine_en
            ((sdma_start_rotate 32 sample_driver 0 FRAME_A FRAME_B 2 20000).1.sdma_dev.chans
              0))
          (engine_ei
            ((sdma_start_rotate 32 sample_driver 0 FRAME_A FRAME_B 2 20000).1.sdma_dev.chans
              0).cdei)
          ((sdma_start_rotate 32 sample_driver 0 FRAME_A FRAME_B 2 20000).1.sdma_dev.chans
              0).cdfi
          (0 * 2 + 1)
        = FRAME_B + 94460
    ∧ (FRAME_B + 4 * (1 * 20000 + (20000 - 1 - 0))) % SIZE_MOD = FRAME_B + 159996 := by
  decide

/-- C13, amended: under the double-index address rule (`double_index_addr`),
with the registers `sdma_start_rotate` leaves on the chosen channel and the
element count, frame count and element indexes the engine reads from their
fields (`engine_en`, `engine_fn`, `engine_ei`), for every image of `width`
by `height` words with `width < 2^24` and `height ≤ 8192` (so that width,
height and `(height-1)*4 + 1` fit their fields) the element of index
`r * width + c` belongs to the block, is read at `src + 4 * (r * width + c)`
and written at `dst + 4 * (c * height + (height - 1 - r))`, modulo `2^32`:
destination element index `c * height + (height - 1 - r)`, that is row `c`,
column `height - 1 - r` of the output of `height` columns.  When the two
images lie inside the 32-bit address space and do not overlap, the block the
engine runs (`engine_run_block`) leaves the input word of row `r`, column `c`
at that destination: row `c` of the output is column `c` of the input
reversed. -/
theorem rotate_engine_addresses (N : Nat) (sd : sdma_driver) (client s d w h r c : Nat)
    (hfree : sdma_avail_channel N sd < N) (hw : w < 2 ^ 24) (hh : h ≤ 8192)
    (hr : r < h) (hc : c < w) :
    (sdma_start_rotate N sd client s d w h).2 = SYS_ERR_OK
    ∧ r * w + c
        < engine_en ((sdma_start_rotate N sd client s d w h).1.sdma_dev.chans
              (sdma_avail_channel N sd))
          * engine_fn ((sdma_start_rotate N sd client s d w h).1.sdma_dev.chans
              (sdma_avail_channel N sd))
    ∧ double_index_addr
          ((sdma_start_rotate N sd client s d w h).1.sdma_dev.chans
              (sdma_avail_channel N sd)).cssa
          4
          (engine_en ((sdma_start_rotate N sd client s d w h).1.sdma_dev.chans
              (sdma_avail_channel N sd)))
          (engine_ei ((sdma_start_rotate N sd client s d w h).1.sdma_dev.chans
              (sdma_avail_channel N sd)).csei)
          ((sdma_start_rotate N sd client s d w h).1.sdma_dev.chans
              (sdma_avail_channel N sd)).csfi
          (r * w + c)
        = (s + 4 * (r * w + c)) % SIZE_MOD
    ∧ double_index_addr
          ((sdma_start_rotate N sd client s d w h).1.sdma_dev.chans
              (sdma_avail_channel N sd)).cdsa
          4
          (engine_en ((sdma_start_rotate N sd client s d w h).1.sdma_dev.chans
              (sdma_avail_channel N sd)))
          (engine_ei ((sdma_start_rotate N sd client s d w h).1.sdma_dev.chans
              (sdma_avail_channel N sd)).cdei)
          ((sdma_start_rotate N sd client s d w h).1.sdma_dev.chans
              (sdma_avail_channel N sd)).cdfi
          (r * w + c)
        = (d + 4 * (c * h + (h - 1 - r))) % SIZE_MOD
    ∧ (s + 4 * (w * h) ≤ SIZE_MOD → d + 4 * (w * h) ≤ SIZE_MOD →
        (s + 4 * (w * h) ≤ d ∨ d + 4 * (w * h) ≤ s) →
        ∀ mem : Nat → Nat,
          engine_run_block
              ((sdma_start_rotate N sd client s d w h).1.sdma_dev.chans
                (sdma_avail_channel N sd))
              mem (d + 4 * (c * h + (h - 1 - r)))
            = mem (s + 4 * (r * w + c))) := by
  have hw32 : w < SIZE_MOD := Nat.lt_trans hw (by decide)
  have hh32 : h < SIZE_MOD := Nat.lt_of_le_of_lt hh (by decide)
  obtain ⟨hen, hfn, hsei, hdei⟩ :=
    rotate_engine_fields sd.sdma_dev (sdma_avail_channel N sd) s d w h hw (by omega) hh
  rw [sdma_start_rotate_eq, if_pos hfree]
  simp only [hen, hfn, hsei, hdei]
  refine ⟨trivial, ?_, ?_, ?_, ?_⟩
  · have hwe : to_size_t w = w := Nat.mod_eq_of_lt hw32
    have hhe : to_size_t h = h := Nat.mod_eq_of_lt hh32
    rw [hwe, hhe]
    calc r * w + c < r * w + w := by omega
      _ = w * (r + 1) := by ring
      _ ≤ w * h := Nat.mul_le_mul_left w hr
  · simp only [sdma_start_rotate_program_view]
    exact rotate_src_addr s w r c hw32 hc
  · simp only [sdma_start_rotate_program_view]
    exact rotate_dst_addr d w h r c hw32 hr hc
  · intro hs hd hdis mem
    refine rotate_block_data s d w h mem _ hw32 hh32 hs hd hdis ?_ hen hfn hsei ?_ ?_ hdei ?_
      r c hr hc
    all_goals simp only [sdma_start_rotate_program_view]

theorem rotate_engine_addresses_witness :
    sdma_avail_channel 32 sample_driver < 32
    ∧ 4 < 2 ^ 24
    ∧ 4 ≤ 8192
    ∧ (List.range 16).map (fun j =>
        engine_run_block
          ((sdma_start_rotate 32 sample_driver 0 FRAME_A FRAME_B 4 4).1.sdma_dev.chans 0)
          sample_image (FRAME_B + 4 * j))
        = [12, 8, 4, 0, 13, 9, 5, 1, 14, 10, 6, 2, 15, 11, 7, 3]
    ∧ double_index_addr
          ((sdma_start_rotate 32 sample_driver 0 FRAME_A FRAME_B 4 4).1.sdma_dev.chans
              (sdma_avail_channel 32 sample_driver)).cdsa
          4
          (engine_en ((sdma_start_rotate 32 sample_driver 0 FRAME_A FRAME_B 4 4).1.sdma_dev.chans
              (sdma_avail_channel 32 sample_driver)))
          (engine_ei ((sdma_start_rotate 32 sample_driver 0 FRAME_A FRAME_B 4 4).1.sdma_dev.chans
              (sdma_avail_channel 32 sample_driver)).cdei)
          ((sdma_start_rotate 32 sample_driver 0 FRAME_A FRAME_B 4 4).1.sdma_dev.chans
              (sdma_avail_channel 32 sample_driver)).cdfi
          (1 * 4 + 2)
        = (FRAME_B + 4 * (2 * 4 + (4 - 1 - 1))) % SIZE_MOD :=
  ⟨by decide, by decide, by decide, by decide,
   (rotate_engine_addresses 32 sample_driver 0 FRAME_A FRAME_B 4 4 1 2
      (by decide) (by decide) (by decide) (by decide) (by decide)).2.2.2.1⟩

/-- C20: a message with a recognised opcode and a wrong length is not dropped.
The one-word message `{MEMCPY_SRC}` (its payload `src_offset, len` is missing)
received on the channel of session 0 makes `sdma_serve_rpc` register a reply
and set the `SRC` bit of the session; the one-word message `{MEMCPY_DST}` that
follows a complete source half is answered with OK and programs channel 0. -/
theorem short_message_is_processed :
    [SDMA_RPC_MEMCPY_SRC].length ≠ 3
    ∧ (sample_driver.heap 0).have_caps = 0
    ∧ (sdma_serve_rpc 1 32 4096 sample_driver 0
          (received [SDMA_RPC_MEMCPY_SRC] (sample_cap 1 8 FRAME_A 4096))
          (sample_env 1)).value.map Prod.snd
        = some (some (rpc_reply.err 0 SYS_ERR_OK))
    ∧ (sdma_serve_rpc 1 32 4096 sample_driver 0
          (received [SDMA_RPC_MEMCPY_SRC] (sample_cap 1 8 FRAME_A 4096))
          (sample_env 1)).value.map (fun r => (r.1.heap 0).have_caps)
        = some 1
    ∧ [SDMA_RPC_MEMCPY_DST].length ≠ 2
    ∧ (after_memcpy_src FRAME_A 4096 0 4096).sdma_dev.writes = []
    ∧ (sdma_serve_rpc 1 32 4096 (after_memcpy_src FRAME_A 4096 0 4096) 0
          (received [SDMA_RPC_MEMCPY_DST] (sample_cap 1 8 FRAME_B 4096))
          (sample_env 1)).value.map Prod.snd
        = some (some (rpc_reply.err 0 SYS_ERR_OK))
    ∧ (sdma_serve_rpc 1 32 4096 (after_memcpy_src FRAME_A 4096 0 4096) 0
          (received [SDMA_RPC_MEMCPY_DST] (sample_cap 1 8 FRAME_B 4096))
          (sample_env 1)).value.map (fun r => r.1.sdma_dev.writes.length)
        = some 12
    ∧ (sdma_serve_rpc 1 32 4096 (after_memcpy_src FRAME_A 4096 0 4096) 0
          (received [SDMA_RPC_MEMCPY_DST] (sample_cap 1 8 FRAME_B 4096))
          (sample_env 1)).value.map (fun r => (r.1.chan_state 0).transfer_in_progress)
        = some true := by
  decide

/-- C20 (amended): a message whose first word is none of the six opcodes makes
`sdma_serve_rpc` return the state it was given and register no reply (unless
the receive failed for good, then the driver aborts); the length of the message
is not examined: a message whose first word is one of the five request opcodes
is always handed to its handler and answered on the session's channel. -/
theorem unknown_opcode_dropped (fuel N M : Nat) (sd : sdma_driver) (client : Nat)
    (rcv : recv_result) (env : handshake_env)
    (hrecv : (err_is_fail rcv.err && !rcv.transient) = false) :
    (rcv.msg.word 0 ∉ [SDMA_RPC_HANDSHAKE, SDMA_RPC_MEMCPY_SRC, SDMA_RPC_MEMCPY_DST,
        SDMA_RPC_MEMSET, SDMA_RPC_ROTATE_SRC, SDMA_RPC_ROTATE_DST] →
      sdma_serve_rpc fuel N M sd client rcv env = run.ok (sd, none))
    ∧ (rcv.msg.word 0 ∈ [SDMA_RPC_MEMCPY_SRC, SDMA_RPC_MEMCPY_DST] →
        sdma_serve_rpc fuel N M sd client rcv env
          = run.ok ((sdma_process_memcpy N sd client rcv.msg rcv.cap.frame).1,
              some (rpc_reply.err client
                (sdma_process_memcpy N sd client rcv.msg rcv.cap.frame).2)))
    ∧ (rcv.msg.word 0 = SDMA_RPC_MEMSET →
        sdma_serve_rpc fuel N M sd client rcv env
          = run.ok ((sdma_process_memset N M sd client rcv.msg rcv.cap.frame).1,
              some (rpc_reply.err client
                (sdma_process_memset N M sd client rcv.msg rcv.cap.frame).2)))
    ∧ (rcv.msg.word 0 ∈ [SDMA_RPC_ROTATE_SRC, SDMA_RPC_ROTATE_DST] →
        sdma_serve_rpc fuel N M sd client rcv env
          = run.ok ((sdma_process_rotate N sd client rcv.msg rcv.cap.frame).1,
              some (rpc_reply.err client
                (sdma_process_rotate N sd client rcv.msg rcv.cap.frame).2))) := by
  unfold sdma_serve_rpc
  rw [hrecv]
  simp only [Bool.false_eq_true, if_false, List.mem_cons, List.mem_singleton,
    List.not_mem_nil, or_false, not_or]
  refine ⟨?_, ?_, ?_, ?_⟩
  · rintro ⟨h1, h2, h3, h4, h5, h6⟩
    simp [h1, h2, h3, h4, h5, h6]
  · intro h
    have h1 : rcv.msg.word 0 ≠ SDMA_RPC_HANDSHAKE := by
      rcases h with h | h <;> rw [h] <;> decide
    rw [if_neg h1, if_pos h]
  · intro h
    have h1 : rcv.msg.word 0 ≠ SDMA_RPC_HANDSHAKE := by rw [h]; decide
    have h2 : rcv.msg.word 0 ≠ SDMA_RPC_MEMCPY_SRC := by rw [h]; decide
    have h3 : rcv.msg.word 0 ≠ SDMA_RPC_MEMCPY_DST := by rw [h]; decide
    rw [if_neg h1, if_neg (not_or.mpr ⟨h2, h3⟩), if_pos h]
  · intro h
    have h1 : rcv.msg.word 0 ≠ SDMA_RPC_HANDSHAKE := by
      rcases h with h | h <;> rw [h] <;> decide
    have h2 : rcv.msg.word 0 ≠ SDMA_RPC_MEMCPY_SRC := by
      rcases h with h | h <;> rw [h] <;> decide
    have h3 : rcv.msg.word 0 ≠ SDMA_RPC_MEMCPY_DST := by
      rcases h with h | h <;> rw [h] <;> decide
    have h4 : rcv.msg.word 0 ≠ SDMA_RPC_MEMSET := by
      rcases h with h | h <;> rw [h] <;> decide
    rw [if_neg h1, if_neg (not_or.mpr ⟨h2, h3⟩), if_neg h4, if_pos h]

theorem unknown_opcode_dropped_witness :
    (err_is_fail (received [99, 1, 2] (sample_cap 1 8 FRAME_A 4096)).err
        && !(received [99, 1, 2] (sample_cap 1 8 FRAME_A 4096)).transient) = false
    ∧ (received [99, 1, 2] (sample_cap 1 8 FRAME_A 4096)).msg.word 0
        ∉ [SDMA_RPC_HANDSHAKE, SDMA_RPC_MEMCPY_SRC, SDMA_RPC_MEMCPY_DST,
            SDMA_RPC_MEMSET, SDMA_RPC_ROTATE_SRC, SDMA_RPC_ROTATE_DST]
    ∧ sdma_serve_rpc 1 32 4096 sample_driver 0
          (received [99, 1, 2] (sample_cap 1 8 FRAME_A 4096)) (sample_env 1)
        = run.ok (sample_driver, none) :=
  ⟨by decide, by decide,
   (unknown_opcode_dropped 1 32 4096 sample_driver 0
      (received [99, 1, 2] (sample_cap 1 8 FRAME_A 4096)) (sample_env 1) (by decide)).1
      (by decide)⟩

/-! ## What the driver steps do to sessions and slots -/

theorem evolves_refl (A R : Nat → Prop) (sd : sdma_driver) : evolves A R sd sd :=
  ⟨rfl, fun _ => ⟨rfl, rfl⟩, fun _ => Or.inl rfl, fun _ h => Or.inl ⟨h, rfl⟩,
    fun _ h => Or.inl ⟨h, rfl⟩⟩

theorem evolves_trans {A R : Nat → Prop} {sd1 sd2 sd3 : sdma_driver}
    (h12 : evolves A R sd1 sd2) (h23 : evolves A R sd2 sd3) : evolves A R sd1 sd3 := by
  obtain ⟨c1, l1, o1, s1, r1⟩ := h12
  obtain ⟨c2, l2, o2, s2, r2⟩ := h23
  refine ⟨c2.trans c1, ?_, ?_, ?_, ?_⟩
  · intro x
    exact ⟨(l2 x).1.trans (l1 x).1, (l2 x).2.trans (l1 x).2⟩
  · intro x
    rcases o2 x with h | h
    · rcases o1 x with h2 | h2
      · exact Or.inl (h.trans h2)
      · exact Or.inr (by rw [h]; exact h2)
    · exact Or.inr h
  · intro ch hin
    rcases s2 ch hin with ⟨hin2, hown⟩ | hnew
    · rcases s1 ch hin2 with ⟨hin1, hown1⟩ | ⟨hA, hop⟩
      · exact Or.inl ⟨hin1, hown.trans hown1⟩
      · right
        rw [hown]
        refine ⟨hA, ?_⟩
        rcases o2 (sd2.chan_state ch).client with h | h
        · rw [h]; exact hop
        · exact h
    · exact Or.inr hnew
  · intro ch hin
    rcases r1 ch hin with ⟨hin2, hown⟩ | hR
    · rcases r2 ch hin2 with ⟨hin3, hown3⟩ | hR
      · exact Or.inl ⟨hin3, hown3.trans hown⟩
      · exact Or.inr hR
    · exact Or.inr hR

theorem set_client_evolves (A R : Nat → Prop) (sd : sdma_driver) (c : Nat)
    (f : client_state → client_state)
    (hn : (f (sd.heap c)).next = (sd.heap c).next)
    (he : (f (sd.heap c)).remote_ep = (sd.heap c).remote_ep)
    (ho : (f (sd.heap c)).op_type = (sd.heap c).op_type
      ∨ (f (sd.heap c)).op_type ≠ OpType_None) :
    evolves A R sd (set_client sd c f) := by
  refine ⟨rfl, ?_, ?_, fun _ h => Or.inl ⟨h, rfl⟩, fun _ h => Or.inl ⟨h, rfl⟩⟩
  · intro x
    by_cases hx : x = c
    · subst hx
      simp [set_client, hn, he]
    · simp [set_client, Function.update_noteq hx]
  · intro x
    by_cases hx : x = c
    · subst hx
      simpa [set_client] using ho
    · left
      simp [set_client, Function.update_noteq hx]

theorem sends_evolves (A R : Nat → Prop) (sd : sdma_driver) (s : List (Nat × errval_t)) :
    evolves A R sd { sd with sends := s } :=
  ⟨rfl, fun _ => ⟨rfl, rfl⟩, fun _ => Or.inl rfl, fun _ h => Or.inl ⟨h, rfl⟩,
    fun _ h => Or.inl ⟨h, rfl⟩⟩

theorem set_chan_err_evolves (A R : Nat → Prop) (sd : sdma_driver) (chan : Nat)
    (e : errval_t) :
    evolves A R sd (set_chan sd chan (fun s => { s with err := e })) := by
  refine ⟨rfl, fun _ => ⟨rfl, rfl⟩, fun _ => Or.inl rfl, ?_, ?_⟩
  · intro ch hin
    left
    by_cases hch : ch = chan
    · subst hch
      simpa [set_chan] using hin
    · simpa [set_chan, Function.update_noteq hch] using hin
  · intro ch hin
    left
    by_cases hch : ch = chan
    · subst hch
      simpa [set_chan] using hin
    · simpa [set_chan, Function.update_noteq hch] using hin

theorem start_transfer_then_evolves (A R : Nat → Prop) (N : Nat) (sd : sdma_driver)
    (c s d l : Nat) (g : client_state → client_state) (hA : A c)
    (hn : ∀ x, (g x).next = x.next) (he : ∀ x, (g x).remote_ep = x.remote_ep)
    (ho : ∀ x, (g x).op_type = x.op_type ∨ (g x).op_type ≠ OpType_None)
    (hop : (g { sd.heap c with acked := false }).op_type ≠ OpType_None) :
    evolves A R sd (set_client (sdma_start_transfer N sd c s d l).1 c g) := by
  obtain ⟨-, hfree, -⟩ := sdma_avail_channel_spec N sd
  rw [sdma_start_transfer_eq]
  by_cases h : sdma_avail_channel N sd < N
  · simp only [if_pos h, set_client, Function.update_same, Function.update_idem]
    refine ⟨rfl, ?_, ?_, ?_, ?_⟩
    · intro x
      by_cases hx : x = c
      · subst hx
        simp [hn, he]
      · simp [Function.update_noteq hx]
    · intro x
      by_cases hx : x = c
      · subst hx
        simpa using ho { sd.heap x with acked := false }
      · left
        simp [Function.update_noteq hx]
    · intro ch hin
      by_cases hch : ch = sdma_avail_channel N sd
      · right
        subst hch
        dsimp only
        rw [Function.update_same]
        dsimp only
        rw [Function.update_same]
        exact ⟨hA, hop⟩
      · left
        simpa [Function.update_noteq hch] using hin
    · intro ch hin
      left
      by_cases hch : ch = sdma_avail_channel N sd
      · subst hch
        rw [hfree h] at hin
        exact Bool.noConfusion hin
      · simpa [Function.update_noteq hch] using hin
  · simp only [if_neg h, set_client, Function.update_same, Function.update_idem]
    refine ⟨rfl, ?_, ?_, fun _ h => Or.inl ⟨h, rfl⟩, fun _ h => Or.inl ⟨h, rfl⟩⟩
    · intro x
      by_cases hx : x = c
      · subst hx
        simp [hn, he]
      · simp [Function.update_noteq hx]
    · intro x
      by_cases hx : x = c
      · subst hx
        simpa using ho { sd.heap x with acked := false }
      · left
        simp [Function.update_noteq hx]

theorem start_rotate_then_evolves (A R : Nat → Prop) (N : Nat) (sd : sdma_driver)
    (c s d w h : Nat) (g : client_state → client_state) (hA : A c)
    (hn : ∀ x, (g x).next = x.next) (he : ∀ x, (g x).remote_ep = x.remote_ep)
    (ho : ∀ x, (g x).op_type = x.op_type ∨ (g x).op_type ≠ OpType_None)
    (hop : (g { sd.heap c with acked := false }).op_type ≠ OpType_None) :
    evolves A R sd (set_client (sdma_start_rotate N sd c s d w h).1 c g) := by
  obtain ⟨-, hfree, -⟩ := sdma_avail_channel_spec N sd
  rw [sdma_start_rotate_eq]
  by_cases h : sdma_avail_channel N sd < N
  · simp only [if_pos h, set_client, Function.update_same, Function.update_idem]
    refine ⟨rfl, ?_, ?_, ?_, ?_⟩
    · intro x
      by_cases hx : x = c
      · subst hx
        simp [hn, he]
      · simp [Function.update_noteq hx]
    · intro x
      by_cases hx : x = c
      · subst hx
        simpa using ho { sd.heap x with acked := false }
      · left
        simp [Function.update_noteq hx]
    · intro ch hin
      by_cases hch : ch = sdma_avail_channel N sd
      · right
        subst hch
        dsimp only
        rw [Function.update_same]
        dsimp only
        rw [Function.update_same]
        exact ⟨hA, hop⟩
      · left
        simpa [Function.update_noteq hch] using hin
    · intro ch hin
      left
      by_cases hch : ch = sdma_avail_channel N sd
      · subst hch
        rw [hfree h] at hin
        exact Bool.noConfusion hin
      · simpa [Function.update_noteq hch] using hin
  · simp only [if_neg h, set_client, Function.update_same, Function.update_idem]
    refine ⟨rfl, ?_, ?_, fun _ h => Or.inl ⟨h, rfl⟩, fun _ h => Or.inl ⟨h, rfl⟩⟩
    · intro x
      by_cases hx : x = c
      · subst hx
        simp [hn, he]
      · simp [Function.update_noteq hx]
    · intro x
      by_cases hx : x = c
      · subst hx
        simpa using ho { sd.heap x with acked := false }
      · left
        simp [Function.update_noteq hx]

theorem set_client_id (sd : sdma_driver) (c : Nat) : set_client sd c id = sd := by
  unfold set_client
  simp only [id, Function.update_eq_self]

theorem start_transfer_evolves (A R : Nat → Prop) (N : Nat) (sd : sdma_driver)
    (c s d l : Nat) (hA : A c) (hop : (sd.heap c).op_type ≠ OpType_None) :
    evolves A R sd (sdma_start_transfer N sd c s d l).1 := by
  have h := start_transfer_then_evolves A R N sd c s d l id hA (fun _ => rfl) (fun _ => rfl)
    (fun _ => Or.inl rfl) hop
  rw [set_client_id] at h
  exact h

theorem process_memcpy_evolves (A R : Nat → Prop) (N : Nat) (sd : sdma_driver) (c : Nat)
    (msg : lmp_recv_msg) (idr : identify_result) (hA : A c) :
    evolves A R sd (sdma_process_memcpy N sd c msg idr).1 := by
  have hrec : evolves A R sd (sdma_process_memcpy_record sd c msg idr) := by
    unfold sdma_process_memcpy_record
    split <;> exact set_client_evolves _ _ _ _ _ rfl rfl (Or.inl rfl)
  unfold sdma_process_memcpy
  simp only []
  split_ifs with h1 h2
  · exact evolves_trans hrec (evolves_trans
      (start_transfer_then_evolves A R N _ c _ _ _
        (fun x => { x with op_type := OpType_Memcpy }) hA (fun _ => rfl) (fun _ => rfl)
        (fun _ => Or.inr (by simp)) (by simp))
      (set_client_evolves A R _ c _ rfl rfl (Or.inl rfl)))
  · exact evolves_trans hrec (set_client_evolves A R _ c _ rfl rfl (Or.inl rfl))
  · exact hrec

theorem process_rotate_evolves (A R : Nat → Prop) (N : Nat) (sd : sdma_driver) (c : Nat)
    (msg : lmp_recv_msg) (idr : identify_result) (hA : A c) :
    evolves A R sd (sdma_process_rotate N sd c msg idr).1 := by
  have hrec : evolves A R sd (sdma_process_rotate_record sd c msg idr) := by
    unfold sdma_process_rotate_record
    split <;> exact set_client_evolves _ _ _ _ _ rfl rfl (Or.inl rfl)
  unfold sdma_process_rotate
  simp only []
  split_ifs with h1 h2
  · exact evolves_trans hrec (evolves_trans
      (start_rotate_then_evolves A R N _ c _ _ _ _
        (fun x => { x with op_type := OpType_Rotate }) hA (fun _ => rfl) (fun _ => rfl)
        (fun _ => Or.inr (by simp)) (by simp))
      (set_client_evolves A R _ c _ rfl rfl (Or.inl rfl)))
  · exact evolves_trans hrec (set_client_evolves A R _ c _ rfl rfl (Or.inl rfl))
  · exact hrec

theorem memset_start_evolves (A R : Nat → Prop) (N : Nat) (sd : sdma_driver) (c : Nat)
    (buf : (Nat → Nat) → Nat → Nat) (len min_len a b : Nat) (id1 id2 : frame_identity)
    (hA : A c) :
    evolves A R sd
      (sdma_start_transfer N
        (set_client
          (set_client sd c (fun x => { x with memset_buf := buf x.memset_buf }))
          c (fun x => { x with op_type := OpType_Memset, len := len, src_id := id1,
                               src_offset := 0, dst_id := id2, dst_offset := min_len }))
        c a b min_len).1 := by
  have e1 : evolves A R sd
      (set_client sd c (fun x => { x with memset_buf := buf x.memset_buf })) :=
    set_client_evolves A R sd c _ rfl rfl (Or.inl rfl)
  have e2 : evolves A R
      (set_client sd c (fun x => { x with memset_buf := buf x.memset_buf }))
      (set_client
        (set_client sd c (fun x => { x with memset_buf := buf x.memset_buf }))
        c (fun x => { x with op_type := OpType_Memset, len := len, src_id := id1,
                             src_offset := 0, dst_id := id2, dst_offset := min_len })) :=
    set_client_evolves A R _ c _ rfl rfl (Or.inr (by simp))
  refine evolves_trans e1 (evolves_trans e2 ?_)
  apply start_transfer_evolves A R N _ c _ _ _ hA
  simp [set_client]

theorem process_memset_evolves (A R : Nat → Prop) (N M : Nat) (sd : sdma_driver) (c : Nat)
    (msg : lmp_recv_msg) (idr : identify_result) (hA : A c) :
    evolves A R sd (sdma_process_memset N M sd c msg idr).1 := by
  unfold sdma_process_memset
  simp only []
  by_cases h1 : err_is_ok idr.err = true
  · rw [if_pos h1]
    by_cases h2 : (decide (msg.word 1 < idr.id.bytes)
        && decide (msg.word 2 ≤ gen_sub idr.id.bytes (msg.word 1))) = true
    · rw [if_pos h2]
      exact memset_start_evolves A R N sd c
        (fun old i => if i < (if msg.word 2 < M then msg.word 2 else M) then msg.word 3 % 256
          else old i) _ _ _ _ _ _ hA
    · rw [if_neg h2]
      exact evolves_refl A R sd
  · rw [if_neg h1]
    exact evolves_refl A R sd

theorem csr_evolves (A R : Nat → Prop) (CLEAN : Nat) (sd : sdma_driver) (chan : Nat)
    (hR : R chan) : evolves A R sd (sdma_update_channel_csr CLEAN sd chan) := by
  rw [sdma_update_channel_csr_eq]
  refine ⟨rfl, fun _ => ⟨rfl, rfl⟩, fun _ => Or.inl rfl, ?_, ?_⟩
  · intro ch hin
    left
    by_cases hch : ch = chan
    · subst hch
      dsimp only at hin ⊢
      rw [Function.update_same] at hin ⊢
      dsimp only at hin ⊢
      refine ⟨?_, rfl⟩
      by_cases hb : (sd.sdma_dev.chans ch).csr.block ≠ 0
      · rw [if_pos hb] at hin
        exact Bool.noConfusion hin
      · rw [if_neg hb] at hin
        exact hin
    · dsimp only at hin ⊢
      rw [Function.update_noteq hch] at hin ⊢
      exact ⟨hin, rfl⟩
  · intro ch hin
    by_cases hch : ch = chan
    · right
      rw [hch]
      exact hR
    · left
      dsimp only
      rw [Function.update_noteq hch]
      exact ⟨hin, rfl⟩

theorem sdma_update_channel_csr_owner (CLEAN : Nat) (sd : sdma_driver) (chan : Nat) :
    ((sdma_update_channel_csr CLEAN sd chan).chan_state chan).client
      = (sd.chan_state chan).client := by
  rw [sdma_update_channel_csr_eq]
  dsimp only
  rw [Function.update_same]

theorem ongoing_evolves (A R : Nat → Prop) (N : Nat) (sd : sdma_driver)
    (chan client s d l : Nat) (e : errval_t) (f : client_state → client_state)
    (hn : ∀ x, (f x).next = x.next) (he : ∀ x, (f x).remote_ep = x.remote_ep)
    (ho : ∀ x, (f x).op_type = x.op_type)
    (hA : A client) (hop : (sd.heap client).op_type ≠ OpType_None) :
    evolves A R sd
      (set_client
        (set_chan (sdma_start_transfer N sd client s d l).1 chan (fun st => { st with err := e }))
        client f) :=
  evolves_trans (start_transfer_evolves A R N sd client s d l hA hop)
    (evolves_trans (set_chan_err_evolves A R _ chan e)
      (set_client_evolves A R _ client f (hn _) (he _) (Or.inl (ho _))))

theorem reply_evolves (A R : Nat → Prop) (sd : sdma_driver) (client : Nat)
    (s : List (Nat × errval_t)) :
    evolves A R sd
      (set_client { sd with sends := s } client (fun c => { c with acked := true })) :=
  evolves_trans (sends_evolves A R sd s)
    (set_client_evolves A R _ client _ rfl rfl (Or.inl rfl))

theorem update_channel_evolves (A R : Nat → Prop) (N CLEAN : Nat) (sd : sdma_driver)
    (chan : Nat) (hR : R chan) (hA : A (sd.chan_state chan).client) :
    evolves A R sd (sdma_update_channel N CLEAN sd chan) := by
  have hcsr := csr_evolves A R CLEAN sd chan hR
  have hown := sdma_update_channel_csr_owner CLEAN sd chan
  unfold sdma_update_channel
  simp only []
  generalize sdma_update_channel_csr CLEAN sd chan = sd1 at hcsr hown ⊢
  rw [← hown] at hA
  by_cases hon : (err_is_ok (sd1.chan_state chan).err
      && decide ((sd1.heap (sd1.chan_state chan).client).op_type = OpType_Memset)
      && decide ((sd1.heap (sd1.chan_state chan).client).dst_offset
          < (sd1.heap (sd1.chan_state chan).client).len)) = true
  · have hop : (sd1.heap (sd1.chan_state chan).client).op_type ≠ OpType_None := by
      simp only [Bool.and_eq_true, decide_eq_true_eq] at hon
      rw [hon.1.2]
      decide
    simp only [hon, if_true]
    split_ifs <;> first
      | (refine evolves_trans ?_ (reply_evolves A R _ _ _)
         refine evolves_trans hcsr
           (ongoing_evolves A R N sd1 chan _ _ _ _ _ _ ?_ ?_ ?_ hA hop) <;> (intro x; rfl))
      | (refine evolves_trans hcsr
           (ongoing_evolves A R N sd1 chan _ _ _ _ _ _ ?_ ?_ ?_ hA hop) <;> (intro x; rfl))
  · simp only [hon, Bool.false_eq_true, if_false]
    split_ifs <;> first
      | exact evolves_trans hcsr (reply_evolves A R _ _ _)
      | exact hcsr

/-! ## The client list -/

theorem linked_congr (h1 h2 : Nat → client_state) :
    ∀ (l : List Nat) (p : Option Nat),
      (∀ x, x ∈ l → (h2 x).next = (h1 x).next) → linked h1 p l → linked h2 p l := by
  intro l
  induction l with
  | nil => intro p _ h; exact h
  | cons c l ih =>
    intro p hx h
    obtain ⟨hp, hl⟩ := h
    refine ⟨hp, ?_⟩
    rw [hx c (List.mem_cons_self c l)]
    exact ih _ (fun x hxl => hx x (List.mem_cons_of_mem c hxl)) hl

theorem client_list_of_linked (heap : Nat → client_state) :
    ∀ (l : List Nat) (p : Option Nat) (fuel : Nat),
      linked heap p l → l.length ≤ fuel → client_list heap fuel p = l := by
  intro l
  induction l with
  | nil =>
    intro p fuel h _
    have hp : p = none := h
    subst hp
    cases fuel <;> rfl
  | cons c l ih =>
    intro p fuel h hf
    obtain ⟨hp, hl⟩ := h
    subst hp
    cases fuel with
    | zero => simp at hf
    | succ fuel =>
      show c :: client_list heap fuel (heap c).next = c :: l
      rw [ih _ fuel hl (by simpa using hf)]

theorem evolves_slots_owned {A R : Nat → Prop} {sd sd2 : sdma_driver} (l : List Nat)
    (h : evolves A R sd sd2) (hA : ∀ a, A a → a ∈ l) (hs : slots_owned sd l) :
    slots_owned sd2 l := by
  obtain ⟨-, -, ho, hslot, -⟩ := h
  intro ch hin
  rcases hslot ch hin with ⟨hin1, hown⟩ | ⟨ha, hop⟩
  · obtain ⟨hmem, hop⟩ := hs ch hin1
    rw [hown]
    refine ⟨hmem, ?_⟩
    rcases ho (sd.chan_state ch).client with h1 | h1
    · rw [h1]; exact hop
    · exact h1
  · exact ⟨hA _ ha, hop⟩

theorem evolves_linked {A R : Nat → Prop} {sd sd2 : sdma_driver} (l : List Nat)
    (h : evolves A R sd sd2) (hl : linked sd.heap sd.clients l) :
    linked sd2.heap sd2.clients l := by
  obtain ⟨hc, hn, -, -, -⟩ := h
  rw [hc]
  exact linked_congr sd.heap sd2.heap l _ (fun x _ => (hn x).1) hl

theorem status_fold_invariant (N CLEAN : Nat) (l : List Nat) (flag : Nat → Bool) :
    ∀ (cs : List Nat) (sd : sdma_driver), cs.Nodup → slots_owned sd l →
      (∀ ch, ch ∈ cs → flag ch = true → (sd.chan_state ch).transfer_in_progress = true) →
      slots_owned
          (cs.foldl (fun s chan => if flag chan then sdma_update_channel N CLEAN s chan else s)
            sd) l
        ∧ (cs.foldl (fun s chan => if flag chan then sdma_update_channel N CLEAN s chan else s)
            sd).clients = sd.clients
        ∧ ∀ x,
          ((cs.foldl (fun s chan => if flag chan then sdma_update_channel N CLEAN s chan else s)
              sd).heap x).next = (sd.heap x).next
          ∧ ((cs.foldl (fun s chan => if flag chan then sdma_update_channel N CLEAN s chan else s)
              sd).heap x).remote_ep = (sd.heap x).remote_ep := by
  intro cs
  induction cs with
  | nil =>
    intro sd _ hs _
    exact ⟨hs, rfl, fun _ => ⟨rfl, rfl⟩⟩
  | cons c rest ih =>
    intro sd hnd hs hflag
    rw [List.nodup_cons] at hnd
    obtain ⟨hc, hrest⟩ := hnd
    rw [List.foldl_cons]
    by_cases hf : flag c = true
    · rw [if_pos hf]
      have hin := hflag c (List.mem_cons_self c rest) hf
      have hev : evolves (fun a => a ∈ l) (fun ch => ch = c) sd
          (sdma_update_channel N CLEAN sd c) :=
        update_channel_evolves _ _ N CLEAN sd c rfl (hs c hin).1
      have hs1 := evolves_slots_owned l hev (fun a ha => ha) hs
      have hflag1 : ∀ ch, ch ∈ rest → flag ch = true →
          ((sdma_update_channel N CLEAN sd c).chan_state ch).transfer_in_progress = true := by
        intro ch hch hfl
        rcases hev.2.2.2.2 ch (hflag ch (List.mem_cons_of_mem c hch) hfl) with h1 | h1
        · exact h1.1
        · exact absurd (h1 ▸ hch) hc
      obtain ⟨r1, r2, r3⟩ := ih _ hrest hs1 hflag1
      refine ⟨r1, r2.trans hev.1, fun x => ?_⟩
      exact ⟨(r3 x).1.trans (hev.2.1 x).1, (r3 x).2.trans (hev.2.1 x).2⟩
    · rw [if_neg hf]
      exact ih _ hrest hs (fun ch hch hfl => hflag ch (List.mem_cons_of_mem c hch) hfl)

theorem update_channel_status_invariant (N CLEAN : Nat) (l : List Nat) (sd : sdma_driver)
    (irq_line irq_status : Nat) (hs : slots_owned sd l)
    (hflag : ∀ chan, chan < N → irq_status &&& (1 <<< chan) ≠ 0 →
      (sd.chan_state chan).transfer_in_progress = true) :
    slots_owned (sdma_update_channel_status N CLEAN sd irq_line irq_status) l
    ∧ (sdma_update_channel_status N CLEAN sd irq_line irq_status).clients = sd.clients
    ∧ ∀ x, ((sdma_update_channel_status N CLEAN sd irq_line irq_status).heap x).next
          = (sd.heap x).next
        ∧ ((sdma_update_channel_status N CLEAN sd irq_line irq_status).heap x).remote_ep
          = (sd.heap x).remote_ep := by
  unfold sdma_update_channel_status
  simp only []
  exact status_fold_invariant N CLEAN l
    (fun chan => decide (irq_status &&& (1 <<< chan) ≠ 0)) (List.range N)
    { sd with sdma_dev := omap44xx_sdma_dma4_irqstatus_line_wr sd.sdma_dev irq_line CLEAN }
    (List.nodup_range N) hs
    (fun ch hch hfl => hflag ch (List.mem_range.mp hch) (of_decide_eq_true hfl))

/-! ## The handshake -/

theorem handshake_state_eq (sd : sdma_driver) (cap : cap_view) (env : handshake_env)
    (hfresh : sd.clients ≠ some env.client) :
    set_client
      { (set_client
          (set_client
            (set_client
              (set_client
                (set_client
                  (set_client
                    (set_client
                      (match ({ sd with heap := Function.update sd.heap env.client env.block }
                          : sdma_driver).clients with
                        | none =>
                          set_client
                            { sd with heap := Function.update sd.heap env.client env.block }
                            env.client (fun c => { c with next := none })
                        | some head =>
                          set_client
                            (set_client
                              { sd with heap := Function.update sd.heap env.client env.block }
                              head (fun c => { c with prev := some env.client }))
                            env.client (fun c => { c with next := some head }))
                      env.client (fun c => { c with prev := none }))
                    env.client (fun c => { c with have_caps := 0 }))
                  env.client (fun c => { c with src_offset := 0 }))
                env.client (fun c => { c with dst_offset := 0 }))
              env.client (fun c => { c with len := 0 }))
            env.client (fun c => { c with memset_buf := env.memset_buf }))
          env.client (fun c => { c with memset_frame_id := env.memset_frame.id }))
        with clients := some env.client }
      env.client (fun c => { c with remote_ep := cap.ep })
    = session_added sd cap env := by
  unfold session_added
  cases hcl : sd.clients with
  | none =>
    simp only [set_client, hcl, Function.update_same, Function.update_idem]
  | some head =>
    have hne : head ≠ env.client := fun e => hfresh (by rw [hcl, e])
    simp only [set_client, hcl, Function.update_same, Function.update_idem,
      Function.update_noteq hne, Function.update_noteq (Ne.symm hne)]
    congr 1
    funext x
    by_cases h1 : x = env.client
    · subst h1
      simp [Function.update_noteq (Ne.symm hne)]
    · by_cases h2 : x = head
      · subst h2
        simp [Function.update_noteq h1]
      · simp [Function.update_noteq h1, Function.update_noteq h2]

theorem sdma_process_handshake_eq (fuel : Nat) (sd : sdma_driver) (cap : cap_view)
    (env : handshake_env) (hfresh : sd.clients ≠ some env.client) :
    sdma_process_handshake fuel sd cap env
      = match sdma_identify_client_cap fuel sd cap with
        | none => run.out_of_fuel
        | some (some _) => run.ok (sd, none)
        | some none =>
          if err_is_fail env.frame_alloc_err then run.user_panic
          else if err_is_fail env.paging_map_frame_err then run.user_panic
          else if err_is_fail env.memset_frame.err then run.user_panic
          else if err_is_fail env.alloc_recv_slot_err then run.user_panic
          else if err_is_fail env.register_recv_err then run.user_panic
          else run.ok (session_added sd cap env, some env.client) := by
  unfold sdma_process_handshake
  split
  · rfl
  · rfl
  · simp only []
    split_ifs <;> first
      | rfl
      | exact congrArg (fun s => run.ok (s, some env.client))
          (handshake_state_eq sd cap env hfresh)

theorem handshake_dup_eq (fuel : Nat) (sd : sdma_driver) (cap : cap_view)
    (env : handshake_env) (sd2 : sdma_driver)
    (h : sdma_process_handshake fuel sd cap env = run.ok (sd2, none)) : sd2 = sd := by
  unfold sdma_process_handshake at h
  split at h
  · exact run.noConfusion h
  · injection h with h
    exact (Prod.mk.inj h).1.symm
  · simp only [] at h
    split_ifs at h
    injection h with h
    have := (Prod.mk.inj h).2
    simp at this

theorem handshake_new_eq (fuel : Nat) (sd : sdma_driver) (cap : cap_view)
    (env : handshake_env) (sd2 : sdma_driver) (c : Nat)
    (h : sdma_process_handshake fuel sd cap env = run.ok (sd2, some c))
    (hfresh : sd.clients ≠ some env.client) :
    c = env.client ∧ sd2 = session_added sd cap env
      ∧ sdma_identify_client_cap fuel sd cap = some none := by
  rw [sdma_process_handshake_eq fuel sd cap env hfresh] at h
  split at h
  · exact run.noConfusion h
  · injection h with h
    have := (Prod.mk.inj h).2
    simp at this
  · rename_i hlook
    split_ifs at h
    injection h with h
    obtain ⟨h1, h2⟩ := Prod.mk.inj h
    exact ⟨(Option.some.inj h2).symm, h1.symm, hlook⟩

theorem session_added_other (sd : sdma_driver) (cap : cap_view) (env : handshake_env)
    (x : Nat) (hx : x ≠ env.client) :
    ((session_added sd cap env).heap x).next = (sd.heap x).next
    ∧ ((session_added sd cap env).heap x).remote_ep = (sd.heap x).remote_ep
    ∧ ((session_added sd cap env).heap x).op_type = (sd.heap x).op_type
    ∧ ((session_added sd cap env).heap x).have_caps = (sd.heap x).have_caps
    ∧ ((session_added sd cap env).heap x).acked = (sd.heap x).acked := by
  unfold session_added
  dsimp only
  rw [Function.update_noteq hx]
  cases sd.clients with
  | none => exact ⟨rfl, rfl, rfl, rfl, rfl⟩
  | some head =>
    dsimp only
    by_cases h2 : x = head
    · subst h2
      rw [Function.update_same]
      exact ⟨rfl, rfl, rfl, rfl, rfl⟩
    · rw [Function.update_noteq h2]
      exact ⟨rfl, rfl, rfl, rfl, rfl⟩

theorem session_added_new (sd : sdma_driver) (cap : cap_view) (env : handshake_env) :
    (session_added sd cap env).heap env.client
      = { env.block with
          next := sd.clients, prev := none, have_caps := 0, src_offset := 0, dst_offset := 0,
          len := 0, memset_buf := env.memset_buf, memset_frame_id := env.memset_frame.id,
          remote_ep := cap.ep } := by
  unfold session_added
  dsimp only
  rw [Function.update_same]

/-! ## Invariants of the reachable states -/

theorem linked_head_mem (heap : Nat → client_state) (a : Nat) (l : List Nat)
    (h : linked heap (some a) l) : a ∈ l := by
  cases l with
  | nil => exact Option.noConfusion (show some a = none from h)
  | cons c l =>
    obtain ⟨hp, -⟩ := h
    rw [Option.some.inj hp]
    exact List.mem_cons_self c l

theorem fresh_not_head (sd : sdma_driver) (l : List Nat) (a : Nat)
    (hl : linked sd.heap sd.clients l) (ha : a ∉ l) : sd.clients ≠ some a := by
  intro h
  rw [h] at hl
  exact ha (linked_head_mem sd.heap a l hl)

theorem session_added_linked (sd : sdma_driver) (cap : cap_view) (env : handshake_env)
    (l : List Nat) (hl : linked sd.heap sd.clients l) (hfr : env.client ∉ l) :
    linked (session_added sd cap env).heap (session_added sd cap env).clients
      (env.client :: l) := by
  refine ⟨rfl, ?_⟩
  rw [session_added_new]
  exact linked_congr sd.heap _ l _
    (fun x hx => (session_added_other sd cap env x (fun e => hfr (e ▸ hx))).1) hl

theorem session_added_slots (sd : sdma_driver) (cap : cap_view) (env : handshake_env)
    (l : List Nat) (hs : slots_owned sd l) (hfr : env.client ∉ l) :
    slots_owned (session_added sd cap env) (env.client :: l) := by
  intro ch hin
  obtain ⟨hmem, hop⟩ := hs ch hin
  refine ⟨List.mem_cons_of_mem _ hmem, ?_⟩
  have hne : (sd.chan_state ch).client ≠ env.client := fun e => hfr (e ▸ hmem)
  show ((session_added sd cap env).heap (sd.chan_state ch).client).op_type ≠ OpType_None
  rw [(session_added_other sd cap env _ hne).2.2.1]
  exact hop

theorem reachable_invariants (N M CLEAN : Nat) (caps : cap_view → Prop) (sd : sdma_driver)
    (l : List Nat) (h : Reachable N M CLEAN caps sd l) :
    linked sd.heap sd.clients l ∧ l.Nodup ∧ slots_owned sd l := by
  induction h with
  | init dev heap =>
    refine ⟨rfl, List.nodup_nil, ?_⟩
    intro ch hin
    exact Bool.noConfusion hin
  | handshake_new sd l fuel cap env sd2 c _ _ hfr hres ih =>
    obtain ⟨hl, hnd, hs⟩ := ih
    obtain ⟨hc, hsd2, -⟩ :=
      handshake_new_eq fuel sd cap env sd2 c hres (fresh_not_head sd l _ hl hfr)
    subst hc
    subst hsd2
    exact ⟨session_added_linked sd cap env l hl hfr, List.nodup_cons.mpr ⟨hfr, hnd⟩,
      session_added_slots sd cap env l hs hfr⟩
  | handshake_dup sd l fuel cap env sd2 _ _ _ hres ih =>
    rw [handshake_dup_eq fuel sd cap env sd2 hres]
    exact ih
  | memcpy sd l client msg idr _ hmem ih =>
    obtain ⟨hl, hnd, hs⟩ := ih
    have hev := process_memcpy_evolves (fun a => a ∈ l) (fun _ => False) N sd client msg idr
      hmem
    exact ⟨evolves_linked l hev hl, hnd, evolves_slots_owned l hev (fun a ha => ha) hs⟩
  | memset sd l client msg idr _ hmem ih =>
    obtain ⟨hl, hnd, hs⟩ := ih
    have hev := process_memset_evolves (fun a => a ∈ l) (fun _ => False) N M sd client msg idr
      hmem
    exact ⟨evolves_linked l hev hl, hnd, evolves_slots_owned l hev (fun a ha => ha) hs⟩
  | rotate sd l client msg idr _ hmem ih =>
    obtain ⟨hl, hnd, hs⟩ := ih
    have hev := process_rotate_evolves (fun a => a ∈ l) (fun _ => False) N sd client msg idr
      hmem
    exact ⟨evolves_linked l hev hl, hnd, evolves_slots_owned l hev (fun a ha => ha) hs⟩
  | interrupt sd l chans irq_line irq_status _ hflag ih =>
    obtain ⟨hl, hnd, hs⟩ := ih
    obtain ⟨r1, r2, r3⟩ := update_channel_status_invariant N CLEAN l
      { sd with sdma_dev := { sd.sdma_dev with chans := chans } } irq_line irq_status hs hflag
    refine ⟨?_, hnd, r1⟩
    rw [r2]
    exact linked_congr sd.heap _ l _ (fun x _ => (r3 x).1) hl

theorem sample_first_session_reachable (caps : cap_view → Prop)
    (hcaps : caps (sample_cap 1 8 0 0)) :
    Reachable 32 4096 0 caps sample_first_session [1] :=
  Reachable.handshake_new _ [] 0 (sample_cap 1 8 0 0) (sample_env 1) sample_first_session 1
    (Reachable.init _ _) hcaps (by simp) rfl

theorem sample_memcpy_running_reachable (caps : cap_view → Prop)
    (hcaps : caps (sample_cap 1 8 0 0)) :
    Reachable 32 4096 0 caps sample_memcpy_running [1] :=
  Reachable.memcpy _ _ 1 (memcpy_dst_msg 0) (identified FRAME_B 4096)
    (Reachable.memcpy _ _ 1 (memcpy_src_msg 0 4096) (identified FRAME_A 4096)
      (sample_first_session_reachable caps hcaps) (by simp))
    (by simp)

theorem sample_memcpy_done_reachable (caps : cap_view → Prop)
    (hcaps : caps (sample_cap 1 8 0 0)) :
    Reachable 32 4096 0 caps sample_memcpy_done [1] :=
  Reachable.interrupt _ _
    (Function.update sample_memcpy_running.sdma_dev.chans 0
      { sample_memcpy_running.sdma_dev.chans 0 with
        csr := { misaligned_adrs_err := 0, supervisor_err := 0, trans_err := 0, block := 1 } })
    0 1 (sample_memcpy_running_reachable caps hcaps) (by decide)

theorem sample_memcpy_twice_reachable (caps : cap_view → Prop)
    (hcaps : caps (sample_cap 1 8 0 0)) :
    Reachable 32 4096 0 caps sample_memcpy_twice [1] :=
  Reachable.memcpy _ _ 1 (memcpy_dst_msg 0) (identified FRAME_B 4096)
    (Reachable.memcpy _ _ 1 (memcpy_src_msg 0 4096) (identified FRAME_A 4096)
      (sample_memcpy_running_reachable caps hcaps) (by simp))
    (by simp)

/-! ## C18: slots in use and sessions with an operation -/

/-- C18: from bring-up, one handshake, one complete memcpy request and the
block-complete interrupt of its channel lead to a state with no channel slot
in use and one session whose operation kind is `OpType_Memcpy`: the two counts
differ (before the interrupt they are both 1).  A second memcpy request sent
while the first one runs leads to two slots in use for that one session. -/
theorem reservation_balance_fails :
    Reachable 32 4096 0 (fun _ => True) sample_memcpy_done [1]
    ∧ client_list sample_memcpy_done.heap 1 sample_memcpy_done.clients = [1]
    ∧ (sample_memcpy_done.heap 1).op_type = OpType_Memcpy
    ∧ channels_in_use 32 sample_memcpy_running = 1
    ∧ sessions_with_operation 1 sample_memcpy_running = 1
    ∧ channels_in_use 32 sample_memcpy_done = 0
    ∧ sessions_with_operation 1 sample_memcpy_done = 1
    ∧ channels_in_use 32 sample_memcpy_done
        ≠ sessions_with_operation 1 sample_memcpy_done
    ∧ Reachable 32 4096 0 (fun _ => True) sample_memcpy_twice [1]
    ∧ channels_in_use 32 sample_memcpy_twice = 2
    ∧ sessions_with_operation 1 sample_memcpy_twice = 1 :=
  ⟨sample_memcpy_done_reachable _ trivial, by decide, by decide, by decide, by decide,
    by decide, by decide, by decide, sample_memcpy_twice_reachable _ trivial, by decide,
    by decide⟩

/-- C18 (amended): in every state reachable from bring-up through handshakes,
requests and interrupts, the allocated sessions are exactly the client list,
and every channel slot in use is owned by a session of that list whose
operation kind is not `OpType_None`; so if a slot is in use, some session has
an operation. -/
theorem in_use_slots_have_operation (N M CLEAN : Nat) (caps : cap_view → Prop)
    (sd : sdma_driver) (l : List Nat) (hreach : Reachable N M CLEAN caps sd l) :
    (∀ fuel, l.length ≤ fuel → client_list sd.heap fuel sd.clients = l)
    ∧ (∀ ch, (sd.chan_state ch).transfer_in_progress = true →
        (sd.chan_state ch).client ∈ l
        ∧ (sd.heap (sd.chan_state ch).client).op_type ≠ OpType_None)
    ∧ (∀ fuel, l.length ≤ fuel → 0 < channels_in_use N sd →
        0 < sessions_with_operation fuel sd) := by
  obtain ⟨hl, -, hs⟩ := reachable_invariants N M CLEAN caps sd l hreach
  have hlist := fun fuel hf => client_list_of_linked sd.heap l sd.clients fuel hl hf
  refine ⟨hlist, hs, ?_⟩
  intro fuel hf hpos
  unfold channels_in_use at hpos
  obtain ⟨ch, -, hin⟩ := List.countP_pos_iff.mp hpos
  obtain ⟨hmem, hop⟩ := hs ch hin
  unfold sessions_with_operation
  rw [hlist fuel hf]
  exact List.countP_pos_iff.mpr ⟨_, hmem, by simpa using hop⟩

theorem in_use_slots_have_operation_witness :
    Reachable 32 4096 0 (fun _ => True) sample_memcpy_running [1]
    ∧ (sample_memcpy_running.chan_state 0).transfer_in_progress = true
    ∧ (sample_memcpy_running.chan_state 0).client ∈ [1]
    ∧ (sample_memcpy_running.heap (sample_memcpy_running.chan_state 0).client).op_type
        ≠ OpType_None :=
  ⟨sample_memcpy_running_reachable _ trivial, by decide,
   ((in_use_slots_have_operation 32 4096 0 (fun _ => True) sample_memcpy_running [1]
      (sample_memcpy_running_reachable _ trivial)).2.1 0 (by decide)).1,
   ((in_use_slots_have_operation 32 4096 0 (fun _ => True) sample_memcpy_running [1]
      (sample_memcpy_running_reachable _ trivial)).2.1 0 (by decide)).2⟩

/-! ## C19: session uniqueness -/

theorem avail_after_block (N CLEAN : Nat) (sd : sdma_driver) (chan : Nat)
    (hb : (sd.sdma_dev.chans chan).csr.block ≠ 0) :
    sdma_avail_channel N (sdma_update_channel_csr CLEAN sd chan) ≤ chan := by
  obtain ⟨-, -, hbelow⟩ := sdma_avail_channel_spec N (sdma_update_channel_csr CLEAN sd chan)
  by_contra hgt
  have hin := hbelow chan (by omega)
  rw [sdma_update_channel_csr_eq] at hin
  dsimp only at hin
  rw [Function.update_same] at hin
  dsimp only at hin
  rw [if_pos hb] at hin
  exact Bool.noConfusion hin

theorem avail_after_block_lowest (N CLEAN : Nat) (sd : sdma_driver) (chan : Nat)
    (hb : (sd.sdma_dev.chans chan).csr.block ≠ 0) (ch : Nat)
    (hch : ch < sdma_avail_channel N (sdma_update_channel_csr CLEAN sd chan)) :
    (sd.chan_state ch).transfer_in_progress = true := by
  obtain ⟨-, -, hbelow⟩ := sdma_avail_channel_spec N (sdma_update_channel_csr CLEAN sd chan)
  have hle := avail_after_block N CLEAN sd chan hb
  have hin := hbelow ch hch
  have hne : ch ≠ chan := by omega
  rw [sdma_update_channel_csr_eq] at hin
  dsimp only at hin
  rw [Function.update_noteq hne] at hin
  exact hin

/-- C29: when the loop body of `sdma_update_channel_status` treats a channel
`chan < SDMA_CHANNELS` whose `CSR` has the block-complete bit set and no error
bit, and the owning session is in a memset with bytes left, the nested
`sdma_start_transfer` finds a free channel: it is the lowest slot not in use,
its index is at most `chan`, the call is made and programs that channel, the
slot of `chan` holds `SYS_ERR_OK`, and no `SDMA_ERR_NO_AVAIL_CHANNEL` reply
is registered.  With exactly `chan` flagged this is what
`sdma_update_channel_status` does. -/
theorem continuation_reuses_channel (N CLEAN : Nat) (sd : sdma_driver) (irq_line chan : Nat)
    (hchan : chan < N)
    (hblock : (sd.sdma_dev.chans chan).csr.block ≠ 0)
    (herr : (sd.sdma_dev.chans chan).csr.misaligned_adrs_err = 0
      ∧ (sd.sdma_dev.chans chan).csr.supervisor_err = 0
      ∧ (sd.sdma_dev.chans chan).csr.trans_err = 0)
    (hop : (sd.heap (sd.chan_state chan).client).op_type = OpType_Memset)
    (hlt : (sd.heap (sd.chan_state chan).client).dst_offset
      < (sd.heap (sd.chan_state chan).client).len) :
    sdma_avail_channel N (sdma_update_channel_csr CLEAN sd chan) ≤ chan
    ∧ sdma_avail_channel N (sdma_update_channel_csr CLEAN sd chan) < N
    ∧ (∀ ch, ch < sdma_avail_channel N (sdma_update_channel_csr CLEAN sd chan) →
        (sd.chan_state ch).transfer_in_progress = true)
    ∧ (sdma_start_transfer N (sdma_update_channel_csr CLEAN sd chan) (sd.chan_state chan).client
          (to_size_t (sd.heap (sd.chan_state chan).client).src_id.base)
          (size_add (to_size_t (sd.heap (sd.chan_state chan).client).dst_id.base)
            (sd.heap (sd.chan_state chan).client).dst_offset)
          (if (sd.heap (sd.chan_state chan).client).dst_offset
                > size_sub (sd.heap (sd.chan_state chan).client).len
                    (sd.heap (sd.chan_state chan).client).dst_offset
            then size_sub (sd.heap (sd.chan_state chan).client).len
                    (sd.heap (sd.chan_state chan).client).dst_offset
            else (sd.heap (sd.chan_state chan).client).dst_offset)).2 = SYS_ERR_OK
    ∧ (sdma_update_channel N CLEAN sd chan).calls
        = sd.calls ++ [sdma_call.start_transfer (sd.chan_state chan).client
            (to_size_t (sd.heap (sd.chan_state chan).client).src_id.base)
            (size_add (to_size_t (sd.heap (sd.chan_state chan).client).dst_id.base)
              (sd.heap (sd.chan_state chan).client).dst_offset)
            (if (sd.heap (sd.chan_state chan).client).dst_offset
                  > size_sub (sd.heap (sd.chan_state chan).client).len
                      (sd.heap (sd.chan_state chan).client).dst_offset
              then size_sub (sd.heap (sd.chan_state chan).client).len
                      (sd.heap (sd.chan_state chan).client).dst_offset
              else (sd.heap (sd.chan_state chan).client).dst_offset)]
    ∧ ((sdma_update_channel N CLEAN sd chan).chan_state chan).err = SYS_ERR_OK
    ∧ (sdma_update_channel N CLEAN sd chan).sends = sd.sends
    ∧ ((sdma_update_channel N CLEAN sd chan).chan_state
          (sdma_avail_channel N (sdma_update_channel_csr CLEAN sd chan))).transfer_in_progress
        = true
    ∧ ((sdma_update_channel N CLEAN sd chan).chan_state
          (sdma_avail_channel N (sdma_update_channel_csr CLEAN sd chan))).client
        = (sd.chan_state chan).client
    ∧ last_enabled_channel (sdma_update_channel N CLEAN sd chan)
        = sdma_avail_channel N (sdma_update_channel_csr CLEAN sd chan)
    ∧ sdma_update_channel_status N CLEAN sd irq_line (1 <<< chan)
        = sdma_update_channel N CLEAN
            { sd with sdma_dev :=
                omap44xx_sdma_dma4_irqstatus_line_wr sd.sdma_dev irq_line CLEAN }
            chan := by
  have hle := avail_after_block N CLEAN sd chan hblock
  have hav : sdma_avail_channel N (sdma_update_channel_csr CLEAN sd chan) < N := by omega
  have heq := sdma_update_channel_ongoing_raw N CLEAN sd chan ((csr_error_ok_iff _).mpr herr)
    hop hlt
  rw [if_pos hav] at heq
  refine ⟨hle, hav, avail_after_block_lowest N CLEAN sd chan hblock, ?_, ?_, ?_, ?_, ?_,
    ?_, ?_, sdma_update_channel_status_single N CLEAN sd irq_line chan hchan⟩
  · rw [sdma_start_transfer_err, if_pos hav]
  · rw [heq]
  · rw [heq]
    dsimp only
    rw [Function.update_same]
  · rw [heq]
  · rw [heq]
    dsimp only
    by_cases hac : sdma_avail_channel N (sdma_update_channel_csr CLEAN sd chan) = chan
    · rw [hac, Function.update_same]
      dsimp only
      rw [Function.update_same]
    · rw [Function.update_noteq hac, Function.update_same]
  · rw [heq]
    dsimp only
    by_cases hac : sdma_avail_channel N (sdma_update_channel_csr CLEAN sd chan) = chan
    · rw [hac, Function.update_same]
      dsimp only
      rw [Function.update_same]
    · rw [Function.update_noteq hac, Function.update_same]
  · rw [heq]
    exact last_enabled_channel_program _ _ _ _ _ _ _ _ _ _

theorem continuation_reuses_channel_witness :
    (0 : Nat) < 32
    ∧ ((engine_block_complete sample_memset_started 0).sdma_dev.chans 0).csr.block ≠ 0
    ∧ ((engine_block_complete sample_memset_started 0).chan_state 0).transfer_in_progress = true
    ∧ sdma_avail_channel 32
        (sdma_update_channel_csr 0 (engine_block_complete sample_memset_started 0) 0) ≤ 0
    ∧ last_enabled_channel
        (sdma_update_channel 32 0 (engine_block_complete sample_memset_started 0) 0) = 0 :=
  ⟨by decide, by decide, by decide,
   (continuation_reuses_channel 32 0 (engine_block_complete sample_memset_started 0) 0 0
      (by decide) (by decide) (by decide) (by decide) (by decide)).1,
   by decide⟩

/-! ## The request handlers in closed form -/

theorem sdma_process_memcpy_form (N : Nat) (sd : sdma_driver) (client : Nat)
    (msg : lmp_recv_msg) (idr : identify_result) :
    sdma_process_memcpy N sd client msg idr
      = if (err_is_ok idr.err
            && decide (CAP_MASK_READY
                = ((sdma_process_memcpy_record sd client msg idr).heap client).have_caps))
            = true then
          if validation_passes ((sdma_process_memcpy_record sd client msg idr).heap client)
              = true then
            (set_client
              (set_client
                (sdma_start_transfer N (sdma_process_memcpy_record sd client msg idr) client
                  (size_add
                    (to_size_t
                      ((sdma_process_memcpy_record sd client msg idr).heap client).src_id.base)
                    ((sdma_process_memcpy_record sd client msg idr).heap client).src_offset)
                  (size_add
                    (to_size_t
                      ((sdma_process_memcpy_record sd client msg idr).heap client).dst_id.base)
                    ((sdma_process_memcpy_record sd client msg idr).heap client).dst_offset)
                  ((sdma_process_memcpy_record sd client msg idr).heap client).len).1
                client (fun c => { c with op_type := OpType_Memcpy }))
              client (fun c =>
                { c with have_caps := 0, src_offset := 0, dst_offset := 0, len := 0 }),
             (sdma_start_transfer N (sdma_process_memcpy_record sd client msg idr) client
                (size_add
                  (to_size_t
                    ((sdma_process_memcpy_record sd client msg idr).heap client).src_id.base)
                  ((sdma_process_memcpy_record sd client msg idr).heap client).src_offset)
                (size_add
                  (to_size_t
                    ((sdma_process_memcpy_record sd client msg idr).heap client).dst_id.base)
                  ((sdma_process_memcpy_record sd client msg idr).heap client).dst_offset)
                ((sdma_process_memcpy_record sd client msg idr).heap client).len).2)
          else
            (set_client (sdma_process_memcpy_record sd client msg idr) client (fun c =>
                { c with have_caps := 0, src_offset := 0, dst_offset := 0, len := 0 }),
             SDMA_ERR_MEMCPY)
        else (sdma_process_memcpy_record sd client msg idr, idr.err) := by
  unfold sdma_process_memcpy validation_passes
  simp only []
  split_ifs <;> rfl

theorem sdma_process_rotate_form (N : Nat) (sd : sdma_driver) (client : Nat)
    (msg : lmp_recv_msg) (idr : identify_result) :
    sdma_process_rotate N sd client msg idr
      = if (err_is_ok idr.err
            && decide (CAP_MASK_READY
                = ((sdma_process_rotate_record sd client msg idr).heap client).have_caps))
            = true then
          if validation_passes ((sdma_process_rotate_record sd client msg idr).heap client)
              = true then
            (set_client
              (set_client
                (sdma_start_rotate N (sdma_process_rotate_record sd client msg idr) client
                  (size_add
                    (to_size_t
                      ((sdma_process_rotate_record sd client msg idr).heap client).src_id.base)
                    ((sdma_process_rotate_record sd client msg idr).heap client).src_offset)
                  (size_add
                    (to_size_t
                      ((sdma_process_rotate_record sd client msg idr).heap client).dst_id.base)
                    ((sdma_process_rotate_record sd client msg idr).heap client).dst_offset)
                  ((sdma_process_rotate_record sd client msg idr).heap client).width
                  ((sdma_process_rotate_record sd client msg idr).heap client).height).1
                client (fun c => { c with op_type := OpType_Rotate }))
              client (fun c =>
                { c with have_caps := 0, src_offset := 0, dst_offset := 0, width := 0,
                         height := 0, len := 0 }),
             (sdma_start_rotate N (sdma_process_rotate_record sd client msg idr) client
                (size_add
                  (to_size_t
                    ((sdma_process_rotate_record sd client msg idr).heap client).src_id.base)
                  ((sdma_process_rotate_record sd client msg idr).heap client).src_offset)
                (size_add
                  (to_size_t
                    ((sdma_process_rotate_record sd client msg idr).heap client).dst_id.base)
                  ((sdma_process_rotate_record sd client msg idr).heap client).dst_offset)
                ((sdma_process_rotate_record sd client msg idr).heap client).width
                ((sdma_process_rotate_record sd client msg idr).heap client).height).2)
          else
            (set_client (sdma_process_rotate_record sd client msg idr) client (fun c =>
                { c with have_caps := 0, src_offset := 0, dst_offset := 0, width := 0,
                         height := 0, len := 0 }),
             SDMA_ERR_ROTATE)
        else (sdma_process_rotate_record sd client msg idr, idr.err) := by
  unfold sdma_process_rotate validation_passes
  simp only []
  split_ifs <;> rfl

theorem ready_test (e : errval_t) (n : Nat) :
    (err_is_ok e && decide (CAP_MASK_READY = n)) = true ↔ e = SYS_ERR_OK ∧ n = CAP_MASK_READY := by
  unfold err_is_ok
  rw [Bool.and_eq_true, decide_eq_true_eq, decide_eq_true_eq]
  exact ⟨fun h => ⟨h.1, h.2.symm⟩, fun h => ⟨h.1, h.2.symm⟩⟩

theorem memcpy_rejected (N : Nat) (sd : sdma_driver) (client : Nat) (msg : lmp_recv_msg)
    (idr : identify_result) (hid : idr.err = SYS_ERR_OK)
    (hready : ((sdma_process_memcpy_record sd client msg idr).heap client).have_caps
      = CAP_MASK_READY)
    (hrej : validation_passes ((sdma_process_memcpy_record sd client msg idr).heap client)
      = false) :
    sdma_process_memcpy N sd client msg idr
      = (set_client (sdma_process_memcpy_record sd client msg idr) client (fun c =>
            { c with have_caps := 0, src_offset := 0, dst_offset := 0, len := 0 }),
         SDMA_ERR_MEMCPY) := by
  rw [sdma_process_memcpy_form, if_pos ((ready_test _ _).mpr ⟨hid, hready⟩), if_neg]
  rw [hrej]
  exact Bool.false_ne_true

theorem memcpy_accepted (N : Nat) (sd : sdma_driver) (client : Nat) (msg : lmp_recv_msg)
    (idr : identify_result) (hid : idr.err = SYS_ERR_OK)
    (hready : ((sdma_process_memcpy_record sd client msg idr).heap client).have_caps
      = CAP_MASK_READY)
    (hpass : validation_passes ((sdma_process_memcpy_record sd client msg idr).heap client)
      = true) :
    sdma_process_memcpy N sd client msg idr
      = (set_client
          (set_client
            (sdma_start_transfer N (sdma_process_memcpy_record sd client msg idr) client
              (size_add
                (to_size_t
                  ((sdma_process_memcpy_record sd client msg idr).heap client).src_id.base)
                ((sdma_process_memcpy_record sd client msg idr).heap client).src_offset)
              (size_add
                (to_size_t
                  ((sdma_process_memcpy_record sd client msg idr).heap client).dst_id.base)
                ((sdma_process_memcpy_record sd client msg idr).heap client).dst_offset)
              ((sdma_process_memcpy_record sd client msg idr).heap client).len).1
            client (fun c => { c with op_type := OpType_Memcpy }))
          client (fun c =>
            { c with have_caps := 0, src_offset := 0, dst_offset := 0, len := 0 }),
         (sdma_start_transfer N (sdma_process_memcpy_record sd client msg idr) client
            (size_add
              (to_size_t
                ((sdma_process_memcpy_record sd client msg idr).heap client).src_id.base)
              ((sdma_process_memcpy_record sd client msg idr).heap client).src_offset)
            (size_add
              (to_size_t
                ((sdma_process_memcpy_record sd client msg idr).heap client).dst_id.base)
              ((sdma_process_memcpy_record sd client msg idr).heap client).dst_offset)
            ((sdma_process_memcpy_record sd client msg idr).heap client).len).2) := by
  rw [sdma_process_memcpy_form, if_pos ((ready_test _ _).mpr ⟨hid, hready⟩), if_pos hpass]

theorem memcpy_pending (N : Nat) (sd : sdma_driver) (client : Nat) (msg : lmp_recv_msg)
    (idr : identify_result)
    (h : ¬ (idr.err = SYS_ERR_OK
      ∧ ((sdma_process_memcpy_record sd client msg idr).heap client).have_caps
        = CAP_MASK_READY)) :
    sdma_process_memcpy N sd client msg idr
      = (sdma_process_memcpy_record sd client msg idr, idr.err) := by
  rw [sdma_process_memcpy_form, if_neg (fun hc => h ((ready_test _ _).mp hc))]

theorem rotate_rejected (N : Nat) (sd : sdma_driver) (client : Nat) (msg : lmp_recv_msg)
    (idr : identify_result) (hid : idr.err = SYS_ERR_OK)
    (hready : ((sdma_process_rotate_record sd client msg idr).heap client).have_caps
      = CAP_MASK_READY)
    (hrej : validation_passes ((sdma_process_rotate_record sd client msg idr).heap client)
      = false) :
    sdma_process_rotate N sd client msg idr
      = (set_client (sdma_process_rotate_record sd client msg idr) client (fun c =>
            { c with have_caps := 0, src_offset := 0, dst_offset := 0, width := 0,
                     height := 0, len := 0 }),
         SDMA_ERR_ROTATE) := by
  rw [sdma_process_rotate_form, if_pos ((ready_test _ _).mpr ⟨hid, hready⟩), if_neg]
  rw [hrej]
  exact Bool.false_ne_true

theorem rotate_accepted (N : Nat) (sd : sdma_driver) (client : Nat) (msg : lmp_recv_msg)
    (idr : identify_result) (hid : idr.err = SYS_ERR_OK)
    (hready : ((sdma_process_rotate_record sd client msg idr).heap client).have_caps
      = CAP_MASK_READY)
    (hpass : validation_passes ((sdma_process_rotate_record sd client msg idr).heap client)
      = true) :
    sdma_process_rotate N sd client msg idr
      = (set_client
          (set_client
            (sdma_start_rotate N (sdma_process_rotate_record sd client msg idr) client
              (size_add
                (to_size_t
                  ((sdma_process_rotate_record sd client msg idr).heap client).src_id.base)
                ((sdma_process_rotate_record sd client msg idr).heap client).src_offset)
              (size_add
                (to_size_t
                  ((sdma_process_rotate_record sd client msg idr).heap client).dst_id.base)
                ((sdma_process_rotate_record sd client msg idr).heap client).dst_offset)
              ((sdma_process_rotate_record sd client msg idr).heap client).width
              ((sdma_process_rotate_record sd client msg idr).heap client).height).1
            client (fun c => { c with op_type := OpType_Rotate }))
          client (fun c =>
            { c with have_caps := 0, src_offset := 0, dst_offset := 0, width := 0,
                     height := 0, len := 0 }),
         (sdma_start_rotate N (sdma_process_rotate_record sd client msg idr) client
            (size_add
              (to_size_t
                ((sdma_process_rotate_record sd client msg idr).heap client).src_id.base)
              ((sdma_process_rotate_record sd client msg idr).heap client).src_offset)
            (size_add
              (to_size_t
                ((sdma_process_rotate_record sd client msg idr).heap client).dst_id.base)
              ((sdma_process_rotate_record sd client msg idr).heap client).dst_offset)
            ((sdma_process_rotate_record sd client msg idr).heap client).width
            ((sdma_process_rotate_record sd client msg idr).heap client).height).2) := by
  rw [sdma_process_rotate_form, if_pos ((ready_test _ _).mpr ⟨hid, hready⟩), if_pos hpass]

theorem rotate_pending (N : Nat) (sd : sdma_driver) (client : Nat) (msg : lmp_recv_msg)
    (idr : identify_result)
    (h : ¬ (idr.err = SYS_ERR_OK
      ∧ ((sdma_process_rotate_record sd client msg idr).heap client).have_caps
        = CAP_MASK_READY)) :
    sdma_process_rotate N sd client msg idr
      = (sdma_process_rotate_record sd client msg idr, idr.err) := by
  rw [sdma_process_rotate_form, if_neg (fun hc => h ((ready_test _ _).mp hc))]

theorem set_client_heap_same (sd : sdma_driver) (c : Nat) (f : client_state → client_state) :
    (set_client sd c f).heap c = f (sd.heap c) := by
  unfold set_client
  dsimp only
  rw [Function.update_same]

theorem set_client_heap_other (sd : sdma_driver) (c x : Nat) (f : client_state → client_state)
    (hx : x ≠ c) : (set_client sd c f).heap x = sd.heap x := by
  unfold set_client
  dsimp only
  rw [Function.update_noteq hx]

theorem start_transfer_heap (N : Nat) (sd : sdma_driver) (c s d l : Nat) :
    (sdma_start_transfer N sd c s d l).1.heap
      = Function.update sd.heap c { sd.heap c with acked := false } := by
  rw [sdma_start_transfer_eq]
  split_ifs <;> rfl

theorem start_rotate_heap (N : Nat) (sd : sdma_driver) (c s d w h : Nat) :
    (sdma_start_rotate N sd c s d w h).1.heap
      = Function.update sd.heap c { sd.heap c with acked := false } := by
  rw [sdma_start_rotate_eq]
  split_ifs <;> rfl

/-! ## C21: what a rejected request leaves behind -/

/-- C21, counterexample: a memcpy whose halves overlap (source `[A+512, A+4608)`,
destination from `A+1024`) is rejected with `SDMA_ERR_MEMCPY`, and beside
`have_caps` the session has lost `src_offset` (512 before, 0 after) and `len`
(4096 before, 0 after) and has a new `dst_id`; no transfer is started. -/
theorem rejected_memcpy_changes_session :
    (sdma_process_memcpy 32 (after_memcpy_src FRAME_A 8192 512 4096) 0 (memcpy_dst_msg 1024)
        (identified FRAME_A 8192)).2 = SDMA_ERR_MEMCPY
    ∧ ((after_memcpy_src FRAME_A 8192 512 4096).heap 0).src_offset = 512
    ∧ ((after_memcpy_src FRAME_A 8192 512 4096).heap 0).len = 4096
    ∧ ((after_memcpy_src FRAME_A 8192 512 4096).heap 0).dst_id = { base := 0, bytes := 0 }
    ∧ ((sdma_process_memcpy 32 (after_memcpy_src FRAME_A 8192 512 4096) 0 (memcpy_dst_msg 1024)
        (identified FRAME_A 8192)).1.heap 0).src_offset = 0
    ∧ ((sdma_process_memcpy 32 (after_memcpy_src FRAME_A 8192 512 4096) 0 (memcpy_dst_msg 1024)
        (identified FRAME_A 8192)).1.heap 0).len = 0
    ∧ ((sdma_process_memcpy 32 (after_memcpy_src FRAME_A 8192 512 4096) 0 (memcpy_dst_msg 1024)
        (identified FRAME_A 8192)).1.heap 0).dst_id = { base := FRAME_A, bytes := 8192 }
    ∧ (sdma_process_memcpy 32 (after_memcpy_src FRAME_A 8192 512 4096) 0 (memcpy_dst_msg 1024)
        (identified FRAME_A 8192)).1.calls = [] := by
  decide

/-- C21, amended: a request whose capability identifies and which the validation
rejects is answered with the validation error and starts nothing; channel
slots, device registers, client list and every other session are as before.
In the session itself a rejected memcpy has stored the frame identity of the
half that arrived and has cleared `have_caps`, `src_offset`, `dst_offset` and
`len` (a rejected rotate also `width` and `height`); a rejected memset leaves
the whole state as it was. -/
theorem rejected_request_effect (N M : Nat) (sd : sdma_driver) (client : Nat)
    (msg : lmp_recv_msg) (idr : identify_result) (hid : idr.err = SYS_ERR_OK) :
    (((sdma_process_memcpy_record sd client msg idr).heap client).have_caps = CAP_MASK_READY →
      validation_passes ((sdma_process_memcpy_record sd client msg idr).heap client) = false →
      sdma_process_memcpy N sd client msg idr
        = ({ sd with
              heap := Function.update sd.heap client
                (if msg.word 0 = SDMA_RPC_MEMCPY_SRC then
                { (sd.heap client) with src_id := idr.id, have_caps := 0, src_offset := 0,
                                          dst_offset := 0, len := 0 }
              else
                { (sd.heap client) with dst_id := idr.id, have_caps := 0, src_offset := 0,
                                          dst_offset := 0, len := 0 }) },
           SDMA_ERR_MEMCPY))
    ∧ (((sdma_process_rotate_record sd client msg idr).heap client).have_caps = CAP_MASK_READY →
      validation_passes ((sdma_process_rotate_record sd client msg idr).heap client) = false →
      sdma_process_rotate N sd client msg idr
        = ({ sd with
              heap := Function.update sd.heap client
                (if msg.word 0 = SDMA_RPC_ROTATE_SRC then
                { (sd.heap client) with src_id := idr.id, have_caps := 0, src_offset := 0,
                                          dst_offset := 0, width := 0, height := 0, len := 0 }
              else
                { (sd.heap client) with dst_id := idr.id, have_caps := 0, src_offset := 0,
                                          dst_offset := 0, width := 0, height := 0, len := 0 }) },
           SDMA_ERR_ROTATE))
    ∧ ((decide (msg.word 1 < idr.id.bytes)
          && decide (msg.word 2 ≤ gen_sub idr.id.bytes (msg.word 1))) = false →
      sdma_process_memset N M sd client msg idr = (sd, SDMA_ERR_MEMSET)) := by
  refine ⟨?_, ?_, ?_⟩
  · intro hready hrej
    rw [memcpy_rejected N sd client msg idr hid hready hrej]
    unfold sdma_process_memcpy_record
    split_ifs <;> simp [set_client]
  · intro hready hrej
    rw [rotate_rejected N sd client msg idr hid hready hrej]
    unfold sdma_process_rotate_record
    split_ifs <;> simp [set_client]
  · intro hrej
    unfold sdma_process_memset
    simp only []
    rw [if_pos (show err_is_ok idr.err = true by rw [hid]; rfl), if_neg]
    rw [hrej]
    exact Bool.false_ne_true

/-- C21, witness: the overlapping memcpy on the sample session. -/
theorem rejected_request_effect_witness :
    (identified FRAME_A 8192).err = SYS_ERR_OK
    ∧ ((sdma_process_memcpy_record (after_memcpy_src FRAME_A 8192 512 4096) 0
          (memcpy_dst_msg 1024) (identified FRAME_A 8192)).heap 0).have_caps = CAP_MASK_READY
    ∧ validation_passes ((sdma_process_memcpy_record (after_memcpy_src FRAME_A 8192 512 4096) 0
          (memcpy_dst_msg 1024) (identified FRAME_A 8192)).heap 0) = false
    ∧ sdma_process_memcpy 32 (after_memcpy_src FRAME_A 8192 512 4096) 0 (memcpy_dst_msg 1024)
          (identified FRAME_A 8192)
        = ({ after_memcpy_src FRAME_A 8192 512 4096 with
              heap := Function.update (after_memcpy_src FRAME_A 8192 512 4096).heap 0
                (if (memcpy_dst_msg 1024).word 0 = SDMA_RPC_MEMCPY_SRC then
                  { ((after_memcpy_src FRAME_A 8192 512 4096).heap 0) with
                    src_id := (identified FRAME_A 8192).id, have_caps := 0, src_offset := 0,
                        dst_offset := 0, len := 0 }
                else
                  { ((after_memcpy_src FRAME_A 8192 512 4096).heap 0) with
                    dst_id := (identified FRAME_A 8192).id, have_caps := 0, src_offset := 0,
                        dst_offset := 0, len := 0 }) },
           SDMA_ERR_MEMCPY) :=
  ⟨rfl, by decide, by decide,
   (rejected_request_effect 32 4096 (after_memcpy_src FRAME_A 8192 512 4096) 0
      (memcpy_dst_msg 1024) (identified FRAME_A 8192) rfl).1 (by decide) (by decide)⟩

/-! ## C23: when the pending pair is cleared -/

/-- C23, counterexample: the source half is pending and the destination half
arrives with a capability `frame_identify` refuses.  Both halves have been
received (`have_caps` is `CAP_MASK_READY`), the reply is the identification
error, and `have_caps`, `src_offset` (512), `dst_offset` (1024) and `len`
(4096) are not cleared. -/
theorem failed_identification_keeps_pair :
    (sdma_process_memcpy 32 (after_memcpy_src FRAME_A 8192 512 4096) 0 (memcpy_dst_msg 1024)
        unidentified).2 = errval_t.other 1
    ∧ ((sdma_process_memcpy 32 (after_memcpy_src FRAME_A 8192 512 4096) 0 (memcpy_dst_msg 1024)
        unidentified).1.heap 0).have_caps = CAP_MASK_READY
    ∧ ((sdma_process_memcpy 32 (after_memcpy_src FRAME_A 8192 512 4096) 0 (memcpy_dst_msg 1024)
        unidentified).1.heap 0).src_offset = 512
    ∧ ((sdma_process_memcpy 32 (after_memcpy_src FRAME_A 8192 512 4096) 0 (memcpy_dst_msg 1024)
        unidentified).1.heap 0).dst_offset = 1024
    ∧ ((sdma_process_memcpy 32 (after_memcpy_src FRAME_A 8192 512 4096) 0 (memcpy_dst_msg 1024)
        unidentified).1.heap 0).len = 4096 := by
  decide

/-- C23, amended: when both halves of a memcpy have been received (`have_caps`
is `CAP_MASK_READY` once the arriving half is recorded) and the capability of
the arriving half identifies, `sdma_process_memcpy` returns with `have_caps`
empty, `src_offset = 0`, `dst_offset = 0` and `len = 0`, whether the
validation and the start call succeed or fail.  When the identification fails,
it returns the identification error and the session as recorded: both bits
set, offsets and length kept. -/
theorem memcpy_clears_pair (N : Nat) (sd : sdma_driver) (client : Nat) (msg : lmp_recv_msg)
    (idr : identify_result)
    (hready : ((sdma_process_memcpy_record sd client msg idr).heap client).have_caps
      = CAP_MASK_READY) :
    (idr.err = SYS_ERR_OK →
      ((sdma_process_memcpy N sd client msg idr).1.heap client).have_caps = 0
      ∧ ((sdma_process_memcpy N sd client msg idr).1.heap client).src_offset = 0
      ∧ ((sdma_process_memcpy N sd client msg idr).1.heap client).dst_offset = 0
      ∧ ((sdma_process_memcpy N sd client msg idr).1.heap client).len = 0)
    ∧ (idr.err ≠ SYS_ERR_OK →
      sdma_process_memcpy N sd client msg idr
        = (sdma_process_memcpy_record sd client msg idr, idr.err)
      ∧ ((sdma_process_memcpy N sd client msg idr).1.heap client).have_caps = CAP_MASK_READY) := by
  refine ⟨?_, ?_⟩
  · intro hid
    by_cases hv : validation_passes ((sdma_process_memcpy_record sd client msg idr).heap client)
        = true
    · rw [memcpy_accepted N sd client msg idr hid hready hv]
      dsimp only
      rw [set_client_heap_same]
      exact ⟨rfl, rfl, rfl, rfl⟩
    · rw [memcpy_rejected N sd client msg idr hid hready (Bool.eq_false_iff.mpr hv)]
      dsimp only
      rw [set_client_heap_same]
      exact ⟨rfl, rfl, rfl, rfl⟩
  · intro hid
    have h := memcpy_pending N sd client msg idr (fun hc => hid hc.1)
    refine ⟨h, ?_⟩
    rw [h]
    exact hready

/-- C23, witness: the destination half completing a pair on the sample
session. -/
theorem memcpy_clears_pair_witness :
    ((sdma_process_memcpy_record (after_memcpy_src FRAME_A 8192 512 4096) 0
        (memcpy_dst_msg 1024) (identified FRAME_B 8192)).heap 0).have_caps = CAP_MASK_READY
    ∧ ((sdma_process_memcpy 32 (after_memcpy_src FRAME_A 8192 512 4096) 0 (memcpy_dst_msg 1024)
        (identified FRAME_B 8192)).1.heap 0).have_caps = 0
    ∧ ((sdma_process_memcpy 32 (after_memcpy_src FRAME_A 8192 512 4096) 0 (memcpy_dst_msg 1024)
        (identified FRAME_B 8192)).1.heap 0).src_offset = 0
    ∧ ((sdma_process_memcpy 32 (after_memcpy_src FRAME_A 8192 512 4096) 0 (memcpy_dst_msg 1024)
        (identified FRAME_B 8192)).1.heap 0).dst_offset = 0
    ∧ ((sdma_process_memcpy 32 (after_memcpy_src FRAME_A 8192 512 4096) 0 (memcpy_dst_msg 1024)
        (identified FRAME_B 8192)).1.heap 0).len = 0 :=
  ⟨by decide,
   (memcpy_clears_pair 32 (after_memcpy_src FRAME_A 8192 512 4096) 0 (memcpy_dst_msg 1024)
      (identified FRAME_B 8192) (by decide)).1 rfl⟩

/-! ## C24: when the operation kind is stored -/

/-- C24, counterexample: every channel is in use; the idle session 1 (operation
kind `OpType_None`) sends a valid memcpy pair.  The request is answered with
`SDMA_ERR_NO_AVAIL_CHANNEL` and the operation kind of the session has become
`OpType_Memcpy`. -/
theorem failed_start_stores_operation :
    (sample_all_busy.heap 1).op_type = OpType_None
    ∧ ((sdma_process_memcpy 32 sample_all_busy 1 (memcpy_src_msg 0 4096)
        (identified FRAME_A 4096)).1.heap 1).op_type = OpType_None
    ∧ (sdma_process_memcpy 32
        (sdma_process_memcpy 32 sample_all_busy 1 (memcpy_src_msg 0 4096)
          (identified FRAME_A 4096)).1
        1 (memcpy_dst_msg 0) (identified FRAME_B 4096)).2 = SDMA_ERR_NO_AVAIL_CHANNEL
    ∧ ((sdma_process_memcpy 32
        (sdma_process_memcpy 32 sample_all_busy 1 (memcpy_src_msg 0 4096)
          (identified FRAME_A 4096)).1
        1 (memcpy_dst_msg 0) (identified FRAME_B 4096)).1.heap 1).op_type = OpType_Memcpy
    ∧ ((sdma_process_rotate 32
        (sdma_process_rotate 32 sample_all_busy 1 (rotate_src_msg 0 4 4)
          (identified FRAME_A 4096)).1
        1 (rotate_dst_msg 0) (identified FRAME_B 4096)).2 = SDMA_ERR_NO_AVAIL_CHANNEL)
    ∧ ((sdma_process_rotate 32
        (sdma_process_rotate 32 sample_all_busy 1 (rotate_src_msg 0 4 4)
          (identified FRAME_A 4096)).1
        1 (rotate_dst_msg 0) (identified FRAME_B 4096)).1.heap 1).op_type = OpType_Rotate := by
  decide

/-- C24, amended: `sdma_process_memcpy` stores `OpType_Memcpy` whenever the
pair is complete, the capability identifies and the validation passes, whether
`sdma_start_transfer` then succeeds or fails with `SDMA_ERR_NO_AVAIL_CHANNEL`
(the reply is the result of the start call); in every other case the operation
kind of the session is left as it was.  Likewise `OpType_Rotate` in
`sdma_process_rotate`. -/
theorem operation_kind_stored (N : Nat) (sd : sdma_driver) (client : Nat)
    (msg : lmp_recv_msg) (idr : identify_result) :
    (idr.err = SYS_ERR_OK
        ∧ ((sdma_process_memcpy_record sd client msg idr).heap client).have_caps
          = CAP_MASK_READY
        ∧ validation_passes ((sdma_process_memcpy_record sd client msg idr).heap client)
          = true →
      ((sdma_process_memcpy N sd client msg idr).1.heap client).op_type = OpType_Memcpy
      ∧ (sdma_process_memcpy N sd client msg idr).2
        = if sdma_avail_channel N sd < N then SYS_ERR_OK else SDMA_ERR_NO_AVAIL_CHANNEL)
    ∧ (¬ (idr.err = SYS_ERR_OK
        ∧ ((sdma_process_memcpy_record sd client msg idr).heap client).have_caps
          = CAP_MASK_READY
        ∧ validation_passes ((sdma_process_memcpy_record sd client msg idr).heap client)
          = true) →
      ((sdma_process_memcpy N sd client msg idr).1.heap client).op_type
        = (sd.heap client).op_type)
    ∧ (idr.err = SYS_ERR_OK
        ∧ ((sdma_process_rotate_record sd client msg idr).heap client).have_caps
          = CAP_MASK_READY
        ∧ validation_passes ((sdma_process_rotate_record sd client msg idr).heap client)
          = true →
      ((sdma_process_rotate N sd client msg idr).1.heap client).op_type = OpType_Rotate
      ∧ (sdma_process_rotate N sd client msg idr).2
        = if sdma_avail_channel N sd < N then SYS_ERR_OK else SDMA_ERR_NO_AVAIL_CHANNEL)
    ∧ (¬ (idr.err = SYS_ERR_OK
        ∧ ((sdma_process_rotate_record sd client msg idr).heap client).have_caps
          = CAP_MASK_READY
        ∧ validation_passes ((sdma_process_rotate_record sd client msg idr).heap client)
          = true) →
      ((sdma_process_rotate N sd client msg idr).1.heap client).op_type
        = (sd.heap client).op_type) := by
  have hrecm : ((sdma_process_memcpy_record sd client msg idr).heap client).op_type
      = (sd.heap client).op_type := by
    unfold sdma_process_memcpy_record
    split_ifs <;> (rw [set_client_heap_same])
  have hrecr : ((sdma_process_rotate_record sd client msg idr).heap client).op_type
      = (sd.heap client).op_type := by
    unfold sdma_process_rotate_record
    split_ifs <;> (rw [set_client_heap_same])
  have hcm : (sdma_process_memcpy_record sd client msg idr).chan_state = sd.chan_state := by
    unfold sdma_process_memcpy_record
    split_ifs <;> rfl
  have hcr : (sdma_process_rotate_record sd client msg idr).chan_state = sd.chan_state := by
    unfold sdma_process_rotate_record
    split_ifs <;> rfl
  refine ⟨?_, ?_, ?_, ?_⟩
  · rintro ⟨hid, hready, hv⟩
    rw [memcpy_accepted N sd client msg idr hid hready hv]
    dsimp only
    rw [set_client_heap_same, set_client_heap_same, sdma_start_transfer_err,
      sdma_avail_channel_frame N sd _ hcm]
    exact ⟨rfl, rfl⟩
  · intro hn
    by_cases h1 : idr.err = SYS_ERR_OK
      ∧ ((sdma_process_memcpy_record sd client msg idr).heap client).have_caps = CAP_MASK_READY
    · have hv : validation_passes ((sdma_process_memcpy_record sd client msg idr).heap client)
          = false := Bool.eq_false_iff.mpr (fun hv => hn ⟨h1.1, h1.2, hv⟩)
      rw [memcpy_rejected N sd client msg idr h1.1 h1.2 hv]
      dsimp only
      rw [set_client_heap_same]
      exact hrecm
    · rw [memcpy_pending N sd client msg idr h1]
      exact hrecm
  · rintro ⟨hid, hready, hv⟩
    rw [rotate_accepted N sd client msg idr hid hready hv]
    dsimp only
    rw [set_client_heap_same, set_client_heap_same, sdma_start_rotate_err,
      sdma_avail_channel_frame N sd _ hcr]
    exact ⟨rfl, rfl⟩
  · intro hn
    by_cases h1 : idr.err = SYS_ERR_OK
      ∧ ((sdma_process_rotate_record sd client msg idr).heap client).have_caps = CAP_MASK_READY
    · have hv : validation_passes ((sdma_process_rotate_record sd client msg idr).heap client)
          = false := Bool.eq_false_iff.mpr (fun hv => hn ⟨h1.1, h1.2, hv⟩)
      rw [rotate_rejected N sd client msg idr h1.1 h1.2 hv]
      dsimp only
      rw [set_client_heap_same]
      exact hrecr
    · rw [rotate_pending N sd client msg idr h1]
      exact hrecr

/-! ## C22: the pending halves -/

theorem caps_update (h : Nat → client_state) (c : Nat) (v : client_state)
    (hv : v.have_caps = (h c).have_caps) (x : Nat) :
    (Function.update h c v x).have_caps = (h x).have_caps := by
  by_cases hx : x = c
  · subst hx
    rw [Function.update_same]
    exact hv
  · rw [Function.update_noteq hx]

theorem caps_set_client (sd : sdma_driver) (c : Nat) (f : client_state → client_state)
    (hf : ∀ y, (f y).have_caps = y.have_caps) (x : Nat) :
    ((set_client sd c f).heap x).have_caps = (sd.heap x).have_caps :=
  caps_update sd.heap c _ (hf _) x

theorem caps_start_transfer (N : Nat) (sd : sdma_driver) (c s d l : Nat) (x : Nat) :
    ((sdma_start_transfer N sd c s d l).1.heap x).have_caps = (sd.heap x).have_caps := by
  rw [start_transfer_heap]
  exact caps_update sd.heap c { sd.heap c with acked := false } rfl x

theorem caps_update_channel (N CLEAN : Nat) (sd : sdma_driver) (chan : Nat) (x : Nat) :
    ((sdma_update_channel N CLEAN sd chan).heap x).have_caps = (sd.heap x).have_caps := by
  have hcsr : (sdma_update_channel_csr CLEAN sd chan).heap = sd.heap := by
    rw [sdma_update_channel_csr_eq]
  unfold sdma_update_channel
  simp only []
  generalize sdma_update_channel_csr CLEAN sd chan = sd1 at hcsr ⊢
  rw [← hcsr]
  split_ifs <;>
    simp only [caps_set_client, caps_start_transfer, set_chan, implies_true]

theorem caps_status_fold (N CLEAN : Nat) (flag : Nat → Bool) (x : Nat) :
    ∀ (cs : List Nat) (sd : sdma_driver),
      ((cs.foldl (fun s chan => if flag chan then sdma_update_channel N CLEAN s chan else s)
          sd).heap x).have_caps = (sd.heap x).have_caps := by
  intro cs
  induction cs with
  | nil => intro sd; rfl
  | cons c rest ih =>
    intro sd
    rw [List.foldl_cons, ih]
    split_ifs
    · exact caps_update_channel N CLEAN sd c x
    · rfl

theorem caps_update_channel_status (N CLEAN : Nat) (sd : sdma_driver)
    (irq_line irq_status : Nat) (x : Nat) :
    ((sdma_update_channel_status N CLEAN sd irq_line irq_status).heap x).have_caps
      = (sd.heap x).have_caps := by
  unfold sdma_update_channel_status
  simp only []
  rw [caps_status_fold]

theorem caps_process_memset (N M : Nat) (sd : sdma_driver) (c : Nat) (msg : lmp_recv_msg)
    (idr : identify_result) (x : Nat) :
    ((sdma_process_memset N M sd c msg idr).1.heap x).have_caps = (sd.heap x).have_caps := by
  unfold sdma_process_memset
  simp only []
  split_ifs <;>
    simp only [caps_set_client, caps_start_transfer, implies_true]

theorem caps_memcpy_record (sd : sdma_driver) (c : Nat) (msg : lmp_recv_msg)
    (idr : identify_result) :
    ((sdma_process_memcpy_record sd c msg idr).heap c).have_caps
        = (sd.heap c).have_caps |||
          (if msg.word 0 = SDMA_RPC_MEMCPY_SRC then CAP_MASK_SRC else CAP_MASK_DST)
    ∧ (∀ x, x ≠ c → (sdma_process_memcpy_record sd c msg idr).heap x = sd.heap x)
    ∧ (sdma_process_memcpy_record sd c msg idr).calls = sd.calls
    ∧ (sdma_process_memcpy_record sd c msg idr).chan_state = sd.chan_state
    ∧ (sdma_process_memcpy_record sd c msg idr).sdma_dev = sd.sdma_dev := by
  unfold sdma_process_memcpy_record
  split_ifs
  · exact ⟨by rw [set_client_heap_same], fun x hx => set_client_heap_other _ _ _ _ hx,
      rfl, rfl, rfl⟩
  · exact ⟨by rw [set_client_heap_same], fun x hx => set_client_heap_other _ _ _ _ hx,
      rfl, rfl, rfl⟩

theorem caps_rotate_record (sd : sdma_driver) (c : Nat) (msg : lmp_recv_msg)
    (idr : identify_result) :
    ((sdma_process_rotate_record sd c msg idr).heap c).have_caps
        = (sd.heap c).have_caps |||
          (if msg.word 0 = SDMA_RPC_ROTATE_SRC then CAP_MASK_SRC else CAP_MASK_DST)
    ∧ (∀ x, x ≠ c → (sdma_process_rotate_record sd c msg idr).heap x = sd.heap x)
    ∧ (sdma_process_rotate_record sd c msg idr).calls = sd.calls
    ∧ (sdma_process_rotate_record sd c msg idr).chan_state = sd.chan_state
    ∧ (sdma_process_rotate_record sd c msg idr).sdma_dev = sd.sdma_dev := by
  unfold sdma_process_rotate_record
  split_ifs
  · exact ⟨by rw [set_client_heap_same], fun x hx => set_client_heap_other _ _ _ _ hx,
      rfl, rfl, rfl⟩
  · exact ⟨by rw [set_client_heap_same], fun x hx => set_client_heap_other _ _ _ _ hx,
      rfl, rfl, rfl⟩

theorem caps_or_bound (n b : Nat) (hn : n ≤ CAP_MASK_READY)
    (hb : b = CAP_MASK_SRC ∨ b = CAP_MASK_DST) : n ||| b ≤ CAP_MASK_READY := by
  have h4 : n < 2 ^ 2 := Nat.lt_succ_of_le hn
  have hb4 : b < 2 ^ 2 := by
    rcases hb with h | h <;> rw [h] <;> decide
  exact Nat.le_of_lt_succ (Nat.or_lt_two_pow h4 hb4)

theorem caps_process_memcpy (N : Nat) (sd : sdma_driver) (c : Nat) (msg : lmp_recv_msg)
    (idr : identify_result) (x : Nat) (hx : (sd.heap x).have_caps ≤ CAP_MASK_READY) :
    ((sdma_process_memcpy N sd c msg idr).1.heap x).have_caps ≤ CAP_MASK_READY := by
  obtain ⟨hrc, hro, -, -, -⟩ := caps_memcpy_record sd c msg idr
  by_cases hxc : x = c
  · subst hxc
    have hrec : ((sdma_process_memcpy_record sd x msg idr).heap x).have_caps
        ≤ CAP_MASK_READY := by
      rw [hrc]
      refine caps_or_bound _ _ hx ?_
      split_ifs
      · exact Or.inl rfl
      · exact Or.inr rfl
    rw [sdma_process_memcpy_form]
    split_ifs
    · dsimp only
      rw [set_client_heap_same]
      exact Nat.zero_le _
    · dsimp only
      rw [set_client_heap_same]
      exact Nat.zero_le _
    · exact hrec
  · have hrec : ((sdma_process_memcpy_record sd c msg idr).heap x).have_caps
        ≤ CAP_MASK_READY := by
      rw [hro x hxc]
      exact hx
    rw [sdma_process_memcpy_form]
    split_ifs
    · dsimp only
      rw [set_client_heap_other _ _ _ _ hxc, set_client_heap_other _ _ _ _ hxc,
        caps_start_transfer]
      exact hrec
    · dsimp only
      rw [set_client_heap_other _ _ _ _ hxc]
      exact hrec
    · exact hrec

theorem caps_start_rotate (N : Nat) (sd : sdma_driver) (c s d w h : Nat) (x : Nat) :
    ((sdma_start_rotate N sd c s d w h).1.heap x).have_caps = (sd.heap x).have_caps := by
  rw [start_rotate_heap]
  exact caps_update sd.heap c { sd.heap c with acked := false } rfl x

theorem caps_process_rotate (N : Nat) (sd : sdma_driver) (c : Nat) (msg : lmp_recv_msg)
    (idr : identify_result) (x : Nat) (hx : (sd.heap x).have_caps ≤ CAP_MASK_READY) :
    ((sdma_process_rotate N sd c msg idr).1.heap x).have_caps ≤ CAP_MASK_READY := by
  obtain ⟨hrc, hro, -, -, -⟩ := caps_rotate_record sd c msg idr
  by_cases hxc : x = c
  · subst hxc
    have hrec : ((sdma_process_rotate_record sd x msg idr).heap x).have_caps
        ≤ CAP_MASK_READY := by
      rw [hrc]
      refine caps_or_bound _ _ hx ?_
      split_ifs
      · exact Or.inl rfl
      · exact Or.inr rfl
    rw [sdma_process_rotate_form]
    split_ifs
    · dsimp only
      rw [set_client_heap_same]
      exact Nat.zero_le _
    · dsimp only
      rw [set_client_heap_same]
      exact Nat.zero_le _
    · exact hrec
  · have hrec : ((sdma_process_rotate_record sd c msg idr).heap x).have_caps
        ≤ CAP_MASK_READY := by
      rw [hro x hxc]
      exact hx
    rw [sdma_process_rotate_form]
    split_ifs
    · dsimp only
      rw [set_client_heap_other _ _ _ _ hxc, set_client_heap_other _ _ _ _ hxc,
        caps_start_rotate]
      exact hrec
    · dsimp only
      rw [set_client_heap_other _ _ _ _ hxc]
      exact hrec
    · exact hrec

theorem reachable_have_caps (N M CLEAN : Nat) (caps : cap_view → Prop) (sd : sdma_driver)
    (l : List Nat) (h : Reachable N M CLEAN caps sd l) :
    ∀ x, x ∈ l → (sd.heap x).have_caps ≤ CAP_MASK_READY := by
  induction h with
  | init dev heap =>
    intro x hx
    exact absurd hx (List.not_mem_nil x)
  | handshake_new sd l fuel cap env sd2 c hreach _ hfr hres ih =>
    obtain ⟨hl, -, -⟩ := reachable_invariants N M CLEAN caps sd l hreach
    obtain ⟨hc, hsd2, -⟩ :=
      handshake_new_eq fuel sd cap env sd2 c hres (fresh_not_head sd l _ hl hfr)
    subst hc
    subst hsd2
    intro x hx
    by_cases hxc : x = env.client
    · subst hxc
      rw [session_added_new]
      exact Nat.zero_le _
    · rw [(session_added_other sd cap env x hxc).2.2.2.1]
      rcases List.mem_cons.mp hx with h1 | h1
      · exact absurd h1 hxc
      · exact ih x h1
  | handshake_dup sd l fuel cap env sd2 _ _ _ hres ih =>
    rw [handshake_dup_eq fuel sd cap env sd2 hres]
    exact ih
  | memcpy sd l client msg idr _ _ ih =>
    intro x hx
    exact caps_process_memcpy N sd client msg idr x (ih x hx)
  | memset sd l client msg idr _ _ ih =>
    intro x hx
    rw [caps_process_memset]
    exact ih x hx
  | rotate sd l client msg idr _ _ ih =>
    intro x hx
    exact caps_process_rotate N sd client msg idr x (ih x hx)
  | interrupt sd l chans irq_line irq_status _ _ ih =>
    intro x hx
    rw [caps_update_channel_status]
    exact ih x hx

/-- C22, counterexample: a single source half on a session with nothing pending
whose capability `frame_identify` refuses sets the `SRC` bit, starts nothing,
and is answered with the identification error, not with `SYS_ERR_OK`. -/
theorem half_with_refused_capability :
    (sample_driver.heap 0).have_caps = 0
    ∧ (sdma_process_memcpy 32 sample_driver 0 (memcpy_src_msg 0 4096) unidentified).2
        = errval_t.other 1
    ∧ (sdma_process_memcpy 32 sample_driver 0 (memcpy_src_msg 0 4096) unidentified).2
        ≠ SYS_ERR_OK
    ∧ ((sdma_process_memcpy 32 sample_driver 0 (memcpy_src_msg 0 4096) unidentified).1.heap
        0).have_caps = CAP_MASK_SRC
    ∧ (sdma_process_memcpy 32 sample_driver 0 (memcpy_src_msg 0 4096) unidentified).1.calls
        = []
    ∧ (sdma_process_rotate 32 sample_driver 0 (rotate_dst_msg 0) unidentified).2
        = errval_t.other 1
    ∧ ((sdma_process_rotate 32 sample_driver 0 (rotate_dst_msg 0) unidentified).1.heap
        0).have_caps = CAP_MASK_DST := by
  decide

/-- C22, amended: in every state reachable from bring-up, `have_caps` of every
session is one of the four subsets of `{SRC, DST}`.  `sdma_process_memcpy` and
`sdma_process_rotate` call a start operation only when the capability
identifies, `have_caps` equals `{SRC, DST}` after recording the half and the
validation passes.  On a session with `have_caps` empty a single half sets
only its own bit, starts nothing, leaves slots and registers alone, and is
answered with the result of `frame_identify`: `SYS_ERR_OK` when the capability
identifies as a frame. -/
theorem have_caps_discipline (N M CLEAN : Nat) (caps : cap_view → Prop) (sd : sdma_driver)
    (l : List Nat) (hreach : Reachable N M CLEAN caps sd l) (client : Nat)
    (hclient : client ∈ l) (msg : lmp_recv_msg) (idr : identify_result) :
    (sd.heap client).have_caps ∈ [0, CAP_MASK_SRC, CAP_MASK_DST, CAP_MASK_READY]
    ∧ ((sdma_process_memcpy N sd client msg idr).1.calls ≠ sd.calls →
        idr.err = SYS_ERR_OK
        ∧ ((sdma_process_memcpy_record sd client msg idr).heap client).have_caps
          = CAP_MASK_READY
        ∧ validation_passes ((sdma_process_memcpy_record sd client msg idr).heap client)
          = true)
    ∧ ((sdma_process_rotate N sd client msg idr).1.calls ≠ sd.calls →
        idr.err = SYS_ERR_OK
        ∧ ((sdma_process_rotate_record sd client msg idr).heap client).have_caps
          = CAP_MASK_READY
        ∧ validation_passes ((sdma_process_rotate_record sd client msg idr).heap client)
          = true)
    ∧ ((sd.heap client).have_caps = 0 →
        ((sdma_process_memcpy N sd client msg idr).1.heap client).have_caps
          = (if msg.word 0 = SDMA_RPC_MEMCPY_SRC then CAP_MASK_SRC else CAP_MASK_DST)
        ∧ (sdma_process_memcpy N sd client msg idr).1.calls = sd.calls
        ∧ (sdma_process_memcpy N sd client msg idr).1.chan_state = sd.chan_state
        ∧ (sdma_process_memcpy N sd client msg idr).1.sdma_dev = sd.sdma_dev
        ∧ (sdma_process_memcpy N sd client msg idr).2 = idr.err
        ∧ ((sdma_process_rotate N sd client msg idr).1.heap client).have_caps
          = (if msg.word 0 = SDMA_RPC_ROTATE_SRC then CAP_MASK_SRC else CAP_MASK_DST)
        ∧ (sdma_process_rotate N sd client msg idr).1.calls = sd.calls
        ∧ (sdma_process_rotate N sd client msg idr).1.chan_state = sd.chan_state
        ∧ (sdma_process_rotate N sd client msg idr).1.sdma_dev = sd.sdma_dev
        ∧ (sdma_process_rotate N sd client msg idr).2 = idr.err) := by
  obtain ⟨hmc, -, hmk, hms, hmd⟩ := caps_memcpy_record sd client msg idr
  obtain ⟨hrc, -, hrk, hrs, hrd⟩ := caps_rotate_record sd client msg idr
  refine ⟨?_, ?_, ?_, ?_⟩
  · have hle := reachable_have_caps N M CLEAN caps sd l hreach client hclient
    generalize (sd.heap client).have_caps = n at hle
    have h4 : n ≤ 3 := hle
    interval_cases n <;> decide
  · intro hne
    by_cases h1 : idr.err = SYS_ERR_OK
      ∧ ((sdma_process_memcpy_record sd client msg idr).heap client).have_caps = CAP_MASK_READY
    · refine ⟨h1.1, h1.2, ?_⟩
      by_contra hv
      rw [memcpy_rejected N sd client msg idr h1.1 h1.2 (Bool.eq_false_iff.mpr hv)] at hne
      exact hne hmk
    · rw [memcpy_pending N sd client msg idr h1] at hne
      exact absurd hmk hne
  · intro hne
    by_cases h1 : idr.err = SYS_ERR_OK
      ∧ ((sdma_process_rotate_record sd client msg idr).heap client).have_caps = CAP_MASK_READY
    · refine ⟨h1.1, h1.2, ?_⟩
      by_contra hv
      rw [rotate_rejected N sd client msg idr h1.1 h1.2 (Bool.eq_false_iff.mpr hv)] at hne
      exact hne hrk
    · rw [rotate_pending N sd client msg idr h1] at hne
      exact absurd hrk hne
  · intro h0
    rw [h0] at hmc hrc
    have hm1 : ¬ (idr.err = SYS_ERR_OK
        ∧ ((sdma_process_memcpy_record sd client msg idr).heap client).have_caps
          = CAP_MASK_READY) := by
      rintro ⟨-, h⟩
      rw [hmc] at h
      split_ifs at h <;> exact absurd h (by decide)
    have hr1 : ¬ (idr.err = SYS_ERR_OK
        ∧ ((sdma_process_rotate_record sd client msg idr).heap client).have_caps
          = CAP_MASK_READY) := by
      rintro ⟨-, h⟩
      rw [hrc] at h
      split_ifs at h <;> exact absurd h (by decide)
    rw [memcpy_pending N sd client msg idr hm1, rotate_pending N sd client msg idr hr1]
    refine ⟨?_, hmk, hms, hmd, rfl, ?_, hrk, hrs, hrd, rfl⟩
    · show ((sdma_process_memcpy_record sd client msg idr).heap client).have_caps = _
      rw [hmc]
      split_ifs <;> rfl
    · show ((sdma_process_rotate_record sd client msg idr).heap client).have_caps = _
      rw [hrc]
      split_ifs <;> rfl

/-- C22, witness: the first session of the sample run receives a source half. -/
theorem have_caps_discipline_witness :
    Reachable 32 4096 0 (fun _ => True) sample_first_session [1]
    ∧ (sample_first_session.heap 1).have_caps = 0
    ∧ ((sdma_process_memcpy 32 sample_first_session 1 (memcpy_src_msg 0 4096)
          (identified FRAME_A 4096)).1.heap 1).have_caps
        = (if (memcpy_src_msg 0 4096).word 0 = SDMA_RPC_MEMCPY_SRC then CAP_MASK_SRC
            else CAP_MASK_DST)
    ∧ (sdma_process_memcpy 32 sample_first_session 1 (memcpy_src_msg 0 4096)
          (identified FRAME_A 4096)).1.calls = sample_first_session.calls
    ∧ (sdma_process_memcpy 32 sample_first_session 1 (memcpy_src_msg 0 4096)
          (identified FRAME_A 4096)).2 = SYS_ERR_OK :=
  ⟨sample_first_session_reachable _ trivial, by decide,
   ((have_caps_discipline 32 4096 0 (fun _ => True) sample_first_session [1]
      (sample_first_session_reachable _ trivial) 1 (by decide) (memcpy_src_msg 0 4096)
      (identified FRAME_A 4096)).2.2.2 (by decide)).1,
   ((have_caps_discipline 32 4096 0 (fun _ => True) sample_first_session [1]
      (sample_first_session_reachable _ trivial) 1 (by decide) (memcpy_src_msg 0 4096)
      (identified FRAME_A 4096)).2.2.2 (by decide)).2.1,
   ((have_caps_discipline 32 4096 0 (fun _ => True) sample_first_session [1]
      (sample_first_session_reachable _ trivial) 1 (by decide) (memcpy_src_msg 0 4096)
      (identified FRAME_A 4096)).2.2.2 (by decide)).2.2.2.2.1⟩

/-! ## C26: an accepted rotate may leave its frames -/

/-- C26 fails on the code: a 4 x 4 rotate from offset 4064 of the 4 KiB frame
`A` to offset 0 of frame `B` is accepted (`len = 16` elements is compared with
the 32 bytes left in the source frame), `sdma_start_rotate` is called and the
channel is enabled for 4 frames of 4 elements of 4 bytes from `A + 4064`, so
`src_offset + 4 * width * height = 4128` exceeds `src_id.bytes = 4096`.  With
`dst_offset = 4064` the destination leaves its frame in the same way.  A
65536 x 65536 rotate is accepted as well: `width * height` wraps to `len = 0`. -/
theorem rotate_exceeds_frame :
    (sdma_process_rotate 32 (after_rotate_src FRAME_A 4096 4064 4 4) 0 (rotate_dst_msg 0)
        (identified FRAME_B 4096)).2 = SYS_ERR_OK
    ∧ (sdma_process_rotate 32 (after_rotate_src FRAME_A 4096 4064 4 4) 0 (rotate_dst_msg 0)
        (identified FRAME_B 4096)).1.calls
        = [sdma_call.start_rotate 0 (FRAME_A + 4064) FRAME_B 4 4]
    ∧ ((sdma_process_rotate 32 (after_rotate_src FRAME_A 4096 4064 4 4) 0 (rotate_dst_msg 0)
        (identified FRAME_B 4096)).1.sdma_dev.chans 0).ccr.enable = 1
    ∧ ((sdma_process_rotate 32 (after_rotate_src FRAME_A 4096 4064 4 4) 0 (rotate_dst_msg 0)
        (identified FRAME_B 4096)).1.sdma_dev.chans 0).cssa = FRAME_A + 4064
    ∧ ((sdma_process_rotate 32 (after_rotate_src FRAME_A 4096 4064 4 4) 0 (rotate_dst_msg 0)
        (identified FRAME_B 4096)).1.sdma_dev.chans 0).cen = 4
    ∧ ((sdma_process_rotate 32 (after_rotate_src FRAME_A 4096 4064 4 4) 0 (rotate_dst_msg 0)
        (identified FRAME_B 4096)).1.sdma_dev.chans 0).cfn = 4
    ∧ ((sdma_process_rotate 32 (after_rotate_src FRAME_A 4096 4064 4 4) 0 (rotate_dst_msg 0)
        (identified FRAME_B 4096)).1.sdma_dev.chans 0).csdp.data_type
        = omap44xx_sdma_DATA_TYPE_32BIT
    ∧ ((sdma_process_rotate_record (after_rotate_src FRAME_A 4096 4064 4 4) 0
          (rotate_dst_msg 0) (identified FRAME_B 4096)).heap 0).len = 16
    ∧ ¬ (((sdma_process_rotate_record (after_rotate_src FRAME_A 4096 4064 4 4) 0
          (rotate_dst_msg 0) (identified FRAME_B 4096)).heap 0).src_offset
        + 4 * ((sdma_process_rotate_record (after_rotate_src FRAME_A 4096 4064 4 4) 0
          (rotate_dst_msg 0) (identified FRAME_B 4096)).heap 0).width
          * ((sdma_process_rotate_record (after_rotate_src FRAME_A 4096 4064 4 4) 0
          (rotate_dst_msg 0) (identified FRAME_B 4096)).heap 0).height
        ≤ ((sdma_process_rotate_record (after_rotate_src FRAME_A 4096 4064 4 4) 0
          (rotate_dst_msg 0) (identified FRAME_B 4096)).heap 0).src_id.bytes)
    ∧ (sdma_process_rotate 32 (after_rotate_src FRAME_A 4096 0 4 4) 0 (rotate_dst_msg 4064)
        (identified FRAME_B 4096)).1.calls
        = [sdma_call.start_rotate 0 FRAME_A (FRAME_B + 4064) 4 4]
    ∧ ¬ (((sdma_process_rotate_record (after_rotate_src FRAME_A 4096 0 4 4) 0
          (rotate_dst_msg 4064) (identified FRAME_B 4096)).heap 0).dst_offset
        + 4 * ((sdma_process_rotate_record (after_rotate_src FRAME_A 4096 0 4 4) 0
          (rotate_dst_msg 4064) (identified FRAME_B 4096)).heap 0).width
          * ((sdma_process_rotate_record (after_rotate_src FRAME_A 4096 0 4 4) 0
          (rotate_dst_msg 4064) (identified FRAME_B 4096)).heap 0).height
        ≤ ((sdma_process_rotate_record (after_rotate_src FRAME_A 4096 0 4 4) 0
          (rotate_dst_msg 4064) (identified FRAME_B 4096)).heap 0).dst_id.bytes)
    ∧ ((sdma_process_rotate_record (after_rotate_src FRAME_A 4096 0 65536 65536) 0
          (rotate_dst_msg 0) (identified FRAME_B 4096)).heap 0).len = 0
    ∧ (sdma_process_rotate 32 (after_rotate_src FRAME_A 4096 0 65536 65536) 0
        (rotate_dst_msg 0) (identified FRAME_B 4096)).2 = SYS_ERR_OK
    ∧ (sdma_process_rotate 32 (after_rotate_src FRAME_A 4096 0 65536 65536) 0
        (rotate_dst_msg 0) (identified FRAME_B 4096)).1.calls
        = [sdma_call.start_rotate 0 FRAME_A FRAME_B 65536 65536] := by
  decide

/-! ## C27: the two halves of a pair are not tagged with their operation -/

theorem start_rotate_calls (N : Nat) (sd : sdma_driver) (c s d w h : Nat) :
    (sdma_start_rotate N sd c s d w h).1.calls
      = sd.calls ++ [sdma_call.start_rotate c s d w h] := by
  rw [sdma_start_rotate_eq]
  split_ifs <;> rfl

theorem process_rotate_calls (N : Nat) (sd : sdma_driver) (client : Nat)
    (msg : lmp_recv_msg) (idr : identify_result) :
    (sdma_process_rotate N sd client msg idr).1.calls
      = if idr.err = SYS_ERR_OK
          ∧ ((sdma_process_rotate_record sd client msg idr).heap client).have_caps
            = CAP_MASK_READY
          ∧ validation_passes ((sdma_process_rotate_record sd client msg idr).heap client)
            = true then
          sd.calls ++ [sdma_call.start_rotate client
            (size_add
              (to_size_t
                ((sdma_process_rotate_record sd client msg idr).heap client).src_id.base)
              ((sdma_process_rotate_record sd client msg idr).heap client).src_offset)
            (size_add
              (to_size_t
                ((sdma_process_rotate_record sd client msg idr).heap client).dst_id.base)
              ((sdma_process_rotate_record sd client msg idr).heap client).dst_offset)
            ((sdma_process_rotate_record sd client msg idr).heap client).width
            ((sdma_process_rotate_record sd client msg idr).heap client).height]
        else sd.calls := by
  obtain ⟨-, -, hk, -, -⟩ := caps_rotate_record sd client msg idr
  by_cases h1 : idr.err = SYS_ERR_OK
    ∧ ((sdma_process_rotate_record sd client msg idr).heap client).have_caps = CAP_MASK_READY
  · by_cases hv : validation_passes ((sdma_process_rotate_record sd client msg idr).heap client)
        = true
    · rw [if_pos ⟨h1.1, h1.2, hv⟩, rotate_accepted N sd client msg idr h1.1 h1.2 hv]
      show (sdma_start_rotate N _ client _ _ _ _).1.calls = _
      rw [start_rotate_calls, hk]
    · rw [if_neg (fun hc => hv hc.2.2),
        rotate_rejected N sd client msg idr h1.1 h1.2 (Bool.eq_false_iff.mpr hv)]
      exact hk
  · rw [if_neg (fun hc => h1 ⟨hc.1, hc.2.1⟩), rotate_pending N sd client msg idr h1]
    exact hk

theorem process_memcpy_calls (N : Nat) (sd : sdma_driver) (client : Nat)
    (msg : lmp_recv_msg) (idr : identify_result) :
    (sdma_process_memcpy N sd client msg idr).1.calls
      = if idr.err = SYS_ERR_OK
          ∧ ((sdma_process_memcpy_record sd client msg idr).heap client).have_caps
            = CAP_MASK_READY
          ∧ validation_passes ((sdma_process_memcpy_record sd client msg idr).heap client)
            = true then
          sd.calls ++ [sdma_call.start_transfer client
            (size_add
              (to_size_t
                ((sdma_process_memcpy_record sd client msg idr).heap client).src_id.base)
              ((sdma_process_memcpy_record sd client msg idr).heap client).src_offset)
            (size_add
              (to_size_t
                ((sdma_process_memcpy_record sd client msg idr).heap client).dst_id.base)
              ((sdma_process_memcpy_record sd client msg idr).heap client).dst_offset)
            ((sdma_process_memcpy_record sd client msg idr).heap client).len]
        else sd.calls := by
  obtain ⟨-, -, hk, -, -⟩ := caps_memcpy_record sd client msg idr
  by_cases h1 : idr.err = SYS_ERR_OK
    ∧ ((sdma_process_memcpy_record sd client msg idr).heap client).have_caps = CAP_MASK_READY
  · by_cases hv : validation_passes ((sdma_process_memcpy_record sd client msg idr).heap client)
        = true
    · rw [if_pos ⟨h1.1, h1.2, hv⟩, memcpy_accepted N sd client msg idr h1.1 h1.2 hv]
      show (sdma_start_transfer N _ client _ _ _).1.calls = _
      rw [sdma_start_transfer_calls, hk]
    · rw [if_neg (fun hc => hv hc.2.2),
        memcpy_rejected N sd client msg idr h1.1 h1.2 (Bool.eq_false_iff.mpr hv)]
      exact hk
  · rw [if_neg (fun hc => h1 ⟨hc.1, hc.2.1⟩), memcpy_pending N sd client msg idr h1]
    exact hk

theorem single_half_pending_memcpy (N : Nat) (sd : sdma_driver) (client : Nat)
    (msg : lmp_recv_msg) (idr : identify_result) (h0 : (sd.heap client).have_caps = 0) :
    sdma_process_memcpy N sd client msg idr
      = (sdma_process_memcpy_record sd client msg idr, idr.err) := by
  refine memcpy_pending N sd client msg idr ?_
  rintro ⟨-, h⟩
  rw [(caps_memcpy_record sd client msg idr).1, h0] at h
  split_ifs at h <;> exact absurd h (by decide)

theorem single_half_pending_rotate (N : Nat) (sd : sdma_driver) (client : Nat)
    (msg : lmp_recv_msg) (idr : identify_result) (h0 : (sd.heap client).have_caps = 0) :
    sdma_process_rotate N sd client msg idr
      = (sdma_process_rotate_record sd client msg idr, idr.err) := by
  refine rotate_pending N sd client msg idr ?_
  rintro ⟨-, h⟩
  rw [(caps_rotate_record sd client msg idr).1, h0] at h
  split_ifs at h <;> exact absurd h (by decide)

/-- C27, counterexample: a `MEMCPY_SRC` half followed by a `ROTATE_DST` half on
the sample session is accepted and calls `sdma_start_rotate` with the width
and height stored in the session, `0 x 0`, which no `ROTATE_SRC` half carried,
and enables channel 0; a `ROTATE_SRC` half followed by a `MEMCPY_DST` half is
accepted and calls `sdma_start_transfer` for `width * height = 16` bytes. -/
theorem mixed_halves_start_transfer :
    (sdma_process_rotate 32 (after_memcpy_src FRAME_A 4096 0 4096) 0 (rotate_dst_msg 0)
        (identified FRAME_B 4096)).2 = SYS_ERR_OK
    ∧ (sdma_process_rotate 32 (after_memcpy_src FRAME_A 4096 0 4096) 0 (rotate_dst_msg 0)
        (identified FRAME_B 4096)).1.calls = [sdma_call.start_rotate 0 FRAME_A FRAME_B 0 0]
    ∧ ((sdma_process_rotate 32 (after_memcpy_src FRAME_A 4096 0 4096) 0 (rotate_dst_msg 0)
        (identified FRAME_B 4096)).1.chan_state 0).transfer_in_progress = true
    ∧ ((sdma_process_rotate 32 (after_memcpy_src FRAME_A 4096 0 4096) 0 (rotate_dst_msg 0)
        (identified FRAME_B 4096)).1.sdma_dev.chans 0).ccr.enable = 1
    ∧ ((sdma_process_rotate 32 (after_memcpy_src FRAME_A 4096 0 4096) 0 (rotate_dst_msg 0)
        (identified FRAME_B 4096)).1.heap 0).op_type = OpType_Rotate
    ∧ (sdma_process_memcpy 32 (after_rotate_src FRAME_A 4096 0 4 4) 0 (memcpy_dst_msg 0)
        (identified FRAME_B 4096)).2 = SYS_ERR_OK
    ∧ (sdma_process_memcpy 32 (after_rotate_src FRAME_A 4096 0 4 4) 0 (memcpy_dst_msg 0)
        (identified FRAME_B 4096)).1.calls = [sdma_call.start_transfer 0 FRAME_A FRAME_B 16]
    ∧ ((sdma_process_memcpy 32 (after_rotate_src FRAME_A 4096 0 4 4) 0 (memcpy_dst_msg 0)
        (identified FRAME_B 4096)).1.chan_state 0).transfer_in_progress = true := by
  decide

/-- C27, amended: `sdma_start_rotate` is called only by `sdma_process_rotate`,
when the capability identifies, `have_caps` is `{SRC, DST}` after recording the
half and the validation passes, and it gets the width and height the session
holds then: the words of the arriving message if that is `ROTATE_SRC`,
otherwise the values stored in the session.  `sdma_process_memcpy` calls only
`sdma_start_transfer`, with the stored `len` when the arriving half is the
destination.  The halves are not tagged with an operation: on a session with
nothing pending a `MEMCPY_SRC` half followed by a `ROTATE_DST` half, or a
`ROTATE_SRC` half followed by a `MEMCPY_DST` half, completes a pair. -/
theorem start_call_arguments (N : Nat) (sd : sdma_driver) (client : Nat)
    (msg : lmp_recv_msg) (idr : identify_result) (msg2 : lmp_recv_msg)
    (idr2 : identify_result) :
    ((sdma_process_rotate N sd client msg idr).1.calls
      = if idr.err = SYS_ERR_OK
          ∧ ((sdma_process_rotate_record sd client msg idr).heap client).have_caps
            = CAP_MASK_READY
          ∧ validation_passes ((sdma_process_rotate_record sd client msg idr).heap client)
            = true then
          sd.calls ++ [sdma_call.start_rotate client
            (size_add
              (to_size_t
                ((sdma_process_rotate_record sd client msg idr).heap client).src_id.base)
              ((sdma_process_rotate_record sd client msg idr).heap client).src_offset)
            (size_add
              (to_size_t
                ((sdma_process_rotate_record sd client msg idr).heap client).dst_id.base)
              ((sdma_process_rotate_record sd client msg idr).heap client).dst_offset)
            (if msg.word 0 = SDMA_RPC_ROTATE_SRC then msg.word 2 else (sd.heap client).width)
            (if msg.word 0 = SDMA_RPC_ROTATE_SRC then msg.word 3
              else (sd.heap client).height)]
        else sd.calls)
    ∧ ((sdma_process_memcpy N sd client msg idr).1.calls
      = if idr.err = SYS_ERR_OK
          ∧ ((sdma_process_memcpy_record sd client msg idr).heap client).have_caps
            = CAP_MASK_READY
          ∧ validation_passes ((sdma_process_memcpy_record sd client msg idr).heap client)
            = true then
          sd.calls ++ [sdma_call.start_transfer client
            (size_add
              (to_size_t
                ((sdma_process_memcpy_record sd client msg idr).heap client).src_id.base)
              ((sdma_process_memcpy_record sd client msg idr).heap client).src_offset)
            (size_add
              (to_size_t
                ((sdma_process_memcpy_record sd client msg idr).heap client).dst_id.base)
              ((sdma_process_memcpy_record sd client msg idr).heap client).dst_offset)
            (if msg.word 0 = SDMA_RPC_MEMCPY_SRC then msg.word 2 else (sd.heap client).len)]
        else sd.calls)
    ∧ ((sd.heap client).have_caps = 0 → msg.word 0 = SDMA_RPC_MEMCPY_SRC →
        msg2.word 0 = SDMA_RPC_ROTATE_DST →
        ((sdma_process_rotate_record (sdma_process_memcpy N sd client msg idr).1 client msg2
            idr2).heap client).have_caps = CAP_MASK_READY)
    ∧ ((sd.heap client).have_caps = 0 → msg.word 0 = SDMA_RPC_ROTATE_SRC →
        msg2.word 0 = SDMA_RPC_MEMCPY_DST →
        ((sdma_process_memcpy_record (sdma_process_rotate N sd client msg idr).1 client msg2
            idr2).heap client).have_caps = CAP_MASK_READY) := by
  have hw : ((sdma_process_rotate_record sd client msg idr).heap client).width
      = (if msg.word 0 = SDMA_RPC_ROTATE_SRC then msg.word 2 else (sd.heap client).width) := by
    unfold sdma_process_rotate_record
    split_ifs <;> (rw [set_client_heap_same])
  have hh : ((sdma_process_rotate_record sd client msg idr).heap client).height
      = (if msg.word 0 = SDMA_RPC_ROTATE_SRC then msg.word 3 else (sd.heap client).height) := by
    unfold sdma_process_rotate_record
    split_ifs <;> (rw [set_client_heap_same])
  have hl : ((sdma_process_memcpy_record sd client msg idr).heap client).len
      = (if msg.word 0 = SDMA_RPC_MEMCPY_SRC then msg.word 2 else (sd.heap client).len) := by
    unfold sdma_process_memcpy_record
    split_ifs <;> (rw [set_client_heap_same])
  refine ⟨?_, ?_, ?_, ?_⟩
  · rw [process_rotate_calls, hw, hh]
  · rw [process_memcpy_calls, hl]
  · intro h0 h1 h2
    rw [single_half_pending_memcpy N sd client msg idr h0,
      (caps_rotate_record _ client msg2 idr2).1, (caps_memcpy_record sd client msg idr).1,
      h0, if_pos h1, if_neg (by rw [h2]; decide)]
    decide
  · intro h0 h1 h2
    rw [single_half_pending_rotate N sd client msg idr h0,
      (caps_memcpy_record _ client msg2 idr2).1, (caps_rotate_record sd client msg idr).1,
      h0, if_pos h1, if_neg (by rw [h2]; decide)]
    decide

/-! ## C30: the order of the two halves -/

theorem memcpy_record_comm (sd : sdma_driver) (client : Nat) (m1 m2 : lmp_recv_msg)
    (i1 i2 : identify_result) (h1 : m1.word 0 = SDMA_RPC_MEMCPY_SRC)
    (h2 : m2.word 0 ≠ SDMA_RPC_MEMCPY_SRC) :
    sdma_process_memcpy_record (sdma_process_memcpy_record sd client m1 i1) client m2 i2
      = sdma_process_memcpy_record (sdma_process_memcpy_record sd client m2 i2) client m1 i1 := by
  unfold sdma_process_memcpy_record
  rw [if_pos h1, if_neg h2, if_pos h1, if_neg h2]
  simp only [set_client, Function.update_same, Function.update_idem, Nat.lor_assoc,
    Nat.lor_comm CAP_MASK_SRC CAP_MASK_DST]

theorem rotate_record_comm (sd : sdma_driver) (client : Nat) (m1 m2 : lmp_recv_msg)
    (i1 i2 : identify_result) (h1 : m1.word 0 = SDMA_RPC_ROTATE_SRC)
    (h2 : m2.word 0 ≠ SDMA_RPC_ROTATE_SRC) :
    sdma_process_rotate_record (sdma_process_rotate_record sd client m1 i1) client m2 i2
      = sdma_process_rotate_record (sdma_process_rotate_record sd client m2 i2) client m1 i1 := by
  unfold sdma_process_rotate_record
  rw [if_pos h1, if_neg h2, if_pos h1, if_neg h2]
  simp only [set_client, Function.update_same, Function.update_idem, Nat.lor_assoc,
    Nat.lor_comm CAP_MASK_SRC CAP_MASK_DST]

/-- C30, counterexample: the source half carries a capability `frame_identify`
refuses, the destination half a frame.  Source first: the second reply is
`SDMA_ERR_MEMCPY` and the session ends with `have_caps` empty.  Destination
first: the second reply is the identification error and the session ends with
both bits of `have_caps` set. -/
theorem order_matters_for_refused_capability :
    (sample_driver.heap 0).have_caps = 0
    ∧ (sdma_process_memcpy 32
        (sdma_process_memcpy 32 sample_driver 0 (memcpy_src_msg 0 4096) unidentified).1
        0 (memcpy_dst_msg 0) (identified FRAME_B 4096)).2 = SDMA_ERR_MEMCPY
    ∧ ((sdma_process_memcpy 32
        (sdma_process_memcpy 32 sample_driver 0 (memcpy_src_msg 0 4096) unidentified).1
        0 (memcpy_dst_msg 0) (identified FRAME_B 4096)).1.heap 0).have_caps = 0
    ∧ (sdma_process_memcpy 32
        (sdma_process_memcpy 32 sample_driver 0 (memcpy_dst_msg 0) (identified FRAME_B 4096)).1
        0 (memcpy_src_msg 0 4096) unidentified).2 = errval_t.other 1
    ∧ ((sdma_process_memcpy 32
        (sdma_process_memcpy 32 sample_driver 0 (memcpy_dst_msg 0) (identified FRAME_B 4096)).1
        0 (memcpy_src_msg 0 4096) unidentified).1.heap 0).have_caps = CAP_MASK_READY
    ∧ ((sdma_process_memcpy 32
        (sdma_process_memcpy 32 sample_driver 0 (memcpy_dst_msg 0) (identified FRAME_B 4096)).1
        0 (memcpy_src_msg 0 4096) unidentified).1.heap 0).len = 4096 := by
  decide

/-- C30, amended: for every session with `have_caps` empty and every pair of
memcpy halves (or rotate halves) whose capabilities both identify, processing
the source half and then the destination half gives the same result as
processing the destination half and then the source half: the same driver
state (sessions, channel slots, registers, start calls with their arguments)
and the same second reply; the first reply is `SYS_ERR_OK` in both orders. -/
theorem halves_commute (N : Nat) (sd : sdma_driver) (client : Nat)
    (src dst : lmp_recv_msg) (ids idd : identify_result)
    (h0 : (sd.heap client).have_caps = 0)
    (hids : ids.err = SYS_ERR_OK) (hidd : idd.err = SYS_ERR_OK) :
    (src.word 0 = SDMA_RPC_MEMCPY_SRC → dst.word 0 = SDMA_RPC_MEMCPY_DST →
      sdma_process_memcpy N (sdma_process_memcpy N sd client src ids).1 client dst idd
        = sdma_process_memcpy N (sdma_process_memcpy N sd client dst idd).1 client src ids
      ∧ (sdma_process_memcpy N sd client src ids).2 = SYS_ERR_OK
      ∧ (sdma_process_memcpy N sd client dst idd).2 = SYS_ERR_OK)
    ∧ (src.word 0 = SDMA_RPC_ROTATE_SRC → dst.word 0 = SDMA_RPC_ROTATE_DST →
      sdma_process_rotate N (sdma_process_rotate N sd client src ids).1 client dst idd
        = sdma_process_rotate N (sdma_process_rotate N sd client dst idd).1 client src ids
      ∧ (sdma_process_rotate N sd client src ids).2 = SYS_ERR_OK
      ∧ (sdma_process_rotate N sd client dst idd).2 = SYS_ERR_OK) := by
  refine ⟨?_, ?_⟩
  · intro h1 h2
    have h2n : dst.word 0 ≠ SDMA_RPC_MEMCPY_SRC := by rw [h2]; decide
    rw [single_half_pending_memcpy N sd client src ids h0,
      single_half_pending_memcpy N sd client dst idd h0]
    refine ⟨?_, hids, hidd⟩
    show sdma_process_memcpy N (sdma_process_memcpy_record sd client src ids) client dst idd
      = sdma_process_memcpy N (sdma_process_memcpy_record sd client dst idd) client src ids
    rw [sdma_process_memcpy_form N _ client dst idd, sdma_process_memcpy_form N _ client src ids,
      memcpy_record_comm sd client src dst ids idd h1 h2n, hids, hidd]
  · intro h1 h2
    have h2n : dst.word 0 ≠ SDMA_RPC_ROTATE_SRC := by rw [h2]; decide
    rw [single_half_pending_rotate N sd client src ids h0,
      single_half_pending_rotate N sd client dst idd h0]
    refine ⟨?_, hids, hidd⟩
    show sdma_process_rotate N (sdma_process_rotate_record sd client src ids) client dst idd
      = sdma_process_rotate N (sdma_process_rotate_record sd client dst idd) client src ids
    rw [sdma_process_rotate_form N _ client dst idd, sdma_process_rotate_form N _ client src ids,
      rotate_record_comm sd client src dst ids idd h1 h2n, hids, hidd]

/-- C30, witness: the two halves of a memcpy of 4096 bytes from frame `A` to
frame `B` on the sample session, in both orders. -/
theorem halves_commute_witness :
    (sample_driver.heap 0).have_caps = 0
    ∧ sdma_process_memcpy 32
        (sdma_process_memcpy 32 sample_driver 0 (memcpy_src_msg 0 4096)
          (identified FRAME_A 4096)).1
        0 (memcpy_dst_msg 0) (identified FRAME_B 4096)
      = sdma_process_memcpy 32
        (sdma_process_memcpy 32 sample_driver 0 (memcpy_dst_msg 0)
          (identified FRAME_B 4096)).1
        0 (memcpy_src_msg 0 4096) (identified FRAME_A 4096)
    ∧ (sdma_process_memcpy 32
        (sdma_process_memcpy 32 sample_driver 0 (memcpy_dst_msg 0)
          (identified FRAME_B 4096)).1
        0 (memcpy_src_msg 0 4096) (identified FRAME_A 4096)).2 = SYS_ERR_OK
    ∧ (sdma_process_memcpy 32
        (sdma_process_memcpy 32 sample_driver 0 (memcpy_dst_msg 0)
          (identified FRAME_B 4096)).1
        0 (memcpy_src_msg 0 4096) (identified FRAME_A 4096)).1.calls
      = [sdma_call.start_transfer 0 FRAME_A FRAME_B 4096] :=
  ⟨by decide,
   ((halves_commute 32 sample_driver 0 (memcpy_src_msg 0 4096) (memcpy_dst_msg 0)
      (identified FRAME_A 4096) (identified FRAME_B 4096) (by decide) rfl rfl).1
      (by decide) (by decide)).1,
   by decide, by decide⟩

/-! ## C28: the ranges of the sub-transfers of a memset -/

theorem block_complete_interrupt_session (N CLEAN : Nat) (sd : sdma_driver)
    (client len d : Nat) (hrun : memset_running N sd client len d) (hlt : d < len)
    (hlen : len < SIZE_MOD) :
    (block_complete_interrupt N CLEAN sd).heap client
        = { (sd.heap client) with acked := false, dst_offset := d + min d (len - d) }
    ∧ (block_complete_interrupt N CLEAN sd).calls
        = sd.calls ++ [sdma_call.start_transfer client
            (to_size_t (sd.heap client).src_id.base)
            (size_add (to_size_t (sd.heap client).dst_id.base) d) (min d (len - d))] := by
  obtain ⟨hch, hcl, hop, hl, hd, hack⟩ := hrun
  have herr : csr_error (({ engine_block_complete sd (last_enabled_channel sd) with
        sdma_dev := omap44xx_sdma_dma4_irqstatus_line_wr
          (engine_block_complete sd (last_enabled_channel sd)).sdma_dev 0 CLEAN }
      : sdma_driver).sdma_dev.chans (last_enabled_channel sd)).csr = SYS_ERR_OK := by
    simp [engine_block_complete, omap44xx_sdma_dma4_irqstatus_line_wr, csr_error]
  have hop' : (sd.heap (sd.chan_state (last_enabled_channel sd)).client).op_type
      = OpType_Memset := by rw [hcl]; exact hop
  have hlt' : (sd.heap (sd.chan_state (last_enabled_channel sd)).client).dst_offset
      < (sd.heap (sd.chan_state (last_enabled_channel sd)).client).len := by
    rw [hcl, hl, hd]; exact hlt
  have hlen' : (sd.heap (sd.chan_state (last_enabled_channel sd)).client).len < SIZE_MOD := by
    rw [hcl, hl]; exact hlen
  have hav : sdma_avail_channel N (sdma_update_channel_csr CLEAN
      { engine_block_complete sd (last_enabled_channel sd) with
        sdma_dev := omap44xx_sdma_dma4_irqstatus_line_wr
          (engine_block_complete sd (last_enabled_channel sd)).sdma_dev 0 CLEAN }
      (last_enabled_channel sd)) < N := by
    apply sdma_avail_channel_lt N _ (last_enabled_channel sd) hch
    rw [sdma_update_channel_csr_eq]
    simp [engine_block_complete, omap44xx_sdma_dma4_irqstatus_line_wr]
  unfold block_complete_interrupt
  rw [sdma_update_channel_status_single N CLEAN _ 0 (last_enabled_channel sd) hch,
    sdma_update_channel_ongoing N CLEAN
      { engine_block_complete sd (last_enabled_channel sd) with
        sdma_dev := omap44xx_sdma_dma4_irqstatus_line_wr
          (engine_block_complete sd (last_enabled_channel sd)).sdma_dev 0 CLEAN }
      (last_enabled_channel sd) herr hop' hlt' hlen',
    if_pos hav]
  have hfr := engine_block_complete_frame sd (last_enabled_channel sd)
  refine ⟨?_, ?_⟩
  · simp only [hfr.1, hfr.2.1, hcl, hl, hd]
    rw [show ((engine_block_complete sd (last_enabled_channel sd)).chan_state
      (last_enabled_channel sd)).client = client from hcl, Function.update_same]
  · simp only [hfr.1, hfr.2.1, hfr.2.2.1, hcl, hl, hd]

theorem sdma_start_transfer_program_block (dev : omap44xx_sdma_t) (chan s d l : Nat)
    (hl : l ≤ 512 * 65535) :
    ((sdma_start_transfer_program dev chan s d l).chans chan).cssa = to_size_t s
    ∧ ((sdma_start_transfer_program dev chan s d l).chans chan).cdsa = to_size_t d
    ∧ ((sdma_start_transfer_program dev chan s d l).chans chan).ccr.enable = 1
    ∧ engine_en ((sdma_start_transfer_program dev chan s d l).chans chan) = 128
    ∧ engine_fn ((sdma_start_transfer_program dev chan s d l).chans chan) = (l + 511) / 512
    ∧ block_bytes ((sdma_start_transfer_program dev chan s d l).chans chan)
        = 512 * ((l + 511) / 512) := by
  have hl2 : l < SIZE_MOD := Nat.lt_of_le_of_lt hl (by decide)
  rw [sdma_start_transfer_program_view]
  have hcen : (2 : Nat) ^ CEN_FIELD_BITS = 16777216 := by decide
  have hcfn : (2 : Nat) ^ CFN_FIELD_BITS = 65536 := by decide
  refine ⟨rfl, rfl, rfl, ?_, ?_, ?_⟩
  · simp only [engine_en, omap44xx_sdma_dma4_cen_channel_elmnt_nbr_insert, field_insert_value]
    rw [hcen]
  · simp only [engine_fn, omap44xx_sdma_dma4_cfn_channel_frame_nbr_insert, field_insert_value,
      frame_count_raw l hl2]
    rw [hcfn]
    omega
  · simp only [block_bytes, engine_en, engine_fn,
      omap44xx_sdma_dma4_cen_channel_elmnt_nbr_insert,
      omap44xx_sdma_dma4_cfn_channel_frame_nbr_insert, field_insert_value,
      frame_count_raw l hl2]
    rw [hcen, hcfn]
    omega

theorem block_complete_interrupt_block (N CLEAN : Nat) (sd : sdma_driver)
    (client len d : Nat) (hrun : memset_running N sd client len d) (hlt : d < len)
    (hlen : len < SIZE_MOD) (hfit : len ≤ 512 * 65535) :
    ((block_complete_interrupt N CLEAN sd).sdma_dev.chans
        (last_enabled_channel (block_complete_interrupt N CLEAN sd))).cssa
      = to_size_t (sd.heap client).src_id.base
    ∧ ((block_complete_interrupt N CLEAN sd).sdma_dev.chans
        (last_enabled_channel (block_complete_interrupt N CLEAN sd))).cdsa
      = size_add (to_size_t (sd.heap client).dst_id.base) d
    ∧ ((block_complete_interrupt N CLEAN sd).sdma_dev.chans
        (last_enabled_channel (block_complete_interrupt N CLEAN sd))).ccr.enable = 1
    ∧ engine_en ((block_complete_interrupt N CLEAN sd).sdma_dev.chans
        (last_enabled_channel (block_complete_interrupt N CLEAN sd))) = 128
    ∧ engine_fn ((block_complete_interrupt N CLEAN sd).sdma_dev.chans
        (last_enabled_channel (block_complete_interrupt N CLEAN sd)))
      = (min d (len - d) + 511) / 512
    ∧ block_bytes ((block_complete_interrupt N CLEAN sd).sdma_dev.chans
        (last_enabled_channel (block_complete_interrupt N CLEAN sd)))
      = 512 * ((min d (len - d) + 511) / 512) := by
  obtain ⟨hch, hcl, hop, hl, hd, hack⟩ := hrun
  have herr : csr_error (({ engine_block_complete sd (last_enabled_channel sd) with
        sdma_dev := omap44xx_sdma_dma4_irqstatus_line_wr
          (engine_block_complete sd (last_enabled_channel sd)).sdma_dev 0 CLEAN }
      : sdma_driver).sdma_dev.chans (last_enabled_channel sd)).csr = SYS_ERR_OK := by
    simp [engine_block_complete, omap44xx_sdma_dma4_irqstatus_line_wr, csr_error]
  have hop' : (sd.heap (sd.chan_state (last_enabled_channel sd)).client).op_type
      = OpType_Memset := by rw [hcl]; exact hop
  have hlt' : (sd.heap (sd.chan_state (last_enabled_channel sd)).client).dst_offset
      < (sd.heap (sd.chan_state (last_enabled_channel sd)).client).len := by
    rw [hcl, hl, hd]; exact hlt
  have hlen' : (sd.heap (sd.chan_state (last_enabled_channel sd)).client).len < SIZE_MOD := by
    rw [hcl, hl]; exact hlen
  have hav : sdma_avail_channel N (sdma_update_channel_csr CLEAN
      { engine_block_complete sd (last_enabled_channel sd) with
        sdma_dev := omap44xx_sdma_dma4_irqstatus_line_wr
          (engine_block_complete sd (last_enabled_channel sd)).sdma_dev 0 CLEAN }
      (last_enabled_channel sd)) < N := by
    apply sdma_avail_channel_lt N _ (last_enabled_channel sd) hch
    rw [sdma_update_channel_csr_eq]
    simp [engine_block_complete, omap44xx_sdma_dma4_irqstatus_line_wr]
  have hc : min d (len - d) ≤ 512 * 65535 := by omega
  unfold block_complete_interrupt
  rw [sdma_update_channel_status_single N CLEAN _ 0 (last_enabled_channel sd) hch,
    sdma_update_channel_ongoing N CLEAN
      { engine_block_complete sd (last_enabled_channel sd) with
        sdma_dev := omap44xx_sdma_dma4_irqstatus_line_wr
          (engine_block_complete sd (last_enabled_channel sd)).sdma_dev 0 CLEAN }
      (last_enabled_channel sd) herr hop' hlt' hlen',
    if_pos hav]
  rw [last_enabled_channel_program]
  have hfr := engine_block_complete_frame sd (last_enabled_channel sd)
  simp only [hfr.1, hfr.2.1, hcl, hl, hd]
  obtain ⟨b1, b2, b3, b5, b6, b4⟩ := sdma_start_transfer_program_block
    (omap44xx_sdma_dma4_csr_wr (omap44xx_sdma_dma4_irqstatus_line_wr
      (engine_block_complete sd (last_enabled_channel sd)).sdma_dev 0 CLEAN)
      (last_enabled_channel sd) CLEAN)
    (sdma_avail_channel N (sdma_update_channel_csr CLEAN
      { engine_block_complete sd (last_enabled_channel sd) with
        sdma_dev := omap44xx_sdma_dma4_irqstatus_line_wr
          (engine_block_complete sd (last_enabled_channel sd)).sdma_dev 0 CLEAN }
      (last_enabled_channel sd)))
    (to_size_t (sd.heap client).src_id.base)
    (size_add (to_size_t (sd.heap client).dst_id.base) d) (min d (len - d)) hc
  have e : to_size_t (size_add (to_size_t (sd.heap client).dst_id.base) d)
      = size_add (to_size_t (sd.heap client).dst_id.base) d :=
    Nat.mod_eq_of_lt (size_add_lt _ _)
  have e2 : to_size_t (to_size_t (sd.heap client).src_id.base)
      = to_size_t (sd.heap client).src_id.base := Nat.mod_eq_of_lt (Nat.mod_lt _ (by decide))
  rw [e] at b2
  rw [e2] at b1
  exact ⟨b1, b2, b3, b5, b6, b4⟩

theorem memset_start_session (N M : Nat) (sd : sdma_driver) (client : Nat)
    (msg : lmp_recv_msg) (idr : identify_result)
    (hid : idr.err = SYS_ERR_OK) (hb : idr.id.bytes < GEN_MOD)
    (hv : msg.word 1 < idr.id.bytes ∧ msg.word 2 ≤ idr.id.bytes - msg.word 1) :
    ((sdma_process_memset N M sd client msg idr).1.heap client).src_id = idr.id
    ∧ ((sdma_process_memset N M sd client msg idr).1.heap client).dst_id = idr.id
    ∧ (sdma_process_memset N M sd client msg idr).1.calls
        = sd.calls ++ [sdma_call.start_transfer client
            (to_size_t (sd.heap client).memset_frame_id.base) (to_size_t idr.id.base)
            (min (msg.word 2) M)] := by
  rw [sdma_process_memset_accepted N M sd client msg idr hid hb hv]
  refine ⟨?_, ?_, ?_⟩
  · rw [start_transfer_heap, Function.update_same]
    dsimp only
    rw [set_client_heap_same]
  · rw [start_transfer_heap, Function.update_same]
    dsimp only
    rw [set_client_heap_same]
  · rw [sdma_start_transfer_calls]
    rfl

theorem memset_interrupts_ids (N M CLEAN : Nat) (sd0 : sdma_driver) (client L : Nat)
    (id : frame_identity) (hM : 1 ≤ M) (hL : L < SIZE_MOD)
    (h0 : memset_running N sd0 client L (min L M))
    (hs : (sd0.heap client).src_id = id) (hd : (sd0.heap client).dst_id = id) :
    ∀ j, j ≤ Nat.clog 2 ((L + M - 1) / M) →
      ((memset_interrupts N CLEAN j sd0).heap client).src_id = id
      ∧ ((memset_interrupts N CLEAN j sd0).heap client).dst_id = id := by
  intro j
  induction j with
  | zero =>
    intro _
    exact ⟨hs, hd⟩
  | succ j ih =>
    intro hj
    obtain ⟨i1, i2⟩ := ih (by omega)
    obtain ⟨hrun, -, -⟩ := memset_interrupts_progress N M CLEAN sd0 client L hM hL h0 j (by omega)
    have hlt : 2 ^ j * M < L := clog_steps_lt L M j hM (by omega)
    have e1 : min (2 ^ j * M) L = 2 ^ j * M := by omega
    rw [e1] at hrun
    obtain ⟨hh, -⟩ := block_complete_interrupt_session N CLEAN (memset_interrupts N CLEAN j sd0)
      client L (2 ^ j * M) hrun hlt hL
    show ((block_complete_interrupt N CLEAN (memset_interrupts N CLEAN j sd0)).heap client).src_id
        = id
      ∧ ((block_complete_interrupt N CLEAN (memset_interrupts N CLEAN j sd0)).heap client).dst_id
        = id
    rw [hh]
    exact ⟨i1, i2⟩

theorem steps_lt_clog (L M j : Nat) (hM : 1 ≤ M) (hlt : 2 ^ j * M < L) :
    j < Nat.clog 2 ((L + M - 1) / M) := by
  by_contra hge
  have h1 : 2 ^ Nat.clog 2 ((L + M - 1) / M) ≤ 2 ^ j :=
    Nat.pow_le_pow_right (by decide) (Nat.le_of_not_lt hge)
  have h2 := clog_steps_le L M hM
  have h3 : 2 ^ Nat.clog 2 ((L + M - 1) / M) * M ≤ 2 ^ j * M := Nat.mul_le_mul_right M h1
  omega

theorem sample_memset_interleaved_reachable (caps : cap_view → Prop)
    (hcaps : caps (sample_cap 1 8 0 0)) :
    Reachable 32 4096 0 caps sample_memset_interleaved [1] :=
  Reachable.memcpy _ _ 1 (memcpy_dst_msg 0) (identified FRAME_B 4096)
    (Reachable.memset _ _ 1 (memset_msg 0 8192 171) (identified FRAME_A 8192)
      (sample_first_session_reachable caps hcaps) (by simp))
    (by simp)

theorem memset_start_block (N M : Nat) (sd : sdma_driver) (client : Nat)
    (msg : lmp_recv_msg) (idr : identify_result)
    (hid : idr.err = SYS_ERR_OK) (hb : idr.id.bytes < GEN_MOD)
    (hv : msg.word 1 < idr.id.bytes ∧ msg.word 2 ≤ idr.id.bytes - msg.word 1)
    (hfree : sdma_avail_channel N sd < N) (hfit : min (msg.word 2) M ≤ 512 * 65535) :
    ((sdma_process_memset N M sd client msg idr).1.sdma_dev.chans
        (last_enabled_channel (sdma_process_memset N M sd client msg idr).1)).cssa
      = to_size_t (sd.heap client).memset_frame_id.base
    ∧ ((sdma_process_memset N M sd client msg idr).1.sdma_dev.chans
        (last_enabled_channel (sdma_process_memset N M sd client msg idr).1)).cdsa
      = to_size_t idr.id.base
    ∧ ((sdma_process_memset N M sd client msg idr).1.sdma_dev.chans
        (last_enabled_channel (sdma_process_memset N M sd client msg idr).1)).ccr.enable = 1
    ∧ block_bytes ((sdma_process_memset N M sd client msg idr).1.sdma_dev.chans
        (last_enabled_channel (sdma_process_memset N M sd client msg idr).1))
      = 512 * ((min (msg.word 2) M + 511) / 512) := by
  have hav : sdma_avail_channel N
      (set_client (set_client sd client (fun c =>
          { c with memset_buf := fun i =>
              if i < min (msg.word 2) M then msg.word 3 % 256 else c.memset_buf i }))
        client (fun c =>
          { c with op_type := OpType_Memset, len := msg.word 2, src_id := idr.id,
                   src_offset := 0, dst_id := idr.id, dst_offset := min (msg.word 2) M }))
      = sdma_avail_channel N sd := sdma_avail_channel_frame _ _ _ rfl
  rw [sdma_process_memset_accepted N M sd client msg idr hid hb hv, sdma_start_transfer_eq,
    hav, if_pos hfree]
  rw [last_enabled_channel_program]
  obtain ⟨b1, b2, b3, -, -, b4⟩ := sdma_start_transfer_program_block sd.sdma_dev
    (sdma_avail_channel N sd) (to_size_t (sd.heap client).memset_frame_id.base)
    (to_size_t idr.id.base) (min (msg.word 2) M) hfit
  have e1 : to_size_t (to_size_t (sd.heap client).memset_frame_id.base)
      = to_size_t (sd.heap client).memset_frame_id.base :=
    Nat.mod_eq_of_lt (Nat.mod_lt _ (by decide))
  have e2 : to_size_t (to_size_t idr.id.base) = to_size_t idr.id.base :=
    Nat.mod_eq_of_lt (Nat.mod_lt _ (by decide))
  rw [e1] at b1
  rw [e2] at b2
  exact ⟨b1, b2, b3, b4⟩

theorem memset_step (N M CLEAN : Nat) (sd : sdma_driver) (client : Nat)
    (msg : lmp_recv_msg) (idr : identify_result)
    (hid : idr.err = SYS_ERR_OK) (hb : idr.id.bytes < GEN_MOD)
    (hv : msg.word 1 < idr.id.bytes ∧ msg.word 2 ≤ idr.id.bytes - msg.word 1)
    (hfree : sdma_avail_channel N sd < N) (hM : 1 ≤ M)
    (hfit : msg.word 2 ≤ 512 * 65535)
    (hframe : idr.id.base + idr.id.bytes ≤ SIZE_MOD)
    (j : Nat) (hlt : 2 ^ j * M < msg.word 2) :
    ((memset_interrupts N CLEAN j (sdma_process_memset N M sd client msg idr).1).heap
        client).dst_offset = 2 ^ j * M
    ∧ (memset_interrupts N CLEAN (j + 1)
        (sdma_process_memset N M sd client msg idr).1).calls
      = (memset_interrupts N CLEAN j (sdma_process_memset N M sd client msg idr).1).calls
        ++ [sdma_call.start_transfer client idr.id.base (idr.id.base + 2 ^ j * M)
            (min (2 ^ j * M) (msg.word 2 - 2 ^ j * M))]
    ∧ ((memset_interrupts N CLEAN (j + 1)
        (sdma_process_memset N M sd client msg idr).1).heap client).dst_offset
      = 2 ^ j * M + min (2 ^ j * M) (msg.word 2 - 2 ^ j * M)
    ∧ ((memset_interrupts N CLEAN (j + 1)
          (sdma_process_memset N M sd client msg idr).1).sdma_dev.chans
        (last_enabled_channel (memset_interrupts N CLEAN (j + 1)
          (sdma_process_memset N M sd client msg idr).1))).cssa = idr.id.base
    ∧ ((memset_interrupts N CLEAN (j + 1)
          (sdma_process_memset N M sd client msg idr).1).sdma_dev.chans
        (last_enabled_channel (memset_interrupts N CLEAN (j + 1)
          (sdma_process_memset N M sd client msg idr).1))).cdsa
      = idr.id.base + 2 ^ j * M
    ∧ ((memset_interrupts N CLEAN (j + 1)
          (sdma_process_memset N M sd client msg idr).1).sdma_dev.chans
        (last_enabled_channel (memset_interrupts N CLEAN (j + 1)
          (sdma_process_memset N M sd client msg idr).1))).ccr.enable = 1
    ∧ engine_en ((memset_interrupts N CLEAN (j + 1)
          (sdma_process_memset N M sd client msg idr).1).sdma_dev.chans
        (last_enabled_channel (memset_interrupts N CLEAN (j + 1)
          (sdma_process_memset N M sd client msg idr).1))) = 128
    ∧ engine_fn ((memset_interrupts N CLEAN (j + 1)
          (sdma_process_memset N M sd client msg idr).1).sdma_dev.chans
        (last_enabled_channel (memset_interrupts N CLEAN (j + 1)
          (sdma_process_memset N M sd client msg idr).1)))
      = (min (2 ^ j * M) (msg.word 2 - 2 ^ j * M) + 511) / 512
    ∧ block_bytes ((memset_interrupts N CLEAN (j + 1)
          (sdma_process_memset N M sd client msg idr).1).sdma_dev.chans
        (last_enabled_channel (memset_interrupts N CLEAN (j + 1)
          (sdma_process_memset N M sd client msg idr).1)))
      = 512 * ((min (2 ^ j * M) (msg.word 2 - 2 ^ j * M) + 511) / 512) := by
  obtain ⟨h0, -, -, -⟩ := sdma_process_memset_starts N M sd client msg idr hid hb hv hfree
  obtain ⟨hs, hd, -⟩ := memset_start_session N M sd client msg idr hid hb hv
  have hL := word_lt msg 2
  have hprog := memset_interrupts_progress N M CLEAN (sdma_process_memset N M sd client msg idr).1
    client (msg.word 2) hM hL h0
  have hids := memset_interrupts_ids N M CLEAN (sdma_process_memset N M sd client msg idr).1
    client (msg.word 2) idr.id hM hL h0 hs hd
  have hbase : idr.id.base < SIZE_MOD := by omega
  have hLb : msg.word 2 ≤ idr.id.bytes := by omega
  have hbase2 : to_size_t idr.id.base = idr.id.base := Nat.mod_eq_of_lt hbase
  have hj := steps_lt_clog (msg.word 2) M j hM hlt
  obtain ⟨hrun, -, -⟩ := hprog j (Nat.le_of_lt hj)
  have e1 : min (2 ^ j * M) (msg.word 2) = 2 ^ j * M := by omega
  rw [e1] at hrun
  obtain ⟨hh, hk⟩ := block_complete_interrupt_session N CLEAN
    (memset_interrupts N CLEAN j (sdma_process_memset N M sd client msg idr).1)
    client (msg.word 2) (2 ^ j * M) hrun hlt hL
  obtain ⟨q1, q2, q3, q5, q6, q4⟩ := block_complete_interrupt_block N CLEAN
    (memset_interrupts N CLEAN j (sdma_process_memset N M sd client msg idr).1)
    client (msg.word 2) (2 ^ j * M) hrun hlt hL hfit
  obtain ⟨i1, i2⟩ := hids j (Nat.le_of_lt hj)
  have hadd : size_add idr.id.base (2 ^ j * M) = idr.id.base + 2 ^ j * M := by
    unfold size_add
    exact Nat.mod_eq_of_lt (by omega)
  rw [i1, hbase2] at q1
  rw [i2, hbase2, hadd] at q2
  refine ⟨hrun.2.2.2.2.1, ?_, ?_, q1, q2, q3, q5, q6, q4⟩
  · show (block_complete_interrupt N CLEAN (memset_interrupts N CLEAN j
      (sdma_process_memset N M sd client msg idr).1)).calls = _
    rw [hk, i1, i2, hbase2, hadd]
  · show ((block_complete_interrupt N CLEAN (memset_interrupts N CLEAN j
      (sdma_process_memset N M sd client msg idr).1)).heap client).dst_offset = _
    rw [hh]

/-- C28, counterexample.  First, a memset of 8192 bytes of frame `A` runs for
session 1 (4096 bytes programmed, `dst_offset = 4096`); the client sends the
half `{MEMCPY_DST, dst_offset = 0}` with frame `B`, which is answered with
`SYS_ERR_OK` and overwrites `dst_id` and `dst_offset`.  The block-complete
interrupt of channel 0 then takes the memset continuation (operation kind
`OpType_Memset`, `dst_offset = 0 < len`) with `cpy_len = 0`: it calls
`sdma_start_transfer` from `A` to `B` for 0 bytes, and `dst_offset` stays 0.
Second, with nothing interleaved: a memset of `len = 10000` bytes of the
12288-byte frame `A` with `SDMA_MEMSET_SIZE = 4096`.  The second continuation
step (the interrupt after the first one) finds `dst_offset = 8192`, has `cpy_len = 1808`, and programs the channel
it enables for `CEN * CFN = 128 * 4` elements, 2048 bytes, from `A` to
`A + 8192`: the programmed destination `[A + 8192, A + 10240)` ends beyond
`A + len`. -/
theorem memset_continuation_ranges_break :
    Reachable 32 4096 0 (fun _ => True) sample_memset_interleaved [1]
    ∧ (sdma_process_memcpy 32
        (sdma_process_memset 32 4096 sample_first_session 1 (memset_msg 0 8192 171)
          (identified FRAME_A 8192)).1
        1 (memcpy_dst_msg 0) (identified FRAME_B 4096)).2 = SYS_ERR_OK
    ∧ (sample_memset_interleaved.heap 1).op_type = OpType_Memset
    ∧ (sample_memset_interleaved.heap 1).dst_offset = 0
    ∧ (sample_memset_interleaved.heap 1).len = 8192
    ∧ (sample_memset_interleaved.chan_state 0).transfer_in_progress = true
    ∧ (sample_memset_interleaved.chan_state 0).client = 1
    ∧ (sdma_update_channel_status 32 0 (engine_block_complete sample_memset_interleaved 0)
        0 1).calls
      = sample_memset_interleaved.calls ++ [sdma_call.start_transfer 1 FRAME_A FRAME_B 0]
    ∧ ((sdma_update_channel_status 32 0 (engine_block_complete sample_memset_interleaved 0)
        0 1).heap 1).dst_offset = 0
    ∧ (sdma_update_channel_status 32 0 (engine_block_complete sample_memset_interleaved 0)
        0 1).sends = []
    ∧ (sdma_process_memset 32 4096 sample_driver 0 (memset_msg 0 10000 171)
        (identified FRAME_A 12288)).2 = SYS_ERR_OK
    ∧ ((memset_interrupts 32 0 1
        (sdma_process_memset 32 4096 sample_driver 0 (memset_msg 0 10000 171)
          (identified FRAME_A 12288)).1).heap 0).dst_offset = 8192
    ∧ (memset_interrupts 32 0 (1 + 1)
        (sdma_process_memset 32 4096 sample_driver 0 (memset_msg 0 10000 171)
          (identified FRAME_A 12288)).1).calls
      = (memset_interrupts 32 0 1
          (sdma_process_memset 32 4096 sample_driver 0 (memset_msg 0 10000 171)
            (identified FRAME_A 12288)).1).calls
        ++ [sdma_call.start_transfer 0 FRAME_A (FRAME_A + 8192) 1808]
    ∧ ((memset_interrupts 32 0 (1 + 1)
          (sdma_process_memset 32 4096 sample_driver 0 (memset_msg 0 10000 171)
            (identified FRAME_A 12288)).1).sdma_dev.chans
        (last_enabled_channel (memset_interrupts 32 0 (1 + 1)
          (sdma_process_memset 32 4096 sample_driver 0 (memset_msg 0 10000 171)
            (identified FRAME_A 12288)).1))).cssa = FRAME_A
    ∧ ((memset_interrupts 32 0 (1 + 1)
          (sdma_process_memset 32 4096 sample_driver 0 (memset_msg 0 10000 171)
            (identified FRAME_A 12288)).1).sdma_dev.chans
        (last_enabled_channel (memset_interrupts 32 0 (1 + 1)
          (sdma_process_memset 32 4096 sample_driver 0 (memset_msg 0 10000 171)
            (identified FRAME_A 12288)).1))).cdsa = FRAME_A + 8192
    ∧ ((memset_interrupts 32 0 (1 + 1)
          (sdma_process_memset 32 4096 sample_driver 0 (memset_msg 0 10000 171)
            (identified FRAME_A 12288)).1).sdma_dev.chans
        (last_enabled_channel (memset_interrupts 32 0 (1 + 1)
          (sdma_process_memset 32 4096 sample_driver 0 (memset_msg 0 10000 171)
            (identified FRAME_A 12288)).1))).ccr.enable = 1
    ∧ engine_en ((memset_interrupts 32 0 (1 + 1)
          (sdma_process_memset 32 4096 sample_driver 0 (memset_msg 0 10000 171)
            (identified FRAME_A 12288)).1).sdma_dev.chans
        (last_enabled_channel (memset_interrupts 32 0 (1 + 1)
          (sdma_process_memset 32 4096 sample_driver 0 (memset_msg 0 10000 171)
            (identified FRAME_A 12288)).1))) = 128
    ∧ engine_fn ((memset_interrupts 32 0 (1 + 1)
          (sdma_process_memset 32 4096 sample_driver 0 (memset_msg 0 10000 171)
            (identified FRAME_A 12288)).1).sdma_dev.chans
        (last_enabled_channel (memset_interrupts 32 0 (1 + 1)
          (sdma_process_memset 32 4096 sample_driver 0 (memset_msg 0 10000 171)
            (identified FRAME_A 12288)).1))) = 4
    ∧ block_bytes ((memset_interrupts 32 0 (1 + 1)
          (sdma_process_memset 32 4096 sample_driver 0 (memset_msg 0 10000 171)
            (identified FRAME_A 12288)).1).sdma_dev.chans
        (last_enabled_channel (memset_interrupts 32 0 (1 + 1)
          (sdma_process_memset 32 4096 sample_driver 0 (memset_msg 0 10000 171)
            (identified FRAME_A 12288)).1))) = 2048
    ∧ 10000 < 8192 + 2048 := by
  obtain ⟨s1, s2, -, q1, q2, q3, q5, q6, q4⟩ :=
    memset_step 32 4096 0 sample_driver 0 (memset_msg 0 10000 171) (identified FRAME_A 12288)
      rfl (by decide) (by decide) (by decide) (by decide) (by decide) (by decide)
      1 (by decide)
  have e1 : (identified FRAME_A 12288).id.base = FRAME_A := rfl
  have e2 : (2 : Nat) ^ 1 * 4096 = 8192 := by decide
  have e3 : min ((2 : Nat) ^ 1 * 4096) ((memset_msg 0 10000 171).word 2 - 2 ^ 1 * 4096)
      = 1808 := by decide
  have e4 : (1808 + 511) / 512 = 4 := by decide
  have e5 : 512 * 4 = 2048 := by decide
  rw [e2] at s1
  rw [e3, e1, e2] at s2
  rw [e1] at q1
  rw [e1, e2] at q2
  rw [e3, e4] at q6
  rw [e3, e4, e5] at q4
  exact ⟨sample_memset_interleaved_reachable _ trivial, by decide, by decide, by decide,
    by decide, by decide, by decide, by decide, by decide, by decide, by decide, s1, s2,
    q1, q2, q3, q5, q6, q4, by decide⟩

/-- C28, amended: in the run of an accepted memset of `len ≥ 1` bytes
(`SDMA_MEMSET_SIZE ≥ 1` a multiple of 512, `len ≤ 512 * 65535`, a free
channel, the frame inside the 32-bit address space) in which each sub-transfer
ends with block-complete and no error and nothing else reaches the session,
the first sub-transfer is programmed from the scratch frame to `base` for a
block of `512 * ceil(min len SDMA_MEMSET_SIZE / 512)` bytes, and every
interrupt that finds `dst_offset = d < len` is a continuation step with
`cpy_len = min d (len - d)`, where `1 ≤ cpy_len ≤ d` and `d + cpy_len ≤ len`:
it calls `sdma_start_transfer` from `base` to `base + d` for `cpy_len` bytes,
and leaves the channel it enabled with `CSSA = base`, `CDSA = base + d` and a
block of `P = 4 * EN * FN = 512 * ceil(cpy_len / 512)` bytes.  Here
`cpy_len ≤ P ≤ d`, so the programmed source `[base, base + P)` lies in the
prefix `[base, base + d)` and ends before the programmed destination
`[base + d, base + d + P)` begins; `dst_offset` becomes `d + cpy_len`, the
start of the next destination.  When `len` is a multiple of 512 every block
has exactly `cpy_len` bytes, so the destination stays inside `[base, base +
len)` and the next one begins where it ends.  The run reaches
`dst_offset = len`, and the interrupt after that starts nothing. -/
theorem memset_ranges (N M CLEAN : Nat) (sd : sdma_driver) (client : Nat)
    (msg : lmp_recv_msg) (idr : identify_result)
    (hid : idr.err = SYS_ERR_OK) (hb : idr.id.bytes < GEN_MOD)
    (hv : msg.word 1 < idr.id.bytes ∧ msg.word 2 ≤ idr.id.bytes - msg.word 1)
    (hfree : sdma_avail_channel N sd < N) (hM : 1 ≤ M) (hM512 : M % 512 = 0)
    (hpos : 1 ≤ msg.word 2) (hfit : msg.word 2 ≤ 512 * 65535)
    (hframe : idr.id.base + idr.id.bytes ≤ SIZE_MOD) :
    (sdma_process_memset N M sd client msg idr).1.calls
        = sd.calls ++ [sdma_call.start_transfer client
            (to_size_t (sd.heap client).memset_frame_id.base) idr.id.base
            (min (msg.word 2) M)]
    ∧ 1 ≤ min (msg.word 2) M
    ∧ ((sdma_process_memset N M sd client msg idr).1.heap client).dst_offset
        = min (msg.word 2) M
    ∧ (((sdma_process_memset N M sd client msg idr).1.sdma_dev.chans
          (last_enabled_channel (sdma_process_memset N M sd client msg idr).1)).cssa
        = to_size_t (sd.heap client).memset_frame_id.base
      ∧ ((sdma_process_memset N M sd client msg idr).1.sdma_dev.chans
          (last_enabled_channel (sdma_process_memset N M sd client msg idr).1)).cdsa
        = idr.id.base
      ∧ ((sdma_process_memset N M sd client msg idr).1.sdma_dev.chans
          (last_enabled_channel (sdma_process_memset N M sd client msg idr).1)).ccr.enable = 1
      ∧ block_bytes ((sdma_process_memset N M sd client msg idr).1.sdma_dev.chans
          (last_enabled_channel (sdma_process_memset N M sd client msg idr).1))
        = 512 * ((min (msg.word 2) M + 511) / 512)
      ∧ (msg.word 2 % 512 = 0 →
          block_bytes ((sdma_process_memset N M sd client msg idr).1.sdma_dev.chans
            (last_enabled_channel (sdma_process_memset N M sd client msg idr).1))
          = min (msg.word 2) M))
    ∧ (∀ j, 2 ^ j * M < msg.word 2 →
        ((memset_interrupts N CLEAN j (sdma_process_memset N M sd client msg idr).1).heap
            client).dst_offset = 2 ^ j * M
        ∧ (memset_interrupts N CLEAN (j + 1)
            (sdma_process_memset N M sd client msg idr).1).calls
          = (memset_interrupts N CLEAN j (sdma_process_memset N M sd client msg idr).1).calls
            ++ [sdma_call.start_transfer client idr.id.base (idr.id.base + 2 ^ j * M)
                (min (2 ^ j * M) (msg.word 2 - 2 ^ j * M))]
        ∧ 1 ≤ min (2 ^ j * M) (msg.word 2 - 2 ^ j * M)
        ∧ min (2 ^ j * M) (msg.word 2 - 2 ^ j * M) ≤ 2 ^ j * M
        ∧ 2 ^ j * M + min (2 ^ j * M) (msg.word 2 - 2 ^ j * M) ≤ msg.word 2
        ∧ idr.id.base + min (2 ^ j * M) (msg.word 2 - 2 ^ j * M) ≤ idr.id.base + 2 ^ j * M
        ∧ idr.id.base + 2 ^ j * M + min (2 ^ j * M) (msg.word 2 - 2 ^ j * M)
          ≤ idr.id.base + idr.id.bytes
        ∧ ((memset_interrupts N CLEAN (j + 1)
            (sdma_process_memset N M sd client msg idr).1).heap client).dst_offset
          = 2 ^ j * M + min (2 ^ j * M) (msg.word 2 - 2 ^ j * M)
        ∧ ((memset_interrupts N CLEAN (j + 1)
              (sdma_process_memset N M sd client msg idr).1).sdma_dev.chans
            (last_enabled_channel (memset_interrupts N CLEAN (j + 1)
              (sdma_process_memset N M sd client msg idr).1))).cssa = idr.id.base
        ∧ ((memset_interrupts N CLEAN (j + 1)
              (sdma_process_memset N M sd client msg idr).1).sdma_dev.chans
            (last_enabled_channel (memset_interrupts N CLEAN (j + 1)
              (sdma_process_memset N M sd client msg idr).1))).cdsa
          = idr.id.base + 2 ^ j * M
        ∧ ((memset_interrupts N CLEAN (j + 1)
              (sdma_process_memset N M sd client msg idr).1).sdma_dev.chans
            (last_enabled_channel (memset_interrupts N CLEAN (j + 1)
              (sdma_process_memset N M sd client msg idr).1))).ccr.enable = 1
        ∧ block_bytes ((memset_interrupts N CLEAN (j + 1)
              (sdma_process_memset N M sd client msg idr).1).sdma_dev.chans
            (last_enabled_channel (memset_interrupts N CLEAN (j + 1)
              (sdma_process_memset N M sd client msg idr).1)))
          = 512 * ((min (2 ^ j * M) (msg.word 2 - 2 ^ j * M) + 511) / 512)
        ∧ min (2 ^ j * M) (msg.word 2 - 2 ^ j * M)
          ≤ block_bytes ((memset_interrupts N CLEAN (j + 1)
              (sdma_process_memset N M sd client msg idr).1).sdma_dev.chans
            (last_enabled_channel (memset_interrupts N CLEAN (j + 1)
              (sdma_process_memset N M sd client msg idr).1)))
        ∧ idr.id.base + block_bytes ((memset_interrupts N CLEAN (j + 1)
              (sdma_process_memset N M sd client msg idr).1).sdma_dev.chans
            (last_enabled_channel (memset_interrupts N CLEAN (j + 1)
              (sdma_process_memset N M sd client msg idr).1)))
          ≤ idr.id.base + 2 ^ j * M
        ∧ (msg.word 2 % 512 = 0 →
            block_bytes ((memset_interrupts N CLEAN (j + 1)
                (sdma_process_memset N M sd client msg idr).1).sdma_dev.chans
              (last_enabled_channel (memset_interrupts N CLEAN (j + 1)
                (sdma_process_memset N M sd client msg idr).1)))
            = min (2 ^ j * M) (msg.word 2 - 2 ^ j * M)
            ∧ idr.id.base + 2 ^ j * M
                + block_bytes ((memset_interrupts N CLEAN (j + 1)
                    (sdma_process_memset N M sd client msg idr).1).sdma_dev.chans
                  (last_enabled_channel (memset_interrupts N CLEAN (j + 1)
                    (sdma_process_memset N M sd client msg idr).1)))
              ≤ idr.id.base + msg.word 2))
    ∧ ((memset_interrupts N CLEAN (Nat.clog 2 ((msg.word 2 + M - 1) / M))
          (sdma_process_memset N M sd client msg idr).1).heap client).dst_offset = msg.word 2
    ∧ (memset_interrupts N CLEAN (Nat.clog 2 ((msg.word 2 + M - 1) / M) + 1)
          (sdma_process_memset N M sd client msg idr).1).calls
        = (memset_interrupts N CLEAN (Nat.clog 2 ((msg.word 2 + M - 1) / M))
          (sdma_process_memset N M sd client msg idr).1).calls := by
  obtain ⟨h0, -, -, -⟩ := sdma_process_memset_starts N M sd client msg idr hid hb hv hfree
  obtain ⟨hs, hd, hc⟩ := memset_start_session N M sd client msg idr hid hb hv
  obtain ⟨r1, r2, r3, r4⟩ := memset_start_block N M sd client msg idr hid hb hv hfree
    (by omega)
  have hL := word_lt msg 2
  have hprog := memset_interrupts_progress N M CLEAN (sdma_process_memset N M sd client msg idr).1
    client (msg.word 2) hM hL h0
  have hids := memset_interrupts_ids N M CLEAN (sdma_process_memset N M sd client msg idr).1
    client (msg.word 2) idr.id hM hL h0 hs hd
  have hbase : idr.id.base < SIZE_MOD := by omega
  have hLb : msg.word 2 ≤ idr.id.bytes := by omega
  have hbase2 : to_size_t idr.id.base = idr.id.base := Nat.mod_eq_of_lt hbase
  refine ⟨?_, ?_, h0.2.2.2.2.1, ⟨r1, ?_, r3, r4, ?_⟩, ?_, ?_, ?_⟩
  · rw [hc, hbase2]
  · omega
  · rw [r2, hbase2]
  · intro h512
    rw [r4]
    omega
  · intro j hlt
    obtain ⟨s1, s2, s3, q1b, q2b, q3b, -, -, q4b⟩ :=
      memset_step N M CLEAN sd client msg idr hid hb hv hfree hM hfit hframe j hlt
    have hpow : 1 ≤ 2 ^ j * M := Nat.mul_pos (Nat.pow_pos (by decide)) hM
    have hd512 : (2 ^ j * M) % 512 = 0 :=
      Nat.mod_eq_zero_of_dvd (Dvd.dvd.mul_left (Nat.dvd_of_mod_eq_zero hM512) (2 ^ j))
    refine ⟨s1, s2, ?_, ?_, ?_, ?_, ?_, s3, q1b, q2b, q3b, q4b, ?_, ?_, ?_⟩
    · omega
    · omega
    · omega
    · omega
    · omega
    · rw [q4b]
      omega
    · rw [q4b]
      omega
    · intro h512
      rw [q4b]
      omega
  · obtain ⟨hrun, -, -⟩ := hprog (Nat.clog 2 ((msg.word 2 + M - 1) / M)) (Nat.le_refl _)
    rw [hrun.2.2.2.2.1]
    exact Nat.min_eq_right (clog_steps_le (msg.word 2) M hM)
  · obtain ⟨hrun, -, -⟩ := hprog (Nat.clog 2 ((msg.word 2 + M - 1) / M)) (Nat.le_refl _)
    rw [Nat.min_eq_right (clog_steps_le (msg.word 2) M hM)] at hrun
    exact (block_complete_interrupt_finishes N CLEAN _ client (msg.word 2) hrun).2.1

/-- C28, witness: `memset(A, len = 8192)` on the sample session with
`SDMA_MEMSET_SIZE = 4096`; the first interrupt programs a block of 4096 bytes
from `[A, A + 4096)` to `[A + 4096, A + 8192)`. -/
theorem memset_ranges_witness :
    (identified FRAME_A 8192).err = SYS_ERR_OK
    ∧ sdma_avail_channel 32 sample_driver < 32
    ∧ 4096 % 512 = 0
    ∧ (memset_msg 0 8192 171).word 2 ≤ 512 * 65535
    ∧ 2 ^ 0 * 4096 < (memset_msg 0 8192 171).word 2
    ∧ (memset_msg 0 8192 171).word 2 % 512 = 0
    ∧ (memset_interrupts 32 0 (0 + 1)
          (sdma_process_memset 32 4096 sample_driver 0 (memset_msg 0 8192 171)
            (identified FRAME_A 8192)).1).calls
        = (memset_interrupts 32 0 0
            (sdma_process_memset 32 4096 sample_driver 0 (memset_msg 0 8192 171)
              (identified FRAME_A 8192)).1).calls
          ++ [sdma_call.start_transfer 0 (identified FRAME_A 8192).id.base
              ((identified FRAME_A 8192).id.base + 2 ^ 0 * 4096)
              (min (2 ^ 0 * 4096) ((memset_msg 0 8192 171).word 2 - 2 ^ 0 * 4096))]
    ∧ min (2 ^ 0 * 4096) ((memset_msg 0 8192 171).word 2 - 2 ^ 0 * 4096) = 4096
    ∧ block_bytes ((memset_interrupts 32 0 (0 + 1)
          (sdma_process_memset 32 4096 sample_driver 0 (memset_msg 0 8192 171)
            (identified FRAME_A 8192)).1).sdma_dev.chans
        (last_enabled_channel (memset_interrupts 32 0 (0 + 1)
          (sdma_process_memset 32 4096 sample_driver 0 (memset_msg 0 8192 171)
            (identified FRAME_A 8192)).1)))
        = min (2 ^ 0 * 4096) ((memset_msg 0 8192 171).word 2 - 2 ^ 0 * 4096) :=
  ⟨rfl, by decide, by decide, by decide, by decide, by decide,
   ((memset_ranges 32 4096 0 sample_driver 0 (memset_msg 0 8192 171) (identified FRAME_A 8192)
      rfl (by decide) (by decide) (by decide) (by decide) (by decide) (by decide) (by decide)
      (by decide)).2.2.2.2.1 0 (by decide)).2.1,
   by decide,
   (((memset_ranges 32 4096 0 sample_driver 0 (memset_msg 0 8192 171) (identified FRAME_A 8192)
      rfl (by decide) (by decide) (by decide) (by decide) (by decide) (by decide) (by decide)
      (by decide)).2.2.2.2.1 0 (by decide)).2.2.2.2.2.2.2.2.2.2.2.2.2.2 (by decide)).1⟩

/-! ## C25: `paging_alloc` is first fit with a split -/

theorem node_chain_congr (n1 n2 : Nat → paging_node) :
    ∀ (l : List Nat) (h : Option Nat), (∀ x, x ∈ l → (n2 x).next = (n1 x).next) →
      node_chain n1 h l → node_chain n2 h l := by
  intro l
  induction l with
  | nil => intro h _ hc; exact hc
  | cons a l ih =>
    intro h hx hc
    refine ⟨hc.1, ?_⟩
    rw [hx a (List.mem_cons_self a l)]
    exact ih _ (fun x hxl => hx x (List.mem_cons_of_mem a hxl)) hc.2

theorem tiles_congr (n1 n2 : Nat → paging_node) :
    ∀ (l : List Nat) (lo hi : Nat),
      (∀ x, x ∈ l → (n2 x).base = (n1 x).base ∧ (n2 x).size = (n1 x).size) →
      tiles n1 l lo hi → tiles n2 l lo hi := by
  intro l
  induction l with
  | nil => intro lo hi _ ht; exact ht
  | cons a l ih =>
    intro lo hi hx ht
    obtain ⟨hb, hs⟩ := hx a (List.mem_cons_self a l)
    refine ⟨hb.trans ht.1, ?_⟩
    rw [hs]
    exact ih _ _ (fun x hxl => hx x (List.mem_cons_of_mem a hxl)) ht.2

theorem tiles_le (nodes : Nat → paging_node) :
    ∀ (l : List Nat) (lo hi : Nat), tiles nodes l lo hi → lo ≤ hi := by
  intro l
  induction l with
  | nil => intro lo hi ht; exact Nat.le_of_eq ht
  | cons a l ih =>
    intro lo hi ht
    exact Nat.le_trans (Nat.le_add_right _ _) (ih _ _ ht.2)

theorem tiles_bound (nodes : Nat → paging_node) (a : Nat) (s : List Nat) :
    ∀ (p : List Nat) (lo hi : Nat), tiles nodes (p ++ a :: s) lo hi →
      lo ≤ (nodes a).base ∧ (nodes a).base + (nodes a).size ≤ hi := by
  intro p
  induction p with
  | nil =>
    intro lo hi ht
    obtain ⟨hb, hr⟩ := ht
    rw [hb]
    exact ⟨Nat.le_refl _, tiles_le nodes s _ _ hr⟩
  | cons b p ih =>
    intro lo hi ht
    have := ih _ _ ht.2
    exact ⟨Nat.le_trans (Nat.le_add_right _ _) this.1, this.2⟩

theorem node_chain_insert (n1 n2 : Nat → paging_node) (a new : Nat) (s : List Nat)
    (ha : (n2 a).next = some new) (hn : (n2 new).next = (n1 a).next)
    (hs : ∀ x, x ∈ s → (n2 x).next = (n1 x).next) :
    ∀ (p : List Nat) (h : Option Nat), (∀ x, x ∈ p → (n2 x).next = (n1 x).next) →
      node_chain n1 h (p ++ a :: s) → node_chain n2 h (p ++ a :: new :: s) := by
  intro p
  induction p with
  | nil =>
    intro h _ hc
    refine ⟨hc.1, ?_⟩
    rw [ha]
    refine ⟨rfl, ?_⟩
    rw [hn]
    exact node_chain_congr n1 n2 s _ hs hc.2
  | cons b p ih =>
    intro h hp hc
    refine ⟨hc.1, ?_⟩
    rw [hp b (List.mem_cons_self b p)]
    exact ih _ (fun x hx => hp x (List.mem_cons_of_mem b hx)) hc.2

theorem tiles_insert (n1 n2 : Nat → paging_node) (a new bytes : Nat) (s : List Nat)
    (hab : (n2 a).base = (n1 a).base) (has : (n2 a).size = bytes)
    (hnb : (n2 new).base = (n1 a).base + bytes)
    (hns : (n2 new).size = (n1 a).size - bytes) (hle : bytes ≤ (n1 a).size)
    (hs : ∀ x, x ∈ s → (n2 x).base = (n1 x).base ∧ (n2 x).size = (n1 x).size) :
    ∀ (p : List Nat) (lo hi : Nat),
      (∀ x, x ∈ p → (n2 x).base = (n1 x).base ∧ (n2 x).size = (n1 x).size) →
      tiles n1 (p ++ a :: s) lo hi → tiles n2 (p ++ a :: new :: s) lo hi := by
  intro p
  induction p with
  | nil =>
    intro lo hi _ ht
    obtain ⟨hb, hr⟩ := ht
    refine ⟨hab.trans hb, ?_, ?_⟩
    · rw [hnb, has, hb]
    · rw [hns, has]
      have e : lo + bytes + ((n1 a).size - bytes) = lo + (n1 a).size := by omega
      rw [e]
      exact tiles_congr n1 n2 s _ _ hs hr
  | cons b p ih =>
    intro lo hi hp ht
    obtain ⟨hb, hsz⟩ := hp b (List.mem_cons_self b p)
    refine ⟨hb.trans ht.1, ?_⟩
    rw [hsz]
    exact ih _ _ (fun x hx => hp x (List.mem_cons_of_mem b hx)) ht.2

theorem paging_alloc_loop_skip (bytes new_node : Nat) (st : paging_state) (rest : List Nat) :
    ∀ (p : List Nat) (h : Option Nat) (fuel : Nat),
      node_chain st.nodes h (p ++ rest) → (∀ x, x ∈ p → ¬ fits st bytes x) →
      ∃ h2, node_chain st.nodes h2 rest
        ∧ paging_alloc_loop bytes new_node st (p.length + fuel) h
          = paging_alloc_loop bytes new_node st fuel h2 := by
  intro p
  induction p with
  | nil =>
    intro h fuel hc _
    exact ⟨h, hc, by rw [List.length_nil, Nat.zero_add]⟩
  | cons b p ih =>
    intro h fuel hc hp
    obtain ⟨hh, hr⟩ := hc
    obtain ⟨h2, hc2, he⟩ := ih _ fuel hr (fun x hx => hp x (List.mem_cons_of_mem b hx))
    refine ⟨h2, hc2, ?_⟩
    rw [hh, List.length_cons, Nat.add_right_comm]
    show (if (st.nodes b).type = nodetype.NodeType_Free ∧ (st.nodes b).size ≥ bytes then _
      else paging_alloc_loop bytes new_node st (p.length + fuel) (st.nodes b).next) = _
    rw [if_neg (hp b (List.mem_cons_self b p))]
    exact he

theorem first_fit_split (st : paging_state) (bytes : Nat) :
    ∀ (l : List Nat), (∃ x, x ∈ l ∧ fits st bytes x) →
      ∃ p a s, l = p ++ a :: s ∧ (∀ x, x ∈ p → ¬ fits st bytes x) ∧ fits st bytes a := by
  intro l
  induction l with
  | nil =>
    rintro ⟨x, hx, -⟩
    exact absurd hx (List.not_mem_nil x)
  | cons b l ih =>
    rintro ⟨x, hx, hf⟩
    by_cases hb : fits st bytes b
    · exact ⟨[], b, l, rfl, fun x hx => absurd hx (List.not_mem_nil x), hb⟩
    · rcases List.mem_cons.mp hx with h1 | h1
      · exact absurd (h1 ▸ hf) hb
      · obtain ⟨p, a, s, hl, hp, ha⟩ := ih ⟨x, h1, hf⟩
        refine ⟨b :: p, a, s, by rw [hl]; rfl, ?_, ha⟩
        intro y hy
        rcases List.mem_cons.mp hy with h2 | h2
        · rw [h2]; exact hb
        · exact hp y h2

theorem paging_alloc_claim_exact (st : paging_state) (a bytes new_node : Nat)
    (hsz : (st.nodes a).size = bytes) :
    paging_alloc_claim st a bytes new_node
      = { st with
          nodes := Function.update st.nodes a
            { (st.nodes a) with type := nodetype.NodeType_Claimed } } := by
  unfold paging_alloc_claim
  simp only [set_node, Function.update_same]
  rw [if_neg (by rw [hsz]; exact Nat.lt_irrefl _)]

theorem paging_alloc_claim_split (st : paging_state) (a bytes new_node : Nat)
    (hsz : bytes < (st.nodes a).size) (hne : a ≠ new_node)
    (hnx : ∀ nx, (st.nodes a).next = some nx → nx ≠ a ∧ nx ≠ new_node) :
    (paging_alloc_claim st a bytes new_node).head = st.head
    ∧ (paging_alloc_claim st a bytes new_node).nodes a
        = { base := (st.nodes a).base, size := bytes, type := nodetype.NodeType_Claimed,
            next := some new_node, prev := (st.nodes a).prev }
    ∧ (paging_alloc_claim st a bytes new_node).nodes new_node
        = { base := size_add (st.nodes a).base bytes,
            size := size_sub (st.nodes a).size bytes, type := nodetype.NodeType_Free,
            next := (st.nodes a).next, prev := some a }
    ∧ (∀ x, x ≠ a → x ≠ new_node →
        ((paging_alloc_claim st a bytes new_node).nodes x).base = (st.nodes x).base
        ∧ ((paging_alloc_claim st a bytes new_node).nodes x).size = (st.nodes x).size
        ∧ ((paging_alloc_claim st a bytes new_node).nodes x).type = (st.nodes x).type
        ∧ ((paging_alloc_claim st a bytes new_node).nodes x).next = (st.nodes x).next) := by
  have hne2 : new_node ≠ a := fun h => hne h.symm
  unfold paging_alloc_claim
  simp only [set_node, Function.update_same]
  rw [if_pos hsz]
  simp only [Function.update_same, Function.update_noteq hne, Function.update_noteq hne2,
    Function.update_idem]
  cases hn : (st.nodes a).next with
  | none =>
    simp only [Function.update_same, Function.update_noteq hne, Function.update_noteq hne2,
      Function.update_idem]
    refine ⟨trivial, trivial, trivial, ?_⟩
    · intro x hxa hxn
      simp only [Function.update_noteq hxa, Function.update_noteq hxn]
      trivial
  | some nx =>
    obtain ⟨h1, h2⟩ := hnx nx hn
    simp only [Function.update_same, Function.update_noteq hne, Function.update_noteq hne2,
      Function.update_noteq h1, Function.update_noteq h2, Function.update_noteq (Ne.symm h1),
      Function.update_noteq (Ne.symm h2), Function.update_idem]
    refine ⟨trivial, trivial, trivial, ?_⟩
    · intro x hxa hxn
      by_cases hx : x = nx
      · subst hx
        simp only [Function.update_same, Function.update_noteq hxa, Function.update_noteq hxn]
        trivial
      · simp only [Function.update_noteq hxa, Function.update_noteq hxn,
          Function.update_noteq hx]
        trivial

theorem node_chain_unique (nodes : Nat → paging_node) :
    ∀ (l1 l2 : List Nat) (h : Option Nat), node_chain nodes h l1 → node_chain nodes h l2 →
      l1 = l2 := by
  intro l1
  induction l1 with
  | nil =>
    intro l2 h h1 h2
    cases l2 with
    | nil => rfl
    | cons b l2 =>
      have e1 : h = none := h1
      have e2 : h = some b := h2.1
      rw [e1] at e2
      exact Option.noConfusion e2
  | cons a l1 ih =>
    intro l2 h h1 h2
    cases l2 with
    | nil =>
      have e1 : h = some a := h1.1
      have e2 : h = none := h2
      rw [e1] at e2
      exact Option.noConfusion e2
    | cons b l2 =>
      have e1 : h = some a := h1.1
      have e2 : h = some b := h2.1
      rw [e1] at e2
      have hab : a = b := Option.some.inj e2
      subst hab
      rw [ih l2 _ h1.2 h2.2]

theorem node_chain_suffix (nodes : Nat → paging_node) (q : List Nat) :
    ∀ (p : List Nat) (h : Option Nat), node_chain nodes h (p ++ q) →
      ∃ h2, node_chain nodes h2 q := by
  intro p
  induction p with
  | nil => intro h hc; exact ⟨h, hc⟩
  | cons b p ih => intro h hc; exact ih _ hc.2

theorem node_chain_nodup (nodes : Nat → paging_node) :
    ∀ (l : List Nat) (h : Option Nat), node_chain nodes h l → l.Nodup := by
  intro l
  induction l with
  | nil => intro _ _; exact List.nodup_nil
  | cons a l ih =>
    intro h hc
    refine List.nodup_cons.mpr ⟨?_, ih _ hc.2⟩
    intro hmem
    obtain ⟨p, s, hl⟩ := List.append_of_mem hmem
    have hc2 := hc.2
    rw [hl] at hc2
    obtain ⟨h2, hs⟩ := node_chain_suffix nodes (a :: s) p _ hc2
    have hu := node_chain_unique nodes _ _ _ hs.2 hc2
    have hlen := congrArg List.length hu
    rw [List.length_append, List.length_cons] at hlen
    omega

/-- C25: on a `NULL`-terminated region list `l` whose regions tile `[lo, hi)`
in list order (`hi` below `2^32`), with `slab_alloc` returning a block that is
not a node of the list and enough steps for the walk, `paging_alloc` returns
`SYS_ERR_OK` with `*buf` the base of the first node `a` in list order that is
free with `size ≥ bytes`.  Afterwards `a` is claimed with its base and with
size `bytes`, every other node of the list has its base, size and kind, and
when `a` was larger than `bytes` the block `new_node` follows `a` directly as
a free node for `[base + bytes, base + size)`; the list still tiles `[lo, hi)`
in list order.  `paging_alloc` returns `LIB_ERR_VREGION_NOT_FOUND` with
`*buf = NULL` and the state unchanged if and only if no free node has
`size ≥ bytes`. -/
theorem paging_alloc_first_fit (fuel : Nat) (st : paging_state) (bytes new_node : Nat)
    (l : List Nat) (lo hi : Nat)
    (hchain : node_chain st.nodes st.head l) (htiles : tiles st.nodes l lo hi)
    (hhi : hi < SIZE_MOD) (hfresh : new_node ∉ l) (hfuel : l.length ≤ fuel) :
    (∀ p a s, l = p ++ a :: s → (∀ x, x ∈ p → ¬ fits st bytes x) → fits st bytes a →
      paging_alloc fuel st bytes new_node
        = run.ok (paging_alloc_claim st a bytes new_node, (st.nodes a).base, SYS_ERR_OK)
      ∧ (paging_alloc_claim st a bytes new_node).head = st.head
      ∧ ((paging_alloc_claim st a bytes new_node).nodes a).base = (st.nodes a).base
      ∧ ((paging_alloc_claim st a bytes new_node).nodes a).size = bytes
      ∧ ((paging_alloc_claim st a bytes new_node).nodes a).type = nodetype.NodeType_Claimed
      ∧ (∀ x, x ∈ p ++ s →
          ((paging_alloc_claim st a bytes new_node).nodes x).base = (st.nodes x).base
          ∧ ((paging_alloc_claim st a bytes new_node).nodes x).size = (st.nodes x).size
          ∧ ((paging_alloc_claim st a bytes new_node).nodes x).type = (st.nodes x).type)
      ∧ (bytes < (st.nodes a).size →
          node_chain (paging_alloc_claim st a bytes new_node).nodes st.head
            (p ++ a :: new_node :: s)
          ∧ tiles (paging_alloc_claim st a bytes new_node).nodes (p ++ a :: new_node :: s)
            lo hi
          ∧ ((paging_alloc_claim st a bytes new_node).nodes new_node).base
            = (st.nodes a).base + bytes
          ∧ ((paging_alloc_claim st a bytes new_node).nodes new_node).size
            = (st.nodes a).size - bytes
          ∧ ((paging_alloc_claim st a bytes new_node).nodes new_node).type
            = nodetype.NodeType_Free)
      ∧ ((st.nodes a).size = bytes →
          node_chain (paging_alloc_claim st a bytes new_node).nodes st.head l
          ∧ tiles (paging_alloc_claim st a bytes new_node).nodes l lo hi))
    ∧ ((∀ x, x ∈ l → ¬ fits st bytes x) →
        paging_alloc fuel st bytes new_node = run.ok (st, 0, LIB_ERR_VREGION_NOT_FOUND))
    ∧ ((∃ st2 buf, paging_alloc fuel st bytes new_node
          = run.ok (st2, buf, LIB_ERR_VREGION_NOT_FOUND))
        ↔ ∀ x, x ∈ l → ¬ fits st bytes x) := by
  have hnd := node_chain_nodup st.nodes l st.head hchain
  have hA : ∀ p a s, l = p ++ a :: s → (∀ x, x ∈ p → ¬ fits st bytes x) → fits st bytes a →
      paging_alloc fuel st bytes new_node
        = run.ok (paging_alloc_claim st a bytes new_node, (st.nodes a).base, SYS_ERR_OK)
      ∧ node_chain st.nodes (st.nodes a).next s := by
    intro p a s hl hp ha
    obtain ⟨k, hk⟩ : ∃ k, fuel = p.length + (k + 1) := by
      have : p.length + 1 ≤ fuel := by
        rw [hl, List.length_append, List.length_cons] at hfuel
        omega
      exact ⟨fuel - p.length - 1, by omega⟩
    rw [hl] at hchain
    obtain ⟨h2, hc2, he⟩ := paging_alloc_loop_skip bytes new_node st (a :: s) p st.head (k + 1)
      hchain hp
    refine ⟨?_, hc2.2⟩
    unfold paging_alloc
    rw [hk, he, hc2.1]
    show (if (st.nodes a).type = nodetype.NodeType_Free ∧ (st.nodes a).size ≥ bytes then _
      else _) = _
    rw [if_pos ha]
  have hB : (∀ x, x ∈ l → ¬ fits st bytes x) →
      paging_alloc fuel st bytes new_node = run.ok (st, 0, LIB_ERR_VREGION_NOT_FOUND) := by
    intro hno
    obtain ⟨k, hk⟩ : ∃ k, fuel = l.length + k := ⟨fuel - l.length, by omega⟩
    have hchain2 : node_chain st.nodes st.head (l ++ []) := by
      rw [List.append_nil]
      exact hchain
    obtain ⟨h2, hc2, he⟩ := paging_alloc_loop_skip bytes new_node st [] l st.head k hchain2 hno
    unfold paging_alloc
    rw [hk, he, show h2 = none from hc2]
    cases k <;> rfl
  refine ⟨?_, hB, ?_⟩
  · intro p a s hl hp ha
    obtain ⟨hres, hnext⟩ := hA p a s hl hp ha
    have hal : a ∈ l := by rw [hl]; exact List.mem_append_right p (List.mem_cons_self a s)
    have hane : a ≠ new_node := fun h => hfresh (h ▸ hal)
    have hnd2 := hnd
    rw [hl] at hnd2
    have hps : ∀ x, x ∈ p ++ s → x ≠ a ∧ x ≠ new_node ∧ x ∈ l := by
      intro x hx
      have hxl : x ∈ l := by
        rw [hl]
        rcases List.mem_append.mp hx with h1 | h1
        · exact List.mem_append_left _ h1
        · exact List.mem_append_right _ (List.mem_cons_of_mem a h1)
      refine ⟨?_, fun h => hfresh (h ▸ hxl), hxl⟩
      intro hxa
      subst hxa
      rcases List.mem_append.mp hx with h1 | h1
      · exact (List.disjoint_of_nodup_append hnd2) h1 (List.mem_cons_self x s)
      · exact (List.nodup_cons.mp (List.nodup_append.mp hnd2).2.1).1 h1
    have hbound := tiles_bound st.nodes a s p lo hi (hl ▸ htiles)
    by_cases hsz : bytes < (st.nodes a).size
    · have hnx : ∀ nx, (st.nodes a).next = some nx → nx ≠ a ∧ nx ≠ new_node := by
        intro nx hn
        rw [hn] at hnext
        cases s with
        | nil => exact Option.noConfusion (show some nx = none from hnext)
        | cons b s2 =>
          have hb : nx = b := Option.some.inj hnext.1
          have := hps nx (by rw [hb]; exact List.mem_append_right p (List.mem_cons_self b s2))
          exact ⟨this.1, this.2.1⟩
      obtain ⟨c1, c2, c3, c4⟩ := paging_alloc_claim_split st a bytes new_node hsz hane hnx
      have hbase : size_add (st.nodes a).base bytes = (st.nodes a).base + bytes := by
        unfold size_add
        exact Nat.mod_eq_of_lt (by omega)
      have hsize : size_sub (st.nodes a).size bytes = (st.nodes a).size - bytes := by
        unfold size_sub
        unfold SIZE_MOD at hhi ⊢
        omega
      have hothers : ∀ x, x ∈ p ++ s →
          ((paging_alloc_claim st a bytes new_node).nodes x).base = (st.nodes x).base
          ∧ ((paging_alloc_claim st a bytes new_node).nodes x).size = (st.nodes x).size
          ∧ ((paging_alloc_claim st a bytes new_node).nodes x).type = (st.nodes x).type
          ∧ ((paging_alloc_claim st a bytes new_node).nodes x).next = (st.nodes x).next :=
        fun x hx => c4 x (hps x hx).1 (hps x hx).2.1
      refine ⟨hres, c1, by rw [c2], by rw [c2], by rw [c2],
        fun x hx => ⟨(hothers x hx).1, (hothers x hx).2.1, (hothers x hx).2.2.1⟩, ?_, ?_⟩
      · intro _
        refine ⟨?_, ?_, by rw [c3, hbase], by rw [c3, hsize], by rw [c3]⟩
        · refine node_chain_insert st.nodes _ a new_node s (by rw [c2]) (by rw [c3])
            (fun x hx => (hothers x (List.mem_append_right p hx)).2.2.2) p st.head
            (fun x hx => (hothers x (List.mem_append_left s hx)).2.2.2) ?_
          rw [← hl]
          exact hchain
        · refine tiles_insert st.nodes _ a new_node bytes s (by rw [c2]) (by rw [c2])
            (by rw [c3, hbase]) (by rw [c3, hsize]) (Nat.le_of_lt hsz)
            (fun x hx => ⟨(hothers x (List.mem_append_right p hx)).1,
              (hothers x (List.mem_append_right p hx)).2.1⟩) p lo hi
            (fun x hx => ⟨(hothers x (List.mem_append_left s hx)).1,
              (hothers x (List.mem_append_left s hx)).2.1⟩) ?_
          rw [← hl]
          exact htiles
      · intro he
        omega
    · have he : (st.nodes a).size = bytes := by
        have := ha.2
        omega
      have hcl := paging_alloc_claim_exact st a bytes new_node he
      have hsame : ∀ x, x ≠ a →
          (paging_alloc_claim st a bytes new_node).nodes x = st.nodes x := by
        intro x hx
        rw [hcl]
        exact Function.update_noteq hx _ _
      have hself : (paging_alloc_claim st a bytes new_node).nodes a
          = { (st.nodes a) with type := nodetype.NodeType_Claimed } := by
        rw [hcl]
        exact Function.update_same _ _ _
      have hall : ∀ x, ((paging_alloc_claim st a bytes new_node).nodes x).base
            = (st.nodes x).base
          ∧ ((paging_alloc_claim st a bytes new_node).nodes x).size = (st.nodes x).size
          ∧ ((paging_alloc_claim st a bytes new_node).nodes x).next = (st.nodes x).next := by
        intro x
        by_cases hx : x = a
        · subst hx
          rw [hself]
          exact ⟨rfl, rfl, rfl⟩
        · rw [hsame x hx]
          exact ⟨rfl, rfl, rfl⟩
      refine ⟨hres, by rw [hcl], by rw [hself], by rw [hself]; exact he, by rw [hself],
        fun x hx => by rw [hsame x (hps x hx).1]; exact ⟨rfl, rfl, rfl⟩, ?_, ?_⟩
      · intro hlt
        exact absurd hlt hsz
      · intro _
        exact ⟨node_chain_congr st.nodes _ l st.head (fun x _ => (hall x).2.2) hchain,
          tiles_congr st.nodes _ l lo hi (fun x _ => ⟨(hall x).1, (hall x).2.1⟩) htiles⟩
  · constructor
    · rintro ⟨st2, buf, hres⟩
      by_contra hex
      have hex2 : ∃ x, x ∈ l ∧ fits st bytes x := by
        by_contra hno
        exact hex (fun x hx hf => hno ⟨x, hx, hf⟩)
      obtain ⟨p, a, s, hl, hp, ha⟩ := first_fit_split st bytes l hex2
      rw [(hA p a s hl hp ha).1] at hres
      injection hres with h1
      have h2 := (Prod.mk.inj (Prod.mk.inj h1).2).2
      exact errval_t.noConfusion h2
    · intro hno
      exact ⟨st, 0, hB hno⟩

/-- C25, witness: on the sample list (claimed, allocated, free rest) a request
for 4096 bytes with the fresh block 4 is served from node 3, the first free
node: `*buf` is its base `0x4000`, and node 4 holds the free rest. -/
theorem paging_alloc_first_fit_witness :
    node_chain sample_paging.nodes sample_paging.head [1, 2, 3]
    ∧ tiles sample_paging.nodes [1, 2, 3] 4096 4294967295
    ∧ fits sample_paging 4096 3
    ∧ paging_alloc 3 sample_paging 4096 4
        = run.ok (paging_alloc_claim sample_paging 3 4096 4, 16384, SYS_ERR_OK)
    ∧ node_chain (paging_alloc_claim sample_paging 3 4096 4).nodes sample_paging.head
        ([1, 2] ++ 3 :: 4 :: [])
    ∧ tiles (paging_alloc_claim sample_paging 3 4096 4).nodes ([1, 2] ++ 3 :: 4 :: [])
        4096 4294967295
    ∧ ((paging_alloc_claim sample_paging 3 4096 4).nodes 4).base = 20480 :=
  ⟨⟨rfl, rfl, rfl, rfl⟩, ⟨rfl, rfl, rfl, rfl⟩, by decide,
   ((paging_alloc_first_fit 3 sample_paging 4096 4 [1, 2, 3] 4096 4294967295
      ⟨rfl, rfl, rfl, rfl⟩ ⟨rfl, rfl, rfl, rfl⟩ (by decide) (by decide) (by decide)).1 [1, 2] 3 [] rfl (by decide)
      (by decide)).1,
   (((paging_alloc_first_fit 3 sample_paging 4096 4 [1, 2, 3] 4096 4294967295
      ⟨rfl, rfl, rfl, rfl⟩ ⟨rfl, rfl, rfl, rfl⟩ (by decide) (by decide) (by decide)).1 [1, 2] 3 [] rfl (by decide)
      (by decide)).2.2.2.2.2.2.1 (by decide)).1,
   (((paging_alloc_first_fit 3 sample_paging 4096 4 [1, 2, 3] 4096 4294967295
      ⟨rfl, rfl, rfl, rfl⟩ ⟨rfl, rfl, rfl, rfl⟩ (by decide) (by decide) (by decide)).1 [1, 2] 3 [] rfl (by decide)
      (by decide)).2.2.2.2.2.2.1 (by decide)).2.1,
   by decide⟩

/-! ## C5: what a memset request starts and what it leaves -/

theorem sdma_process_memset_refused (N M : Nat) (sd : sdma_driver) (client : Nat)
    (msg : lmp_recv_msg) (idr : identify_result) (hid : idr.err ≠ SYS_ERR_OK) :
    sdma_process_memset N M sd client msg idr = (sd, idr.err) := by
  unfold sdma_process_memset
  simp [err_is_ok, hid]

theorem sdma_process_memset_invalid (N M : Nat) (sd : sdma_driver) (client : Nat)
    (msg : lmp_recv_msg) (idr : identify_result)
    (hid : idr.err = SYS_ERR_OK) (hb : idr.id.bytes < GEN_MOD)
    (hv : ¬ (msg.word 1 < idr.id.bytes ∧ msg.word 2 ≤ idr.id.bytes - msg.word 1)) :
    sdma_process_memset N M sd client msg idr = (sd, SDMA_ERR_MEMSET) := by
  have hiff := memset_conds_iff (msg.word 1) (msg.word 2) idr.id.bytes (word_lt msg 1) hb
  unfold sdma_process_memset
  simp only [hid, err_is_ok, decide_True, if_true, Bool.and_eq_true, decide_eq_true_eq]
  rw [if_neg (fun h => hv (hiff.mp h))]

theorem sdma_start_transfer_program_writes_ne (dev : omap44xx_sdma_t) (chan s d l : Nat) :
    (sdma_start_transfer_program dev chan s d l).writes ≠ dev.writes := by
  rw [sdma_start_transfer_program_writes]
  intro h
  have := congrArg List.length h
  simp at this

/-- C5, counterexample: with every channel slot in use, the memset request
`offset = 0, len = 4096` on the 4 KiB frame `A` from the idle session 1 passes
the validation (`0 < 4096` and `4096 ≤ 4096 - 0`), yet no transfer is started:
the reply is `SDMA_ERR_NO_AVAIL_CHANNEL`, no register is written and no slot
is given to the session, while the session's operation kind, length and
scratch buffer are overwritten.  And a request whose capability
`frame_identify` refuses is answered with the error of `frame_identify`, not
with `SDMA_ERR_MEMSET`. -/
theorem memset_valid_request_starts_nothing :
    ((memset_msg 0 4096 171).word 1 < (identified FRAME_A 4096).id.bytes
      ∧ (memset_msg 0 4096 171).word 2
          ≤ (identified FRAME_A 4096).id.bytes - (memset_msg 0 4096 171).word 1)
    ∧ (sdma_process_memset 32 4096 sample_all_busy 1 (memset_msg 0 4096 171)
        (identified FRAME_A 4096)).2 = SDMA_ERR_NO_AVAIL_CHANNEL
    ∧ (sdma_process_memset 32 4096 sample_all_busy 1 (memset_msg 0 4096 171)
        (identified FRAME_A 4096)).1.sdma_dev.writes = sample_all_busy.sdma_dev.writes
    ∧ (∀ chan, chan < 32 →
        ((sdma_process_memset 32 4096 sample_all_busy 1 (memset_msg 0 4096 171)
          (identified FRAME_A 4096)).1.chan_state chan).client = 0)
    ∧ (sample_all_busy.heap 1).op_type = OpType_None
    ∧ ((sdma_process_memset 32 4096 sample_all_busy 1 (memset_msg 0 4096 171)
        (identified FRAME_A 4096)).1.heap 1).op_type = OpType_Memset
    ∧ (sample_all_busy.heap 1).len = 0
    ∧ ((sdma_process_memset 32 4096 sample_all_busy 1 (memset_msg 0 4096 171)
        (identified FRAME_A 4096)).1.heap 1).len = 4096
    ∧ (sample_all_busy.heap 1).memset_buf 0 = 0
    ∧ ((sdma_process_memset 32 4096 sample_all_busy 1 (memset_msg 0 4096 171)
        (identified FRAME_A 4096)).1.heap 1).memset_buf 0 = 171
    ∧ (sdma_process_memset 32 4096 sample_driver 0 (memset_msg 0 4096 171) unidentified).2
        = errval_t.other 1
    ∧ errval_t.other 1 ≠ SDMA_ERR_MEMSET
    ∧ (sdma_process_memset 32 4096 sample_driver 0 (memset_msg 0 4096 171)
        unidentified).1.sdma_dev.writes = sample_driver.sdma_dev.writes := by
  decide

/-- C5, amended: `sdma_process_memset` on a request whose capability
`frame_identify` refuses returns the driver state it was given and the error
of `frame_identify`.  For a capability that identifies as a frame: if
`offset < cap.bytes` and `len ≤ cap.bytes - offset` fails, it replies
`SDMA_ERR_MEMSET` and returns the driver state it was given (no register
written, session fields and scratch buffer as before); if it holds, it fills
the first `min(len, SDMA_MEMSET_SIZE)` bytes of the scratch buffer, overwrites
the session fields (operation kind, length, source and destination frame and
offsets), leaves the other sessions as they were and calls
`sdma_start_transfer` from the scratch frame to the target frame: with a free
channel the reply is `SYS_ERR_OK`, the channel is programmed and its slot given
to the session; with no free channel the reply is
`SDMA_ERR_NO_AVAIL_CHANNEL` and the device and every slot stay as they were.
So a register is written if and only if the capability identifies, the
validation holds and a channel is free. -/
theorem sdma_process_memset_decision (N M : Nat) (sd : sdma_driver) (client : Nat)
    (msg : lmp_recv_msg) (idr : identify_result) (hb : idr.id.bytes < GEN_MOD) :
    (idr.err ≠ SYS_ERR_OK → sdma_process_memset N M sd client msg idr = (sd, idr.err))
    ∧ (idr.err = SYS_ERR_OK →
        ¬ (msg.word 1 < idr.id.bytes ∧ msg.word 2 ≤ idr.id.bytes - msg.word 1) →
        sdma_process_memset N M sd client msg idr = (sd, SDMA_ERR_MEMSET))
    ∧ (idr.err = SYS_ERR_OK →
        (msg.word 1 < idr.id.bytes ∧ msg.word 2 ≤ idr.id.bytes - msg.word 1) →
        (sdma_process_memset N M sd client msg idr).1.calls
            = sd.calls ++ [sdma_call.start_transfer client
                (to_size_t (sd.heap client).memset_frame_id.base) (to_size_t idr.id.base)
                (min (msg.word 2) M)]
        ∧ (sdma_process_memset N M sd client msg idr).1.heap client
            = { (sd.heap client) with
                memset_buf := fun i =>
                  if i < min (msg.word 2) M then msg.word 3 % 256
                  else (sd.heap client).memset_buf i,
                op_type := OpType_Memset, len := msg.word 2, src_id := idr.id,
                src_offset := 0, dst_id := idr.id, dst_offset := min (msg.word 2) M,
                acked := false }
        ∧ (∀ c, c ≠ client →
            (sdma_process_memset N M sd client msg idr).1.heap c = sd.heap c)
        ∧ (sdma_process_memset N M sd client msg idr).1.clients = sd.clients
        ∧ (sdma_avail_channel N sd < N →
            (sdma_process_memset N M sd client msg idr).2 = SYS_ERR_OK
            ∧ (sdma_process_memset N M sd client msg idr).1.sdma_dev
                = sdma_start_transfer_program sd.sdma_dev (sdma_avail_channel N sd)
                    (to_size_t (sd.heap client).memset_frame_id.base) (to_size_t idr.id.base)
                    (min (msg.word 2) M)
            ∧ (sdma_process_memset N M sd client msg idr).1.chan_state
                = Function.update sd.chan_state (sdma_avail_channel N sd)
                    { transfer_in_progress := true, client := client,
                      err := (sd.chan_state (sdma_avail_channel N sd)).err })
        ∧ (¬ sdma_avail_channel N sd < N →
            (sdma_process_memset N M sd client msg idr).2 = SDMA_ERR_NO_AVAIL_CHANNEL
            ∧ (sdma_process_memset N M sd client msg idr).1.sdma_dev = sd.sdma_dev
            ∧ (sdma_process_memset N M sd client msg idr).1.chan_state = sd.chan_state))
    ∧ ((sdma_process_memset N M sd client msg idr).1.sdma_dev.writes ≠ sd.sdma_dev.writes
        ↔ (idr.err = SYS_ERR_OK
            ∧ (msg.word 1 < idr.id.bytes ∧ msg.word 2 ≤ idr.id.bytes - msg.word 1)
            ∧ sdma_avail_channel N sd < N)) := by
  have hav : sdma_avail_channel N
      (set_client (set_client sd client (fun c =>
          { c with memset_buf := fun i =>
              if i < min (msg.word 2) M then msg.word 3 % 256 else c.memset_buf i }))
        client (fun c =>
          { c with op_type := OpType_Memset, len := msg.word 2, src_id := idr.id,
                   src_offset := 0, dst_id := idr.id, dst_offset := min (msg.word 2) M }))
      = sdma_avail_channel N sd := sdma_avail_channel_frame _ _ _ rfl
  have hacc : idr.err = SYS_ERR_OK →
      (msg.word 1 < idr.id.bytes ∧ msg.word 2 ≤ idr.id.bytes - msg.word 1) →
      (sdma_process_memset N M sd client msg idr).1.calls
            = sd.calls ++ [sdma_call.start_transfer client
                (to_size_t (sd.heap client).memset_frame_id.base) (to_size_t idr.id.base)
                (min (msg.word 2) M)]
        ∧ (sdma_process_memset N M sd client msg idr).1.heap client
            = { (sd.heap client) with
                memset_buf := fun i =>
                  if i < min (msg.word 2) M then msg.word 3 % 256
                  else (sd.heap client).memset_buf i,
                op_type := OpType_Memset, len := msg.word 2, src_id := idr.id,
                src_offset := 0, dst_id := idr.id, dst_offset := min (msg.word 2) M,
                acked := false }
        ∧ (∀ c, c ≠ client →
            (sdma_process_memset N M sd client msg idr).1.heap c = sd.heap c)
        ∧ (sdma_process_memset N M sd client msg idr).1.clients = sd.clients
        ∧ (sdma_avail_channel N sd < N →
            (sdma_process_memset N M sd client msg idr).2 = SYS_ERR_OK
            ∧ (sdma_process_memset N M sd client msg idr).1.sdma_dev
                = sdma_start_transfer_program sd.sdma_dev (sdma_avail_channel N sd)
                    (to_size_t (sd.heap client).memset_frame_id.base) (to_size_t idr.id.base)
                    (min (msg.word 2) M)
            ∧ (sdma_process_memset N M sd client msg idr).1.chan_state
                = Function.update sd.chan_state (sdma_avail_channel N sd)
                    { transfer_in_progress := true, client := client,
                      err := (sd.chan_state (sdma_avail_channel N sd)).err })
        ∧ (¬ sdma_avail_channel N sd < N →
            (sdma_process_memset N M sd client msg idr).2 = SDMA_ERR_NO_AVAIL_CHANNEL
            ∧ (sdma_process_memset N M sd client msg idr).1.sdma_dev = sd.sdma_dev
            ∧ (sdma_process_memset N M sd client msg idr).1.chan_state = sd.chan_state) := by
    intro hid hv
    rw [sdma_process_memset_accepted N M sd client msg idr hid hb hv, sdma_start_transfer_eq,
      hav]
    by_cases hfree : sdma_avail_channel N sd < N
    · rw [if_pos hfree]
      refine ⟨?_, ?_, ?_, ?_, fun _ => ⟨rfl, ?_, ?_⟩, fun h => absurd hfree h⟩
      · simp [set_client]
      · simp [set_client]
      · intro c hc
        simp [set_client, hc]
      · simp [set_client]
      · simp [set_client]
      · simp [set_client]
    · rw [if_neg hfree]
      refine ⟨?_, ?_, ?_, ?_, fun h => absurd h hfree, fun _ => ⟨rfl, ?_, ?_⟩⟩
      · simp [set_client]
      · simp [set_client]
      · intro c hc
        simp [set_client, hc]
      · simp [set_client]
      · simp [set_client]
      · simp [set_client]
  refine ⟨sdma_process_memset_refused N M sd client msg idr,
    fun hid hv => sdma_process_memset_invalid N M sd client msg idr hid hb hv, hacc, ?_⟩
  by_cases hid : idr.err = SYS_ERR_OK
  · by_cases hv : msg.word 1 < idr.id.bytes ∧ msg.word 2 ≤ idr.id.bytes - msg.word 1
    · obtain ⟨-, -, -, -, hyes, hno⟩ := hacc hid hv
      by_cases hfree : sdma_avail_channel N sd < N
      · rw [(hyes hfree).2.1]
        exact ⟨fun _ => ⟨hid, hv, hfree⟩,
          fun _ => sdma_start_transfer_program_writes_ne _ _ _ _ _⟩
      · rw [(hno hfree).2.1]
        exact ⟨fun h => absurd rfl h, fun h => absurd h.2.2 hfree⟩
    · rw [sdma_process_memset_invalid N M sd client msg idr hid hb hv]
      exact ⟨fun h => absurd rfl h, fun h => absurd h.2.1 hv⟩
  · rw [sdma_process_memset_refused N M sd client msg idr hid]
    exact ⟨fun h => absurd rfl h, fun h => absurd h.1 hid⟩

/-- Witness of `sdma_process_memset_decision`: `offset = 4096` in a 4 KiB
frame is rejected, and a valid request on the sample driver programs
channel 0. -/
theorem sdma_process_memset_decision_witness :
    (identified FRAME_A 4096).id.bytes < GEN_MOD
    ∧ (sdma_process_memset 32 4096 sample_driver 0 (memset_msg 4096 1 171)
        (identified FRAME_A 4096)) = (sample_driver, SDMA_ERR_MEMSET)
    ∧ (sdma_process_memset 32 4096 sample_driver 0 (memset_msg 0 4096 171)
        (identified FRAME_A 4096)).2 = SYS_ERR_OK :=
  ⟨by decide,
    (sdma_process_memset_decision 32 4096 sample_driver 0 (memset_msg 4096 1 171)
      (identified FRAME_A 4096) (by decide)).2.1 (by decide) (by decide),
    ((sdma_process_memset_decision 32 4096 sample_driver 0 (memset_msg 0 4096 171)
      (identified FRAME_A 4096) (by decide)).2.2.1 (by decide) (by decide)).2.2.2.2.1
      (by decide) |>.1⟩

end Sdma
